import Mathlib

/-!
# Fwog: render/compute session state machine, pipeline-state diffing and object caches

A shallow embedding of `src/src/Rendering.cpp` and of the sampler entry point of
`src/src/Texture.cpp`.

* The file-scope variables of namespace `Fwog` are the fields of `State`.
* Every driver entry point the code calls is a constructor of `GLCall`; an operation
  returns the new state together with the list of driver calls it issued, in order.
* `FWOG_ASSERT` is fatal: an operation whose assertion fails returns `none`.
* Unsigned 32-bit values are `Nat`, signed ones are `Int`; a `float` is its bit pattern,
  and `==` and `!=` of floats are `GLfloat.feq` and `GLfloat.fne` (a NaN differs from
  everything, itself included; the two zeros are equal).
* Declarations of headers that are not among the sources (enumerator tables of
  `detail/ApiToEnum.h`, the pipeline registry, driver limits) are fields of `Env`.
-/

namespace Fwog

/-! ## Basic types -/

abbrev GLenum := Nat

/-- A `float`, given by its binary32 bit pattern `bits`, a value below 2^32. Lean's `=` on
`GLfloat` is identity of patterns, which is what `memcmp` compares; the comparisons `==`
and `!=` of floats are `GLfloat.feq` and `GLfloat.fne`. -/
structure GLfloat where
  bits : Nat
deriving DecidableEq

/-- The value `0.0f`. -/
def GLfloat.zero : GLfloat := ⟨0⟩

/-- The value `1.0f`. -/
def GLfloat.one : GLfloat := ⟨0x3F800000⟩

/-- Whether a binary32 pattern is a NaN: the exponent bits are all ones and the fraction is
not zero. -/
def GLfloat.isNaN (x : GLfloat) : Bool :=
  decide ((x.bits / 8388608) % 256 = 255) && decide (x.bits % 8388608 ≠ 0)

/-- Whether a binary32 pattern is a zero, of either sign. -/
def GLfloat.isZero (x : GLfloat) : Bool := decide (x.bits % 2147483648 = 0)

/-- The comparison `x == y` of two `float`s: false when either is a NaN, true for two zeros of
any signs, and otherwise true exactly when the patterns are the same. -/
def GLfloat.feq (x y : GLfloat) : Bool :=
  !x.isNaN && !y.isNaN && (decide (x.bits = y.bits) || (x.isZero && y.isZero))

/-- The comparison `x != y` of two `float`s, the negation of `x == y`. -/
def GLfloat.fne (x y : GLfloat) : Bool := !x.feq y

/-- A quiet NaN, `std::numeric_limits<float>::quiet_NaN()`. -/
def GLfloat.nan : GLfloat := ⟨0x7FC00000⟩

/-- The value `-0.0f`. -/
def GLfloat.negZero : GLfloat := ⟨0x80000000⟩

/-- `std::numeric_limits<uint32_t>::max()`. -/
def UINT32_MAX : Nat := 4294967295

/-- Enumerations of `BasicTypes.h` whose enumerators the sources never name are
represented by the underlying integer value of the enumerator. -/
abbrev PolygonMode := Nat
abbrev FrontFace := Nat
abbrev CompareOp := Nat
abbrev StencilOp := Nat
abbrev LogicOp := Nat
abbrev BlendFactor := Nat
abbrev BlendOp := Nat
abbrev PrimitiveTopology := Nat
abbrev ClipDepthRange := Nat
abbrev ImageType := Nat
abbrev SampleCount := Nat
abbrev Filter := Nat
abbrev AddressMode := Nat
abbrev BorderColor := Nat

/-- `Fwog::CullMode`; `NONE` is the enumerator the bind code tests for. -/
inductive CullMode where
  | NONE
  | FRONT
  | BACK
  | FRONT_AND_BACK
deriving DecidableEq

/-- `Fwog::IndexType`, the three cases of `GetIndexSize`. -/
inductive IndexType where
  | UNSIGNED_BYTE
  | UNSIGNED_SHORT
  | UNSIGNED_INT
deriving DecidableEq

/-- `detail::GlBaseTypeClass`, the three cases of the colour clear switch. -/
inductive GlBaseTypeClass where
  | FLOAT
  | SINT
  | UINT
deriving DecidableEq

/-- `Fwog::Format`: the enumerators named in `Rendering.cpp`, and `other n` for any
enumerator the sources do not name. -/
inductive Format where
  | R32G32B32A32_FLOAT | R16G16B16A16_FLOAT | R32G32_FLOAT | R16G16_FLOAT
  | R11G11B10_FLOAT | R32_FLOAT | R16_FLOAT
  | R32G32B32A32_UINT | R16G16B16A16_UINT | R10G10B10A2_UINT | R8G8B8A8_UINT
  | R32G32_UINT | R16G16_UINT | R8G8_UINT | R32_UINT | R16_UINT | R8_UINT
  | R32G32B32_SINT | R16G16B16A16_SINT | R8G8B8A8_SINT | R32G32_SINT | R16G16_SINT
  | R8G8_SINT | R32_SINT | R16_SINT | R8_SINT
  | R16G16B16A16_UNORM | R10G10B10A2_UNORM | R8G8B8A8_UNORM | R16G16_UNORM
  | R8G8_UNORM | R16_UNORM | R8_UNORM
  | R16G16B16A16_SNORM | R8G8B8A8_SNORM | R16G16_SNORM | R8G8_SNORM | R16_SNORM
  | R8_SNORM
  | D32_FLOAT | D32_UNORM | D24_UNORM | D16_UNORM | D32_FLOAT_S8_UINT | D24_UNORM_S8_UINT
  | other (n : Nat)
deriving DecidableEq

/-- `Fwog::ColorComponentFlags`: a bit set over `uint32_t`. -/
abbrev ColorComponentFlags := Nat

namespace ColorComponentFlag

def NONE : ColorComponentFlags := 0

def R_BIT : ColorComponentFlags := 1

def G_BIT : ColorComponentFlags := 2

def B_BIT : ColorComponentFlags := 4

def A_BIT : ColorComponentFlags := 8

def RGBA_BITS : ColorComponentFlags := 15
end ColorComponentFlag

structure Offset2D where
  x : Int
  y : Int
deriving DecidableEq

structure Extent2D where
  width : Nat
  height : Nat
deriving DecidableEq

structure Extent3D where
  width : Nat
  height : Nat
  depth : Nat
deriving DecidableEq

structure Rect2D where
  offset : Offset2D
  extent : Extent2D
deriving DecidableEq

structure Viewport where
  drawRect : Rect2D
  minDepth : GLfloat
  maxDepth : GLfloat
  depthRange : ClipDepthRange
deriving DecidableEq

/-- `Fwog::TextureCreateInfo` (Texture.h). -/
structure TextureCreateInfo where
  imageType : ImageType
  format : Format
  extent : Extent3D
  mipLevels : Nat
  arrayLayers : Nat
  sampleCount : SampleCount
deriving DecidableEq

/-- What the rendering code reads of a `Texture`: its handle `id_` and `createInfo_`. -/
structure Texture where
  id_ : Nat
  createInfo_ : TextureCreateInfo
deriving DecidableEq

/-- The alternatives of `ClearColorValue::data`. -/
inductive ClearColorValue where
  | f (v : List GLfloat)
  | i (v : List Int)
  | ui (v : List Nat)
deriving DecidableEq

structure ClearDepthStencilValue where
  depth : GLfloat
  stencil : Int
deriving DecidableEq

structure RenderColorAttachment where
  texture : Texture
  clearOnLoad : Bool
  clearValue : ClearColorValue
deriving DecidableEq

structure RenderDepthStencilAttachment where
  texture : Texture
  clearOnLoad : Bool
  clearValue : ClearDepthStencilValue
deriving DecidableEq

/-- `Fwog::RenderInfo`, the fields `BeginRendering` reads. A null attachment pointer and
an absent viewport are `none`. -/
structure RenderInfo where
  name : String
  viewport : Option Viewport
  colorAttachments : List RenderColorAttachment
  depthAttachment : Option RenderDepthStencilAttachment
  stencilAttachment : Option RenderDepthStencilAttachment
deriving DecidableEq

/-- `Fwog::SwapchainRenderInfo`, the fields `BeginSwapchainRendering` reads. -/
structure SwapchainRenderInfo where
  name : String
  viewport : Viewport
  clearColorOnLoad : Bool
  clearColorValue : ClearColorValue
  clearDepthOnLoad : Bool
  clearDepthValue : GLfloat
  clearStencilOnLoad : Bool
  clearStencilValue : Int
  enableSrgb : Bool
deriving DecidableEq

/-! ## Pipeline state records -/

structure InputAssemblyState where
  topology : PrimitiveTopology
  primitiveRestartEnable : Bool
deriving DecidableEq

/-- One attribute binding of a vertex-input layout. -/
structure VertexInputBindingDescription where
  location : Nat
  binding : Nat
  format : Format
  offset : Nat
deriving DecidableEq

structure VertexInputStateOwning where
  vertexBindingDescriptions : List VertexInputBindingDescription
deriving DecidableEq

structure RasterizationState where
  depthClampEnable : Bool
  polygonMode : PolygonMode
  cullMode : CullMode
  frontFace : FrontFace
  depthBiasEnable : Bool
  depthBiasConstantFactor : GLfloat
  depthBiasSlopeFactor : GLfloat
  lineWidth : GLfloat
  pointSize : GLfloat
deriving DecidableEq

structure DepthState where
  depthTestEnable : Bool
  depthWriteEnable : Bool
  depthCompareOp : CompareOp
deriving DecidableEq

structure StencilOpState where
  passOp : StencilOp
  failOp : StencilOp
  depthFailOp : StencilOp
  compareOp : CompareOp
  compareMask : Nat
  writeMask : Nat
  reference : Nat
deriving DecidableEq

structure StencilState where
  stencilTestEnable : Bool
  front : StencilOpState
  back : StencilOpState
deriving DecidableEq

structure ColorBlendAttachmentState where
  blendEnable : Bool
  srcColorBlendFactor : BlendFactor
  dstColorBlendFactor : BlendFactor
  colorBlendOp : BlendOp
  srcAlphaBlendFactor : BlendFactor
  dstAlphaBlendFactor : BlendFactor
  alphaBlendOp : BlendOp
  colorWriteMask : ColorComponentFlags
deriving DecidableEq

structure ColorBlendStateOwning where
  logicOpEnable : Bool
  logicOp : LogicOp
  attachments : List ColorBlendAttachmentState
  blendConstants : List GLfloat
deriving DecidableEq

/-- `detail::GraphicsPipelineInfoOwning`, the fields `BindGraphicsPipeline` reads. -/
structure GraphicsPipelineInfoOwning where
  name : String
  inputAssemblyState : InputAssemblyState
  vertexInputState : VertexInputStateOwning
  rasterizationState : RasterizationState
  depthState : DepthState
  stencilState : StencilState
  colorBlendState : ColorBlendStateOwning
deriving DecidableEq

/-- `detail::ComputePipelineInfoOwning`, the field `BindComputePipeline` reads. -/
structure ComputePipelineInfoOwning where
  name : String
deriving DecidableEq

/-! ## Driver calls -/

/-- The capabilities passed to `glEnable` and `glDisable`. -/
inductive GLCap where
  | PRIMITIVE_RESTART_FIXED_INDEX
  | DEPTH_CLAMP
  | CULL_FACE
  | POLYGON_OFFSET_FILL
  | POLYGON_OFFSET_LINE
  | POLYGON_OFFSET_POINT
  | DEPTH_TEST
  | STENCIL_TEST
  | COLOR_LOGIC_OP
  | BLEND
  | SCISSOR_TEST
  | FRAMEBUFFER_SRGB
deriving DecidableEq

inductive GLFace where
  | FRONT
  | BACK
deriving DecidableEq

/-- The `buffer` argument of the `glClearNamedFramebuffer*` family. -/
inductive GLClearBuffer where
  | COLOR
  | DEPTH
  | STENCIL
deriving DecidableEq

inductive GLBufferTarget where
  | SHADER_STORAGE_BUFFER
  | UNIFORM_BUFFER
  | DRAW_INDIRECT_BUFFER
  | PARAMETER_BUFFER
  | DISPATCH_INDIRECT_BUFFER
deriving DecidableEq

inductive GLLimit where
  | MAX_IMAGE_UNITS
  | MAX_COMBINED_SHADER_STORAGE_BLOCKS
  | MAX_COMBINED_UNIFORM_BLOCKS
  | MAX_COMBINED_TEXTURE_IMAGE_UNITS
deriving DecidableEq

def GL_ZERO : GLenum := 0

def GL_SRC_COLOR : GLenum := 0x0300

def GL_SRC_ALPHA : GLenum := 0x0302

def GL_FUNC_ADD : GLenum := 0x8006

def GL_READ_WRITE : GLenum := 0x88BA

def GL_RGBA32F : GLenum := 0x8814

/-- One call into the driver, with the arguments the code passes. -/
inductive GLCall where
  | glEnable (cap : GLCap)
  | glDisable (cap : GLCap)
  | glGetIntegerv (pname : GLLimit)
  | glPushDebugGroup (message : String)
  | glPopDebugGroup
  | glCreateFramebuffers (fbo : Nat)
  | glCreateVertexArrays (vao : Nat)
  | glBindFramebuffer (fbo : Nat)
  | glColorMaski (buf : Nat) (r g b a : Bool)
  | glDepthMask (flag : Bool)
  | glStencilMask (mask : Nat)
  | glStencilMaskSeparate (face : GLFace) (mask : Nat)
  | glClearNamedFramebufferfv (fbo : Nat) (buffer : GLClearBuffer) (drawbuffer : Nat)
      (value : List GLfloat)
  | glClearNamedFramebufferiv (fbo : Nat) (buffer : GLClearBuffer) (drawbuffer : Nat)
      (value : List Int)
  | glClearNamedFramebufferuiv (fbo : Nat) (buffer : GLClearBuffer) (drawbuffer : Nat)
      (value : List Nat)
  | glClearNamedFramebufferfi (fbo : Nat) (drawbuffer : Nat) (depth : GLfloat) (stencil : Int)
  | glViewport (x y : Int) (width height : Nat)
  | glDepthRangef (n f : GLfloat)
  | glClipControl (depth : GLenum)
  | glUseProgram (program : Nat)
  | glBindVertexArray (vao : Nat)
  | glPolygonMode (mode : GLenum)
  | glCullFace (mode : GLenum)
  | glFrontFace (mode : GLenum)
  | glPolygonOffset (factor units : GLfloat)
  | glLineWidth (width : GLfloat)
  | glPointSize (size : GLfloat)
  | glDepthFunc (func : GLenum)
  | glStencilOpSeparate (face : GLFace) (sfail dpfail dppass : GLenum)
  | glStencilFuncSeparate (face : GLFace) (func : GLenum) (ref : Nat) (mask : Nat)
  | glLogicOp (opcode : GLenum)
  | glBlendColor (r g b a : GLfloat)
  | glBlendFuncSeparatei (buf : Nat) (srcRGB dstRGB srcAlpha dstAlpha : GLenum)
  | glBlendEquationSeparatei (buf : Nat) (modeRGB modeAlpha : GLenum)
  | glScissor (x y : Int) (width height : Nat)
  | glVertexArrayVertexBuffer (vao bindingindex buffer : Nat) (offset : Int) (stride : Int)
  | glVertexArrayElementBuffer (vao buffer : Nat)
  | glDrawArraysInstancedBaseInstance (mode : GLenum) (first count instancecount
      baseinstance : Nat)
  | glDrawElementsInstancedBaseVertexBaseInstance (mode : GLenum) (count : Nat)
      (type : GLenum) (indices : Nat) (instancecount : Nat) (basevertex : Int)
      (baseinstance : Nat)
  | glBindBuffer (target : GLBufferTarget) (buffer : Nat)
  | glMultiDrawArraysIndirect (mode : GLenum) (indirect : Nat) (drawcount stride : Nat)
  | glMultiDrawArraysIndirectCount (mode : GLenum) (indirect : Nat) (drawcount : Int)
      (maxdrawcount stride : Nat)
  | glMultiDrawElementsIndirect (mode : GLenum) (type : GLenum) (indirect : Nat)
      (drawcount stride : Nat)
  | glMultiDrawElementsIndirectCount (mode : GLenum) (type : GLenum) (indirect : Nat)
      (drawcount : Int) (maxdrawcount stride : Nat)
  | glBindBufferRange (target : GLBufferTarget) (index buffer offset size : Nat)
  | glBindTextureUnit (unit texture : Nat)
  | glBindSampler (unit sampler : Nat)
  | glBindImageTexture (unit texture level : Nat) (layered : Bool) (layer : Nat)
      (access format : GLenum)
  | glDispatchCompute (x y z : Nat)
  | glDispatchComputeIndirect (indirect : Int)

/-- The helper `GLEnableOrDisable` of Rendering.cpp. -/
def GLEnableOrDisable (state : GLCap) (value : Bool) : List GLCall :=
  if value then [GLCall.glEnable state] else [GLCall.glDisable state]

/-- The helper `GetIndexSize` of Rendering.cpp. -/
def GetIndexSize (indexType : IndexType) : Nat :=
  match indexType with
  | IndexType.UNSIGNED_BYTE => 1
  | IndexType.UNSIGNED_SHORT => 2
  | IndexType.UNSIGNED_INT => 4

/-- The helper `IsValidImageFormat` of Rendering.cpp. -/
def IsValidImageFormat (format : Format) : Bool :=
  match format with
  | Format.D32_FLOAT | Format.D32_UNORM | Format.D24_UNORM | Format.D16_UNORM
  | Format.D32_FLOAT_S8_UINT | Format.D24_UNORM_S8_UINT | Format.other _ => false
  | _ => true

/-- A value converted to a signed 32-bit integer (`static_cast<GLsizei>`, `GLint`). -/
def toInt32 (n : Int) : Int := (n + 2147483648) % 4294967296 - 2147483648

/-- A value converted to a signed 64-bit integer (`static_cast<GLintptr>`). -/
def toInt64 (n : Int) : Int :=
  (n + 9223372036854775808) % 18446744073709551616 - 9223372036854775808

/-! ## Object caches -/

/-- Modelled from the spec: the record store of an object cache (`detail/FramebufferCache.h`,
`detail/VertexArrayCache.h`, `detail/SamplerCache.h` are not among the sources): the handle
stored for a descriptor equal to `d`, if one was seen before (§4.1). -/
def cacheLookup {κ : Type} [DecidableEq κ] (cache : List (κ × Nat)) (d : κ) : Option Nat :=
  match cache with
  | [] => none
  | (k, h) :: rest => if k = d then some h else cacheLookup rest d

/-- Modelled from the spec: `GetOrCreate(descriptor) -> handle` of §4.1. On a hit the stored
handle is returned; on a miss the object creation primitive `gen` (given the handles the
cache owns) returns a newly allocated handle, and the (descriptor, handle) record is
stored. The third component tells whether an object was created. -/
def cacheGetOrCreate {κ : Type} [DecidableEq κ] (gen : List Nat → Nat)
    (cache : List (κ × Nat)) (d : κ) : Nat × List (κ × Nat) × Bool :=
  match cacheLookup cache d with
  | some h => (h, cache, false)
  | none => (gen (cache.map Prod.snd), (d, gen (cache.map Prod.snd)) :: cache, true)

/-- Modelled from the spec: the record store of an object cache whose descriptors are
compared with their own `operator==`, here `eqv`: the handle stored for the first
descriptor that is equal to `d`, if one was seen before (§4.1). -/
def cacheLookupBy {κ : Type} (eqv : κ → κ → Bool) (cache : List (κ × Nat)) (d : κ) :
    Option Nat :=
  match cache with
  | [] => none
  | (k, h) :: rest => if eqv k d then some h else cacheLookupBy eqv rest d

/-- Modelled from the spec: `GetOrCreate(descriptor) -> handle` of §4.1 for descriptors
compared with `eqv`. On a hit the stored handle is returned; on a miss the object creation
primitive `gen` (given the handles the cache owns) returns a newly allocated handle, and
the (descriptor, handle) record is stored. The third component tells whether an object was
created. -/
def cacheGetOrCreateBy {κ : Type} (eqv : κ → κ → Bool) (gen : List Nat → Nat)
    (cache : List (κ × Nat)) (d : κ) : Nat × List (κ × Nat) × Bool :=
  match cacheLookupBy eqv cache d with
  | some h => (h, cache, false)
  | none => (gen (cache.map Prod.snd), (d, gen (cache.map Prod.snd)) :: cache, true)

/-- The records of a cache have different handles and descriptors that are not equal under
`eqv`. -/
def CacheDistinct {κ : Type} (eqv : κ → κ → Bool) (cache : List (κ × Nat)) : Prop :=
  cache.Pairwise (fun r1 r2 => r1.2 ≠ r2.2 ∧ eqv r1.1 r2.1 = false)

/-- Modelled from the spec: the attachment-set descriptor of §3, the identities (texture
handles) of the colour attachments in order and of the optional depth and stencil
attachments. -/
structure FramebufferKey where
  colorAttachments : List Nat
  depthAttachment : Option Nat
  stencilAttachment : Option Nat
deriving DecidableEq

/-- The attachment set a render info declares. -/
def RenderInfo.attachmentSet (ri : RenderInfo) : FramebufferKey :=
  { colorAttachments := ri.colorAttachments.map (fun a => a.texture.id_)
    depthAttachment := ri.depthAttachment.map (fun a => a.texture.id_)
    stencilAttachment := ri.stencilAttachment.map (fun a => a.texture.id_) }

/-! ## Environment and state -/

/-- What the rendering code consumes from headers and collaborators that are not among
the sources. -/
structure Env where
  /-- Whether `FWOG_DEBUG` is defined (it guards `ZeroResourceBindings`). -/
  FWOG_DEBUG : Bool
  /-- The values the driver reports through `glGetIntegerv`. -/
  driverLimit : GLLimit → Int
  /-- The object creation primitive: a newly allocated name, given the names in use. -/
  genName : List Nat → Nat
  /-- The record a `shared_ptr<const GraphicsPipelineInfoOwning>` with the given address
  points to. -/
  pipelineObject : Nat → GraphicsPipelineInfoOwning
  /-- `detail::GetGraphicsPipelineInternal`: the address of the record registered for a
  handle, `none` for a null pointer. -/
  GetGraphicsPipelineInternal : Nat → Option Nat
  /-- `detail::GetComputePipelineInternal`. -/
  GetComputePipelineInternal : Nat → Option ComputePipelineInfoOwning
  /-- The value of a `Viewport` with default member initialisers (`Viewport viewport{}`). -/
  defaultViewport : Viewport
  FormatToBaseTypeClass : Format → GlBaseTypeClass
  FormatToGL : Format → GLenum
  DepthRangeToGL : ClipDepthRange → GLenum
  PolygonModeToGL : PolygonMode → GLenum
  CullModeToGL : CullMode → GLenum
  FrontFaceToGL : FrontFace → GLenum
  CompareOpToGL : CompareOp → GLenum
  StencilOpToGL : StencilOp → GLenum
  LogicOpToGL : LogicOp → GLenum
  BlendFactorToGL : BlendFactor → GLenum
  BlendOpToGL : BlendOp → GLenum
  PrimitiveTopologyToGL : PrimitiveTopology → GLenum
  IndexTypeToGL : IndexType → GLenum

/-- The file-scope variables of Rendering.cpp (lines 207-236) and the function-local
statics of `ZeroResourceBindings` (lines 164-168). `sLastColorMask` is indexed by
attachment; `MAX_COLOR_ATTACHMENTS` entries exist in the program. -/
structure State where
  isComputeActive : Bool
  isRendering : Bool
  isIndexBufferBound : Bool
  isRenderingToSwapchain : Bool
  isScopedDebugGroupPushed : Bool
  isPipelineDebugGroupPushed : Bool
  srgbWasDisabled : Bool
  sLastGraphicsPipeline : Option Nat
  sLastRenderInfo : Option RenderInfo
  sLastColorMask : Nat → ColorComponentFlags
  sLastDepthMask : Bool
  sLastStencilMask0 : Nat
  sLastStencilMask1 : Nat
  sInitViewport : Bool
  sLastViewport : Viewport
  sLastScissor : Rect2D
  sScissorEnabled : Bool
  sTopology : PrimitiveTopology
  sIndexType : IndexType
  sVao : Nat
  sFbo : Nat
  sFboCache : List (FramebufferKey × Nat)
  sVaoCache : List (VertexInputStateOwning × Nat)
  sFirstRun : Bool
  sMaxImageUnits : Int
  sMaxShaderStorageBlocks : Int
  sMaxUniformBlocks : Int
  sMaxCombinedTextureImageUnits : Int

def MAX_COLOR_ATTACHMENTS : Nat := 8

/-- The state at program start: the initialisers of lines 207-236 and 164-168. The
value-initialised enumerations `sTopology{}` and `sIndexType{}` hold the enumerator of
value zero; `sLastViewport = {}` holds the default member initialisers of `Viewport`. -/
def State.initial (env : Env) : State :=
  { isComputeActive := false
    isRendering := false
    isIndexBufferBound := false
    isRenderingToSwapchain := false
    isScopedDebugGroupPushed := false
    isPipelineDebugGroupPushed := false
    srgbWasDisabled := false
    sLastGraphicsPipeline := none
    sLastRenderInfo := none
    sLastColorMask := fun _ => ColorComponentFlag.NONE
    sLastDepthMask := true
    sLastStencilMask0 := UINT32_MAX
    sLastStencilMask1 := UINT32_MAX
    sInitViewport := true
    sLastViewport := env.defaultViewport
    sLastScissor := { offset := { x := 0, y := 0 }, extent := { width := 0, height := 0 } }
    sScissorEnabled := false
    sTopology := 0
    sIndexType := IndexType.UNSIGNED_BYTE
    sVao := 0
    sFbo := 0
    sFboCache := []
    sVaoCache := []
    sFirstRun := true
    sMaxImageUnits := 0
    sMaxShaderStorageBlocks := 0
    sMaxUniformBlocks := 0
    sMaxCombinedTextureImageUnits := 0 }

/-- The result of an operation: `none` when an assertion fails, otherwise the new state
and the driver calls issued, in order. -/
abbrev Result := Option (State × List GLCall)

/-! ## Helpers of Rendering.cpp -/

/-- `SetViewportInternal` (lines 142-159): the calls it issues. The depth bounds are
`float`s and line 151 compares them with `!=`. -/
def SetViewportInternal (env : Env) (viewport sLastViewport : Viewport) (sInitViewport : Bool) :
    List GLCall :=
  (if sInitViewport ∨ viewport.drawRect ≠ sLastViewport.drawRect then
      [GLCall.glViewport viewport.drawRect.offset.x viewport.drawRect.offset.y
        viewport.drawRect.extent.width viewport.drawRect.extent.height]
    else []) ++
  (if sInitViewport ∨ viewport.minDepth.fne sLastViewport.minDepth ∨
        viewport.maxDepth.fne sLastViewport.maxDepth then
      [GLCall.glDepthRangef viewport.minDepth viewport.maxDepth]
    else []) ++
  (if sInitViewport ∨ viewport.depthRange ≠ sLastViewport.depthRange then
      [GLCall.glClipControl (env.DepthRangeToGL viewport.depthRange)]
    else [])

/-- The calls of the last loop of `ZeroResourceBindings` (lines 194-198). -/
def zeroTextureUnits (n : Nat) : List GLCall :=
  (List.range n).foldr
    (fun i acc => GLCall.glBindTextureUnit i 0 :: GLCall.glBindSampler i 0 :: acc) []

/-- `ZeroResourceBindings` (lines 162-199). -/
def ZeroResourceBindings (env : Env) (s : State) : State × List GLCall :=
  let s1 : State :=
    if s.sFirstRun then
      { s with
        sFirstRun := false
        sMaxImageUnits := env.driverLimit GLLimit.MAX_IMAGE_UNITS
        sMaxShaderStorageBlocks := env.driverLimit GLLimit.MAX_COMBINED_SHADER_STORAGE_BLOCKS
        sMaxUniformBlocks := env.driverLimit GLLimit.MAX_COMBINED_UNIFORM_BLOCKS
        sMaxCombinedTextureImageUnits :=
          env.driverLimit GLLimit.MAX_COMBINED_TEXTURE_IMAGE_UNITS }
    else s
  (s1,
    (if s.sFirstRun then
        [GLCall.glGetIntegerv GLLimit.MAX_IMAGE_UNITS,
         GLCall.glGetIntegerv GLLimit.MAX_COMBINED_SHADER_STORAGE_BLOCKS,
         GLCall.glGetIntegerv GLLimit.MAX_COMBINED_UNIFORM_BLOCKS,
         GLCall.glGetIntegerv GLLimit.MAX_COMBINED_TEXTURE_IMAGE_UNITS]
      else []) ++
    (List.range s1.sMaxImageUnits.toNat).map
      (fun i => GLCall.glBindImageTexture i 0 0 true 0 GL_READ_WRITE GL_RGBA32F) ++
    (List.range s1.sMaxShaderStorageBlocks.toNat).map
      (fun i => GLCall.glBindBufferRange GLBufferTarget.SHADER_STORAGE_BUFFER i 0 0 0) ++
    (List.range s1.sMaxUniformBlocks.toNat).map
      (fun i => GLCall.glBindBufferRange GLBufferTarget.UNIFORM_BUFFER i 0 0 0) ++
    zeroTextureUnits s1.sMaxCombinedTextureImageUnits.toNat)

/-- The `#ifdef FWOG_DEBUG ZeroResourceBindings(); #endif` block of the begin calls. -/
def debugZeroResourceBindings (env : Env) (s : State) : State × List GLCall :=
  if env.FWOG_DEBUG then ZeroResourceBindings env s else (s, [])

/-- Lines 253-257, 323-327 and 499-503: push the pass debug group when a name is given. -/
def pushScopedDebugGroup (name : String) (s : State) : State × List GLCall :=
  if name ≠ "" then
    ({ s with isScopedDebugGroupPushed := true }, [GLCall.glPushDebugGroup name])
  else (s, [])

/-- Lines 264-268 and 337-341: make colour attachment `i` fully writable before a clear. -/
def enableColorMask (i : Nat) (s : State) : State × List GLCall :=
  if s.sLastColorMask i ≠ ColorComponentFlag.RGBA_BITS then
    ({ s with sLastColorMask :=
          fun j => if j = i then ColorComponentFlag.RGBA_BITS else s.sLastColorMask j },
      [GLCall.glColorMaski i true true true true])
  else (s, [])

/-- Lines 273-277, 371-375 and 396-400: make depth writable before a clear. -/
def enableDepthMask (s : State) : State × List GLCall :=
  if s.sLastDepthMask = false then
    ({ s with sLastDepthMask := true }, [GLCall.glDepthMask true])
  else (s, [])

/-- Lines 282-287, 376-381 and 408-413: the stencil write mask before a clear. The
`uint32_t` masks are compared with `false` (zero) and assigned `true` (one). -/
def enableStencilMask (s : State) : State × List GLCall :=
  if s.sLastStencilMask0 = 0 ∨ s.sLastStencilMask1 = 0 then
    ({ s with sLastStencilMask0 := 1, sLastStencilMask1 := 1 }, [GLCall.glStencilMask 1])
  else (s, [])

/-! ## Pass begin and end -/

/-- Lines 261-270: the colour clear of the default framebuffer. -/
def swapchainClearColor (ri : SwapchainRenderInfo) (s : State) : Result :=
  if ri.clearColorOnLoad then
    match ri.clearColorValue with
    | ClearColorValue.f v =>
      some ((enableColorMask 0 s).1,
        (enableColorMask 0 s).2 ++ [GLCall.glClearNamedFramebufferfv 0 GLClearBuffer.COLOR 0 v])
    | _ => none
  else some (s, [])

/-- Lines 271-279: the depth clear of the default framebuffer. -/
def swapchainClearDepth (ri : SwapchainRenderInfo) (s : State) : State × List GLCall :=
  if ri.clearDepthOnLoad then
    ((enableDepthMask s).1,
      (enableDepthMask s).2 ++
        [GLCall.glClearNamedFramebufferfv 0 GLClearBuffer.DEPTH 0 [ri.clearDepthValue]])
  else (s, [])

/-- Lines 280-289: the stencil clear of the default framebuffer. -/
def swapchainClearStencil (ri : SwapchainRenderInfo) (s : State) : State × List GLCall :=
  if ri.clearStencilOnLoad then
    ((enableStencilMask s).1,
      (enableStencilMask s).2 ++
        [GLCall.glClearNamedFramebufferiv 0 GLClearBuffer.STENCIL 0 [ri.clearStencilValue]])
  else (s, [])

/-- Lines 291-296: framebuffer sRGB is disabled when the pass asks for it. -/
def swapchainDisableSrgb (ri : SwapchainRenderInfo) (s : State) : State × List GLCall :=
  if ri.enableSrgb = false then
    ({ s with srgbWasDisabled := true }, [GLCall.glDisable GLCap.FRAMEBUFFER_SRGB])
  else (s, [])

/-- `Fwog::BeginSwapchainRendering` (lines 238-302). -/
def BeginSwapchainRendering (env : Env) (renderInfo : SwapchainRenderInfo) (s : State) :
    Result :=
  if s.isRendering then none
  else if s.isComputeActive then none
  else
    let s0 : State :=
      { s with isRendering := true, isRenderingToSwapchain := true, sLastRenderInfo := none }
    let r1 := debugZeroResourceBindings env s0
    let r2 := pushScopedDebugGroup renderInfo.name r1.1
    let c3 := [GLCall.glBindFramebuffer 0]
    match swapchainClearColor renderInfo r2.1 with
    | none => none
    | some r4 =>
      let r5 := swapchainClearDepth renderInfo r4.1
      let r6 := swapchainClearStencil renderInfo r5.1
      let r7 := swapchainDisableSrgb renderInfo r6.1
      let c8 := SetViewportInternal env renderInfo.viewport r7.1.sLastViewport r7.1.sInitViewport
      some ({ r7.1 with sLastViewport := renderInfo.viewport, sInitViewport := false },
        r1.2 ++ r2.2 ++ c3 ++ r4.2 ++ r5.2 ++ r6.2 ++ r7.2 ++ c8)

/-- The colour attachment loop of `BeginRendering` (lines 332-365), from index `i` on. -/
def clearColorAttachments (env : Env) (fbo : Nat) :
    Nat → List RenderColorAttachment → State → Result
  | _, [], s => some (s, [])
  | i, attachment :: rest, s =>
    if attachment.clearOnLoad then
      let m := enableColorMask i s
      match env.FormatToBaseTypeClass attachment.texture.createInfo_.format,
          attachment.clearValue with
      | GlBaseTypeClass.FLOAT, ClearColorValue.f v =>
        (clearColorAttachments env fbo (i + 1) rest m.1).map (fun r =>
          (r.1, m.2 ++ [GLCall.glClearNamedFramebufferfv fbo GLClearBuffer.COLOR i v] ++ r.2))
      | GlBaseTypeClass.SINT, ClearColorValue.i v =>
        (clearColorAttachments env fbo (i + 1) rest m.1).map (fun r =>
          (r.1, m.2 ++ [GLCall.glClearNamedFramebufferiv fbo GLClearBuffer.COLOR i v] ++ r.2))
      | GlBaseTypeClass.UINT, ClearColorValue.ui v =>
        (clearColorAttachments env fbo (i + 1) rest m.1).map (fun r =>
          (r.1, m.2 ++ [GLCall.glClearNamedFramebufferuiv fbo GLClearBuffer.COLOR i v] ++ r.2))
      | _, _ => none
    else clearColorAttachments env fbo (i + 1) rest s

/-- Whether an optional depth/stencil attachment is present with `clearOnLoad` set. -/
def wantsClear (a : Option RenderDepthStencilAttachment) : Bool :=
  match a with
  | some x => x.clearOnLoad
  | none => false

/-- The depth/stencil clears of `BeginRendering` (lines 367-416), by presence of the two
attachments. The source tests `depth && depth->clearOnLoad && stencil && stencil->clearOnLoad`
(combined clear), else `depth && depth->clearOnLoad` with the stencil attachment absent or not
cleared (depth only), else the symmetric condition (stencil only). -/
def clearDepthStencil (ri : RenderInfo) (fbo : Nat) (s : State) : State × List GLCall :=
  match ri.depthAttachment, ri.stencilAttachment with
  | some d, some st =>
    if d.clearOnLoad ∧ st.clearOnLoad then
      let m1 := enableDepthMask s
      let m2 := enableStencilMask m1.1
      (m2.1, m1.2 ++ m2.2 ++
        [GLCall.glClearNamedFramebufferfi fbo 0 d.clearValue.depth st.clearValue.stencil])
    else if d.clearOnLoad then
      let m := enableDepthMask s
      (m.1, m.2 ++ [GLCall.glClearNamedFramebufferfv fbo GLClearBuffer.DEPTH 0
        [d.clearValue.depth]])
    else if st.clearOnLoad then
      let m := enableStencilMask s
      (m.1, m.2 ++ [GLCall.glClearNamedFramebufferiv fbo GLClearBuffer.STENCIL 0
        [st.clearValue.stencil]])
    else (s, [])
  | some d, none =>
    if d.clearOnLoad then
      let m := enableDepthMask s
      (m.1, m.2 ++ [GLCall.glClearNamedFramebufferfv fbo GLClearBuffer.DEPTH 0
        [d.clearValue.depth]])
    else (s, [])
  | none, some st =>
    if st.clearOnLoad then
      let m := enableStencilMask s
      (m.1, m.2 ++ [GLCall.glClearNamedFramebufferiv fbo GLClearBuffer.STENCIL 0
        [st.clearValue.stencil]])
    else (s, [])
  | none, none => (s, [])

/-- The intersection of all render targets (lines 428-448). -/
def renderTargetExtent (ri : RenderInfo) : Extent2D :=
  let e0 : Extent2D := { width := UINT32_MAX, height := UINT32_MAX }
  let e1 : Extent2D := ri.colorAttachments.foldl
    (fun e a => { width := min e.width a.texture.createInfo_.extent.width
                  height := min e.height a.texture.createInfo_.extent.height }) e0
  let e2 : Extent2D :=
    match ri.depthAttachment with
    | some d => { width := min e1.width d.texture.createInfo_.extent.width
                  height := min e1.height d.texture.createInfo_.extent.height }
    | none => e1
  match ri.stencilAttachment with
  | some st => { width := min e2.width st.texture.createInfo_.extent.width
                 height := min e2.height st.texture.createInfo_.extent.height }
  | none => e2

/-- The viewport `BeginRendering` sets (lines 418-450). -/
def renderViewport (env : Env) (ri : RenderInfo) : Viewport :=
  match ri.viewport with
  | some v => v
  | none =>
    { env.defaultViewport with
      minDepth := GLfloat.zero
      maxDepth := GLfloat.one
      drawRect := { offset := { x := 0, y := 0 }, extent := renderTargetExtent ri } }

/-- Modelled from the spec: `FramebufferCache::CreateOrGetCachedFramebuffer` (its source is
not among the sources), the object cache of §4.1 keyed by the attachment set; creating a
framebuffer object is one driver call. -/
def CreateOrGetCachedFramebuffer (env : Env) (ri : RenderInfo) (s : State) :
    Nat × State × List GLCall :=
  let r := cacheGetOrCreate env.genName s.sFboCache ri.attachmentSet
  (r.1, { s with sFboCache := r.2.1 },
    if r.2.2 then [GLCall.glCreateFramebuffers r.1] else [])

/-- `Fwog::BeginRendering` (lines 304-456). -/
def BeginRendering (env : Env) (renderInfo : RenderInfo) (s : State) : Result :=
  if s.isRendering then none
  else if s.isComputeActive then none
  else
    let s0 : State := { s with isRendering := true }
    let r1 := debugZeroResourceBindings env s0
    let s1 : State := { r1.1 with sLastRenderInfo := some renderInfo }
    let r2 := pushScopedDebugGroup renderInfo.name s1
    let r3 := CreateOrGetCachedFramebuffer env renderInfo r2.1
    let s3 : State := { r3.2.1 with sFbo := r3.1 }
    let c3 := r3.2.2 ++ [GLCall.glBindFramebuffer s3.sFbo]
    match clearColorAttachments env s3.sFbo 0 renderInfo.colorAttachments s3 with
    | none => none
    | some r4 =>
      let r5 := clearDepthStencil renderInfo r4.1.sFbo r4.1
      let viewport := renderViewport env renderInfo
      let c6 := SetViewportInternal env viewport r5.1.sLastViewport r5.1.sInitViewport
      some ({ r5.1 with sLastViewport := viewport, sInitViewport := false },
        r1.2 ++ r2.2 ++ c3 ++ r4.2 ++ r5.2 ++ c6)

/-- Lines 465-475 and 511-521: pop the pass debug group, then the pipeline debug group. -/
def popDebugGroups (s : State) : State × List GLCall :=
  let r1 : State × List GLCall :=
    if s.isScopedDebugGroupPushed then
      ({ s with isScopedDebugGroupPushed := false }, [GLCall.glPopDebugGroup])
    else (s, [])
  let r2 : State × List GLCall :=
    if r1.1.isPipelineDebugGroupPushed then
      ({ r1.1 with isPipelineDebugGroupPushed := false }, [GLCall.glPopDebugGroup])
    else (r1.1, [])
  (r2.1, r1.2 ++ r2.2)

/-- `Fwog::EndRendering` (lines 458-487). -/
def EndRendering (s : State) : Result :=
  if s.isRendering = false then none
  else
    let s0 : State :=
      { s with isRendering := false, isIndexBufferBound := false,
               isRenderingToSwapchain := false }
    let r1 := popDebugGroups s0
    let r2 : State × List GLCall :=
      if r1.1.sScissorEnabled then
        ({ r1.1 with sScissorEnabled := false }, [GLCall.glDisable GLCap.SCISSOR_TEST])
      else (r1.1, [])
    let c3 : List GLCall :=
      if r2.1.srgbWasDisabled then [GLCall.glEnable GLCap.FRAMEBUFFER_SRGB] else []
    some (r2.1, r1.2 ++ r2.2 ++ c3)

/-- `Fwog::BeginCompute` (lines 489-504). -/
def BeginCompute (env : Env) (name : String) (s : State) : Result :=
  if s.isComputeActive then none
  else if s.isRendering then none
  else
    let s0 : State := { s with isComputeActive := true }
    let r1 := debugZeroResourceBindings env s0
    let r2 := pushScopedDebugGroup name r1.1
    some (r2.1, r1.2 ++ r2.2)

/-- `Fwog::EndCompute` (lines 506-522). -/
def EndCompute (s : State) : Result :=
  if s.isComputeActive = false then none
  else
    let s0 : State := { s with isComputeActive := false }
    let r1 := popDebugGroups s0
    some (r1.1, r1.2)

/-! ## Commands -/

namespace Cmd

/-- The comparison `!sLastGraphicsPipeline || value != sLastGraphicsPipeline->field`:
`last` is the record `sLastGraphicsPipeline` points to, `none` for a null pointer. -/
def changed {α : Type} [DecidableEq α] (last : Option GraphicsPipelineInfoOwning)
    (field : GraphicsPipelineInfoOwning → α) (value : α) : Bool :=
  match last with
  | none => true
  | some l => decide (value ≠ field l)

/-- The comparison `!sLastGraphicsPipeline || value != sLastGraphicsPipeline->field` for a
field of type `float`, where `!=` is the comparison of floats. -/
def changedFloat (last : Option GraphicsPipelineInfoOwning)
    (field : GraphicsPipelineInfoOwning → GLfloat) (value : GLfloat) : Bool :=
  match last with
  | none => true
  | some l => value.fne (field l)

/-- Lines 618-631: close the previous pipeline debug group and open the new one. -/
def bindPipelineDebugGroup (name : String) (s : State) : State × List GLCall :=
  let r1 : State × List GLCall :=
    if s.isPipelineDebugGroupPushed then
      ({ s with isPipelineDebugGroupPushed := false }, [GLCall.glPopDebugGroup])
    else (s, [])
  let r2 : State × List GLCall :=
    if name ≠ "" then
      ({ r1.1 with isPipelineDebugGroupPushed := true }, [GLCall.glPushDebugGroup name])
    else (r1.1, [])
  (r2.1, r1.2 ++ r2.2)

/-- Lines 643-650: input assembly. -/
def bindInputAssembly (last : Option GraphicsPipelineInfoOwning) (ias : InputAssemblyState)
    (s : State) : State × List GLCall :=
  ({ s with sTopology := ias.topology },
    if changed last (fun l => l.inputAssemblyState.primitiveRestartEnable)
        ias.primitiveRestartEnable then
      GLEnableOrDisable GLCap.PRIMITIVE_RESTART_FIXED_INDEX ias.primitiveRestartEnable
    else [])

/-- Modelled from the spec: `VertexArrayCache::CreateOrGetCachedVertexArray` (its source is
not among the sources), the object cache of §4.1 keyed by the vertex-input descriptor;
creating a vertex-array object is one driver call. -/
def CreateOrGetCachedVertexArray (env : Env) (vertexInputState : VertexInputStateOwning)
    (s : State) : Nat × State × List GLCall :=
  let r := cacheGetOrCreate env.genName s.sVaoCache vertexInputState
  (r.1, { s with sVaoCache := r.2.1 },
    if r.2.2 then [GLCall.glCreateVertexArrays r.1] else [])

/-- Lines 652-657: vertex input. -/
def bindVertexInput (env : Env) (vertexInputState : VertexInputStateOwning) (s : State) :
    State × List GLCall :=
  let r := CreateOrGetCachedVertexArray env vertexInputState s
  if r.1 ≠ r.2.1.sVao then
    ({ r.2.1 with sVao := r.1 }, r.2.2 ++ [GLCall.glBindVertexArray r.1])
  else (r.2.1, r.2.2)

/-- Lines 659-707: rasterization. The depth bias factors, the line width and the point size
are `float`s, compared with `!=` (lines 692-706). -/
def bindRasterization (env : Env) (last : Option GraphicsPipelineInfoOwning)
    (rs : RasterizationState) : List GLCall :=
  (if changed last (fun l => l.rasterizationState.depthClampEnable) rs.depthClampEnable then
      GLEnableOrDisable GLCap.DEPTH_CLAMP rs.depthClampEnable
    else []) ++
  (if changed last (fun l => l.rasterizationState.polygonMode) rs.polygonMode then
      [GLCall.glPolygonMode (env.PolygonModeToGL rs.polygonMode)]
    else []) ++
  (if changed last (fun l => l.rasterizationState.cullMode) rs.cullMode then
      GLEnableOrDisable GLCap.CULL_FACE (decide (rs.cullMode ≠ CullMode.NONE)) ++
      (if rs.cullMode ≠ CullMode.NONE then [GLCall.glCullFace (env.CullModeToGL rs.cullMode)]
        else [])
    else []) ++
  (if changed last (fun l => l.rasterizationState.frontFace) rs.frontFace then
      [GLCall.glFrontFace (env.FrontFaceToGL rs.frontFace)]
    else []) ++
  (if changed last (fun l => l.rasterizationState.depthBiasEnable) rs.depthBiasEnable then
      GLEnableOrDisable GLCap.POLYGON_OFFSET_FILL rs.depthBiasEnable ++
      GLEnableOrDisable GLCap.POLYGON_OFFSET_LINE rs.depthBiasEnable ++
      GLEnableOrDisable GLCap.POLYGON_OFFSET_POINT rs.depthBiasEnable
    else []) ++
  (if changedFloat last (fun l => l.rasterizationState.depthBiasSlopeFactor)
          rs.depthBiasSlopeFactor ∨
        changedFloat last (fun l => l.rasterizationState.depthBiasConstantFactor)
          rs.depthBiasConstantFactor then
      [GLCall.glPolygonOffset rs.depthBiasSlopeFactor rs.depthBiasConstantFactor]
    else []) ++
  (if changedFloat last (fun l => l.rasterizationState.lineWidth) rs.lineWidth then
      [GLCall.glLineWidth rs.lineWidth]
    else []) ++
  (if changedFloat last (fun l => l.rasterizationState.pointSize) rs.pointSize then
      [GLCall.glPointSize rs.pointSize]
    else [])

/-- Lines 709-731: depth state. -/
def bindDepthState (env : Env) (last : Option GraphicsPipelineInfoOwning) (ds : DepthState)
    (s : State) : State × List GLCall :=
  let c1 : List GLCall :=
    if changed last (fun l => l.depthState.depthTestEnable) ds.depthTestEnable then
      GLEnableOrDisable GLCap.DEPTH_TEST ds.depthTestEnable
    else []
  if ds.depthTestEnable then
    let r2 : State × List GLCall :=
      if changed last (fun l => l.depthState.depthWriteEnable) ds.depthWriteEnable then
        if ds.depthWriteEnable ≠ s.sLastDepthMask then
          ({ s with sLastDepthMask := ds.depthWriteEnable },
            [GLCall.glDepthMask ds.depthWriteEnable])
        else (s, [])
      else (s, [])
    let c3 : List GLCall :=
      if changed last (fun l => l.depthState.depthCompareOp) ds.depthCompareOp then
        [GLCall.glDepthFunc (env.CompareOpToGL ds.depthCompareOp)]
      else []
    (r2.1, c1 ++ r2.2 ++ c3)
  else (s, c1)

/-- The condition of lines 741-742 and 759-760 for one face. -/
def stencilFaceChanged (last : Option GraphicsPipelineInfoOwning)
    (face : StencilState → StencilOpState) (value : StencilOpState) : Bool :=
  match last with
  | none => true
  | some l => !l.stencilState.stencilTestEnable || decide (value ≠ face l.stencilState)

/-- Lines 733-776: stencil state. -/
def bindStencilState (env : Env) (last : Option GraphicsPipelineInfoOwning) (ss : StencilState)
    (s : State) : State × List GLCall :=
  let c1 : List GLCall :=
    if changed last (fun l => l.stencilState.stencilTestEnable) ss.stencilTestEnable then
      GLEnableOrDisable GLCap.STENCIL_TEST ss.stencilTestEnable
    else []
  if ss.stencilTestEnable then
    let r2 : State × List GLCall :=
      if stencilFaceChanged last (fun l => l.front) ss.front then
        let c : List GLCall :=
          [GLCall.glStencilOpSeparate GLFace.FRONT (env.StencilOpToGL ss.front.failOp)
              (env.StencilOpToGL ss.front.depthFailOp) (env.StencilOpToGL ss.front.passOp),
           GLCall.glStencilFuncSeparate GLFace.FRONT (env.CompareOpToGL ss.front.compareOp)
              ss.front.reference ss.front.compareMask]
        if s.sLastStencilMask0 ≠ ss.front.writeMask then
          ({ s with sLastStencilMask0 := ss.front.writeMask },
            c ++ [GLCall.glStencilMaskSeparate GLFace.FRONT ss.front.writeMask])
        else (s, c)
      else (s, [])
    let r3 : State × List GLCall :=
      if stencilFaceChanged last (fun l => l.back) ss.back then
        let c : List GLCall :=
          [GLCall.glStencilOpSeparate GLFace.BACK (env.StencilOpToGL ss.back.failOp)
              (env.StencilOpToGL ss.back.depthFailOp) (env.StencilOpToGL ss.back.passOp),
           GLCall.glStencilFuncSeparate GLFace.BACK (env.CompareOpToGL ss.back.compareOp)
              ss.back.reference ss.back.compareMask]
        if r2.1.sLastStencilMask1 ≠ ss.back.writeMask then
          ({ r2.1 with sLastStencilMask1 := ss.back.writeMask },
            c ++ [GLCall.glStencilMaskSeparate GLFace.BACK ss.back.writeMask])
        else (r2.1, c)
      else (r2.1, [])
    (r3.1, c1 ++ r2.2 ++ r3.2)
  else (s, c1)

/-- Lines 778-806: logic op, blend constants and the blend enable. The blend constants are
compared with `memcmp` (line 789), that is by their bit patterns. -/
def bindColorBlend (env : Env) (last : Option GraphicsPipelineInfoOwning)
    (cb : ColorBlendStateOwning) : List GLCall :=
  (if changed last (fun l => l.colorBlendState.logicOpEnable) cb.logicOpEnable then
      GLEnableOrDisable GLCap.COLOR_LOGIC_OP cb.logicOpEnable ++
      (if (match last with
            | none => true
            | some l => !l.colorBlendState.logicOpEnable ||
                (cb.logicOpEnable && decide (cb.logicOp ≠ l.colorBlendState.logicOp))) then
          [GLCall.glLogicOp (env.LogicOpToGL cb.logicOp)]
        else [])
    else []) ++
  (if changed last (fun l => l.colorBlendState.blendConstants) cb.blendConstants then
      [GLCall.glBlendColor (cb.blendConstants.getD 0 GLfloat.zero)
        (cb.blendConstants.getD 1 GLfloat.zero) (cb.blendConstants.getD 2 GLfloat.zero)
        (cb.blendConstants.getD 3 GLfloat.zero)]
    else []) ++
  (if changed last (fun l => l.colorBlendState.attachments.isEmpty) cb.attachments.isEmpty then
      GLEnableOrDisable GLCap.BLEND (!cb.attachments.isEmpty)
    else [])

/-- The blend function and equation calls of one attachment (lines 817-831). -/
def blendFunctionCalls (env : Env) (i : Nat) (cba : ColorBlendAttachmentState) : List GLCall :=
  if cba.blendEnable then
    [GLCall.glBlendFuncSeparatei i (env.BlendFactorToGL cba.srcColorBlendFactor)
        (env.BlendFactorToGL cba.dstColorBlendFactor)
        (env.BlendFactorToGL cba.srcAlphaBlendFactor)
        (env.BlendFactorToGL cba.dstAlphaBlendFactor),
     GLCall.glBlendEquationSeparatei i (env.BlendOpToGL cba.colorBlendOp)
        (env.BlendOpToGL cba.alphaBlendOp)]
  else
    [GLCall.glBlendFuncSeparatei i GL_SRC_COLOR GL_ZERO GL_SRC_ALPHA GL_ZERO,
     GLCall.glBlendEquationSeparatei i GL_FUNC_ADD GL_FUNC_ADD]

/-- The `glColorMaski` call of lines 835-839 for a declared write mask. -/
def colorMaskCall (i : Nat) (mask : ColorComponentFlags) : GLCall :=
  GLCall.glColorMaski i
    (decide (mask &&& ColorComponentFlag.R_BIT ≠ ColorComponentFlag.NONE))
    (decide (mask &&& ColorComponentFlag.G_BIT ≠ ColorComponentFlag.NONE))
    (decide (mask &&& ColorComponentFlag.B_BIT ≠ ColorComponentFlag.NONE))
    (decide (mask &&& ColorComponentFlag.A_BIT ≠ ColorComponentFlag.NONE))

/-- The condition of lines 811-812: attachment `i` exists in the last-bound record and
equals the new one. -/
def sameAttachment (last : Option GraphicsPipelineInfoOwning) (i : Nat)
    (cba : ColorBlendAttachmentState) : Bool :=
  match last with
  | none => false
  | some l => decide (l.colorBlendState.attachments.get? i = some cba)

/-- The blend attachment loop (lines 808-842), from index `i` on. -/
def bindBlendAttachments (env : Env) (last : Option GraphicsPipelineInfoOwning) :
    Nat → List ColorBlendAttachmentState → State → State × List GLCall
  | _, [], s => (s, [])
  | i, cba :: rest, s =>
    if sameAttachment last i cba then bindBlendAttachments env last (i + 1) rest s
    else
      let r1 : State × List GLCall :=
        if s.sLastColorMask i ≠ cba.colorWriteMask then
          ({ s with sLastColorMask :=
                fun j => if j = i then cba.colorWriteMask else s.sLastColorMask j },
            [colorMaskCall i cba.colorWriteMask])
        else (s, [])
      let r2 := bindBlendAttachments env last (i + 1) rest r1.1
      (r2.1, blendFunctionCalls env i cba ++ r1.2 ++ r2.2)

/-- `Fwog::Cmd::BindGraphicsPipeline` (lines 605-845). `pipeline` is `pipeline.Handle()`. -/
def BindGraphicsPipeline (env : Env) (pipeline : Nat) (s : State) : Result :=
  if s.isRendering = false then none
  else if pipeline = 0 then none
  else
    match env.GetGraphicsPipelineInternal pipeline with
    | none => none
    | some pipelineState =>
      if s.sLastGraphicsPipeline = some pipelineState then some (s, [])
      else
        let ps := env.pipelineObject pipelineState
        let last := s.sLastGraphicsPipeline.map env.pipelineObject
        let r1 := bindPipelineDebugGroup ps.name s
        let c2 : List GLCall :=
          if s.sLastGraphicsPipeline = none then [GLCall.glEnable GLCap.FRAMEBUFFER_SRGB]
          else []
        let c3 : List GLCall := [GLCall.glUseProgram (pipeline % 4294967296)]
        let r4 := bindInputAssembly last ps.inputAssemblyState r1.1
        let r5 := bindVertexInput env ps.vertexInputState r4.1
        let c6 := bindRasterization env last ps.rasterizationState
        let r7 := bindDepthState env last ps.depthState r5.1
        let r8 := bindStencilState env last ps.stencilState r7.1
        let c9 := bindColorBlend env last ps.colorBlendState
        let r10 := bindBlendAttachments env last 0 ps.colorBlendState.attachments r8.1
        some ({ r10.1 with sLastGraphicsPipeline := some pipelineState },
          r1.2 ++ c2 ++ c3 ++ r4.2 ++ r5.2 ++ c6 ++ r7.2 ++ r8.2 ++ c9 ++ r10.2)

/-- `Fwog::Cmd::BindComputePipeline` (lines 847-870). The record is dereferenced without
a null check; a null pointer ends the call. -/
def BindComputePipeline (env : Env) (pipeline : Nat) (s : State) : Result :=
  if s.isComputeActive = false then none
  else if pipeline = 0 then none
  else
    match env.GetComputePipelineInternal pipeline with
    | none => none
    | some pipelineState =>
      let r1 := bindPipelineDebugGroup pipelineState.name s
      some (r1.1, r1.2 ++ [GLCall.glUseProgram (pipeline % 4294967296)])

/-- `Fwog::Cmd::SetViewport` (lines 872-879). -/
def SetViewport (env : Env) (viewport : Viewport) (s : State) : Result :=
  if s.isRendering = false then none
  else
    some ({ s with sLastViewport := viewport },
      SetViewportInternal env viewport s.sLastViewport false)

/-- `Fwog::Cmd::SetScissor` (lines 881-899). -/
def SetScissor (scissor : Rect2D) (s : State) : Result :=
  if s.isRendering = false then none
  else
    let r1 : State × List GLCall :=
      if s.sScissorEnabled = false then
        ({ s with sScissorEnabled := true }, [GLCall.glEnable GLCap.SCISSOR_TEST])
      else (s, [])
    if scissor = r1.1.sLastScissor then some (r1.1, r1.2)
    else
      some ({ r1.1 with sLastScissor := scissor },
        r1.2 ++ [GLCall.glScissor scissor.offset.x scissor.offset.y scissor.extent.width
          scissor.extent.height])

/-- `Fwog::Cmd::BindVertexBuffer` (lines 901-910). `buffer` is `buffer.Handle()`. -/
def BindVertexBuffer (bindingIndex buffer offset stride : Nat) (s : State) : Result :=
  if s.isRendering = false then none
  else
    some (s, [GLCall.glVertexArrayVertexBuffer s.sVao bindingIndex buffer (toInt64 offset)
      (toInt32 stride)])

/-- `Fwog::Cmd::BindIndexBuffer` (lines 912-919). -/
def BindIndexBuffer (buffer : Nat) (indexType : IndexType) (s : State) : Result :=
  if s.isRendering = false then none
  else
    some ({ s with isIndexBufferBound := true, sIndexType := indexType },
      [GLCall.glVertexArrayElementBuffer s.sVao buffer])

/-- `Fwog::Cmd::Draw` (lines 921-930). -/
def Draw (env : Env) (vertexCount instanceCount firstVertex firstInstance : Nat) (s : State) :
    Result :=
  if s.isRendering = false then none
  else
    some (s, [GLCall.glDrawArraysInstancedBaseInstance (env.PrimitiveTopologyToGL s.sTopology)
      firstVertex vertexCount instanceCount firstInstance])

/-- `Fwog::Cmd::DrawIndexed` (lines 932-948). -/
def DrawIndexed (env : Env) (indexCount instanceCount firstIndex : Nat) (vertexOffset : Int)
    (firstInstance : Nat) (s : State) : Result :=
  if s.isRendering = false then none
  else if s.isIndexBufferBound = false then none
  else
    some (s, [GLCall.glDrawElementsInstancedBaseVertexBaseInstance
      (env.PrimitiveTopologyToGL s.sTopology) indexCount (env.IndexTypeToGL s.sIndexType)
      (firstIndex * GetIndexSize s.sIndexType) instanceCount vertexOffset firstInstance])

/-- `Fwog::Cmd::DrawIndirect` (lines 950-959). -/
def DrawIndirect (env : Env) (commandBuffer commandBufferOffset drawCount stride : Nat)
    (s : State) : Result :=
  if s.isRendering = false then none
  else
    some (s, [GLCall.glBindBuffer GLBufferTarget.DRAW_INDIRECT_BUFFER commandBuffer,
      GLCall.glMultiDrawArraysIndirect (env.PrimitiveTopologyToGL s.sTopology)
        commandBufferOffset drawCount stride])

/-- `Fwog::Cmd::DrawIndirectCount` (lines 961-977). -/
def DrawIndirectCount (env : Env) (commandBuffer commandBufferOffset countBuffer
    countBufferOffset maxDrawCount stride : Nat) (s : State) : Result :=
  if s.isRendering = false then none
  else
    some (s, [GLCall.glBindBuffer GLBufferTarget.DRAW_INDIRECT_BUFFER commandBuffer,
      GLCall.glBindBuffer GLBufferTarget.PARAMETER_BUFFER countBuffer,
      GLCall.glMultiDrawArraysIndirectCount (env.PrimitiveTopologyToGL s.sTopology)
        commandBufferOffset (toInt64 countBufferOffset) maxDrawCount stride])

/-- `Fwog::Cmd::DrawIndexedIndirect` (lines 979-991). -/
def DrawIndexedIndirect (env : Env) (commandBuffer commandBufferOffset drawCount stride : Nat)
    (s : State) : Result :=
  if s.isRendering = false then none
  else if s.isIndexBufferBound = false then none
  else
    some (s, [GLCall.glBindBuffer GLBufferTarget.DRAW_INDIRECT_BUFFER commandBuffer,
      GLCall.glMultiDrawElementsIndirect (env.PrimitiveTopologyToGL s.sTopology)
        (env.IndexTypeToGL s.sIndexType) commandBufferOffset drawCount stride])

/-- `Fwog::Cmd::DrawIndexedIndirectCount` (lines 993-1011). -/
def DrawIndexedIndirectCount (env : Env) (commandBuffer commandBufferOffset countBuffer
    countBufferOffset maxDrawCount stride : Nat) (s : State) : Result :=
  if s.isRendering = false then none
  else if s.isIndexBufferBound = false then none
  else
    some (s, [GLCall.glBindBuffer GLBufferTarget.DRAW_INDIRECT_BUFFER commandBuffer,
      GLCall.glBindBuffer GLBufferTarget.PARAMETER_BUFFER countBuffer,
      GLCall.glMultiDrawElementsIndirectCount (env.PrimitiveTopologyToGL s.sTopology)
        (env.IndexTypeToGL s.sIndexType) commandBufferOffset (toInt64 countBufferOffset)
        maxDrawCount stride])

/-- `Fwog::Cmd::BindUniformBuffer` (lines 1013-1018). -/
def BindUniformBuffer (index buffer offset size : Nat) (s : State) : Result :=
  if (s.isRendering || s.isComputeActive) = false then none
  else some (s, [GLCall.glBindBufferRange GLBufferTarget.UNIFORM_BUFFER index buffer offset size])

/-- `Fwog::Cmd::BindStorageBuffer` (lines 1020-1025). -/
def BindStorageBuffer (index buffer offset size : Nat) (s : State) : Result :=
  if (s.isRendering || s.isComputeActive) = false then none
  else
    some (s, [GLCall.glBindBufferRange GLBufferTarget.SHADER_STORAGE_BUFFER index buffer offset
      size])

/-- `Fwog::Cmd::BindSampledImage` (lines 1027-1033). `sampler` is `sampler.Handle()`. -/
def BindSampledImage (index : Nat) (texture : Texture) (sampler : Nat) (s : State) : Result :=
  if (s.isRendering || s.isComputeActive) = false then none
  else some (s, [GLCall.glBindTextureUnit index texture.id_, GLCall.glBindSampler index sampler])

/-- `Fwog::Cmd::BindImage` (lines 1035-1048). -/
def BindImage (env : Env) (index : Nat) (texture : Texture) (level : Nat) (s : State) : Result :=
  if (s.isRendering || s.isComputeActive) = false then none
  else if ¬ level < texture.createInfo_.mipLevels then none
  else if IsValidImageFormat texture.createInfo_.format = false then none
  else
    some (s, [GLCall.glBindImageTexture index texture.id_ level true 0 GL_READ_WRITE
      (env.FormatToGL texture.createInfo_.format)])

/-- `Fwog::Cmd::Dispatch` (lines 1050-1055). -/
def Dispatch (groupCountX groupCountY groupCountZ : Nat) (s : State) : Result :=
  if s.isComputeActive = false then none
  else some (s, [GLCall.glDispatchCompute groupCountX groupCountY groupCountZ])

/-- `Fwog::Cmd::DispatchIndirect` (lines 1057-1063). -/
def DispatchIndirect (commandBuffer commandBufferOffset : Nat) (s : State) : Result :=
  if s.isComputeActive = false then none
  else
    some (s, [GLCall.glBindBuffer GLBufferTarget.DISPATCH_INDIRECT_BUFFER commandBuffer,
      GLCall.glDispatchComputeIndirect (toInt64 commandBufferOffset)])

end Cmd

/-! ## Operation sequences -/

/-- A call of the public interface of Rendering.cpp, with its arguments. -/
inductive Op where
  | BeginRendering (renderInfo : RenderInfo)
  | BeginSwapchainRendering (renderInfo : SwapchainRenderInfo)
  | EndRendering
  | BeginCompute (name : String)
  | EndCompute
  | BindGraphicsPipeline (pipeline : Nat)
  | BindComputePipeline (pipeline : Nat)
  | SetViewport (viewport : Viewport)
  | SetScissor (scissor : Rect2D)
  | BindVertexBuffer (bindingIndex buffer offset stride : Nat)
  | BindIndexBuffer (buffer : Nat) (indexType : IndexType)
  | Draw (vertexCount instanceCount firstVertex firstInstance : Nat)
  | DrawIndexed (indexCount instanceCount firstIndex : Nat) (vertexOffset : Int)
      (firstInstance : Nat)
  | DrawIndirect (commandBuffer commandBufferOffset drawCount stride : Nat)
  | DrawIndirectCount (commandBuffer commandBufferOffset countBuffer countBufferOffset
      maxDrawCount stride : Nat)
  | DrawIndexedIndirect (commandBuffer commandBufferOffset drawCount stride : Nat)
  | DrawIndexedIndirectCount (commandBuffer commandBufferOffset countBuffer countBufferOffset
      maxDrawCount stride : Nat)
  | BindUniformBuffer (index buffer offset size : Nat)
  | BindStorageBuffer (index buffer offset size : Nat)
  | BindSampledImage (index : Nat) (texture : Texture) (sampler : Nat)
  | BindImage (index : Nat) (texture : Texture) (level : Nat)
  | Dispatch (groupCountX groupCountY groupCountZ : Nat)
  | DispatchIndirect (commandBuffer commandBufferOffset : Nat)

/-- One call of the interface on a state. -/
def step (env : Env) (op : Op) (s : State) : Result :=
  match op with
  | Op.BeginRendering ri => BeginRendering env ri s
  | Op.BeginSwapchainRendering ri => BeginSwapchainRendering env ri s
  | Op.EndRendering => EndRendering s
  | Op.BeginCompute name => BeginCompute env name s
  | Op.EndCompute => EndCompute s
  | Op.BindGraphicsPipeline p => Cmd.BindGraphicsPipeline env p s
  | Op.BindComputePipeline p => Cmd.BindComputePipeline env p s
  | Op.SetViewport v => Cmd.SetViewport env v s
  | Op.SetScissor r => Cmd.SetScissor r s
  | Op.BindVertexBuffer i b o st => Cmd.BindVertexBuffer i b o st s
  | Op.BindIndexBuffer b t => Cmd.BindIndexBuffer b t s
  | Op.Draw a b c d => Cmd.Draw env a b c d s
  | Op.DrawIndexed a b c d e => Cmd.DrawIndexed env a b c d e s
  | Op.DrawIndirect a b c d => Cmd.DrawIndirect env a b c d s
  | Op.DrawIndirectCount a b c d e f => Cmd.DrawIndirectCount env a b c d e f s
  | Op.DrawIndexedIndirect a b c d => Cmd.DrawIndexedIndirect env a b c d s
  | Op.DrawIndexedIndirectCount a b c d e f => Cmd.DrawIndexedIndirectCount env a b c d e f s
  | Op.BindUniformBuffer a b c d => Cmd.BindUniformBuffer a b c d s
  | Op.BindStorageBuffer a b c d => Cmd.BindStorageBuffer a b c d s
  | Op.BindSampledImage i t sm => Cmd.BindSampledImage i t sm s
  | Op.BindImage i t l => Cmd.BindImage env i t l s
  | Op.Dispatch x y z => Cmd.Dispatch x y z s
  | Op.DispatchIndirect b o => Cmd.DispatchIndirect b o s

/-- A sequence of calls, each on the state the previous one left; `none` as soon as one
fails its assertion. The trace is the concatenation of the calls' traces. -/
def run (env : Env) : List Op → State → Result
  | [], s => some (s, [])
  | op :: ops, s =>
    match step env op s with
    | none => none
    | some r =>
      match run env ops r.1 with
      | none => none
      | some r2 => some (r2.1, r.2 ++ r2.2)

/-- A state some sequence of successful calls leads to from program start. -/
def Reachable (env : Env) (s : State) : Prop :=
  ∃ ops trace, run env ops (State.initial env) = some (s, trace)

/-- Whether a call is one of the commands that only set a viewport or scissor, bind
buffers or images, select a compute program, draw or dispatch. -/
def Op.isPlainCommand (op : Op) : Bool :=
  match op with
  | Op.BeginRendering _ | Op.BeginSwapchainRendering _ | Op.EndRendering | Op.BeginCompute _
  | Op.EndCompute | Op.BindGraphicsPipeline _ => false
  | _ => true

/-! ## Samplers (Texture.h, Texture.cpp) -/

/-- `Fwog::SamplerState` (Texture.h lines 68-86); its `operator==`, the defaulted
member-wise comparison, is `SamplerState.eq`. -/
structure SamplerState where
  lodBias : GLfloat
  minLod : GLfloat
  maxLod : GLfloat
  minFilter : Filter
  magFilter : Filter
  mipmapFilter : Filter
  addressModeU : AddressMode
  addressModeV : AddressMode
  addressModeW : AddressMode
  borderColor : BorderColor
  anisotropy : SampleCount
  compareEnable : Bool
  compareOp : CompareOp

/-- The defaulted `SamplerState::operator==` (Texture.h line 70): member-wise `==`, which on
the three `float` members is the comparison of floats. -/
def SamplerState.eq (a b : SamplerState) : Bool :=
  a.lodBias.feq b.lodBias && a.minLod.feq b.minLod && a.maxLod.feq b.maxLod &&
  decide (a.minFilter = b.minFilter) && decide (a.magFilter = b.magFilter) &&
  decide (a.mipmapFilter = b.mipmapFilter) && decide (a.addressModeU = b.addressModeU) &&
  decide (a.addressModeV = b.addressModeV) && decide (a.addressModeW = b.addressModeW) &&
  decide (a.borderColor = b.borderColor) && decide (a.anisotropy = b.anisotropy) &&
  decide (a.compareEnable = b.compareEnable) && decide (a.compareOp = b.compareOp)

/-- `Fwog::Sampler` (Texture.h lines 205-223). -/
structure Sampler where
  id_ : Nat
deriving DecidableEq

/-- `Sampler::Handle`. -/
def Sampler.Handle (sampler : Sampler) : Nat := sampler.id_

/-- Modelled from the spec: `detail::SamplerCache::CreateOrGetCachedTextureSampler`
(`detail/SamplerCache.h` and its source are not among the sources), the object cache of
§4.1 and §4.2 keyed by the sampler descriptor, with `SamplerState::operator==` as the
equality of descriptors. -/
def CreateOrGetCachedTextureSampler (gen : List Nat → Nat)
    (samplerCache_ : List (SamplerState × Nat)) (samplerState : SamplerState) :
    Sampler × List (SamplerState × Nat) :=
  let r := cacheGetOrCreateBy SamplerState.eq gen samplerCache_ samplerState
  ({ id_ := r.1 }, r.2.1)

/-- `Sampler::Create` (Texture.cpp lines 247-250) on the file-scope `sSamplerCache`. -/
def Sampler.Create (gen : List Nat → Nat) (samplerState : SamplerState)
    (sSamplerCache : List (SamplerState × Nat)) :
    Option Sampler × List (SamplerState × Nat) :=
  let r := CreateOrGetCachedTextureSampler gen sSamplerCache samplerState
  (some r.1, r.2)

/-- The results of a sequence of `Sampler::Create` requests, in request order. -/
def requestSamplers (gen : List Nat → Nat) :
    List SamplerState → List (SamplerState × Nat) → List (Option Sampler)
  | [], _ => []
  | d :: rest, cache =>
    (Sampler.Create gen d cache).1 :: requestSamplers gen rest (Sampler.Create gen d cache).2

namespace Sample

/-- A format table: the unsigned and signed integer formats by name, float otherwise. -/
def baseTypeClass (format : Format) : GlBaseTypeClass :=
  match format with
  | Format.R32G32B32A32_UINT | Format.R16G16B16A16_UINT | Format.R10G10B10A2_UINT
  | Format.R8G8B8A8_UINT | Format.R32G32_UINT | Format.R16G16_UINT | Format.R8G8_UINT
  | Format.R32_UINT | Format.R16_UINT | Format.R8_UINT => GlBaseTypeClass.UINT
  | Format.R32G32B32_SINT | Format.R16G16B16A16_SINT | Format.R8G8B8A8_SINT
  | Format.R32G32_SINT | Format.R16G16_SINT | Format.R8G8_SINT | Format.R32_SINT
  | Format.R16_SINT | Format.R8_SINT => GlBaseTypeClass.SINT
  | _ => GlBaseTypeClass.FLOAT

def viewport : Viewport :=
  { drawRect := { offset := { x := 0, y := 0 }, extent := { width := 0, height := 0 } }
    minDepth := GLfloat.zero
    maxDepth := GLfloat.one
    depthRange := 0 }

/-- Pipeline record 1: cull mode BACK, depth and stencil tests off, blending off. -/
def pipeline1 : GraphicsPipelineInfoOwning :=
  { name := ""
    inputAssemblyState := { topology := 0, primitiveRestartEnable := false }
    vertexInputState := { vertexBindingDescriptions := [] }
    rasterizationState :=
      { depthClampEnable := false, polygonMode := 0, cullMode := CullMode.BACK, frontFace := 0
        depthBiasEnable := false, depthBiasConstantFactor := GLfloat.zero
        depthBiasSlopeFactor := GLfloat.zero, lineWidth := GLfloat.one
        pointSize := GLfloat.one }
    depthState := { depthTestEnable := false, depthWriteEnable := false, depthCompareOp := 4 }
    stencilState :=
      { stencilTestEnable := false
        front := { passOp := 0, failOp := 0, depthFailOp := 0, compareOp := 0, compareMask := 0
                   writeMask := 0, reference := 0 }
        back := { passOp := 0, failOp := 0, depthFailOp := 0, compareOp := 0, compareMask := 0
                  writeMask := 0, reference := 0 } }
    colorBlendState :=
      { logicOpEnable := false, logicOp := 0, attachments := []
        blendConstants := [GLfloat.zero, GLfloat.zero, GLfloat.zero, GLfloat.zero] } }

/-- Pipeline record 2: record 1 with cull mode FRONT. -/
def pipeline2 : GraphicsPipelineInfoOwning :=
  { pipeline1 with rasterizationState := { pipeline1.rasterizationState with
      cullMode := CullMode.FRONT } }

/-- Pipeline record 3: record 1 with the depth test on (depth writes off, the same
compare op). -/
def pipeline3 : GraphicsPipelineInfoOwning :=
  { pipeline1 with depthState := { pipeline1.depthState with depthTestEnable := true } }

/-- Pipeline record 4: record 3 with another front face. -/
def pipeline4 : GraphicsPipelineInfoOwning :=
  { pipeline3 with rasterizationState := { pipeline3.rasterizationState with frontFace := 1 } }

/-- The blend attachment of records 5 and 6: blending off, only the red channel written. -/
def redOnly : ColorBlendAttachmentState :=
  { blendEnable := false, srcColorBlendFactor := 0, dstColorBlendFactor := 0, colorBlendOp := 0
    srcAlphaBlendFactor := 0, dstAlphaBlendFactor := 0, alphaBlendOp := 0
    colorWriteMask := ColorComponentFlag.R_BIT }

/-- Pipeline record 5: record 1 with one blend attachment. -/
def pipeline5 : GraphicsPipelineInfoOwning :=
  { pipeline1 with colorBlendState := { pipeline1.colorBlendState with
      attachments := [redOnly] } }

/-- Pipeline record 6: record 5 with another front face. -/
def pipeline6 : GraphicsPipelineInfoOwning :=
  { pipeline5 with rasterizationState := { pipeline5.rasterizationState with frontFace := 1 } }

/-- The records the shared pointers point to, by address. -/
def pipelineObject (addr : Nat) : GraphicsPipelineInfoOwning :=
  match addr with
  | 2 => pipeline2
  | 3 => pipeline3
  | 4 => pipeline4
  | 5 => pipeline5
  | 6 => pipeline6
  | _ => pipeline1

/-- An environment: release build, six registered graphics pipelines (handle `h` has the
record at address `h`), one compute pipeline (handle 7), identity enumerator tables. -/
def env : Env :=
  { FWOG_DEBUG := false
    driverLimit := fun _ => 0
    genName := fun used => used.sum + 1
    pipelineObject := pipelineObject
    GetGraphicsPipelineInternal := fun h => if 1 ≤ h ∧ h ≤ 6 then some h else none
    GetComputePipelineInternal := fun h => if h = 7 then some { name := "" } else none
    defaultViewport := viewport
    FormatToBaseTypeClass := baseTypeClass
    FormatToGL := fun _ => 0
    DepthRangeToGL := fun x => x
    PolygonModeToGL := fun x => x
    CullModeToGL := fun c =>
      match c with
      | CullMode.NONE => 0
      | CullMode.FRONT => 0x0404
      | CullMode.BACK => 0x0405
      | CullMode.FRONT_AND_BACK => 0x0408
    FrontFaceToGL := fun x => x
    CompareOpToGL := fun x => x
    StencilOpToGL := fun x => x
    LogicOpToGL := fun x => x
    BlendFactorToGL := fun x => x
    BlendOpToGL := fun x => x
    PrimitiveTopologyToGL := fun x => x
    IndexTypeToGL := fun t => GetIndexSize t }

def texture (id : Nat) (format : Format) : Texture :=
  { id_ := id
    createInfo_ :=
      { imageType := 0, format := format, extent := { width := 64, height := 64, depth := 1 }
        mipLevels := 1, arrayLayers := 1, sampleCount := 0 } }

/-- A render info with one float colour attachment and no clear. -/
def renderInfo : RenderInfo :=
  { name := ""
    viewport := none
    colorAttachments :=
      [{ texture := texture 1 Format.R8G8B8A8_UNORM, clearOnLoad := false
         clearValue := ClearColorValue.f [GLfloat.zero, GLfloat.zero, GLfloat.zero, GLfloat.one] }]
    depthAttachment := none
    stencilAttachment := none }

/-- The same attachment, cleared on load. -/
def renderInfoClearColor : RenderInfo :=
  { renderInfo with
    colorAttachments :=
      [{ texture := texture 1 Format.R8G8B8A8_UNORM, clearOnLoad := true
         clearValue := ClearColorValue.f [GLfloat.zero, GLfloat.zero, GLfloat.zero, GLfloat.one] }] }

/-- The colour attachment and a depth attachment that is cleared on load. -/
def renderInfoClearDepth : RenderInfo :=
  { renderInfo with
    depthAttachment := some
      { texture := texture 2 Format.D32_FLOAT, clearOnLoad := true
        clearValue := { depth := GLfloat.one, stencil := 0 } } }

/-- An unsigned-integer colour attachment cleared on load with a float clear value. -/
def renderInfoMistyped : RenderInfo :=
  { renderInfo with
    colorAttachments :=
      [{ texture := texture 3 Format.R32_UINT, clearOnLoad := true
         clearValue := ClearColorValue.f [GLfloat.zero, GLfloat.zero, GLfloat.zero, GLfloat.one] }] }

/-- A compute pass followed by a render pass that is still open after one draw. -/
def frame : List Op :=
  [Op.BeginCompute "simulate", Op.BindComputePipeline 7, Op.Dispatch 1 1 1, Op.EndCompute,
   Op.BeginRendering renderInfo, Op.BindGraphicsPipeline 1, Op.Draw 3 1 0 0]

/-- The state and trace `frame` leaves when run from program start. -/
def frameResult : State × List GLCall :=
  (run env frame (State.initial env)).getD (State.initial env, [])

/-- The state and trace after a compute pass has been opened from program start. -/
def computeResult : State × List GLCall :=
  (run env [Op.BeginCompute "simulate"] (State.initial env)).getD (State.initial env, [])

/-- Two sampler descriptors that differ in the minification filter. -/
def samplerState1 : SamplerState :=
  { lodBias := GLfloat.zero, minLod := GLfloat.zero, maxLod := GLfloat.one, minFilter := 1
    magFilter := 1, mipmapFilter := 0, addressModeU := 0, addressModeV := 0, addressModeW := 0
    borderColor := 0, anisotropy := 0, compareEnable := false, compareOp := 0 }

def samplerState2 : SamplerState := { samplerState1 with minFilter := 2 }

/-- The descriptor `samplerState1` with a NaN LOD bias. -/
def samplerStateNaN : SamplerState := { samplerState1 with lodBias := GLfloat.nan }

/-- The descriptor `samplerState1` with LOD bias `-0.0f` in place of `0.0f`. -/
def samplerStateNegZero : SamplerState := { samplerState1 with lodBias := GLfloat.negZero }

/-- A render pass with a graphics bind, a compute pass with a compute bind, and a second
render pass, in which the graphics pipeline of the first pass is about to be bound again. -/
def renderComputeRender : List Op :=
  [Op.BeginRendering renderInfo, Op.BindGraphicsPipeline 1, Op.EndRendering,
   Op.BeginCompute "", Op.BindComputePipeline 7, Op.Dispatch 1 1 1, Op.EndCompute,
   Op.BeginRendering renderInfo]

end Sample

/-! ## Predicates used in the statements -/

/-- The assertions of lines 351, 355 and 359: the clear value holds the alternative of the
format's base type class. -/
def clearValueMatches (baseTypeClass : GlBaseTypeClass) (clearValue : ClearColorValue) : Bool :=
  match baseTypeClass, clearValue with
  | GlBaseTypeClass.FLOAT, ClearColorValue.f _ => true
  | GlBaseTypeClass.SINT, ClearColorValue.i _ => true
  | GlBaseTypeClass.UINT, ClearColorValue.ui _ => true
  | _, _ => false

/-- Whether a clear value holds the float array alternative (the assertion of line 263). -/
def ClearColorValue.isFloat (clearValue : ClearColorValue) : Bool :=
  match clearValue with
  | ClearColorValue.f _ => true
  | _ => false

/-- The arguments of the `glDepthFunc` calls of a trace, in order. -/
def depthFuncCalls (trace : List GLCall) : List GLenum :=
  trace.filterMap (fun c =>
    match c with
    | GLCall.glDepthFunc func => some func
    | _ => none)

/-- The arguments of the `glUseProgram` calls of a trace, in order. -/
def useProgramCalls (trace : List GLCall) : List Nat :=
  trace.filterMap (fun c =>
    match c with
    | GLCall.glUseProgram program => some program
    | _ => none)

/-! ## Further concrete inputs -/

namespace Sample

/-- Pipeline record 8: record 1 with the logic op enabled, logic op 1. -/
def pipeline8 : GraphicsPipelineInfoOwning :=
  { pipeline1 with colorBlendState := { pipeline1.colorBlendState with
      logicOpEnable := true, logicOp := 1 } }

/-- Pipeline record 9: record 8 with logic op 2. -/
def pipeline9 : GraphicsPipelineInfoOwning :=
  { pipeline8 with colorBlendState := { pipeline8.colorBlendState with logicOp := 2 } }

/-- A stencil face state with the given reference value. -/
def stencilFace (reference : Nat) : StencilOpState :=
  { passOp := 3, failOp := 1, depthFailOp := 2, compareOp := 5, compareMask := 255
    writeMask := 255, reference := reference }

/-- Pipeline record 10: record 1 with the stencil test on. -/
def pipeline10 : GraphicsPipelineInfoOwning :=
  { pipeline1 with stencilState :=
      { stencilTestEnable := true, front := stencilFace 1, back := stencilFace 2 } }

/-- Pipeline record 11: record 5 with a name and a second blend attachment that blends. -/
def pipeline11 : GraphicsPipelineInfoOwning :=
  { pipeline5 with
    name := "lit"
    colorBlendState := { pipeline5.colorBlendState with
      attachments := [redOnly, { redOnly with blendEnable := true, srcColorBlendFactor := 6
                                              colorWriteMask := ColorComponentFlag.RGBA_BITS }] } }

/-- The records of `env2`, by address: 8 to 11 as above, the others as in `env`. -/
def pipelineObject2 (addr : Nat) : GraphicsPipelineInfoOwning :=
  match addr with
  | 8 => pipeline8
  | 9 => pipeline9
  | 10 => pipeline10
  | 11 => pipeline11
  | _ => pipelineObject addr

/-- The environment `env` with four more registered graphics pipelines, 8 to 11. -/
def env2 : Env :=
  { env with
    pipelineObject := pipelineObject2
    GetGraphicsPipelineInternal :=
      fun h => if (1 ≤ h ∧ h ≤ 6) ∨ (8 ≤ h ∧ h ≤ 11) then some h else none }

end Sample

/-- The arguments of the `glLogicOp` calls of a trace, in order. -/
def logicOpCalls (trace : List GLCall) : List GLenum :=
  trace.filterMap (fun c =>
    match c with
    | GLCall.glLogicOp opcode => some opcode
    | _ => none)

/-- The extents of the textures of all attachments present: colour attachments, then the
depth attachment, then the stencil attachment. -/
def RenderInfo.attachmentExtents (ri : RenderInfo) : List Extent3D :=
  ri.colorAttachments.map (fun a => a.texture.createInfo_.extent) ++
  ri.depthAttachment.toList.map (fun a => a.texture.createInfo_.extent) ++
  ri.stencilAttachment.toList.map (fun a => a.texture.createInfo_.extent)

/-- The minimum of a list of unsigned 32-bit values, the 32-bit maximum for the empty list. -/
def minimumU32 (values : List Nat) : Nat := values.foldr min UINT32_MAX

/-- The calls of a pass begin that are neither clears nor write-mask calls: limit queries
and resource unbinding of `ZeroResourceBindings`, the pass debug group, framebuffer
creation and binding, and the viewport calls. -/
def GLCall.isSetupCall (c : GLCall) : Bool :=
  match c with
  | GLCall.glGetIntegerv _ | GLCall.glBindImageTexture _ _ _ _ _ _ _
  | GLCall.glBindBufferRange _ _ _ _ _ | GLCall.glBindTextureUnit _ _
  | GLCall.glBindSampler _ _ | GLCall.glPushDebugGroup _ | GLCall.glCreateFramebuffers _
  | GLCall.glBindFramebuffer _ | GLCall.glViewport _ _ _ _ | GLCall.glDepthRangef _ _
  | GLCall.glClipControl _ => true
  | _ => false

/-- Whether a call clears a colour buffer. -/
def GLCall.isColorClear (c : GLCall) : Bool :=
  match c with
  | GLCall.glClearNamedFramebufferfv _ GLClearBuffer.COLOR _ _
  | GLCall.glClearNamedFramebufferiv _ GLClearBuffer.COLOR _ _
  | GLCall.glClearNamedFramebufferuiv _ GLClearBuffer.COLOR _ _ => true
  | _ => false

/-- Whether a call clears the depth buffer, the stencil buffer or both. -/
def GLCall.isDepthStencilClear (c : GLCall) : Bool :=
  match c with
  | GLCall.glClearNamedFramebufferfi _ _ _ _
  | GLCall.glClearNamedFramebufferfv _ GLClearBuffer.DEPTH _ _
  | GLCall.glClearNamedFramebufferfv _ GLClearBuffer.STENCIL _ _
  | GLCall.glClearNamedFramebufferiv _ GLClearBuffer.DEPTH _ _
  | GLCall.glClearNamedFramebufferiv _ GLClearBuffer.STENCIL _ _
  | GLCall.glClearNamedFramebufferuiv _ GLClearBuffer.DEPTH _ _
  | GLCall.glClearNamedFramebufferuiv _ GLClearBuffer.STENCIL _ _ => true
  | _ => false

/-- Whether a call is any clear call. -/
def GLCall.isClear (c : GLCall) : Bool := c.isColorClear || c.isDepthStencilClear

/-- The draw buffer a colour clear call addresses. -/
def GLCall.colorClearIndex (c : GLCall) : Option Nat :=
  match c with
  | GLCall.glClearNamedFramebufferfv _ GLClearBuffer.COLOR i _
  | GLCall.glClearNamedFramebufferiv _ GLClearBuffer.COLOR i _
  | GLCall.glClearNamedFramebufferuiv _ GLClearBuffer.COLOR i _ => some i
  | _ => none

/-- The clear call the claim names for a base type class: the float clear for the float
class, the signed clear for the signed-integer class, the unsigned clear for the
unsigned-integer class, each with the clear value of that alternative; none when the clear
value holds another alternative. -/
def typedColorClear (baseTypeClass : GlBaseTypeClass) (fbo i : Nat)
    (clearValue : ClearColorValue) : Option GLCall :=
  match baseTypeClass, clearValue with
  | GlBaseTypeClass.FLOAT, ClearColorValue.f v =>
    some (GLCall.glClearNamedFramebufferfv fbo GLClearBuffer.COLOR i v)
  | GlBaseTypeClass.SINT, ClearColorValue.i v =>
    some (GLCall.glClearNamedFramebufferiv fbo GLClearBuffer.COLOR i v)
  | GlBaseTypeClass.UINT, ClearColorValue.ui v =>
    some (GLCall.glClearNamedFramebufferuiv fbo GLClearBuffer.COLOR i v)
  | _, _ => none

/-- The typed clear calls of the colour attachments whose `clearOnLoad` is set, by
increasing attachment index, the first attachment of the list having index `i`. -/
def typedColorClears (env : Env) (fbo : Nat) : Nat → List RenderColorAttachment → List GLCall
  | _, [] => []
  | i, a :: rest =>
    (if a.clearOnLoad then
      (typedColorClear (env.FormatToBaseTypeClass a.texture.createInfo_.format) fbo i
        a.clearValue).toList
    else []) ++ typedColorClears env fbo (i + 1) rest

/-- The indices of the colour attachments whose `clearOnLoad` is set, in increasing order,
the first attachment of the list having index `i`. -/
def clearOnLoadIndices : Nat → List RenderColorAttachment → List Nat
  | _, [] => []
  | i, a :: rest => (if a.clearOnLoad then [i] else []) ++ clearOnLoadIndices (i + 1) rest

/-- The depth/stencil clear the claim names: a combined clear when a depth and a stencil
attachment are both present with `clearOnLoad` set, a depth-only clear when only the depth
attachment is, a stencil-only clear when only the stencil attachment is, none otherwise. -/
def depthStencilClearSpec (ri : RenderInfo) (fbo : Nat) : List GLCall :=
  match ri.depthAttachment.filter (fun a => a.clearOnLoad),
      ri.stencilAttachment.filter (fun a => a.clearOnLoad) with
  | some d, some st =>
    [GLCall.glClearNamedFramebufferfi fbo 0 d.clearValue.depth st.clearValue.stencil]
  | some d, none =>
    [GLCall.glClearNamedFramebufferfv fbo GLClearBuffer.DEPTH 0 [d.clearValue.depth]]
  | none, some st =>
    [GLCall.glClearNamedFramebufferiv fbo GLClearBuffer.STENCIL 0 [st.clearValue.stencil]]
  | none, none => []

/-- The part of `BeginRendering` before the clears (lines 308-330): the state in which the
colour attachment loop starts, and the calls issued so far. -/
def beginRenderingSetup (env : Env) (renderInfo : RenderInfo) (s : State) :
    State × List GLCall :=
  let s0 : State := { s with isRendering := true }
  let r1 := debugZeroResourceBindings env s0
  let s1 : State := { r1.1 with sLastRenderInfo := some renderInfo }
  let r2 := pushScopedDebugGroup renderInfo.name s1
  let r3 := CreateOrGetCachedFramebuffer env renderInfo r2.1
  ({ r3.2.1 with sFbo := r3.1 }, r1.2 ++ r2.2 ++ (r3.2.2 ++ [GLCall.glBindFramebuffer r3.1]))

namespace Sample

/-- The colour attachment cleared on load, and one depth-stencil texture attached as both
depth and stencil attachment, both cleared on load. -/
def renderInfoClearAll : RenderInfo :=
  { renderInfoClearColor with
    depthAttachment := some
      { texture := texture 4 Format.D24_UNORM_S8_UINT, clearOnLoad := true
        clearValue := { depth := GLfloat.one, stencil := 0 } }
    stencilAttachment := some
      { texture := texture 4 Format.D24_UNORM_S8_UINT, clearOnLoad := true
        clearValue := { depth := GLfloat.one, stencil := 0 } } }

end Sample

namespace Cmd

/-- The full-diff path of `BindGraphicsPipeline` (lines 618-844), for the record at address
`pipelineState`: the state it leaves and the calls it issues. -/
def fullDiff (env : Env) (pipeline pipelineState : Nat) (s : State) : State × List GLCall :=
  let ps := env.pipelineObject pipelineState
  let last := s.sLastGraphicsPipeline.map env.pipelineObject
  let r1 := bindPipelineDebugGroup ps.name s
  let c2 : List GLCall :=
    if s.sLastGraphicsPipeline = none then [GLCall.glEnable GLCap.FRAMEBUFFER_SRGB]
    else []
  let c3 : List GLCall := [GLCall.glUseProgram (pipeline % 4294967296)]
  let r4 := bindInputAssembly last ps.inputAssemblyState r1.1
  let r5 := bindVertexInput env ps.vertexInputState r4.1
  let c6 := bindRasterization env last ps.rasterizationState
  let r7 := bindDepthState env last ps.depthState r5.1
  let r8 := bindStencilState env last ps.stencilState r7.1
  let c9 := bindColorBlend env last ps.colorBlendState
  let r10 := bindBlendAttachments env last 0 ps.colorBlendState.attachments r8.1
  ({ r10.1 with sLastGraphicsPipeline := some pipelineState },
    r1.2 ++ c2 ++ c3 ++ r4.2 ++ r5.2 ++ c6 ++ r7.2 ++ r8.2 ++ c9 ++ r10.2)

end Cmd

/-! ## The order of the calls of a pipeline bind -/

/-- The group of a capability in the section order of `BindGraphicsPipeline`: 2 input
assembly, 4 rasterization, 5 depth/stencil, 6 blend; 0 for the capabilities outside the six
sections (framebuffer sRGB, which is enabled before the program is selected, and the
scissor test, which the bind never touches). -/
def GLCap.bindGroup (cap : GLCap) : Nat :=
  match cap with
  | GLCap.PRIMITIVE_RESTART_FIXED_INDEX => 2
  | GLCap.DEPTH_CLAMP | GLCap.CULL_FACE | GLCap.POLYGON_OFFSET_FILL
  | GLCap.POLYGON_OFFSET_LINE | GLCap.POLYGON_OFFSET_POINT => 4
  | GLCap.DEPTH_TEST | GLCap.STENCIL_TEST => 5
  | GLCap.COLOR_LOGIC_OP | GLCap.BLEND => 6
  | GLCap.FRAMEBUFFER_SRGB | GLCap.SCISSOR_TEST => 0

/-- The group of a call in the section order of `BindGraphicsPipeline` (the section
banners of lines 640-778): 1 program selection, 2 input assembly, 3 vertex input,
4 rasterization, 5 depth/stencil, 6 blend; 0 for the calls outside the six sections (the
pipeline debug group and the sRGB enable of lines 618-638, and the calls a bind never
issues). -/
def GLCall.bindGroup (c : GLCall) : Nat :=
  match c with
  | GLCall.glUseProgram _ => 1
  | GLCall.glEnable cap | GLCall.glDisable cap => cap.bindGroup
  | GLCall.glCreateVertexArrays _ | GLCall.glBindVertexArray _ => 3
  | GLCall.glPolygonMode _ | GLCall.glCullFace _ | GLCall.glFrontFace _
  | GLCall.glPolygonOffset _ _ | GLCall.glLineWidth _ | GLCall.glPointSize _ => 4
  | GLCall.glDepthMask _ | GLCall.glDepthFunc _ | GLCall.glStencilOpSeparate _ _ _ _
  | GLCall.glStencilFuncSeparate _ _ _ _ | GLCall.glStencilMaskSeparate _ _ => 5
  | GLCall.glLogicOp _ | GLCall.glBlendColor _ _ _ _ | GLCall.glBlendFuncSeparatei _ _ _ _ _
  | GLCall.glBlendEquationSeparatei _ _ _ | GLCall.glColorMaski _ _ _ _ _ => 6
  | _ => 0

/-- The position of a capability in the field order of `BindGraphicsPipeline`. -/
def GLCap.bindRank (cap : GLCap) : Nat :=
  match cap with
  | GLCap.FRAMEBUFFER_SRGB => 2
  | GLCap.PRIMITIVE_RESTART_FIXED_INDEX => 4
  | GLCap.DEPTH_CLAMP => 7
  | GLCap.CULL_FACE => 9
  | GLCap.POLYGON_OFFSET_FILL => 12
  | GLCap.POLYGON_OFFSET_LINE => 13
  | GLCap.POLYGON_OFFSET_POINT => 14
  | GLCap.DEPTH_TEST => 18
  | GLCap.STENCIL_TEST => 21
  | GLCap.COLOR_LOGIC_OP => 28
  | GLCap.BLEND => 31
  | GLCap.SCISSOR_TEST => 0

/-- The offset of a face in the field order: the three front calls precede the three back
calls. -/
def GLFace.bindRank (face : GLFace) : Nat :=
  match face with
  | GLFace.FRONT => 0
  | GLFace.BACK => 3

/-- The position of a call in the field order of `BindGraphicsPipeline` (lines 618-842),
fixed by the kind of the call, the capability, the face and the attachment index only:
debug group pop 0 and push 1, sRGB enable 2, program 3, primitive restart 4, vertex-array
creation 5 and bind 6, depth clamp 7, polygon mode 8, cull enable 9, cull face 10, front
face 11, polygon-offset enables 12-14, polygon offset 15, line width 16, point size 17,
depth test 18, depth mask 19, depth func 20, stencil test 21, stencil op, func and mask of
the front face 22-24 and of the back face 25-27, logic-op enable 28, logic op 29, blend
constants 30, blend enable 31, then for attachment `i` blend function `32 + 3 i`, blend
equation `33 + 3 i` and colour mask `34 + 3 i`. Calls a bind never issues have position 0. -/
def GLCall.bindRank (c : GLCall) : Nat :=
  match c with
  | GLCall.glPopDebugGroup => 0
  | GLCall.glPushDebugGroup _ => 1
  | GLCall.glEnable cap | GLCall.glDisable cap => cap.bindRank
  | GLCall.glUseProgram _ => 3
  | GLCall.glCreateVertexArrays _ => 5
  | GLCall.glBindVertexArray _ => 6
  | GLCall.glPolygonMode _ => 8
  | GLCall.glCullFace _ => 10
  | GLCall.glFrontFace _ => 11
  | GLCall.glPolygonOffset _ _ => 15
  | GLCall.glLineWidth _ => 16
  | GLCall.glPointSize _ => 17
  | GLCall.glDepthMask _ => 19
  | GLCall.glDepthFunc _ => 20
  | GLCall.glStencilOpSeparate face _ _ _ => 22 + face.bindRank
  | GLCall.glStencilFuncSeparate face _ _ _ => 23 + face.bindRank
  | GLCall.glStencilMaskSeparate face _ => 24 + face.bindRank
  | GLCall.glLogicOp _ => 29
  | GLCall.glBlendColor _ _ _ _ => 30
  | GLCall.glBlendFuncSeparatei i _ _ _ _ => 32 + 3 * i
  | GLCall.glBlendEquationSeparatei i _ _ => 33 + 3 * i
  | GLCall.glColorMaski i _ _ _ _ => 34 + 3 * i
  | _ => 0

/-- The group of a position of the field order. -/
def bindGroupOfRank (rank : Nat) : Nat :=
  if rank < 3 then 0
  else if rank < 4 then 1
  else if rank < 5 then 2
  else if rank < 7 then 3
  else if rank < 18 then 4
  else if rank < 28 then 5
  else 6

/-- The calls of a list are in strictly increasing field order and all lie at positions
from `lo` up to, not including, `hi`. -/
def InBand (lo hi : Nat) (l : List GLCall) : Prop :=
  lo ≤ hi ∧ l.Pairwise (fun a b => a.bindRank < b.bindRank) ∧
    ∀ c ∈ l, lo ≤ c.bindRank ∧ c.bindRank < hi

namespace Sample

/-- The state after a render pass has been opened from program start, in `env2`. -/
def passOpen : State :=
  ((BeginRendering env2 renderInfo (State.initial env2)).getD (State.initial env2, [])).1

end Sample

/-! ## Stencil calls of a trace -/

/-- The arguments of a `glStencilOpSeparate` call for a face. -/
def GLCall.stencilOpOf (face : GLFace) (c : GLCall) : Option (GLenum × GLenum × GLenum) :=
  match c with
  | GLCall.glStencilOpSeparate f sfail dpfail dppass =>
    if f = face then some (sfail, dpfail, dppass) else none
  | _ => none

/-- The arguments of a `glStencilFuncSeparate` call for a face. -/
def GLCall.stencilFuncOf (face : GLFace) (c : GLCall) : Option (GLenum × Nat × Nat) :=
  match c with
  | GLCall.glStencilFuncSeparate f func ref mask =>
    if f = face then some (func, ref, mask) else none
  | _ => none

/-- The stencil operation most recently issued to the driver for a face: fail, depth-fail
and pass operation of the last `glStencilOpSeparate` call of the trace for that face. -/
def lastStencilOp (face : GLFace) (trace : List GLCall) : Option (GLenum × GLenum × GLenum) :=
  (trace.filterMap (GLCall.stencilOpOf face)).getLast?

/-- The stencil function most recently issued to the driver for a face: function,
reference and compare mask of the last `glStencilFuncSeparate` call of the trace for that
face. -/
def lastStencilFunc (face : GLFace) (trace : List GLCall) : Option (GLenum × Nat × Nat) :=
  (trace.filterMap (GLCall.stencilFuncOf face)).getLast?

/-- The face state a stencil state declares for a face. -/
def StencilState.face (ss : StencilState) (face : GLFace) : StencilOpState :=
  match face with
  | GLFace.FRONT => ss.front
  | GLFace.BACK => ss.back

/-- The driver form of a declared face state's operations: `failOp`, `depthFailOp`,
`passOp`. -/
def declaredStencilOp (env : Env) (f : StencilOpState) : GLenum × GLenum × GLenum :=
  (env.StencilOpToGL f.failOp, env.StencilOpToGL f.depthFailOp, env.StencilOpToGL f.passOp)

/-- The driver form of a declared face state's function: `compareOp`, `reference`,
`compareMask`. -/
def declaredStencilFunc (env : Env) (f : StencilOpState) : GLenum × Nat × Nat :=
  (env.CompareOpToGL f.compareOp, f.reference, f.compareMask)

/-- Whether a capability is fixed-function pipeline state, which only
`BindGraphicsPipeline` enables or disables. -/
def GLCap.isPipelineState (cap : GLCap) : Bool :=
  match cap with
  | GLCap.SCISSOR_TEST | GLCap.FRAMEBUFFER_SRGB => false
  | _ => true

/-- Whether a call sets fixed-function pipeline state that only `BindGraphicsPipeline`
sets: every call of its sections except program selection, the debug group, the sRGB
enable and the depth and colour write masks (which the pass begins issue too). -/
def GLCall.isPipelineStateCall (c : GLCall) : Bool :=
  match c with
  | GLCall.glEnable cap | GLCall.glDisable cap => cap.isPipelineState
  | GLCall.glCreateVertexArrays _ | GLCall.glBindVertexArray _ | GLCall.glPolygonMode _
  | GLCall.glCullFace _ | GLCall.glFrontFace _ | GLCall.glPolygonOffset _ _
  | GLCall.glLineWidth _ | GLCall.glPointSize _ | GLCall.glDepthFunc _
  | GLCall.glStencilOpSeparate _ _ _ _ | GLCall.glStencilFuncSeparate _ _ _ _
  | GLCall.glStencilMaskSeparate _ _ | GLCall.glLogicOp _ | GLCall.glBlendColor _ _ _ _
  | GLCall.glBlendFuncSeparatei _ _ _ _ _ | GLCall.glBlendEquationSeparatei _ _ _ => true
  | _ => false

/-- No call of the list sets fixed-function pipeline state. -/
def PassCalls (l : List GLCall) : Prop := ∀ c ∈ l, c.isPipelineStateCall = false

/-- The stencil calls most recently issued agree with the last-bound record: when that
record has the stencil test on, the last stencil operation and function issued for each
face are the ones it declares for the face. -/
def StencilSynced (env : Env) (s : State) (trace : List GLCall) : Prop :=
  ∀ ptr, s.sLastGraphicsPipeline = some ptr →
    (env.pipelineObject ptr).stencilState.stencilTestEnable = true →
    ∀ face : GLFace,
      lastStencilOp face trace =
        some (declaredStencilOp env ((env.pipelineObject ptr).stencilState.face face)) ∧
      lastStencilFunc face trace =
        some (declaredStencilFunc env ((env.pipelineObject ptr).stencilState.face face))

namespace Sample

/-- A render pass in which pipeline 10 (stencil test on) is bound, then pipeline 1
(stencil test off), then pipeline 10 again. -/
def stencilFrame : List Op :=
  [Op.BeginRendering renderInfo, Op.BindGraphicsPipeline 10, Op.BindGraphicsPipeline 1,
   Op.BindGraphicsPipeline 10]

/-- The state and trace `stencilFrame` leaves when run from program start, in `env2`. -/
def stencilFrameResult : State × List GLCall :=
  (run env2 stencilFrame (State.initial env2)).getD (State.initial env2, [])

end Sample

/-! ## Observers and inputs for pass ends and commands -/

/-- The framebuffer sRGB calls of a trace, in order: `true` for an enable, `false` for a
disable. -/
def srgbCalls (trace : List GLCall) : List Bool :=
  trace.filterMap (fun c =>
    match c with
    | GLCall.glEnable GLCap.FRAMEBUFFER_SRGB => some true
    | GLCall.glDisable GLCap.FRAMEBUFFER_SRGB => some false
    | _ => none)

/-- Whether a call belongs to the rasterization section of a pipeline bind. -/
def GLCall.isRasterizationCall (c : GLCall) : Bool := decide (c.bindGroup = 4)

/-- The commands the claim lists as render-pass commands: the six draw commands,
`SetViewport`, `SetScissor`, `BindVertexBuffer` and `BindIndexBuffer`. -/
def Op.isRenderCommand (op : Op) : Bool :=
  match op with
  | Op.Draw _ _ _ _ | Op.DrawIndexed _ _ _ _ _ | Op.DrawIndirect _ _ _ _
  | Op.DrawIndirectCount _ _ _ _ _ _ | Op.DrawIndexedIndirect _ _ _ _
  | Op.DrawIndexedIndirectCount _ _ _ _ _ _ | Op.SetViewport _ | Op.SetScissor _
  | Op.BindVertexBuffer _ _ _ _ | Op.BindIndexBuffer _ _ => true
  | _ => false

/-- The compute-pass commands: `Dispatch` and `DispatchIndirect`. -/
def Op.isComputeCommand (op : Op) : Bool :=
  match op with
  | Op.Dispatch _ _ _ | Op.DispatchIndirect _ _ => true
  | _ => false

/-- The resource binds allowed in either pass kind. -/
def Op.isResourceCommand (op : Op) : Bool :=
  match op with
  | Op.BindUniformBuffer _ _ _ _ | Op.BindStorageBuffer _ _ _ _ | Op.BindSampledImage _ _ _
  | Op.BindImage _ _ _ => true
  | _ => false

/-- The calls of namespace `Cmd`: every call but the pass begins and ends. -/
def Op.isCmd (op : Op) : Bool :=
  match op with
  | Op.BeginRendering _ | Op.BeginSwapchainRendering _ | Op.EndRendering | Op.BeginCompute _
  | Op.EndCompute => false
  | _ => true

namespace Sample

/-- A swapchain pass without clears that turns framebuffer sRGB off. -/
def swapchainNoSrgb : SwapchainRenderInfo :=
  { name := "present"
    viewport := viewport
    clearColorOnLoad := false
    clearColorValue := ClearColorValue.f [GLfloat.zero, GLfloat.zero, GLfloat.zero, GLfloat.one]
    clearDepthOnLoad := false
    clearDepthValue := GLfloat.one
    clearStencilOnLoad := false
    clearStencilValue := 0
    enableSrgb := false }

/-- A swapchain pass with sRGB off, its end, and a second pass to textures. -/
def srgbFrames : List Op :=
  [Op.BeginSwapchainRendering swapchainNoSrgb, Op.EndRendering, Op.BeginRendering renderInfo]

/-- A named render pass in which a named pipeline is bound, a scissor is set and an index
buffer is bound. -/
def busyPass : List Op :=
  [Op.BeginRendering { renderInfo with name := "main" }, Op.BindGraphicsPipeline 11,
   Op.SetScissor { offset := { x := 0, y := 0 }, extent := { width := 8, height := 8 } },
   Op.BindIndexBuffer 5 IndexType.UNSIGNED_INT]

/-- The state and trace `busyPass` leaves when run from program start, in `env2`. -/
def busyPassResult : State × List GLCall :=
  (run env2 busyPass (State.initial env2)).getD (State.initial env2, [])

/-- The state after a named compute pass with a compute pipeline bound, from the state
`frameResult` leaves once its render pass is ended. -/
def computePassResult : State × List GLCall :=
  (run env [Op.EndRendering, Op.BeginCompute "simulate", Op.BindComputePipeline 7]
    frameResult.1).getD (State.initial env, [])

end Sample
namespace Cmd

/-- The record the sections of the full-diff path compare against: the last-bound one. -/
def lastRecord (env : Env) (s : State) : Option GraphicsPipelineInfoOwning :=
  s.sLastGraphicsPipeline.map env.pipelineObject

/-- The state of the full-diff path after the debug-group block (lines 618-631). -/
def afterDebugGroup (env : Env) (ptr : Nat) (s : State) : State :=
  (bindPipelineDebugGroup (env.pipelineObject ptr).name s).1

/-- The state of the full-diff path after the input-assembly section. -/
def afterInputAssembly (env : Env) (ptr : Nat) (s : State) : State :=
  (bindInputAssembly (lastRecord env s) (env.pipelineObject ptr).inputAssemblyState
    (afterDebugGroup env ptr s)).1

/-- The state of the full-diff path after the vertex-input section. -/
def afterVertexInput (env : Env) (ptr : Nat) (s : State) : State :=
  (bindVertexInput env (env.pipelineObject ptr).vertexInputState
    (afterInputAssembly env ptr s)).1

/-- The state of the full-diff path after the depth part of the depth/stencil section. -/
def afterDepth (env : Env) (ptr : Nat) (s : State) : State :=
  (bindDepthState env (lastRecord env s) (env.pipelineObject ptr).depthState
    (afterVertexInput env ptr s)).1

/-- The state of the full-diff path after the stencil part of the depth/stencil section. -/
def afterStencil (env : Env) (ptr : Nat) (s : State) : State :=
  (bindStencilState env (lastRecord env s) (env.pipelineObject ptr).stencilState
    (afterDepth env ptr s)).1

/-- The state of the full-diff path after the blend attachment loop. -/
def afterBlend (env : Env) (ptr : Nat) (s : State) : State :=
  (bindBlendAttachments env (lastRecord env s) 0
    (env.pipelineObject ptr).colorBlendState.attachments (afterStencil env ptr s)).1

end Cmd

/-! ## Driver state the layer mirrors, and the history of a call sequence -/

/-- Whether a call changes driver state that the layer mirrors in a flag or a mask: debug
group push and pop, scissor-test enable and disable, and the write-mask calls. -/
def GLCall.isTrackedCall (c : GLCall) : Bool :=
  match c with
  | GLCall.glPushDebugGroup _ | GLCall.glPopDebugGroup
  | GLCall.glEnable GLCap.SCISSOR_TEST | GLCall.glDisable GLCap.SCISSOR_TEST
  | GLCall.glDepthMask _ | GLCall.glStencilMask _ | GLCall.glStencilMaskSeparate _ _
  | GLCall.glColorMaski _ _ _ _ _ => true
  | _ => false

/-- No call of the list changes mirrored driver state. -/
def Untracked (l : List GLCall) : Prop := ∀ c ∈ l, c.isTrackedCall = false

/-- Whether a call begins or ends a render pass. -/
def Op.isRenderPassBoundary (op : Op) : Bool :=
  match op with
  | Op.BeginRendering _ | Op.BeginSwapchainRendering _ | Op.EndRendering => true
  | _ => false

def Op.isBindIndexBuffer (op : Op) : Bool :=
  match op with
  | Op.BindIndexBuffer _ _ => true
  | _ => false

def Op.isSetScissor (op : Op) : Bool :=
  match op with
  | Op.SetScissor _ => true
  | _ => false

/-- The indexed draw commands. -/
def Op.isIndexedDraw (op : Op) : Bool :=
  match op with
  | Op.DrawIndexed _ _ _ _ _ | Op.DrawIndexedIndirect _ _ _ _
  | Op.DrawIndexedIndirectCount _ _ _ _ _ _ => true
  | _ => false

/-- The commands that change no state of the layer: draws, dispatches, resource binds and
`BindVertexBuffer`. -/
def Op.isInertCommand (op : Op) : Bool :=
  match op with
  | Op.Draw _ _ _ _ | Op.DrawIndexed _ _ _ _ _ | Op.DrawIndirect _ _ _ _
  | Op.DrawIndirectCount _ _ _ _ _ _ | Op.DrawIndexedIndirect _ _ _ _
  | Op.DrawIndexedIndirectCount _ _ _ _ _ _ | Op.BindVertexBuffer _ _ _ _
  | Op.BindUniformBuffer _ _ _ _ | Op.BindStorageBuffer _ _ _ _ | Op.BindSampledImage _ _ _
  | Op.BindImage _ _ _ | Op.Dispatch _ _ _ | Op.DispatchIndirect _ _ => true
  | _ => false

/-- Whether a call for which `isCall` holds occurs in the sequence after its last render
pass begin or end (from the start of the sequence when there is none). -/
def calledInPass (isCall : Op → Bool) (ops : List Op) : Bool :=
  ops.foldl (fun b op => if op.isRenderPassBoundary then false else isCall op || b) false

/-- The transient flags are at their defaults outside the passes they belong to: with no
render pass open the scissor and index-buffer flags are off, and with no pass open at all
both debug-group flags are off. -/
def Clean (s : State) : Prop :=
  (s.isRendering = false → s.sScissorEnabled = false ∧ s.isIndexBufferBound = false) ∧
  (s.isRendering = false → s.isComputeActive = false →
    s.isScopedDebugGroupPushed = false ∧ s.isPipelineDebugGroupPushed = false)

/-- The flags `isIndexBufferBound` and `sScissorEnabled` record whether `BindIndexBuffer`
and `SetScissor` were called since the last render pass begin or end. -/
def FlagsFollow (s : State) (ops : List Op) : Prop :=
  s.isIndexBufferBound = calledInPass Op.isBindIndexBuffer ops ∧
  s.sScissorEnabled = calledInPass Op.isSetScissor ops
namespace Sample

/-- A render pass in which pipeline 1 and an index buffer are bound. -/
def indexedPass : List Op :=
  [Op.BeginRendering renderInfo, Op.BindGraphicsPipeline 1,
   Op.BindIndexBuffer 5 IndexType.UNSIGNED_SHORT]

/-- The state and trace `indexedPass` leaves when run from program start. -/
def indexedPassResult : State × List GLCall :=
  (run env indexedPass (State.initial env)).getD (State.initial env, [])

/-- The pass `indexedPass`, its end, and the begin of a second render pass. -/
def indexedPassThenNext : List Op :=
  indexedPass ++ [Op.EndRendering, Op.BeginRendering renderInfo, Op.BindGraphicsPipeline 1]

/-- The state and trace `indexedPassThenNext` leaves when run from program start. -/
def indexedPassThenNextResult : State × List GLCall :=
  (run env indexedPassThenNext (State.initial env)).getD (State.initial env, [])

end Sample
/-! ## What a trace tells about the mirrored driver state -/

/-- The number of debug-group pushes of a trace. -/
def debugPushes (trace : List GLCall) : Nat :=
  trace.countP (fun c =>
    match c with
    | GLCall.glPushDebugGroup _ => true
    | _ => false)

/-- The number of debug-group pops of a trace. -/
def debugPops (trace : List GLCall) : Nat :=
  trace.countP (fun c =>
    match c with
    | GLCall.glPopDebugGroup => true
    | _ => false)

/-- The number of the two debug-group flags that are set. -/
def debugGroupsPushed (scopedPushed pipelinePushed : Bool) : Nat :=
  (if scopedPushed then 1 else 0) + (if pipelinePushed then 1 else 0)

/-- A scissor-test enable (`true`) or disable (`false`). -/
def GLCall.scissorToggleOf (c : GLCall) : Option Bool :=
  match c with
  | GLCall.glEnable GLCap.SCISSOR_TEST => some true
  | GLCall.glDisable GLCap.SCISSOR_TEST => some false
  | _ => none

/-- The scissor-test enables and disables of a trace, in order. -/
def scissorToggles (trace : List GLCall) : List Bool :=
  trace.filterMap GLCall.scissorToggleOf

/-- Whether the scissor test is enabled in the driver after a trace: what the last toggle
set; disabled (the driver's initial value) when there is none. -/
def scissorTestOn (trace : List GLCall) : Bool :=
  (scissorToggles trace).getLast?.getD false

/-- The argument of a depth-mask call. -/
def GLCall.depthMaskOf (c : GLCall) : Option Bool :=
  match c with
  | GLCall.glDepthMask flag => some flag
  | _ => none

/-- The mask a stencil-mask call sets for a face: `glStencilMask` sets both faces,
`glStencilMaskSeparate` the named one. -/
def GLCall.stencilMaskOf (face : GLFace) (c : GLCall) : Option Nat :=
  match c with
  | GLCall.glStencilMask mask => some mask
  | GLCall.glStencilMaskSeparate f mask => if f = face then some mask else none
  | _ => none

/-- The component set a colour-mask call sets for attachment `i`. -/
def GLCall.colorMaskOf (i : Nat) (c : GLCall) : Option (Bool × Bool × Bool × Bool) :=
  match c with
  | GLCall.glColorMaski buf r g b a => if buf = i then some (r, g, b, a) else none
  | _ => none

/-- The argument of the depth-mask call most recently issued, if any. -/
def lastDepthMask (trace : List GLCall) : Option Bool :=
  (trace.filterMap GLCall.depthMaskOf).getLast?

/-- The stencil mask most recently issued for a face, if any. -/
def lastStencilMask (face : GLFace) (trace : List GLCall) : Option Nat :=
  (trace.filterMap (GLCall.stencilMaskOf face)).getLast?

/-- The component set most recently issued for attachment `i`, if any. -/
def lastColorMask (i : Nat) (trace : List GLCall) : Option (Bool × Bool × Bool × Bool) :=
  (trace.filterMap (GLCall.colorMaskOf i)).getLast?

/-- The red, green, blue and alpha components a colour write mask holds, as
`BindGraphicsPipeline` passes them to `glColorMaski` (lines 835-839). -/
def componentBits (mask : ColorComponentFlags) : Bool × Bool × Bool × Bool :=
  (decide (mask &&& ColorComponentFlag.R_BIT ≠ ColorComponentFlag.NONE),
   decide (mask &&& ColorComponentFlag.G_BIT ≠ ColorComponentFlag.NONE),
   decide (mask &&& ColorComponentFlag.B_BIT ≠ ColorComponentFlag.NONE),
   decide (mask &&& ColorComponentFlag.A_BIT ≠ ColorComponentFlag.NONE))

/-- The flags and masks of the state that mirror driver state. -/
structure Tracked where
  scopedPushed : Bool
  pipelinePushed : Bool
  scissorEnabled : Bool
  depthMask : Bool
  stencilMask0 : Nat
  stencilMask1 : Nat
  colorMask : Nat → ColorComponentFlags

/-- The mirrored flags and masks of a state. -/
def State.tracked (s : State) : Tracked :=
  { scopedPushed := s.isScopedDebugGroupPushed
    pipelinePushed := s.isPipelineDebugGroupPushed
    scissorEnabled := s.sScissorEnabled
    depthMask := s.sLastDepthMask
    stencilMask0 := s.sLastStencilMask0
    stencilMask1 := s.sLastStencilMask1
    colorMask := s.sLastColorMask }

/-- The mirrored flags and masks agree with the calls issued so far: the debug-group pushes
exceed the pops by the number of flags set; the scissor toggles alternate, begin with an
enable and end in the state the flag holds; each write mask for which a mask call has been
issued holds what the last such call set. -/
def SyncedT (k : Tracked) (t : List GLCall) : Prop :=
  debugPushes t = debugPops t + debugGroupsPushed k.scopedPushed k.pipelinePushed ∧
  (scissorToggles t).Chain' (fun a b => a ≠ b) ∧
  (scissorToggles t).head? ≠ some false ∧
  scissorTestOn t = k.scissorEnabled ∧
  (∀ b, lastDepthMask t = some b → k.depthMask = b) ∧
  (∀ m, lastStencilMask GLFace.FRONT t = some m → k.stencilMask0 = m) ∧
  (∀ m, lastStencilMask GLFace.BACK t = some m → k.stencilMask1 = m) ∧
  (∀ i q, lastColorMask i t = some q → componentBits (k.colorMask i) = q)

/-- The mirrored flags and masks of a state agree with a trace. -/
def Synced (s : State) (t : List GLCall) : Prop := SyncedT s.tracked t
namespace Sample

/-- The pass `busyPass` and its end. -/
def busyPassEnded : List Op := busyPass ++ [Op.EndRendering]

/-- The state and trace `busyPassEnded` leaves when run from program start, in `env2`. -/
def busyPassEndedResult : State × List GLCall :=
  (run env2 busyPassEnded (State.initial env2)).getD (State.initial env2, [])

/-- A render pass that binds pipeline 3 (no depth writes), pipeline 10 (stencil write mask
255) and pipeline 11 (two blend attachments, the first writing red only). -/
def maskPass : List Op :=
  [Op.BeginRendering renderInfoClearAll, Op.BindGraphicsPipeline 3, Op.BindGraphicsPipeline 10,
   Op.BindGraphicsPipeline 11]

/-- The state and trace `maskPass` leaves when run from program start, in `env2`. -/
def maskPassResult : State × List GLCall :=
  (run env2 maskPass (State.initial env2)).getD (State.initial env2, [])

end Sample
/-- No call of the list enables or disables the scissor test. -/
def ScissorFree (l : List GLCall) : Prop := ∀ c ∈ l, c.scissorToggleOf = none

/-- Whether a call is `EndRendering`. -/
def Op.isEndRendering (op : Op) : Bool :=
  match op with
  | Op.EndRendering => true
  | _ => false

/-! ## Texture views (Texture.cpp) -/

/-- `Fwog::TextureViewCreateInfo` (Texture.h). -/
structure TextureViewCreateInfo where
  viewType : ImageType
  format : Format
  minLevel : Nat
  numLevels : Nat
  minLayer : Nat
  numLayers : Nat
deriving DecidableEq

/-- `Fwog::TextureView`: the base class `Texture` (`id_`, `createInfo_`) and `viewInfo_`. -/
structure TextureView extends Texture where
  viewInfo_ : TextureViewCreateInfo
deriving DecidableEq

/-- The driver calls of the view creation functions of Texture.cpp. -/
inductive TextureCall where
  | glGenTextures (texture : Nat)
  | glTextureView (texture : Nat) (target : GLenum) (origtexture : Nat)
      (internalformat : GLenum) (minlevel numlevels minlayer numlayers : Nat)
  | glObjectLabel (texture : Nat) (label : String)
deriving DecidableEq

/-- `TextureView::Create(const TextureViewCreateInfo&, const Texture&, std::string_view)`
(Texture.cpp lines 182-197). `newName` is the name `glGenTextures` writes to `view.id_`;
`ImageTypeToGL` is `detail::ImageTypeToGL`. The function returns a view in every case. -/
def TextureView.Create_Texture (env : Env) (ImageTypeToGL : ImageType → GLenum) (newName : Nat)
    (viewInfo : TextureViewCreateInfo) (texture : Texture) (name : String) :
    Option TextureView × List TextureCall :=
  let view : TextureView :=
    { id_ := newName, createInfo_ := texture.createInfo_, viewInfo_ := viewInfo }
  (some view,
    [TextureCall.glGenTextures view.id_,
     TextureCall.glTextureView view.id_ (ImageTypeToGL viewInfo.viewType) texture.id_
       (env.FormatToGL viewInfo.format) viewInfo.minLevel viewInfo.numLevels viewInfo.minLayer
       viewInfo.numLayers] ++
    (if name ≠ "" then [TextureCall.glObjectLabel view.id_ name] else []))

/-- `TextureView::Create(const TextureViewCreateInfo&, const TextureView&, std::string_view)`
(Texture.cpp lines 199-210). Line 201 is `auto view = Create(viewInfo, textureView, name);`:
the second argument has type `const TextureView&`, for which this overload is an exact match
while the `const Texture&` overload needs a derived-to-base conversion, so the call is to
this function itself, with the same arguments. `fuel` bounds the depth of nested calls; the
result is `none` when the call has not returned within that depth, and otherwise the
returned `std::optional<TextureView>` with the calls issued. Lines 202-208 overwrite the
create info of the view returned by the nested call; `sampleCount` is not named in the
initialiser and takes its default `{}`. -/
def TextureView.Create_TextureView (fuel : Nat) (viewInfo : TextureViewCreateInfo)
    (textureView : TextureView) (name : String) :
    Option (Option TextureView × List TextureCall) :=
  match fuel with
  | 0 => none
  | fuel + 1 =>
    match TextureView.Create_TextureView fuel viewInfo textureView name with
    | none => none
    | some (view, calls) =>
      some (view.map (fun v =>
        { v with
          createInfo_ :=
            { imageType := textureView.viewInfo_.viewType
              format := textureView.viewInfo_.format
              extent := textureView.createInfo_.extent
              mipLevels := textureView.viewInfo_.numLevels
              arrayLayers := textureView.viewInfo_.numLayers
              sampleCount := 0 } }), calls)
/-! ## Viewport calls and stencil writes of a trace -/

/-- Whether a call sets part of the viewport: the rectangle, the depth range or the clip
convention. -/
def GLCall.isViewportCall (c : GLCall) : Bool :=
  match c with
  | GLCall.glViewport _ _ _ _ | GLCall.glDepthRangef _ _ | GLCall.glClipControl _ => true
  | _ => false

/-- The viewport calls of a trace, in order. -/
def viewportCalls (trace : List GLCall) : List GLCall :=
  trace.filter GLCall.isViewportCall

/-- Whether a call sets the stencil write mask, of both faces or of one. -/
def GLCall.isStencilMaskCall (c : GLCall) : Bool :=
  match c with
  | GLCall.glStencilMask _ | GLCall.glStencilMaskSeparate _ _ => true
  | _ => false

/-- Whether a call clears the stencil buffer, alone or together with the depth buffer. -/
def GLCall.isStencilClear (c : GLCall) : Bool :=
  match c with
  | GLCall.glClearNamedFramebufferfi _ _ _ _
  | GLCall.glClearNamedFramebufferfv _ GLClearBuffer.STENCIL _ _
  | GLCall.glClearNamedFramebufferiv _ GLClearBuffer.STENCIL _ _
  | GLCall.glClearNamedFramebufferuiv _ GLClearBuffer.STENCIL _ _ => true
  | _ => false

/-- Whether a call sets the stencil write mask or clears the stencil buffer. -/
def GLCall.isStencilWrite (c : GLCall) : Bool :=
  c.isStencilMaskCall || c.isStencilClear

/-- The stencil write mask calls and stencil clears of a trace, in order. -/
def stencilWrites (trace : List GLCall) : List GLCall :=
  trace.filter GLCall.isStencilWrite

/-- Whether a call is a viewport call, a stencil mask call or a stencil clear. -/
def GLCall.isViewportOrStencilWrite (c : GLCall) : Bool :=
  c.isViewportCall || c.isStencilWrite

/-- No call of the list sets the viewport, sets the stencil write mask or clears the
stencil buffer. -/
def Bystander (l : List GLCall) : Prop := ∀ c ∈ l, c.isViewportOrStencilWrite = false

/-- The three viewport calls for `viewport`: rectangle, depth range, clip convention. -/
def allViewportCalls (env : Env) (viewport : Viewport) : List GLCall :=
  [GLCall.glViewport viewport.drawRect.offset.x viewport.drawRect.offset.y
     viewport.drawRect.extent.width viewport.drawRect.extent.height,
   GLCall.glDepthRangef viewport.minDepth viewport.maxDepth,
   GLCall.glClipControl (env.DepthRangeToGL viewport.depthRange)]

/-- The viewport calls the claim asks for when `viewport` replaces `last`: the rectangle call
if and only if the draw rectangle differs, the depth-range call if and only if `minDepth` or
`maxDepth` differs (as floats, by `!=`), the clip-control call if and only if the
depth-range convention differs. -/
def viewportChangeCalls (env : Env) (viewport last : Viewport) : List GLCall :=
  (if viewport.drawRect ≠ last.drawRect then
      [GLCall.glViewport viewport.drawRect.offset.x viewport.drawRect.offset.y
        viewport.drawRect.extent.width viewport.drawRect.extent.height]
    else []) ++
  (if viewport.minDepth.fne last.minDepth ∨ viewport.maxDepth.fne last.maxDepth then
      [GLCall.glDepthRangef viewport.minDepth viewport.maxDepth]
    else []) ++
  (if viewport.depthRange ≠ last.depthRange then
      [GLCall.glClipControl (env.DepthRangeToGL viewport.depthRange)]
    else [])

/-- Whether a call begins a render pass. -/
def Op.isRenderPassBegin (op : Op) : Bool :=
  match op with
  | Op.BeginRendering _ | Op.BeginSwapchainRendering _ => true
  | _ => false

/-- The stencil write mask call of a stencil clear-on-load as the claim describes it: one
`glStencilMask(1)` if a tracked face mask is zero, none otherwise. -/
def stencilMaskBeforeClear (s : State) : List GLCall :=
  if s.sLastStencilMask0 = 0 ∨ s.sLastStencilMask1 = 0 then [GLCall.glStencilMask 1] else []
/-- What the claim says of a stencil clear-on-load that starts in state `s`, ends in state
`t` and emits the calls `l`: the stencil writes of `l` are one `glStencilMask(1)` if a
tracked face mask of `s` is zero, and then the one stencil clear; in that case both tracked
masks of `t` are one, otherwise they are those of `s`; in either case both are non-zero. -/
def StencilClearOnLoad (s t : State) (l : List GLCall) : Prop :=
  (∃ clear, clear.isStencilClear = true ∧
    stencilWrites l = stencilMaskBeforeClear s ++ [clear]) ∧
  (s.sLastStencilMask0 = 0 ∨ s.sLastStencilMask1 = 0 →
    t.sLastStencilMask0 = 1 ∧ t.sLastStencilMask1 = 1) ∧
  (s.sLastStencilMask0 ≠ 0 ∧ s.sLastStencilMask1 ≠ 0 →
    t.sLastStencilMask0 = s.sLastStencilMask0 ∧ t.sLastStencilMask1 = s.sLastStencilMask1) ∧
  t.sLastStencilMask0 ≠ 0 ∧ t.sLastStencilMask1 ≠ 0
namespace Sample

/-- The first render pass of the program, begun and still open. -/
def firstPass : List Op := [Op.BeginRendering renderInfo]

/-- The state and trace `firstPass` leaves when run from program start. -/
def firstPassResult : State × List GLCall :=
  (run env firstPass (State.initial env)).getD (State.initial env, [])

/-- A viewport whose lower depth bound is a NaN. -/
def viewportNaN : Viewport := { viewport with minDepth := GLfloat.nan }

/-- The first render pass of the program, in which the viewport `viewportNaN` is set. -/
def nanViewportPass : List Op := [Op.BeginRendering renderInfo, Op.SetViewport viewportNaN]

/-- The state and trace `nanViewportPass` leaves when run from program start. -/
def nanViewportPassResult : State × List GLCall :=
  (run env nanViewportPass (State.initial env)).getD (State.initial env, [])

/-- The first render pass of the program, begun and ended. -/
def firstPassEnded : List Op := [Op.BeginRendering renderInfo, Op.EndRendering]

/-- The state and trace `firstPassEnded` leaves when run from program start. -/
def firstPassEndedResult : State × List GLCall :=
  (run env firstPassEnded (State.initial env)).getD (State.initial env, [])

end Sample
namespace Sample

/-- Pipeline record 12: record 10 with the stencil write mask of the front face zero. -/
def pipeline12 : GraphicsPipelineInfoOwning :=
  { pipeline10 with stencilState :=
      { pipeline10.stencilState with
        front := { pipeline10.stencilState.front with writeMask := 0 } } }

/-- The environment `env2` with one more registered graphics pipeline, 12. -/
def env3 : Env :=
  { env2 with
    pipelineObject := fun addr => if addr = 12 then pipeline12 else pipelineObject2 addr
    GetGraphicsPipelineInternal :=
      fun h => if (1 ≤ h ∧ h ≤ 6) ∨ (8 ≤ h ∧ h ≤ 12) then some h else none }

/-- A render pass in which pipeline 12 is bound, begun and ended. -/
def stencilMaskedPass : List Op :=
  [Op.BeginRendering renderInfo, Op.BindGraphicsPipeline 12, Op.EndRendering]

/-- The state and trace `stencilMaskedPass` leaves when run from program start, in `env3`. -/
def stencilMaskedPassResult : State × List GLCall :=
  (run env3 stencilMaskedPass (State.initial env3)).getD (State.initial env3, [])

/-- A swapchain pass that clears the stencil buffer on load. -/
def swapchainClearStencilInfo : SwapchainRenderInfo :=
  { swapchainNoSrgb with clearStencilOnLoad := true }

end Sample

/-! ## The state a sub-step leaves -/

theorem enableDepthMask_fst (s : State) :
    (enableDepthMask s).1 = { s with sLastDepthMask := true } := by
  unfold enableDepthMask
  split
  · rfl
  · rename_i h
    cases s
    simp_all

theorem enableStencilMask_fst (s : State) :
    ∃ m0 m1, (enableStencilMask s).1 = { s with sLastStencilMask0 := m0, sLastStencilMask1 := m1 } := by
  unfold enableStencilMask
  split
  · exact ⟨1, 1, rfl⟩
  · exact ⟨s.sLastStencilMask0, s.sLastStencilMask1, rfl⟩

theorem enableColorMask_fst (i : Nat) (s : State) :
    ∃ m, (enableColorMask i s).1 = { s with sLastColorMask := m } := by
  unfold enableColorMask
  split
  · exact ⟨_, rfl⟩
  · exact ⟨s.sLastColorMask, rfl⟩

theorem pushScopedDebugGroup_fst (name : String) (s : State) :
    ∃ b, (pushScopedDebugGroup name s).1 = { s with isScopedDebugGroupPushed := b } := by
  unfold pushScopedDebugGroup
  split
  · exact ⟨_, rfl⟩
  · exact ⟨s.isScopedDebugGroupPushed, rfl⟩

theorem debugZeroResourceBindings_fst (env : Env) (s : State) :
    ∃ a b c d e, (debugZeroResourceBindings env s).1 =
      { s with sFirstRun := a, sMaxImageUnits := b, sMaxShaderStorageBlocks := c,
               sMaxUniformBlocks := d, sMaxCombinedTextureImageUnits := e } := by
  unfold debugZeroResourceBindings ZeroResourceBindings
  split
  · split
    · exact ⟨_, _, _, _, _, rfl⟩
    · exact ⟨s.sFirstRun, s.sMaxImageUnits, s.sMaxShaderStorageBlocks, s.sMaxUniformBlocks,
        s.sMaxCombinedTextureImageUnits, rfl⟩
  · exact ⟨s.sFirstRun, s.sMaxImageUnits, s.sMaxShaderStorageBlocks, s.sMaxUniformBlocks,
        s.sMaxCombinedTextureImageUnits, rfl⟩

theorem popDebugGroups_fst (s : State) :
    (popDebugGroups s).1 =
      { s with isScopedDebugGroupPushed := false, isPipelineDebugGroupPushed := false } := by
  unfold popDebugGroups
  cases s
  simp only
  split <;> split <;> simp_all

theorem clearColorAttachments_fst (env : Env) (fbo : Nat) (atts : List RenderColorAttachment) :
    ∀ (i : Nat) (s : State) (r : State × List GLCall),
      clearColorAttachments env fbo i atts s = some r →
      ∃ m, r.1 = { s with sLastColorMask := m } := by
  induction atts with
  | nil =>
    intro i s r h
    simp [clearColorAttachments] at h
    subst h
    exact ⟨s.sLastColorMask, rfl⟩
  | cons a rest ih =>
    intro i s r h
    unfold clearColorAttachments at h
    split at h
    · obtain ⟨m, hm⟩ := enableColorMask_fst i s
      split at h
      all_goals first
        | (simp only [Option.map_eq_some'] at h
           obtain ⟨r2, h2, rfl⟩ := h
           obtain ⟨m2, hm2⟩ := ih _ _ _ h2
           rw [hm2, hm]
           exact ⟨m2, rfl⟩)
        | exact absurd h (by simp)
    · exact ih _ _ _ h

theorem clearDepthStencil_fst (ri : RenderInfo) (fbo : Nat) (s : State) :
    ∃ d m0 m1, (clearDepthStencil ri fbo s).1 =
      { s with sLastDepthMask := d, sLastStencilMask0 := m0, sLastStencilMask1 := m1 } := by
  have hs : ∀ t : State, ∃ d m0 m1, (enableStencilMask t).1 =
      { t with sLastDepthMask := d, sLastStencilMask0 := m0, sLastStencilMask1 := m1 } := by
    intro t
    obtain ⟨m0, m1, h⟩ := enableStencilMask_fst t
    exact ⟨t.sLastDepthMask, m0, m1, h⟩
  have hd : ∀ t : State, ∃ d m0 m1, (enableDepthMask t).1 =
      { t with sLastDepthMask := d, sLastStencilMask0 := m0, sLastStencilMask1 := m1 } := by
    intro t
    exact ⟨true, t.sLastStencilMask0, t.sLastStencilMask1, enableDepthMask_fst t⟩
  have hb : ∃ d m0 m1, (enableStencilMask (enableDepthMask s).1).1 =
      { s with sLastDepthMask := d, sLastStencilMask0 := m0, sLastStencilMask1 := m1 } := by
    obtain ⟨m0, m1, h⟩ := enableStencilMask_fst (enableDepthMask s).1
    rw [h, enableDepthMask_fst]
    exact ⟨true, m0, m1, rfl⟩
  have h0 : ∃ d m0 m1, s =
      { s with sLastDepthMask := d, sLastStencilMask0 := m0, sLastStencilMask1 := m1 } :=
    ⟨s.sLastDepthMask, s.sLastStencilMask0, s.sLastStencilMask1, rfl⟩
  unfold clearDepthStencil
  split
  · split
    · exact hb
    · split
      · exact hd s
      · split
        · exact hs s
        · exact h0
  · split
    · exact hd s
    · exact h0
  · split
    · exact hs s
    · exact h0
  · exact h0

theorem clearColorAttachments_isSome (env : Env) (fbo : Nat) (atts : List RenderColorAttachment) :
    ∀ (i : Nat) (s : State),
      (clearColorAttachments env fbo i atts s).isSome = true ↔
        ∀ a ∈ atts, a.clearOnLoad = true →
          clearValueMatches (env.FormatToBaseTypeClass a.texture.createInfo_.format)
            a.clearValue = true := by
  induction atts with
  | nil => intro i s; simp [clearColorAttachments]
  | cons a rest ih =>
    intro i s
    unfold clearColorAttachments
    cases hc : a.clearOnLoad with
    | false => simp [hc, ih]
    | true =>
      simp only [if_true, List.mem_cons, forall_eq_or_imp, hc, forall_true_left]
      cases hb : env.FormatToBaseTypeClass a.texture.createInfo_.format <;>
        cases hv : a.clearValue <;>
        simp [clearValueMatches, ih]

theorem BeginRendering_fst (env : Env) (ri : RenderInfo) (s : State) (r : State × List GLCall)
    (h : BeginRendering env ri s = some r) :
    ∃ a b c d e g fc fb m dm m0 m1,
      r.1 = { s with
        isRendering := true, sFirstRun := a, sMaxImageUnits := b,
        sMaxShaderStorageBlocks := c, sMaxUniformBlocks := d,
        sMaxCombinedTextureImageUnits := e, sLastRenderInfo := some ri,
        isScopedDebugGroupPushed := g, sFboCache := fc, sFbo := fb, sLastColorMask := m,
        sLastDepthMask := dm, sLastStencilMask0 := m0, sLastStencilMask1 := m1,
        sLastViewport := renderViewport env ri, sInitViewport := false } := by
  unfold BeginRendering at h
  split at h
  · exact absurd h (by simp)
  split at h
  · exact absurd h (by simp)
  simp only at h
  split at h
  · exact absurd h (by simp)
  rename_i r4 h4
  injection h with h
  subst h
  simp only
  obtain ⟨d, m0, m1, h5⟩ := clearDepthStencil_fst ri r4.1.sFbo r4.1
  obtain ⟨m, hm⟩ := clearColorAttachments_fst _ _ _ _ _ _ h4
  rw [h5, hm]
  unfold CreateOrGetCachedFramebuffer
  simp only
  obtain ⟨g, hg⟩ := pushScopedDebugGroup_fst ri.name
    { (debugZeroResourceBindings env { s with isRendering := true }).1 with
      sLastRenderInfo := some ri }
  rw [hg]
  obtain ⟨a, b, c, d2, e, hz⟩ := debugZeroResourceBindings_fst env { s with isRendering := true }
  rw [hz]
  exact ⟨_, _, _, _, _, _, _, _, _, _, _, _, rfl⟩

theorem BeginRendering_isSome (env : Env) (ri : RenderInfo) (s : State) :
    (BeginRendering env ri s).isSome = true ↔
      s.isRendering = false ∧ s.isComputeActive = false ∧
        ∀ a ∈ ri.colorAttachments, a.clearOnLoad = true →
          clearValueMatches (env.FormatToBaseTypeClass a.texture.createInfo_.format)
            a.clearValue = true := by
  have key := fun fbo t => clearColorAttachments_isSome env fbo ri.colorAttachments 0 t
  unfold BeginRendering
  split
  · rename_i h; simp [h]
  split
  · rename_i h; simp [h]
  rename_i h1 h2
  simp only []
  split
  · rename_i hc
    have hk := congrArg Option.isSome hc
    rw [Option.isSome_none, Bool.eq_false_iff, Ne, key] at hk
    simp only [Option.isSome_none, Bool.false_eq_true, false_iff]
    exact fun hh => hk hh.2.2
  · rename_i r4 hc
    have hk := congrArg Option.isSome hc
    rw [Option.isSome_some, key] at hk
    simp only [Option.isSome_some, true_iff]
    exact ⟨by simpa using h1, by simpa using h2, hk⟩

theorem swapchainClearColor_fst (ri : SwapchainRenderInfo) (s : State)
    (r : State × List GLCall) (h : swapchainClearColor ri s = some r) :
    ∃ m, r.1 = { s with sLastColorMask := m } := by
  unfold swapchainClearColor at h
  split at h
  · split at h
    · injection h with h
      subst h
      exact enableColorMask_fst 0 s
    · exact absurd h (by simp)
  · injection h with h
    subst h
    exact ⟨_, rfl⟩

theorem swapchainClearDepth_fst (ri : SwapchainRenderInfo) (s : State) :
    ∃ dm, (swapchainClearDepth ri s).1 = { s with sLastDepthMask := dm } := by
  unfold swapchainClearDepth
  split
  · exact ⟨true, enableDepthMask_fst s⟩
  · exact ⟨s.sLastDepthMask, rfl⟩

theorem swapchainClearStencil_fst (ri : SwapchainRenderInfo) (s : State) :
    ∃ m0 m1, (swapchainClearStencil ri s).1 =
      { s with sLastStencilMask0 := m0, sLastStencilMask1 := m1 } := by
  unfold swapchainClearStencil
  split
  · exact enableStencilMask_fst s
  · exact ⟨s.sLastStencilMask0, s.sLastStencilMask1, rfl⟩

theorem swapchainDisableSrgb_fst (ri : SwapchainRenderInfo) (s : State) :
    ∃ sd, (swapchainDisableSrgb ri s).1 = { s with srgbWasDisabled := sd } := by
  unfold swapchainDisableSrgb
  split
  · exact ⟨true, rfl⟩
  · exact ⟨s.srgbWasDisabled, rfl⟩

theorem BeginSwapchainRendering_fst (env : Env) (ri : SwapchainRenderInfo) (s : State)
    (r : State × List GLCall) (h : BeginSwapchainRendering env ri s = some r) :
    ∃ a b c d e g m dm m0 m1 sd,
      r.1 = { s with
        isRendering := true, isRenderingToSwapchain := true, sLastRenderInfo := none,
        sFirstRun := a, sMaxImageUnits := b, sMaxShaderStorageBlocks := c,
        sMaxUniformBlocks := d, sMaxCombinedTextureImageUnits := e,
        isScopedDebugGroupPushed := g, sLastColorMask := m, sLastDepthMask := dm,
        sLastStencilMask0 := m0, sLastStencilMask1 := m1, srgbWasDisabled := sd,
        sLastViewport := ri.viewport, sInitViewport := false } := by
  unfold BeginSwapchainRendering at h
  split at h
  · exact absurd h (by simp)
  split at h
  · exact absurd h (by simp)
  simp only at h
  split at h
  · exact absurd h (by simp)
  rename_i r4 h4
  injection h with h
  subst h
  simp only
  obtain ⟨a, b, c, d2, e, hz⟩ := debugZeroResourceBindings_fst env
      { s with isRendering := true, isRenderingToSwapchain := true, sLastRenderInfo := none }
  obtain ⟨g, hg⟩ := pushScopedDebugGroup_fst ri.name (debugZeroResourceBindings env
      { s with isRendering := true, isRenderingToSwapchain := true,
               sLastRenderInfo := none }).1
  obtain ⟨m, hm⟩ := swapchainClearColor_fst ri _ r4 h4
  obtain ⟨dm, hdm⟩ := swapchainClearDepth_fst ri r4.1
  obtain ⟨m0, m1, hst⟩ := swapchainClearStencil_fst ri (swapchainClearDepth ri r4.1).1
  obtain ⟨sd, hsd⟩ := swapchainDisableSrgb_fst ri
    (swapchainClearStencil ri (swapchainClearDepth ri r4.1).1).1
  have e2 : (pushScopedDebugGroup ri.name (debugZeroResourceBindings env
      { s with isRendering := true, isRenderingToSwapchain := true,
               sLastRenderInfo := none }).1).1 =
      { s with isRendering := true, isRenderingToSwapchain := true, sLastRenderInfo := none,
               sFirstRun := a, sMaxImageUnits := b, sMaxShaderStorageBlocks := c,
               sMaxUniformBlocks := d2, sMaxCombinedTextureImageUnits := e,
               isScopedDebugGroupPushed := g } := by
    rw [hg, hz]
  have e4 : r4.1 =
      { s with isRendering := true, isRenderingToSwapchain := true, sLastRenderInfo := none,
               sFirstRun := a, sMaxImageUnits := b, sMaxShaderStorageBlocks := c,
               sMaxUniformBlocks := d2, sMaxCombinedTextureImageUnits := e,
               isScopedDebugGroupPushed := g, sLastColorMask := m } := by
    rw [hm, e2]
  have e5 : (swapchainClearDepth ri r4.1).1 =
      { s with isRendering := true, isRenderingToSwapchain := true, sLastRenderInfo := none,
               sFirstRun := a, sMaxImageUnits := b, sMaxShaderStorageBlocks := c,
               sMaxUniformBlocks := d2, sMaxCombinedTextureImageUnits := e,
               isScopedDebugGroupPushed := g, sLastColorMask := m, sLastDepthMask := dm } := by
    rw [hdm, e4]
  have e6 : (swapchainClearStencil ri (swapchainClearDepth ri r4.1).1).1 =
      { s with isRendering := true, isRenderingToSwapchain := true, sLastRenderInfo := none,
               sFirstRun := a, sMaxImageUnits := b, sMaxShaderStorageBlocks := c,
               sMaxUniformBlocks := d2, sMaxCombinedTextureImageUnits := e,
               isScopedDebugGroupPushed := g, sLastColorMask := m, sLastDepthMask := dm,
               sLastStencilMask0 := m0, sLastStencilMask1 := m1 } := by
    rw [hst, e5]
  rw [hsd, e6]
  exact ⟨_, _, _, _, _, _, _, _, _, _, _, rfl⟩

theorem BeginSwapchainRendering_isSome (env : Env) (ri : SwapchainRenderInfo) (s : State) :
    (BeginSwapchainRendering env ri s).isSome = true ↔
      s.isRendering = false ∧ s.isComputeActive = false ∧
        (ri.clearColorOnLoad = true → ri.clearColorValue.isFloat = true) := by
  have key : ∀ t : State, (swapchainClearColor ri t).isSome = true ↔
      (ri.clearColorOnLoad = true → ri.clearColorValue.isFloat = true) := by
    intro t
    unfold swapchainClearColor
    cases hc : ri.clearColorOnLoad
    · simp
    · cases hv : ri.clearColorValue <;> simp [ClearColorValue.isFloat]
  unfold BeginSwapchainRendering
  split
  · rename_i h; simp [h]
  split
  · rename_i h; simp [h]
  rename_i h1 h2
  simp only []
  split
  · rename_i hc
    have hk := congrArg Option.isSome hc
    rw [Option.isSome_none, Bool.eq_false_iff, Ne, key] at hk
    simp only [Option.isSome_none, Bool.false_eq_true, false_iff]
    exact fun hh => hk hh.2.2
  · rename_i r4 hc
    have hk := congrArg Option.isSome hc
    rw [Option.isSome_some, key] at hk
    simp only [Option.isSome_some, true_iff]
    exact ⟨by simpa using h1, by simpa using h2, hk⟩

theorem BeginCompute_eq (env : Env) (name : String) (s : State) :
    BeginCompute env name s =
      if s.isRendering = false ∧ s.isComputeActive = false then
        some ((pushScopedDebugGroup name (debugZeroResourceBindings env
            { s with isComputeActive := true }).1).1,
          (debugZeroResourceBindings env { s with isComputeActive := true }).2 ++
            (pushScopedDebugGroup name (debugZeroResourceBindings env
              { s with isComputeActive := true }).1).2)
      else none := by
  unfold BeginCompute
  cases s.isRendering <;> cases s.isComputeActive <;> simp

theorem BeginCompute_fst (env : Env) (name : String) (s : State) (r : State × List GLCall)
    (h : BeginCompute env name s = some r) :
    ∃ a b c d e g,
      r.1 = { s with
        isComputeActive := true, sFirstRun := a, sMaxImageUnits := b,
        sMaxShaderStorageBlocks := c, sMaxUniformBlocks := d,
        sMaxCombinedTextureImageUnits := e, isScopedDebugGroupPushed := g } := by
  rw [BeginCompute_eq] at h
  split at h
  · injection h with h
    subst h
    simp only
    obtain ⟨g, hg⟩ := pushScopedDebugGroup_fst name (debugZeroResourceBindings env
      { s with isComputeActive := true }).1
    rw [hg]
    obtain ⟨a, b, c, d2, e, hz⟩ := debugZeroResourceBindings_fst env
      { s with isComputeActive := true }
    rw [hz]
    exact ⟨_, _, _, _, _, _, rfl⟩
  · exact absurd h (by simp)

theorem EndRendering_fst (s : State) (r : State × List GLCall) (h : EndRendering s = some r) :
    s.isRendering = true ∧
    r.1 = { s with
      isRendering := false, isIndexBufferBound := false, isRenderingToSwapchain := false,
      isScopedDebugGroupPushed := false, isPipelineDebugGroupPushed := false,
      sScissorEnabled := false } := by
  unfold EndRendering at h
  split at h
  · exact absurd h (by simp)
  rename_i h1
  injection h with h
  subst h
  refine ⟨by simpa using h1, ?_⟩
  simp only
  rw [popDebugGroups_fst]
  cases hsc : s.sScissorEnabled
  · simp only [Bool.false_eq_true, if_false]
  · simp only [if_true]

theorem EndCompute_fst (s : State) (r : State × List GLCall) (h : EndCompute s = some r) :
    s.isComputeActive = true ∧
    r.1 = { s with
      isComputeActive := false, isScopedDebugGroupPushed := false,
      isPipelineDebugGroupPushed := false } := by
  unfold EndCompute at h
  split at h
  · exact absurd h (by simp)
  rename_i h1
  injection h with h
  subst h
  refine ⟨by simpa using h1, ?_⟩
  simp only
  rw [popDebugGroups_fst]

namespace Cmd

theorem bindPipelineDebugGroup_fst (name : String) (s : State) :
    ∃ g, (bindPipelineDebugGroup name s).1 = { s with isPipelineDebugGroupPushed := g } := by
  unfold bindPipelineDebugGroup
  simp only
  split <;> split <;>
    first
      | exact ⟨true, rfl⟩
      | exact ⟨false, rfl⟩
      | exact ⟨s.isPipelineDebugGroupPushed, rfl⟩

theorem bindVertexInput_fst (env : Env) (vis : VertexInputStateOwning) (s : State) :
    (bindVertexInput env vis s).1 =
      { s with sVaoCache := (cacheGetOrCreate env.genName s.sVaoCache vis).2.1,
               sVao := (cacheGetOrCreate env.genName s.sVaoCache vis).1 } := by
  unfold bindVertexInput CreateOrGetCachedVertexArray
  simp only
  split
  · rfl
  · rename_i h
    simp only [ne_eq, not_not] at h
    rw [h]

theorem bindDepthState_fst (env : Env) (last : Option GraphicsPipelineInfoOwning)
    (ds : DepthState) (s : State) :
    ∃ dm, (bindDepthState env last ds s).1 = { s with sLastDepthMask := dm } := by
  unfold bindDepthState
  simp only
  split
  · split
    · split
      · exact ⟨_, rfl⟩
      · exact ⟨s.sLastDepthMask, rfl⟩
    · exact ⟨s.sLastDepthMask, rfl⟩
  · exact ⟨s.sLastDepthMask, rfl⟩

theorem bindStencilState_fst (env : Env) (last : Option GraphicsPipelineInfoOwning)
    (ss : StencilState) (s : State) :
    ∃ m0 m1, (bindStencilState env last ss s).1 =
      { s with sLastStencilMask0 := m0, sLastStencilMask1 := m1 } := by
  unfold bindStencilState
  simp only
  split
  · split <;> split <;> (try split) <;> (try split) <;> exact ⟨_, _, rfl⟩
  · exact ⟨s.sLastStencilMask0, s.sLastStencilMask1, rfl⟩

theorem bindBlendAttachments_fst (env : Env) (last : Option GraphicsPipelineInfoOwning)
    (atts : List ColorBlendAttachmentState) :
    ∀ (i : Nat) (s : State),
      ∃ m, (bindBlendAttachments env last i atts s).1 = { s with sLastColorMask := m } := by
  induction atts with
  | nil => intro i s; exact ⟨s.sLastColorMask, rfl⟩
  | cons a rest ih =>
    intro i s
    unfold bindBlendAttachments
    split
    · exact ih _ _
    · simp only
      split
      · obtain ⟨m, hm⟩ := ih (i + 1) { s with sLastColorMask :=
            fun j => if j = i then a.colorWriteMask else s.sLastColorMask j }
        rw [hm]
        exact ⟨m, rfl⟩
      · exact ih _ _

theorem BindGraphicsPipeline_fst (env : Env) (p : Nat) (s : State) (r : State × List GLCall)
    (h : BindGraphicsPipeline env p s = some r) :
    s.isRendering = true ∧ p ≠ 0 ∧ ∃ ptr, env.GetGraphicsPipelineInternal p = some ptr ∧
      ((s.sLastGraphicsPipeline = some ptr ∧ r = (s, [])) ∨
       (s.sLastGraphicsPipeline ≠ some ptr ∧ ∃ g dm m0 m1 m, r.1 =
          { s with
            isPipelineDebugGroupPushed := g
            sTopology := (env.pipelineObject ptr).inputAssemblyState.topology
            sVaoCache := (cacheGetOrCreate env.genName s.sVaoCache
              (env.pipelineObject ptr).vertexInputState).2.1
            sVao := (cacheGetOrCreate env.genName s.sVaoCache
              (env.pipelineObject ptr).vertexInputState).1
            sLastDepthMask := dm, sLastStencilMask0 := m0, sLastStencilMask1 := m1
            sLastColorMask := m, sLastGraphicsPipeline := some ptr })) := by
  unfold BindGraphicsPipeline at h
  split at h
  · exact absurd h (by simp)
  rename_i h1
  split at h
  · exact absurd h (by simp)
  rename_i h2
  split at h
  · exact absurd h (by simp)
  rename_i ptr hp
  refine ⟨by simpa using h1, h2, ptr, hp, ?_⟩
  split at h
  · rename_i hl
    injection h with h
    exact Or.inl ⟨hl, h.symm⟩
  · rename_i hl
    refine Or.inr ⟨hl, ?_⟩
    injection h with h
    subst h
    simp only
    generalize s.sLastGraphicsPipeline.map env.pipelineObject = last
    obtain ⟨g, hg⟩ := bindPipelineDebugGroup_fst (env.pipelineObject ptr).name s
    have e4 : (bindInputAssembly last (env.pipelineObject ptr).inputAssemblyState
        (bindPipelineDebugGroup (env.pipelineObject ptr).name s).1).1 =
        { s with isPipelineDebugGroupPushed := g
                 sTopology := (env.pipelineObject ptr).inputAssemblyState.topology } := by
      unfold bindInputAssembly
      simp only
      rw [hg]
    generalize (bindInputAssembly last (env.pipelineObject ptr).inputAssemblyState
        (bindPipelineDebugGroup (env.pipelineObject ptr).name s).1).1 = s4 at e4 ⊢
    have e5 := bindVertexInput_fst env (env.pipelineObject ptr).vertexInputState s4
    generalize (bindVertexInput env (env.pipelineObject ptr).vertexInputState s4).1 = s5 at e5 ⊢
    obtain ⟨dm, e7⟩ := bindDepthState_fst env last (env.pipelineObject ptr).depthState s5
    generalize (bindDepthState env last (env.pipelineObject ptr).depthState s5).1 = s7 at e7 ⊢
    obtain ⟨m0, m1, e8⟩ := bindStencilState_fst env last (env.pipelineObject ptr).stencilState s7
    generalize (bindStencilState env last (env.pipelineObject ptr).stencilState s7).1 = s8
      at e8 ⊢
    obtain ⟨m, e10⟩ := bindBlendAttachments_fst env last
      (env.pipelineObject ptr).colorBlendState.attachments 0 s8
    generalize (bindBlendAttachments env last 0
      (env.pipelineObject ptr).colorBlendState.attachments s8).1 = s10 at e10 ⊢
    subst e4
    subst e5
    subst e7
    subst e8
    subst e10
    exact ⟨g, dm, m0, m1, m, rfl⟩

end Cmd

theorem step_plainCommand_fst (env : Env) (op : Op) (s : State) (r : State × List GLCall)
    (hop : op.isPlainCommand = true) (h : step env op s = some r) :
    ∃ v se sc ib it g, r.1 = { s with
      sLastViewport := v, sScissorEnabled := se, sLastScissor := sc, isIndexBufferBound := ib,
      sIndexType := it, isPipelineDebugGroupPushed := g } := by
  cases op <;> simp only [Op.isPlainCommand, Bool.false_eq_true] at hop
  case BindComputePipeline p =>
    simp only [step, Cmd.BindComputePipeline] at h
    split at h
    · exact absurd h (by simp)
    split at h
    · exact absurd h (by simp)
    split at h
    · exact absurd h (by simp)
    injection h with h
    subst h
    rename_i ps _
    obtain ⟨g, hg⟩ := Cmd.bindPipelineDebugGroup_fst ps.name s
    simp only
    rw [hg]
    exact ⟨_, _, _, _, _, _, rfl⟩
  all_goals
    simp only [step, Cmd.SetViewport, Cmd.SetScissor, Cmd.BindVertexBuffer, Cmd.BindIndexBuffer,
      Cmd.Draw, Cmd.DrawIndexed, Cmd.DrawIndirect, Cmd.DrawIndirectCount,
      Cmd.DrawIndexedIndirect, Cmd.DrawIndexedIndirectCount, Cmd.BindUniformBuffer,
      Cmd.BindStorageBuffer, Cmd.BindSampledImage, Cmd.BindImage, Cmd.Dispatch,
      Cmd.DispatchIndirect] at h
    repeat' split at h
    all_goals first
      | exact Option.noConfusion h
      | (injection h with h
         subst h
         exact ⟨_, _, _, _, _, _, rfl⟩)

/-! ## Invariants of operation sequences -/

theorem run_invariant (env : Env) (P : State → Prop)
    (hstep : ∀ op s r, P s → step env op s = some r → P r.1) :
    ∀ (ops : List Op) (s : State) (r : State × List GLCall),
      P s → run env ops s = some r → P r.1 := by
  intro ops
  induction ops with
  | nil =>
    intro s r hs h
    simp only [run, Option.some.injEq] at h
    subst h
    exact hs
  | cons op ops ih =>
    intro s r hs h
    unfold run at h
    split at h
    · exact Option.noConfusion h
    · rename_i r1 h1
      split at h
      · exact Option.noConfusion h
      · rename_i r2 h2
        injection h with h
        subst h
        exact ih r1.1 r2 (hstep op s r1 hs h1) h2

theorem Reachable.invariant {env : Env} {s : State} (hs : Reachable env s) (P : State → Prop)
    (h0 : P (State.initial env))
    (hstep : ∀ op s r, P s → step env op s = some r → P r.1) : P s := by
  obtain ⟨ops, trace, h⟩ := hs
  exact run_invariant env P hstep ops _ _ h0 h

theorem step_exclusive (env : Env) (op : Op) (s : State) (r : State × List GLCall)
    (hs : ¬ (s.isRendering = true ∧ s.isComputeActive = true))
    (h : step env op s = some r) :
    ¬ (r.1.isRendering = true ∧ r.1.isComputeActive = true) := by
  cases hop : op.isPlainCommand
  · cases op <;> simp only [Op.isPlainCommand, Bool.true_eq_false] at hop
    case BeginRendering ri =>
      have hi := (BeginRendering_isSome env ri s).mp (by simp only [step] at h; rw [h]; rfl)
      obtain ⟨a, b, c, d, e, g, fc, fb, m, dm, m0, m1, hr⟩ := BeginRendering_fst env ri s r h
      rw [hr]
      simp [hi.2.1]
    case BeginSwapchainRendering ri =>
      have hi := (BeginSwapchainRendering_isSome env ri s).mp
        (by simp only [step] at h; rw [h]; rfl)
      obtain ⟨a, b, c, d, e, g, m, dm, m0, m1, sd, hr⟩ :=
        BeginSwapchainRendering_fst env ri s r h
      rw [hr]
      simp [hi.2.1]
    case EndRendering =>
      obtain ⟨_, hr⟩ := EndRendering_fst s r h
      rw [hr]
      simp
    case BeginCompute name =>
      simp only [step] at h
      have hi : s.isRendering = false ∧ s.isComputeActive = false := by
        rw [BeginCompute_eq] at h
        split at h
        · assumption
        · exact Option.noConfusion h
      obtain ⟨a, b, c, d, e, g, hr⟩ := BeginCompute_fst env name s r h
      rw [hr]
      simp [hi.1]
    case EndCompute =>
      obtain ⟨_, hr⟩ := EndCompute_fst s r h
      rw [hr]
      simp
    case BindGraphicsPipeline p =>
      obtain ⟨_, _, ptr, _, hr | ⟨_, g, dm, m0, m1, m, hr⟩⟩ :=
        Cmd.BindGraphicsPipeline_fst env p s r h
      · rw [hr.2]
        exact hs
      · rw [hr]
        exact hs
  · obtain ⟨v, se, sc, ib, it, g, hr⟩ := step_plainCommand_fst env op s r hop h
    rw [hr]
    exact hs

/-! ## Claims -/

/-- C1, as stated, fails: with no pass open, `BeginRendering` of an unsigned-integer colour
attachment that is cleared on load with a float clear value fails its assertion. -/
theorem BeginRendering_idle_fails :
    (State.initial Sample.env).isRendering = false ∧
    (State.initial Sample.env).isComputeActive = false ∧
    BeginRendering Sample.env Sample.renderInfoMistyped (State.initial Sample.env) = none :=
  ⟨rfl, rfl, rfl⟩

/-- C1 (amended): each of the three begin calls fails whenever a pass is open, same-kind or
mismatched. `BeginCompute` succeeds if and only if no pass is open; `BeginRendering`
succeeds if and only if no pass is open and every colour attachment cleared on load has a
clear value of its format's base type class; `BeginSwapchainRendering` succeeds if and only
if no pass is open and the clear colour, when requested, is a float array. On success the
render begins set `isRendering` and `BeginCompute` sets `isComputeActive`. -/
theorem begin_pass_succeeds_iff (env : Env) (s : State) (ri : RenderInfo)
    (sri : SwapchainRenderInfo) (name : String) :
    ((s.isRendering = true ∨ s.isComputeActive = true) →
      BeginRendering env ri s = none ∧ BeginSwapchainRendering env sri s = none ∧
        BeginCompute env name s = none) ∧
    ((BeginCompute env name s).isSome = true ↔
      s.isRendering = false ∧ s.isComputeActive = false) ∧
    ((BeginRendering env ri s).isSome = true ↔
      s.isRendering = false ∧ s.isComputeActive = false ∧
        ∀ a ∈ ri.colorAttachments, a.clearOnLoad = true →
          clearValueMatches (env.FormatToBaseTypeClass a.texture.createInfo_.format)
            a.clearValue = true) ∧
    ((BeginSwapchainRendering env sri s).isSome = true ↔
      s.isRendering = false ∧ s.isComputeActive = false ∧
        (sri.clearColorOnLoad = true → sri.clearColorValue.isFloat = true)) ∧
    (∀ r, BeginRendering env ri s = some r → r.1.isRendering = true) ∧
    (∀ r, BeginSwapchainRendering env sri s = some r → r.1.isRendering = true) ∧
    (∀ r, BeginCompute env name s = some r → r.1.isComputeActive = true) := by
  have hc : (BeginCompute env name s).isSome = true ↔
      s.isRendering = false ∧ s.isComputeActive = false := by
    rw [BeginCompute_eq]
    split <;> simp_all
  refine ⟨?_, hc, BeginRendering_isSome env ri s, BeginSwapchainRendering_isSome env sri s,
    ?_, ?_, ?_⟩
  · intro hopen
    have hn : ¬ (s.isRendering = false ∧ s.isComputeActive = false) := by
      rcases hopen with h | h <;> simp [h]
    refine ⟨?_, ?_, ?_⟩
    · rw [← Option.not_isSome_iff_eq_none, BeginRendering_isSome]
      exact fun hh => hn ⟨hh.1, hh.2.1⟩
    · rw [← Option.not_isSome_iff_eq_none, BeginSwapchainRendering_isSome]
      exact fun hh => hn ⟨hh.1, hh.2.1⟩
    · rw [← Option.not_isSome_iff_eq_none, hc]
      exact hn
  · intro r h
    obtain ⟨a, b, c, d, e, g, fc, fb, m, dm, m0, m1, hr⟩ := BeginRendering_fst env ri s r h
    rw [hr]
  · intro r h
    obtain ⟨a, b, c, d, e, g, m, dm, m0, m1, sd, hr⟩ :=
      BeginSwapchainRendering_fst env sri s r h
    rw [hr]
  · intro r h
    obtain ⟨a, b, c, d, e, g, hr⟩ := BeginCompute_fst env name s r h
    rw [hr]

/-- C2: in every state reached from program start by successful calls, `isRendering` and
`isComputeActive` are never both true. -/
theorem session_flags_exclusive (env : Env) (ops : List Op) (s : State) (trace : List GLCall)
    (h : run env ops (State.initial env) = some (s, trace)) :
    ¬ (s.isRendering = true ∧ s.isComputeActive = true) :=
  run_invariant env (fun t => ¬ (t.isRendering = true ∧ t.isComputeActive = true))
    (step_exclusive env) ops (State.initial env) (s, trace) (by simp [State.initial]) h

/-- C2 at a concrete sequence: a compute pass, then a render pass with a bind and a draw. -/
theorem session_flags_exclusive_witness :
    run Sample.env Sample.frame (State.initial Sample.env) =
        some (Sample.frameResult.1, Sample.frameResult.2) ∧
      Sample.frameResult.1.isRendering = true ∧
      ¬ (Sample.frameResult.1.isRendering = true ∧
          Sample.frameResult.1.isComputeActive = true) :=
  ⟨rfl, rfl,
    session_flags_exclusive Sample.env Sample.frame Sample.frameResult.1 Sample.frameResult.2 rfl⟩

theorem Reachable.exclusive {env : Env} {s : State} (hs : Reachable env s) :
    ¬ (s.isRendering = true ∧ s.isComputeActive = true) :=
  hs.invariant (fun t => ¬ (t.isRendering = true ∧ t.isComputeActive = true))
    (by simp [State.initial]) (step_exclusive env)

/-- C3: in every reachable state `EndRendering` succeeds if and only if a render pass is
open and `EndCompute` if and only if a compute pass is open; a successful end call leaves
both `isRendering` and `isComputeActive` false; `EndCompute` during a render pass,
`EndRendering` during a compute pass and either call when idle fail. -/
theorem end_pass_succeeds_iff (env : Env) (s : State) (hs : Reachable env s) :
    ((EndRendering s).isSome = true ↔ s.isRendering = true) ∧
    ((EndCompute s).isSome = true ↔ s.isComputeActive = true) ∧
    (∀ r, EndRendering s = some r → r.1.isRendering = false ∧ r.1.isComputeActive = false) ∧
    (∀ r, EndCompute s = some r → r.1.isRendering = false ∧ r.1.isComputeActive = false) ∧
    (s.isRendering = true → EndCompute s = none) ∧
    (s.isComputeActive = true → EndRendering s = none) ∧
    (s.isRendering = false → s.isComputeActive = false →
      EndRendering s = none ∧ EndCompute s = none) := by
  have hx := hs.exclusive
  have h1 : (EndRendering s).isSome = true ↔ s.isRendering = true := by
    unfold EndRendering
    split <;> simp_all
  have h2 : (EndCompute s).isSome = true ↔ s.isComputeActive = true := by
    unfold EndCompute
    split <;> simp_all
  refine ⟨h1, h2, ?_, ?_, ?_, ?_, ?_⟩
  · intro r h
    obtain ⟨hr, he⟩ := EndRendering_fst s r h
    rw [he]
    refine ⟨rfl, ?_⟩
    cases hc : s.isComputeActive
    · rfl
    · exact absurd ⟨hr, hc⟩ hx
  · intro r h
    obtain ⟨hc, he⟩ := EndCompute_fst s r h
    rw [he]
    refine ⟨?_, rfl⟩
    cases hr : s.isRendering
    · rfl
    · exact absurd ⟨hr, hc⟩ hx
  · intro hr
    rw [← Option.not_isSome_iff_eq_none, h2]
    exact fun hc => hx ⟨hr, hc⟩
  · intro hc
    rw [← Option.not_isSome_iff_eq_none, h1]
    exact fun hr => hx ⟨hr, hc⟩
  · intro hr hc
    constructor
    · rw [← Option.not_isSome_iff_eq_none, h1, hr]
      simp
    · rw [← Option.not_isSome_iff_eq_none, h2, hc]
      simp

/-- C3 at a concrete reachable state: the render pass left open by `Sample.frame`. -/
theorem end_pass_succeeds_iff_witness :
    Reachable Sample.env Sample.frameResult.1 ∧
    Sample.frameResult.1.isRendering = true ∧
    ((EndRendering Sample.frameResult.1).isSome = true ↔
      Sample.frameResult.1.isRendering = true) ∧
    (Sample.frameResult.1.isRendering = true → EndCompute Sample.frameResult.1 = none) :=
  ⟨⟨Sample.frame, Sample.frameResult.2, rfl⟩, rfl,
    (end_pass_succeeds_iff Sample.env Sample.frameResult.1
      ⟨Sample.frame, Sample.frameResult.2, rfl⟩).1,
    (end_pass_succeeds_iff Sample.env Sample.frameResult.1
      ⟨Sample.frame, Sample.frameResult.2, rfl⟩).2.2.2.2.1⟩

/-! ## Object caches -/

theorem cacheLookup_mem {κ : Type} [DecidableEq κ] (cache : List (κ × Nat)) (d : κ) (h : Nat)
    (hl : cacheLookup cache d = some h) : h ∈ cache.map Prod.snd := by
  induction cache with
  | nil => simp [cacheLookup] at hl
  | cons e rest ih =>
    obtain ⟨k, v⟩ := e
    simp only [cacheLookup] at hl
    split at hl
    · injection hl with hl
      simp [hl]
    · simp [ih hl]

theorem cacheGetOrCreate_stable {κ : Type} [DecidableEq κ] (gen : List Nat → Nat)
    (cache : List (κ × Nat)) (d k : κ) (h : Nat) (hl : cacheLookup cache k = some h) :
    cacheLookup (cacheGetOrCreate gen cache d).2.1 k = some h := by
  unfold cacheGetOrCreate
  split
  · exact hl
  · rename_i hn
    simp only [cacheLookup]
    split
    · rename_i hdk
      subst hdk
      rw [hn] at hl
      exact Option.noConfusion hl
    · exact hl

/-! ## Comparison of floats -/

theorem GLfloat.feq_symm (x y : GLfloat) : x.feq y = y.feq x := by
  unfold GLfloat.feq
  cases x.isNaN <;> cases y.isNaN <;> cases x.isZero <;> cases y.isZero <;>
    simp [eq_comm]

theorem GLfloat.feq_trans (x y z : GLfloat) (h1 : x.feq y = true) (h2 : y.feq z = true) :
    x.feq z = true := by
  unfold GLfloat.feq at *
  simp only [Bool.and_eq_true, Bool.not_eq_true', Bool.or_eq_true, decide_eq_true_eq] at *
  obtain ⟨⟨hx, hy⟩, hxy⟩ := h1
  obtain ⟨⟨_, hz⟩, hyz⟩ := h2
  refine ⟨⟨hx, hz⟩, ?_⟩
  rcases hxy with hxy | ⟨zx, zy⟩
  · rcases hyz with hyz | ⟨zy, zz⟩
    · exact Or.inl (hxy.trans hyz)
    · refine Or.inr ⟨?_, zz⟩
      unfold GLfloat.isZero at *
      rw [hxy]
      exact zy
  · rcases hyz with hyz | ⟨_, zz⟩
    · refine Or.inr ⟨zx, ?_⟩
      unfold GLfloat.isZero at *
      rw [← hyz]
      exact zy
    · exact Or.inr ⟨zx, zz⟩

theorem GLfloat.fne_symm (x y : GLfloat) : x.fne y = y.fne x := by
  unfold GLfloat.fne
  rw [GLfloat.feq_symm]

/-! ## Object caches with their own equality of descriptors -/

theorem SamplerState.eq_symm (a b : SamplerState) : a.eq b = b.eq a := by
  unfold SamplerState.eq
  rw [GLfloat.feq_symm a.lodBias, GLfloat.feq_symm a.minLod, GLfloat.feq_symm a.maxLod]
  simp only [eq_comm]

theorem SamplerState.eq_trans (a b c : SamplerState) (h1 : a.eq b = true)
    (h2 : b.eq c = true) : a.eq c = true := by
  unfold SamplerState.eq at *
  simp only [Bool.and_eq_true, decide_eq_true_eq] at *
  obtain ⟨⟨⟨⟨⟨⟨⟨⟨⟨⟨⟨⟨a1, a2⟩, a3⟩, a4⟩, a5⟩, a6⟩, a7⟩, a8⟩, a9⟩, a10⟩, a11⟩, a12⟩, a13⟩ := h1
  obtain ⟨⟨⟨⟨⟨⟨⟨⟨⟨⟨⟨⟨b1, b2⟩, b3⟩, b4⟩, b5⟩, b6⟩, b7⟩, b8⟩, b9⟩, b10⟩, b11⟩, b12⟩, b13⟩ := h2
  exact ⟨⟨⟨⟨⟨⟨⟨⟨⟨⟨⟨⟨GLfloat.feq_trans _ _ _ a1 b1, GLfloat.feq_trans _ _ _ a2 b2⟩,
    GLfloat.feq_trans _ _ _ a3 b3⟩, a4.trans b4⟩, a5.trans b5⟩, a6.trans b6⟩, a7.trans b7⟩,
    a8.trans b8⟩, a9.trans b9⟩, a10.trans b10⟩, a11.trans b11⟩, a12.trans b12⟩, a13.trans b13⟩

theorem cacheLookupBy_some {κ : Type} (eqv : κ → κ → Bool) (cache : List (κ × Nat)) (d : κ)
    (h : Nat) (hl : cacheLookupBy eqv cache d = some h) :
    ∃ k, (k, h) ∈ cache ∧ eqv k d = true := by
  induction cache with
  | nil => simp [cacheLookupBy] at hl
  | cons e rest ih =>
    obtain ⟨k, v⟩ := e
    simp only [cacheLookupBy] at hl
    split at hl
    · rename_i he
      injection hl with hl
      subst hl
      exact ⟨k, List.mem_cons_self _ _, he⟩
    · obtain ⟨k2, hm, he⟩ := ih hl
      exact ⟨k2, List.mem_cons_of_mem _ hm, he⟩

theorem cacheLookupBy_none {κ : Type} (eqv : κ → κ → Bool) (cache : List (κ × Nat)) (d : κ)
    (hl : cacheLookupBy eqv cache d = none) : ∀ r ∈ cache, eqv r.1 d = false := by
  induction cache with
  | nil => intro r hr; simp at hr
  | cons e rest ih =>
    obtain ⟨k, v⟩ := e
    simp only [cacheLookupBy] at hl
    split at hl
    · exact Option.noConfusion hl
    · rename_i he
      intro r hr
      rcases List.mem_cons.mp hr with rfl | hr
      · simpa using he
      · exact ih hl r hr

/-- In a cache with distinct records, two records with the same handle or with equal
descriptors are one record. -/
theorem CacheDistinct.unique {κ : Type} {eqv : κ → κ → Bool} {cache : List (κ × Nat)}
    (hc : CacheDistinct eqv cache) (hsymm : ∀ a b, eqv a b = eqv b a) (r1 r2 : κ × Nat)
    (h1 : r1 ∈ cache) (h2 : r2 ∈ cache) (h : r1.2 = r2.2 ∨ eqv r1.1 r2.1 = true) :
    r1 = r2 := by
  by_contra hne
  have hsym : Symmetric (fun r1 r2 : κ × Nat => r1.2 ≠ r2.2 ∧ eqv r1.1 r2.1 = false) := by
    intro a b hab
    exact ⟨fun e => hab.1 e.symm, by rw [hsymm]; exact hab.2⟩
  have := List.Pairwise.forall hsym hc h1 h2 hne
  rcases h with h | h
  · exact this.1 h
  · rw [this.2] at h
    exact Bool.noConfusion h

theorem cacheGetOrCreateBy_distinct {κ : Type} (eqv : κ → κ → Bool) (gen : List Nat → Nat)
    (hfresh : ∀ used, gen used ∉ used) (hsymm : ∀ a b, eqv a b = eqv b a)
    (cache : List (κ × Nat)) (d : κ) (hc : CacheDistinct eqv cache) :
    CacheDistinct eqv (cacheGetOrCreateBy eqv gen cache d).2.1 := by
  unfold cacheGetOrCreateBy
  split
  · exact hc
  · rename_i hn
    refine List.Pairwise.cons ?_ hc
    intro r hr
    refine ⟨?_, ?_⟩
    · intro e
      have e2 : gen (cache.map Prod.snd) = r.2 := e
      exact hfresh (cache.map Prod.snd) (by rw [e2]; exact List.mem_map_of_mem _ hr)
    · rw [hsymm]
      exact cacheLookupBy_none eqv cache d hn r hr

theorem cacheGetOrCreateBy_keeps {κ : Type} (eqv : κ → κ → Bool) (gen : List Nat → Nat)
    (cache : List (κ × Nat)) (d : κ) (r : κ × Nat) (hr : r ∈ cache) :
    r ∈ (cacheGetOrCreateBy eqv gen cache d).2.1 := by
  unfold cacheGetOrCreateBy
  split
  · exact hr
  · exact List.mem_cons_of_mem _ hr

/-- The record behind the handle a request returns: it is in the cache afterwards, and its
descriptor is equal to the requested one or is the requested one itself. -/
theorem cacheGetOrCreateBy_record {κ : Type} (eqv : κ → κ → Bool) (gen : List Nat → Nat)
    (cache : List (κ × Nat)) (d : κ) :
    ∃ k, (k, (cacheGetOrCreateBy eqv gen cache d).1) ∈ (cacheGetOrCreateBy eqv gen cache d).2.1 ∧
      (eqv k d = true ∨ k = d) := by
  unfold cacheGetOrCreateBy
  split
  · rename_i h hl
    obtain ⟨k, hm, he⟩ := cacheLookupBy_some eqv cache d h hl
    exact ⟨k, hm, Or.inl he⟩
  · exact ⟨d, List.mem_cons_self _ _, Or.inr rfl⟩

/-- A request returns the handle of a record the cache holds exactly when the descriptor of
the record is equal to the requested one. -/
theorem cacheGetOrCreateBy_handle_iff {κ : Type} (eqv : κ → κ → Bool) (gen : List Nat → Nat)
    (hfresh : ∀ used, gen used ∉ used) (hsymm : ∀ a b, eqv a b = eqv b a)
    (htrans : ∀ a b c, eqv a b = true → eqv b c = true → eqv a c = true)
    (cache : List (κ × Nat)) (hc : CacheDistinct eqv cache) (k : κ) (h : Nat)
    (hm : (k, h) ∈ cache) (d : κ) :
    (cacheGetOrCreateBy eqv gen cache d).1 = h ↔ eqv k d = true := by
  unfold cacheGetOrCreateBy
  split
  · rename_i h2 hl
    obtain ⟨k2, hm2, he2⟩ := cacheLookupBy_some eqv cache d h2 hl
    constructor
    · intro e
      have := hc.unique hsymm (k2, h2) (k, h) hm2 hm (Or.inl e)
      injection this with e1 e2
      rw [← e1]
      exact he2
    · intro e
      have hkk : eqv k2 k = true := htrans k2 d k he2 (by rw [hsymm]; exact e)
      have := hc.unique hsymm (k2, h2) (k, h) hm2 hm (Or.inr hkk)
      injection this
  · rename_i hn
    constructor
    · intro e
      have e2 : gen (cache.map Prod.snd) = h := e
      exact absurd (by rw [e2]; exact List.mem_map_of_mem Prod.snd hm)
        (hfresh (cache.map Prod.snd))
    · intro e
      have := cacheLookupBy_none eqv cache d hn (k, h) hm
      rw [e] at this
      exact Bool.noConfusion this

/-! ## Sampler requests -/

/-- A later request returns the handle of a record the cache already holds exactly when
the descriptor of the record is equal to the requested one. -/
theorem requestSamplers_record (gen : List Nat → Nat) (hfresh : ∀ used, gen used ∉ used)
    (reqs : List SamplerState) :
    ∀ (cache : List (SamplerState × Nat)) (n : Nat) (hn : n < reqs.length) (k : SamplerState)
      (h : Nat), CacheDistinct SamplerState.eq cache → (k, h) ∈ cache →
      ∃ a : Sampler, (requestSamplers gen reqs cache)[n]? = some (some a) ∧
        (a.Handle = h ↔ k.eq reqs[n] = true) := by
  induction reqs with
  | nil => intro cache n hn; exact absurd hn (by simp)
  | cons d rest ih =>
    intro cache n hn k h hc hm
    cases n with
    | zero =>
      refine ⟨(CreateOrGetCachedTextureSampler gen cache d).1,
        by simp [requestSamplers, Sampler.Create], ?_⟩
      exact cacheGetOrCreateBy_handle_iff SamplerState.eq gen hfresh SamplerState.eq_symm
        SamplerState.eq_trans cache hc k h hm d
    | succ m =>
      obtain ⟨a, h1, h2⟩ := ih (Sampler.Create gen d cache).2 m (by simpa using hn) k h
        (cacheGetOrCreateBy_distinct SamplerState.eq gen hfresh SamplerState.eq_symm cache d hc)
        (cacheGetOrCreateBy_keeps SamplerState.eq gen cache d (k, h) hm)
      exact ⟨a, by simpa [requestSamplers] using h1, by simpa using h2⟩

/-- Two requests, the earlier at position `i`: the handles are equal exactly when the
descriptors are. -/
theorem requestSamplers_pair (gen : List Nat → Nat) (hfresh : ∀ used, gen used ∉ used)
    (reqs : List SamplerState) :
    ∀ (cache : List (SamplerState × Nat)) (i j : Nat) (hi : i < reqs.length)
      (hj : j < reqs.length), i < j → CacheDistinct SamplerState.eq cache →
      ∃ a b : Sampler, (requestSamplers gen reqs cache)[i]? = some (some a) ∧
        (requestSamplers gen reqs cache)[j]? = some (some b) ∧
        (a.Handle = b.Handle ↔ reqs[i].eq reqs[j] = true) := by
  induction reqs with
  | nil => intro cache i j hi; exact absurd hi (by simp)
  | cons d rest ih =>
    intro cache i j hi hj hij hc
    cases j with
    | zero => exact absurd hij (Nat.not_lt_zero _)
    | succ n =>
      cases i with
      | zero =>
        obtain ⟨k, hm, hk⟩ := cacheGetOrCreateBy_record SamplerState.eq gen cache d
        obtain ⟨b, hb, hiff⟩ := requestSamplers_record gen hfresh rest
          (Sampler.Create gen d cache).2 n (by simpa using hj) k _
          (cacheGetOrCreateBy_distinct SamplerState.eq gen hfresh SamplerState.eq_symm cache d
            hc) hm
        refine ⟨(CreateOrGetCachedTextureSampler gen cache d).1, b,
          by simp [requestSamplers, Sampler.Create], by simpa [requestSamplers] using hb, ?_⟩
        have hn : n < rest.length := by simpa using hj
        have hkd : k.eq rest[n] = true ↔ d.eq rest[n] = true := by
          rcases hk with hk | hk
          · constructor
            · intro e
              exact SamplerState.eq_trans d k _ (by rw [SamplerState.eq_symm]; exact hk) e
            · intro e
              exact SamplerState.eq_trans k d _ hk e
          · rw [hk]
        simp only [List.getElem_cons_zero, List.getElem_cons_succ]
        rw [← hkd, ← hiff]
        exact eq_comm
      | succ m =>
        obtain ⟨a, b, ha, hb, hiff⟩ := ih (Sampler.Create gen d cache).2 m n
          (by simpa using hi) (by simpa using hj) (by omega)
          (cacheGetOrCreateBy_distinct SamplerState.eq gen hfresh SamplerState.eq_symm cache d
            hc)
        exact ⟨a, b, by simpa [requestSamplers] using ha, by simpa [requestSamplers] using hb,
          by simpa using hiff⟩

theorem Sample.genName_fresh : ∀ used : List Nat, Sample.env.genName used ∉ used := by
  have hle : ∀ (l : List Nat) (x : Nat), x ∈ l → x ≤ l.sum := by
    intro l
    induction l with
    | nil => intro x hx; simp at hx
    | cons y ys ih =>
      intro x hx
      simp only [List.mem_cons] at hx
      simp only [List.sum_cons]
      rcases hx with rfl | hx
      · omega
      · have := ih x hx
        omega
  intro used hmem
  have := hle used _ hmem
  simp only [Sample.env] at this
  omega

/-- C4: for two requests made through `Sampler::Create` from program start, in any order
and with any requests in between, the handles returned are equal if and only if the two
descriptors are equal under `SamplerState::operator==`, the member-wise comparison in which
the `float` members are compared as floats (the creation primitive returns newly allocated
handles). In particular two requests whose descriptors differ only in the sign of a zero
share a handle, and two requests with the same NaN in a member get two handles. -/
theorem Sampler_Create_handle_eq_iff (gen : List Nat → Nat) (hfresh : ∀ used, gen used ∉ used)
    (reqs : List SamplerState) (i j : Nat) (hi : i < reqs.length) (hj : j < reqs.length)
    (hij : i ≠ j) :
    ∃ a b : Sampler,
      (requestSamplers gen reqs [])[i]? = some (some a) ∧
      (requestSamplers gen reqs [])[j]? = some (some b) ∧
      (a.Handle = b.Handle ↔ reqs[i].eq reqs[j] = true) := by
  rcases Nat.lt_or_gt_of_ne hij with hlt | hgt
  · exact requestSamplers_pair gen hfresh reqs [] i j hi hj hlt List.Pairwise.nil
  · obtain ⟨b, a, hb, ha, hiff⟩ :=
      requestSamplers_pair gen hfresh reqs [] j i hj hi hgt List.Pairwise.nil
    refine ⟨a, b, ha, hb, ?_⟩
    rw [SamplerState.eq_symm, ← hiff]
    exact eq_comm

/-- C4 at concrete request sequences: the first and third request carry equal descriptors
and share a handle, the second differs and gets another; descriptors that differ in the
sign of a zero LOD bias share a handle; two requests with a NaN LOD bias get two handles. -/
theorem Sampler_Create_handle_eq_iff_witness :
    (∃ a b : Sampler,
      (requestSamplers Sample.env.genName
        [Sample.samplerState1, Sample.samplerState2, Sample.samplerState1] [])[0]? =
          some (some a) ∧
      (requestSamplers Sample.env.genName
        [Sample.samplerState1, Sample.samplerState2, Sample.samplerState1] [])[2]? =
          some (some b) ∧
      (a.Handle = b.Handle ↔ Sample.samplerState1.eq Sample.samplerState1 = true)) ∧
    requestSamplers Sample.env.genName
        [Sample.samplerState1, Sample.samplerState2, Sample.samplerState1] [] =
      [some { id_ := 1 }, some { id_ := 2 }, some { id_ := 1 }] ∧
    requestSamplers Sample.env.genName
        [Sample.samplerState1, Sample.samplerStateNegZero] [] =
      [some { id_ := 1 }, some { id_ := 1 }] ∧
    requestSamplers Sample.env.genName
        [Sample.samplerStateNaN, Sample.samplerStateNaN] [] =
      [some { id_ := 1 }, some { id_ := 2 }] :=
  ⟨Sampler_Create_handle_eq_iff Sample.env.genName Sample.genName_fresh
    [Sample.samplerState1, Sample.samplerState2, Sample.samplerState1] 0 2
    (by decide) (by decide) (by decide), by decide, by decide, by decide⟩

/-! ## Pipeline binds -/

namespace Cmd

theorem BindGraphicsPipeline_isSome (env : Env) (p : Nat) (s : State) :
    (BindGraphicsPipeline env p s).isSome = true ↔
      s.isRendering = true ∧ p ≠ 0 ∧ ∃ ptr, env.GetGraphicsPipelineInternal p = some ptr := by
  unfold BindGraphicsPipeline
  split
  · rename_i h; simp [h]
  rename_i h1
  split
  · rename_i h; simp [h]
  rename_i h2
  split
  · rename_i h; simp [h]
  rename_i ptr hp
  have h1' : s.isRendering = true := by simpa using h1
  split <;> simp [h1', h2, hp]

theorem BindGraphicsPipeline_fast (env : Env) (p ptr : Nat) (s : State)
    (hr : s.isRendering = true) (hp : p ≠ 0)
    (hreg : env.GetGraphicsPipelineInternal p = some ptr)
    (hl : s.sLastGraphicsPipeline = some ptr) :
    BindGraphicsPipeline env p s = some (s, []) := by
  unfold BindGraphicsPipeline
  simp [hr, hp, hreg, hl]

theorem BindGraphicsPipeline_last (env : Env) (p ptr : Nat) (s : State)
    (r : State × List GLCall) (hreg : env.GetGraphicsPipelineInternal p = some ptr)
    (h : BindGraphicsPipeline env p s = some r) :
    r.1.isRendering = true ∧ r.1.sLastGraphicsPipeline = some ptr := by
  obtain ⟨hr, _, ptr2, hreg2, hfast | ⟨_, g, dm, m0, m1, m, hfull⟩⟩ :=
    BindGraphicsPipeline_fst env p s r h
  · rw [hreg] at hreg2
    injection hreg2 with hreg2
    subst hreg2
    rw [hfast.2]
    exact ⟨hr, hfast.1⟩
  · rw [hreg] at hreg2
    injection hreg2 with hreg2
    subst hreg2
    rw [hfull]
    exact ⟨hr, rfl⟩

end Cmd

/-- C5, evaluated at a failing input: after a compute pass that selected the compute
program 7, re-binding graphics pipeline 1 (the last-bound record) in a new render pass
succeeds, emits no driver call at all and leaves the state as it was, so the last program
selected in the driver is still the compute program. -/
theorem BindGraphicsPipeline_fast_path_keeps_compute_program :
    (run Sample.env Sample.renderComputeRender (State.initial Sample.env)).isSome = true ∧
    ((run Sample.env Sample.renderComputeRender (State.initial Sample.env)).bind
        (fun r => (Cmd.BindGraphicsPipeline Sample.env 1 r.1).map
          (fun r2 => (r2.2, r2.1.sLastGraphicsPipeline, (useProgramCalls (r.2 ++ r2.2)).getLast?)))) =
      some ([], some 1, some 7) := by
  constructor
  · rfl
  · rfl

/-- C6: for a registered pipeline and a state with a render pass open, the first
`BindGraphicsPipeline` succeeds and a second one right after it succeeds, emits no driver
call (so no state-transition call) and returns the state the first call left. -/
theorem BindGraphicsPipeline_twice (env : Env) (p ptr : Nat) (s : State)
    (hr : s.isRendering = true) (hp : p ≠ 0)
    (hreg : env.GetGraphicsPipelineInternal p = some ptr) :
    ∃ s1 c1, Cmd.BindGraphicsPipeline env p s = some (s1, c1) ∧
      Cmd.BindGraphicsPipeline env p s1 = some (s1, []) := by
  have hsome := (Cmd.BindGraphicsPipeline_isSome env p s).mpr ⟨hr, hp, ptr, hreg⟩
  obtain ⟨r, h⟩ := Option.isSome_iff_exists.mp hsome
  obtain ⟨hr1, hl1⟩ := Cmd.BindGraphicsPipeline_last env p ptr s r hreg h
  exact ⟨r.1, r.2, h, Cmd.BindGraphicsPipeline_fast env p ptr r.1 hr1 hp hreg hl1⟩

/-- C6 at a concrete state: the open render pass of `Sample.frame`, pipeline 2. -/
theorem BindGraphicsPipeline_twice_witness :
    Sample.frameResult.1.isRendering = true ∧
    ∃ s1 c1, Cmd.BindGraphicsPipeline Sample.env 2 Sample.frameResult.1 = some (s1, c1) ∧
      Cmd.BindGraphicsPipeline Sample.env 2 s1 = some (s1, []) :=
  ⟨rfl, BindGraphicsPipeline_twice Sample.env 2 2 Sample.frameResult.1 rfl (by decide) rfl⟩

namespace Cmd

theorem changed_same {α : Type} [DecidableEq α] (l : GraphicsPipelineInfoOwning)
    (field : GraphicsPipelineInfoOwning → α) : changed (some l) field (field l) = false := by
  simp [changed]

end Cmd

/-- C8, evaluated at a failing input: from program start, in one render pass, pipeline 1
(depth test off, compare op 4) and then pipeline 3 (depth test on, the same compare op) are
bound. Both binds succeed, pipeline 3 is the last-bound record, and no `glDepthFunc` call
has been issued at all. -/
theorem BindGraphicsPipeline_depth_func_never_issued :
    (Sample.env.pipelineObject 3).depthState.depthTestEnable = true ∧
    (Sample.env.pipelineObject 3).depthState.depthCompareOp =
      (Sample.env.pipelineObject 1).depthState.depthCompareOp ∧
    (run Sample.env
        [Op.BeginRendering Sample.renderInfo, Op.BindGraphicsPipeline 1,
         Op.BindGraphicsPipeline 3]
        (State.initial Sample.env)).map
      (fun r => (r.1.sLastGraphicsPipeline, depthFuncCalls r.2)) = some (some 3, []) :=
  ⟨rfl, rfl, rfl⟩

/-- C9, evaluated at failing inputs: pipeline 3 (depth test on, depth writes off) is bound,
the pass ends, the next pass begins with a depth clear on load (which sets the mask to
true), and pipeline 3 is bound again, or pipeline 4 with the same `depthWriteEnable`. The
bind succeeds and the tracked depth write mask is still true, not the declared false. -/
theorem BindGraphicsPipeline_depth_mask_stale :
    (Sample.env.pipelineObject 3).depthState.depthTestEnable = true ∧
    (Sample.env.pipelineObject 3).depthState.depthWriteEnable = false ∧
    (Sample.env.pipelineObject 4).depthState.depthTestEnable = true ∧
    (Sample.env.pipelineObject 4).depthState.depthWriteEnable = false ∧
    (run Sample.env
        [Op.BeginRendering Sample.renderInfo, Op.BindGraphicsPipeline 3, Op.EndRendering,
         Op.BeginRendering Sample.renderInfoClearDepth, Op.BindGraphicsPipeline 3]
        (State.initial Sample.env)).map
      (fun r => (r.1.sLastGraphicsPipeline, r.1.sLastDepthMask)) = some (some 3, true) ∧
    (run Sample.env
        [Op.BeginRendering Sample.renderInfo, Op.BindGraphicsPipeline 3, Op.EndRendering,
         Op.BeginRendering Sample.renderInfoClearDepth, Op.BindGraphicsPipeline 4]
        (State.initial Sample.env)).map
      (fun r => (r.1.sLastGraphicsPipeline, r.1.sLastDepthMask)) = some (some 4, true) :=
  ⟨rfl, rfl, rfl, rfl, rfl, rfl⟩

/-- C10, evaluated at failing inputs: pipeline 5 (one blend attachment writing only the red
channel) is bound, the pass ends, the next pass begins with a colour clear on load (which
forces the mask of attachment 0 to RGBA), and pipeline 5 is bound again, or pipeline 6 with
an equal attachment 0. The bind succeeds and the tracked mask of attachment 0 is still
RGBA, not the declared red-only mask. -/
theorem BindGraphicsPipeline_color_mask_stale :
    (Sample.env.pipelineObject 5).colorBlendState.attachments.map (fun a => a.colorWriteMask) =
      [ColorComponentFlag.R_BIT] ∧
    (Sample.env.pipelineObject 6).colorBlendState.attachments.map (fun a => a.colorWriteMask) =
      [ColorComponentFlag.R_BIT] ∧
    (run Sample.env
        [Op.BeginRendering Sample.renderInfo, Op.BindGraphicsPipeline 5, Op.EndRendering,
         Op.BeginRendering Sample.renderInfoClearColor, Op.BindGraphicsPipeline 5]
        (State.initial Sample.env)).map
      (fun r => (r.1.sLastGraphicsPipeline, r.1.sLastColorMask 0)) =
        some (some 5, ColorComponentFlag.RGBA_BITS) ∧
    (run Sample.env
        [Op.BeginRendering Sample.renderInfo, Op.BindGraphicsPipeline 5, Op.EndRendering,
         Op.BeginRendering Sample.renderInfoClearColor, Op.BindGraphicsPipeline 6]
        (State.initial Sample.env)).map
      (fun r => (r.1.sLastGraphicsPipeline, r.1.sLastColorMask 0)) =
        some (some 6, ColorComponentFlag.RGBA_BITS) :=
  ⟨rfl, rfl, rfl, rfl⟩

/-- C11, evaluated at a failing input: pipelines 8 and 9 both have the logic op enabled and
differ only in `logicOp`. In one render pass from program start pipeline 8 is bound, then
pipeline 9: the bind of 9 succeeds, makes 9 the last-bound record and emits the program
selection only, so no `glLogicOp` call carries 9's logic op. -/
theorem BindGraphicsPipeline_logic_op_not_issued :
    Sample.pipeline8.colorBlendState.logicOpEnable = true ∧
    Sample.pipeline9 =
      { Sample.pipeline8 with colorBlendState := { Sample.pipeline8.colorBlendState with
          logicOp := 2 } } ∧
    Sample.pipeline8.colorBlendState.logicOp ≠ Sample.pipeline9.colorBlendState.logicOp ∧
    ((run Sample.env2 [Op.BeginRendering Sample.renderInfo, Op.BindGraphicsPipeline 8]
        (State.initial Sample.env2)).bind
      (fun r => (Cmd.BindGraphicsPipeline Sample.env2 9 r.1).map
        (fun r2 => (r2.1.sLastGraphicsPipeline, logicOpCalls r.2, useProgramCalls r2.2,
          logicOpCalls r2.2, r2.2.length)))) =
      some (some 9, [1], [9], [], 1) :=
  ⟨rfl, rfl, by decide, rfl⟩

/-- C15: after every successful `BindGraphicsPipeline` the last-bound record
`sLastGraphicsPipeline` is the shared pointer the registry returns for the pipeline's
handle (the pointer itself, no copy is made), on the early-return path and on the
full-diff path alike. -/
theorem BindGraphicsPipeline_sets_last (env : Env) (p : Nat) (s : State)
    (r : State × List GLCall) (h : Cmd.BindGraphicsPipeline env p s = some r) :
    r.1.sLastGraphicsPipeline = env.GetGraphicsPipelineInternal p ∧
      r.1.sLastGraphicsPipeline ≠ none := by
  obtain ⟨_, _, ptr, hreg, _⟩ := Cmd.BindGraphicsPipeline_fst env p s r h
  have := (Cmd.BindGraphicsPipeline_last env p ptr s r hreg h).2
  rw [this, hreg]
  exact ⟨rfl, by simp⟩

/-- C15 at concrete inputs: pipeline 2 bound in the open render pass of `Sample.frame`
(full-diff path), and pipeline 1 bound there (early-return path). -/
theorem BindGraphicsPipeline_sets_last_witness :
    (∃ r, Cmd.BindGraphicsPipeline Sample.env 2 Sample.frameResult.1 = some r ∧
      r.1.sLastGraphicsPipeline = some 2 ∧ r.2 ≠ []) ∧
    (∃ r, Cmd.BindGraphicsPipeline Sample.env 1 Sample.frameResult.1 = some r ∧
      r.1.sLastGraphicsPipeline = some 1 ∧ r.2 = []) := by
  constructor
  · cases h : Cmd.BindGraphicsPipeline Sample.env 2 Sample.frameResult.1 with
    | none =>
      have hs : (Cmd.BindGraphicsPipeline Sample.env 2 Sample.frameResult.1).isSome = true := rfl
      rw [h] at hs
      exact absurd hs (by simp)
    | some r =>
      refine ⟨r, rfl, (BindGraphicsPipeline_sets_last Sample.env 2 _ r h).1, ?_⟩
      have hl : (Cmd.BindGraphicsPipeline Sample.env 2 Sample.frameResult.1).map
          (fun r => r.2.length) = some 3 := rfl
      rw [h] at hl
      intro hnil
      simp [hnil] at hl
  · cases h : Cmd.BindGraphicsPipeline Sample.env 1 Sample.frameResult.1 with
    | none =>
      have hs : (Cmd.BindGraphicsPipeline Sample.env 1 Sample.frameResult.1).isSome = true := rfl
      rw [h] at hs
      exact absurd hs (by simp)
    | some r =>
      refine ⟨r, rfl, (BindGraphicsPipeline_sets_last Sample.env 1 _ r h).1, ?_⟩
      have hl : (Cmd.BindGraphicsPipeline Sample.env 1 Sample.frameResult.1).map
          (fun r => r.2.length) = some 0 := rfl
      rw [h] at hl
      simpa using hl

/-- C16: `BindGraphicsPipeline` fails its assertion exactly when no render pass is open
(idle or compute pass), or the handle is 0, or the registry holds no record for the
handle; the three assertions precede every driver call and every assignment, so a failed
call has no effect. `BindComputePipeline` fails whenever no compute pass is open or the
handle is 0. -/
theorem bind_pipeline_fails (env : Env) (p : Nat) (s : State) :
    (Cmd.BindGraphicsPipeline env p s = none ↔
      s.isRendering = false ∨ p = 0 ∨ env.GetGraphicsPipelineInternal p = none) ∧
    ((s.isComputeActive = false ∨ p = 0) → Cmd.BindComputePipeline env p s = none) := by
  constructor
  · rw [← Option.not_isSome_iff_eq_none, Cmd.BindGraphicsPipeline_isSome]
    cases h1 : s.isRendering <;> cases h2 : env.GetGraphicsPipelineInternal p <;>
      by_cases h3 : p = 0 <;> simp [h3]
  · intro h
    unfold Cmd.BindComputePipeline
    rcases h with h | h <;> simp [h]

theorem foldr_min_le (d : Nat) (l : List Nat) : l.foldr min d ≤ d := by
  induction l with
  | nil => exact Nat.le_refl d
  | cons x xs ih =>
    simp only [List.foldr_cons]
    omega

theorem foldr_min_append (d : Nat) (l1 l2 : List Nat) :
    (l1 ++ l2).foldr min d = min (l1.foldr min d) (l2.foldr min d) := by
  induction l1 with
  | nil =>
    have := foldr_min_le d l2
    simp only [List.nil_append, List.foldr_nil]
    omega
  | cons x xs ih =>
    simp only [List.cons_append, List.foldr_cons, ih]
    omega

theorem foldr_min_shift (x y : Nat) (l : List Nat) :
    l.foldr min (min x y) = min y (l.foldr min x) := by
  induction l with
  | nil => simp only [List.foldr_nil]; omega
  | cons z zs ih =>
    simp only [List.foldr_cons, ih]
    omega

theorem foldl_extent_width (atts : List RenderColorAttachment) :
    ∀ e : Extent2D,
      (atts.foldl (fun e a =>
        ({ width := min e.width a.texture.createInfo_.extent.width
           height := min e.height a.texture.createInfo_.extent.height } : Extent2D)) e).width =
        (atts.map (fun a => a.texture.createInfo_.extent.width)).foldr min e.width ∧
      (atts.foldl (fun e a =>
        ({ width := min e.width a.texture.createInfo_.extent.width
           height := min e.height a.texture.createInfo_.extent.height } : Extent2D)) e).height =
        (atts.map (fun a => a.texture.createInfo_.extent.height)).foldr min e.height := by
  induction atts with
  | nil => intro e; exact ⟨rfl, rfl⟩
  | cons a rest ih =>
    intro e
    simp only [List.foldl_cons, List.map_cons, List.foldr_cons]
    obtain ⟨h1, h2⟩ := ih { width := min e.width a.texture.createInfo_.extent.width
                            height := min e.height a.texture.createInfo_.extent.height }
    rw [h1, h2]
    simp [foldr_min_shift]

theorem renderTargetExtent_eq (ri : RenderInfo) :
    (renderTargetExtent ri).width = minimumU32 (ri.attachmentExtents.map (fun e => e.width)) ∧
    (renderTargetExtent ri).height =
      minimumU32 (ri.attachmentExtents.map (fun e => e.height)) := by
  obtain ⟨hw, hh⟩ := foldl_extent_width ri.colorAttachments
    { width := UINT32_MAX, height := UINT32_MAX }
  have lw := foldr_min_le UINT32_MAX
    (ri.colorAttachments.map (fun a => a.texture.createInfo_.extent.width))
  have lh := foldr_min_le UINT32_MAX
    (ri.colorAttachments.map (fun a => a.texture.createInfo_.extent.height))
  unfold renderTargetExtent minimumU32 RenderInfo.attachmentExtents
  simp only [List.map_append, List.map_map, foldr_min_append, Function.comp_def]
  simp only [] at hw hh
  cases hd : ri.depthAttachment <;> cases hst : ri.stencilAttachment <;>
    simp only [Option.toList, List.map_nil, List.map_cons, List.foldr_nil, List.foldr_cons,
      Function.comp, hw, hh] <;>
    constructor <;> omega

/-- C20: after a successful `BeginRendering` the stored last viewport is the caller's
viewport when `RenderInfo.viewport` is present; otherwise its offset is (0,0), its width and
height are the minimum width and the minimum height over all colour, depth and stencil
attachments present (the 32-bit unsigned maximum when there is none), `minDepth` is 0 and
`maxDepth` is 1. -/
theorem BeginRendering_last_viewport (env : Env) (ri : RenderInfo) (s : State)
    (r : State × List GLCall) (h : BeginRendering env ri s = some r) :
    (∀ v, ri.viewport = some v → r.1.sLastViewport = v) ∧
    (ri.viewport = none →
      r.1.sLastViewport.drawRect.offset = { x := 0, y := 0 } ∧
      r.1.sLastViewport.drawRect.extent.width =
        minimumU32 (ri.attachmentExtents.map (fun e => e.width)) ∧
      r.1.sLastViewport.drawRect.extent.height =
        minimumU32 (ri.attachmentExtents.map (fun e => e.height)) ∧
      r.1.sLastViewport.minDepth = GLfloat.zero ∧
      r.1.sLastViewport.maxDepth = GLfloat.one) := by
  obtain ⟨a, b, c, d, e, g, fc, fb, m, dm, m0, m1, hr⟩ := BeginRendering_fst env ri s r h
  have hv : r.1.sLastViewport = renderViewport env ri := by rw [hr]
  rw [hv]
  constructor
  · intro v hvp
    simp [renderViewport, hvp]
  · intro hvp
    obtain ⟨hw, hh⟩ := renderTargetExtent_eq ri
    simp only [renderViewport, hvp]
    exact ⟨trivial, hw, hh, trivial, trivial⟩

/-- C20 at a concrete input: a render info without viewport whose colour attachment is
64 by 64 and whose depth attachment is 64 by 64, from program start. -/
theorem BeginRendering_last_viewport_witness :
    ∃ r, BeginRendering Sample.env Sample.renderInfoClearDepth (State.initial Sample.env) =
        some r ∧
      r.1.sLastViewport.drawRect.extent.width = 64 ∧
      r.1.sLastViewport.drawRect.extent.height = 64 ∧
      r.1.sLastViewport.minDepth = GLfloat.zero ∧
      r.1.sLastViewport.maxDepth = GLfloat.one := by
  cases h : BeginRendering Sample.env Sample.renderInfoClearDepth (State.initial Sample.env) with
  | none =>
    have hs : (BeginRendering Sample.env Sample.renderInfoClearDepth
      (State.initial Sample.env)).isSome = true := rfl
    rw [h] at hs
    exact absurd hs (by simp)
  | some r =>
    have hv := (BeginRendering_last_viewport Sample.env Sample.renderInfoClearDepth
      (State.initial Sample.env) r h).2 rfl
    exact ⟨r, rfl, hv.2.1.trans (by decide), hv.2.2.1.trans (by decide), hv.2.2.2.1,
      hv.2.2.2.2⟩

/-! ## The trace of a pass begin -/

theorem zeroTextureUnits_setup (n : Nat) : ∀ c ∈ zeroTextureUnits n, c.isSetupCall = true := by
  unfold zeroTextureUnits
  generalize List.range n = l
  induction l with
  | nil => intro c hc; simp at hc
  | cons i rest ih =>
    intro c hc
    simp only [List.foldr_cons, List.mem_cons] at hc
    rcases hc with rfl | rfl | hc
    · rfl
    · rfl
    · exact ih c hc

theorem debugZeroResourceBindings_setup (env : Env) (s : State) :
    ∀ c ∈ (debugZeroResourceBindings env s).2, c.isSetupCall = true := by
  intro c hc
  unfold debugZeroResourceBindings at hc
  split at hc
  · unfold ZeroResourceBindings at hc
    simp only [List.mem_append, List.mem_map, List.mem_range] at hc
    rcases hc with (((hc | hc) | hc) | hc) | hc
    · split at hc
      · simp only [List.mem_cons, List.mem_singleton, List.not_mem_nil, or_false] at hc
        rcases hc with rfl | rfl | rfl | rfl <;> rfl
      · simp at hc
    · obtain ⟨i, _, rfl⟩ := hc
      rfl
    · obtain ⟨i, _, rfl⟩ := hc
      rfl
    · obtain ⟨i, _, rfl⟩ := hc
      rfl
    · exact zeroTextureUnits_setup _ c hc
  · simp at hc

theorem pushScopedDebugGroup_setup (name : String) (s : State) :
    ∀ c ∈ (pushScopedDebugGroup name s).2, c.isSetupCall = true := by
  intro c hc
  unfold pushScopedDebugGroup at hc
  split at hc
  · simp only [List.mem_singleton] at hc
    subst hc
    rfl
  · simp at hc

theorem SetViewportInternal_setup (env : Env) (v last : Viewport) (init : Bool) :
    ∀ c ∈ SetViewportInternal env v last init, c.isSetupCall = true := by
  intro c hc
  unfold SetViewportInternal at hc
  simp only [List.mem_append] at hc
  rcases hc with (hc | hc) | hc <;> split at hc <;>
    first
      | (simp only [List.mem_singleton] at hc; subst hc; rfl)
      | simp at hc

theorem enableColorMask_calls (i : Nat) (s : State) :
    ∀ c ∈ (enableColorMask i s).2, c = GLCall.glColorMaski i true true true true := by
  intro c hc
  unfold enableColorMask at hc
  split at hc
  · simpa using hc
  · simp at hc

theorem clearColorAttachments_colorClears (env : Env) (fbo : Nat)
    (atts : List RenderColorAttachment) :
    ∀ (i : Nat) (s : State) (r : State × List GLCall),
      clearColorAttachments env fbo i atts s = some r →
      r.2.filter GLCall.isColorClear = typedColorClears env fbo i atts ∧
      r.2.filterMap GLCall.colorClearIndex = clearOnLoadIndices i atts ∧
      r.2.filter GLCall.isDepthStencilClear = [] := by
  have hm : ∀ (i : Nat) (s : State),
      (enableColorMask i s).2.filter GLCall.isColorClear = [] ∧
      (enableColorMask i s).2.filterMap GLCall.colorClearIndex = [] ∧
      (enableColorMask i s).2.filter GLCall.isDepthStencilClear = [] := by
    intro i s
    unfold enableColorMask
    split <;> simp [GLCall.isColorClear, GLCall.colorClearIndex, GLCall.isDepthStencilClear]
  induction atts with
  | nil =>
    intro i s r h
    simp only [clearColorAttachments, Option.some.injEq] at h
    subst h
    simp [typedColorClears, clearOnLoadIndices]
  | cons a rest ih =>
    intro i s r h
    unfold clearColorAttachments at h
    simp only [typedColorClears, clearOnLoadIndices]
    split at h
    · rename_i hcl
      obtain ⟨hm1, hm2, hm3⟩ := hm i s
      split at h
      all_goals first
        | exact Option.noConfusion h
        | (rename_i hcls hval
           simp only [Option.map_eq_some'] at h
           obtain ⟨r2, h2, rfl⟩ := h
           obtain ⟨ih1, ih2, ih3⟩ := ih _ _ _ h2
           simp only [List.filter_append, List.filterMap_append, hm1, hm2, hm3, ih1, ih2, ih3,
             hcl, hcls, hval, typedColorClear, if_true]
           simp [GLCall.isColorClear, GLCall.colorClearIndex, GLCall.isDepthStencilClear])
    · rename_i hcl
      obtain ⟨ih1, ih2, ih3⟩ := ih _ _ _ h
      simp [hcl, ih1, ih2, ih3]

theorem clearColorAttachments_none (env : Env) (fbo : Nat) (atts : List RenderColorAttachment)
    (hno : ∀ a ∈ atts, a.clearOnLoad = false) :
    ∀ (i : Nat) (s : State), clearColorAttachments env fbo i atts s = some (s, []) := by
  induction atts with
  | nil => intro i s; rfl
  | cons a rest ih =>
    intro i s
    unfold clearColorAttachments
    have ha := hno a (List.mem_cons_self a rest)
    simp only [ha, Bool.false_eq_true, if_false]
    exact ih (fun b hb => hno b (List.mem_cons_of_mem a hb)) _ _

theorem clearDepthStencil_clears (ri : RenderInfo) (fbo : Nat) (s : State) :
    (clearDepthStencil ri fbo s).2.filter GLCall.isDepthStencilClear =
        depthStencilClearSpec ri fbo ∧
    (clearDepthStencil ri fbo s).2.filter GLCall.isColorClear = [] := by
  have hd : ∀ t : State, (enableDepthMask t).2.filter GLCall.isDepthStencilClear = [] ∧
      (enableDepthMask t).2.filter GLCall.isColorClear = [] := by
    intro t
    unfold enableDepthMask
    split <;> simp [GLCall.isColorClear, GLCall.isDepthStencilClear]
  have hs : ∀ t : State, (enableStencilMask t).2.filter GLCall.isDepthStencilClear = [] ∧
      (enableStencilMask t).2.filter GLCall.isColorClear = [] := by
    intro t
    unfold enableStencilMask
    split <;> simp [GLCall.isColorClear, GLCall.isDepthStencilClear]
  unfold clearDepthStencil depthStencilClearSpec
  cases hda : ri.depthAttachment with
  | none =>
    cases hsa : ri.stencilAttachment with
    | none => simp
    | some st =>
      cases hc : st.clearOnLoad <;>
        simp [Option.filter, hc, List.filter_append, hs, GLCall.isColorClear,
          GLCall.isDepthStencilClear]
  | some d =>
    cases hsa : ri.stencilAttachment with
    | none =>
      cases hc : d.clearOnLoad <;>
        simp [Option.filter, hc, List.filter_append, hd, GLCall.isColorClear,
          GLCall.isDepthStencilClear]
    | some st =>
      cases hc : d.clearOnLoad <;> cases hc2 : st.clearOnLoad <;>
        simp [Option.filter, hc, hc2, List.filter_append, hd, hs, GLCall.isColorClear,
          GLCall.isDepthStencilClear]

theorem clearDepthStencil_none (ri : RenderInfo) (fbo : Nat) (s : State)
    (hd : ∀ a, ri.depthAttachment = some a → a.clearOnLoad = false)
    (hs : ∀ a, ri.stencilAttachment = some a → a.clearOnLoad = false) :
    clearDepthStencil ri fbo s = (s, []) := by
  unfold clearDepthStencil
  cases hda : ri.depthAttachment with
  | none =>
    cases hsa : ri.stencilAttachment with
    | none => rfl
    | some st => simp [hs st hsa]
  | some d =>
    cases hsa : ri.stencilAttachment with
    | none => simp [hd d hda]
    | some st => simp [hd d hda, hs st hsa]

theorem setup_not_clear (c : GLCall) (h : c.isSetupCall = true) :
    c.isColorClear = false ∧ c.isDepthStencilClear = false ∧ c.colorClearIndex = none := by
  cases c <;> simp_all [GLCall.isSetupCall, GLCall.isColorClear, GLCall.isDepthStencilClear,
    GLCall.colorClearIndex]

theorem setup_filter (l : List GLCall) (h : ∀ c ∈ l, c.isSetupCall = true) :
    l.filter GLCall.isColorClear = [] ∧ l.filter GLCall.isDepthStencilClear = [] ∧
      l.filterMap GLCall.colorClearIndex = [] := by
  refine ⟨?_, ?_, ?_⟩
  · rw [List.filter_eq_nil_iff]
    intro c hc
    simp [(setup_not_clear c (h c hc)).1]
  · rw [List.filter_eq_nil_iff]
    intro c hc
    simp [(setup_not_clear c (h c hc)).2.1]
  · rw [List.filterMap_eq_nil_iff]
    intro c hc
    exact (setup_not_clear c (h c hc)).2.2

theorem BeginRendering_eq (env : Env) (ri : RenderInfo) (s : State) :
    BeginRendering env ri s =
      if s.isRendering then none
      else if s.isComputeActive then none
      else
        match clearColorAttachments env (beginRenderingSetup env ri s).1.sFbo 0
            ri.colorAttachments (beginRenderingSetup env ri s).1 with
        | none => none
        | some r4 =>
          some ({ (clearDepthStencil ri r4.1.sFbo r4.1).1 with
                  sLastViewport := renderViewport env ri, sInitViewport := false },
            (beginRenderingSetup env ri s).2 ++ r4.2 ++ (clearDepthStencil ri r4.1.sFbo r4.1).2 ++
              SetViewportInternal env (renderViewport env ri)
                (clearDepthStencil ri r4.1.sFbo r4.1).1.sLastViewport
                (clearDepthStencil ri r4.1.sFbo r4.1).1.sInitViewport) := rfl

theorem beginRenderingSetup_fst (env : Env) (ri : RenderInfo) (s : State) :
    ∃ a b c d e g fc fb,
      (beginRenderingSetup env ri s).1 = { s with
        isRendering := true, sFirstRun := a, sMaxImageUnits := b,
        sMaxShaderStorageBlocks := c, sMaxUniformBlocks := d,
        sMaxCombinedTextureImageUnits := e, sLastRenderInfo := some ri,
        isScopedDebugGroupPushed := g, sFboCache := fc, sFbo := fb } := by
  unfold beginRenderingSetup CreateOrGetCachedFramebuffer
  simp only
  obtain ⟨g, hg⟩ := pushScopedDebugGroup_fst ri.name
    { (debugZeroResourceBindings env { s with isRendering := true }).1 with
      sLastRenderInfo := some ri }
  rw [hg]
  obtain ⟨a, b, c, d, e, hz⟩ := debugZeroResourceBindings_fst env { s with isRendering := true }
  rw [hz]
  exact ⟨_, _, _, _, _, _, _, _, rfl⟩

theorem beginRenderingSetup_calls (env : Env) (ri : RenderInfo) (s : State) :
    ∀ c ∈ (beginRenderingSetup env ri s).2, c.isSetupCall = true := by
  intro c hc
  unfold beginRenderingSetup at hc
  simp only [List.mem_append, List.mem_singleton] at hc
  rcases hc with (hc | hc) | hc | rfl
  · exact debugZeroResourceBindings_setup env _ c hc
  · exact pushScopedDebugGroup_setup _ _ c hc
  · unfold CreateOrGetCachedFramebuffer at hc
    simp only at hc
    split at hc
    · simp only [List.mem_singleton] at hc
      subst hc
      rfl
    · simp at hc
  · rfl

/-- The parts of a successful `BeginRendering`: setup calls, the colour clears, the
depth/stencil clears, and the viewport calls. -/
theorem BeginRendering_shape (env : Env) (ri : RenderInfo) (s : State)
    (r : State × List GLCall) (h : BeginRendering env ri s = some r) :
    ∃ (s3 : State) (r4 : State × List GLCall) (pre vp : List GLCall),
      clearColorAttachments env r.1.sFbo 0 ri.colorAttachments s3 = some r4 ∧
      r.1 = { (clearDepthStencil ri r.1.sFbo r4.1).1 with
              sLastViewport := renderViewport env ri, sInitViewport := false } ∧
      r.2 = pre ++ r4.2 ++ (clearDepthStencil ri r.1.sFbo r4.1).2 ++ vp ∧
      s3.sLastColorMask = s.sLastColorMask ∧ s3.sLastDepthMask = s.sLastDepthMask ∧
      s3.sLastStencilMask0 = s.sLastStencilMask0 ∧
      s3.sLastStencilMask1 = s.sLastStencilMask1 ∧
      (∀ c ∈ pre, c.isSetupCall = true) ∧ (∀ c ∈ vp, c.isSetupCall = true) := by
  rw [BeginRendering_eq] at h
  split at h
  · exact Option.noConfusion h
  split at h
  · exact Option.noConfusion h
  split at h
  · exact Option.noConfusion h
  rename_i r4 h4
  injection h with h
  generalize hs3 : (beginRenderingSetup env ri s).1 = s3 at h4
  generalize hpre : (beginRenderingSetup env ri s).2 = pre at h
  obtain ⟨a, b, c, d, e, g, fc, fb, hset⟩ := beginRenderingSetup_fst env ri s
  rw [hs3] at hset
  obtain ⟨m', hm'⟩ := clearColorAttachments_fst _ _ _ _ _ _ h4
  obtain ⟨d', m0', m1', hds⟩ := clearDepthStencil_fst ri r4.1.sFbo r4.1
  have h1 := congrArg Prod.fst h
  have h2 := congrArg Prod.snd h
  simp only at h1 h2
  have hf4 : r4.1.sFbo = r.1.sFbo := by rw [← h1, hds]
  have hf3 : s3.sFbo = r.1.sFbo := by rw [← hf4, hm']
  rw [hf4] at h1 h2
  rw [hf3] at h4
  refine ⟨s3, r4, pre, _, h4, h1.symm, h2.symm, ?_, ?_, ?_, ?_, ?_, ?_⟩
  · rw [hset]
  · rw [hset]
  · rw [hset]
  · rw [hset]
  · rw [← hpre]
    exact beginRenderingSetup_calls env ri s
  · exact SetViewportInternal_setup env _ _ _

theorem colorClearIndex_filter (l : List GLCall) :
    (l.filter GLCall.isColorClear).map GLCall.colorClearIndex =
      (l.filterMap GLCall.colorClearIndex).map some := by
  induction l with
  | nil => rfl
  | cons c rest ih =>
    cases h : c.colorClearIndex with
    | none =>
      have hc : c.isColorClear = false := by
        cases c <;> simp_all [GLCall.isColorClear, GLCall.colorClearIndex] <;>
          (rename_i b _ _; cases b <;> simp_all)
      simp [List.filter_cons, List.filterMap_cons, h, hc, ih]
    | some i =>
      have hc : c.isColorClear = true := by
        cases c <;> simp_all [GLCall.isColorClear, GLCall.colorClearIndex] <;>
          (rename_i b _ _; cases b <;> simp_all)
      simp [List.filter_cons, List.filterMap_cons, h, hc, ih]

/-- C17: in a successful `BeginRendering` the colour clear calls are, in order, the typed
clear of every colour attachment with `clearOnLoad` set, chosen by the base type class of
the attachment's format (float class `glClearNamedFramebufferfv`, signed-integer class
`iv`, unsigned-integer class `uiv`), and every such attachment carries a clear value of
that class; if some attachment with `clearOnLoad` set carries a clear value of another
alternative, the call fails instead of clearing. -/
theorem BeginRendering_typed_color_clears (env : Env) (ri : RenderInfo) (s : State) :
    (∀ r, BeginRendering env ri s = some r →
      r.2.filter GLCall.isColorClear = typedColorClears env r.1.sFbo 0 ri.colorAttachments ∧
      ∀ a ∈ ri.colorAttachments, a.clearOnLoad = true →
        clearValueMatches (env.FormatToBaseTypeClass a.texture.createInfo_.format)
          a.clearValue = true) ∧
    ((∃ a ∈ ri.colorAttachments, a.clearOnLoad = true ∧
        clearValueMatches (env.FormatToBaseTypeClass a.texture.createInfo_.format)
          a.clearValue = false) →
      BeginRendering env ri s = none) := by
  constructor
  · intro r h
    obtain ⟨s3, r4, pre, vp, h4, _, h2, _, _, _, _, hpre, hvp⟩ :=
      BeginRendering_shape env ri s r h
    obtain ⟨hc1, _, _⟩ := clearColorAttachments_colorClears env _ _ _ _ _ h4
    refine ⟨?_, ?_⟩
    · rw [h2, List.filter_append, List.filter_append, List.filter_append,
        (setup_filter pre hpre).1, (setup_filter vp hvp).1,
        (clearDepthStencil_clears ri _ _).2, hc1]
      simp
    · have hsome : (BeginRendering env ri s).isSome = true := by rw [h]; rfl
      exact ((BeginRendering_isSome env ri s).mp hsome).2.2
  · rintro ⟨a, ha, hcl, hmis⟩
    rw [← Option.not_isSome_iff_eq_none, BeginRendering_isSome]
    intro hh
    have := hh.2.2 a ha hcl
    rw [hmis] at this
    exact Bool.noConfusion this

/-- C17 at concrete inputs: a float attachment cleared on load with a float clear value is
cleared with the float entry point; an unsigned-integer attachment cleared on load with a
float clear value makes the call fail. -/
theorem BeginRendering_typed_color_clears_witness :
    (∃ r, BeginRendering Sample.env Sample.renderInfoClearColor (State.initial Sample.env) =
        some r ∧
      r.2.filter GLCall.isColorClear =
        [GLCall.glClearNamedFramebufferfv r.1.sFbo GLClearBuffer.COLOR 0
          [GLfloat.zero, GLfloat.zero, GLfloat.zero, GLfloat.one]]) ∧
    BeginRendering Sample.env Sample.renderInfoMistyped (State.initial Sample.env) = none := by
  constructor
  · cases h : BeginRendering Sample.env Sample.renderInfoClearColor
        (State.initial Sample.env) with
    | none =>
      have hs : (BeginRendering Sample.env Sample.renderInfoClearColor
          (State.initial Sample.env)).isSome = true := rfl
      rw [h] at hs
      exact absurd hs (by simp)
    | some r =>
      exact ⟨r, rfl, ((BeginRendering_typed_color_clears Sample.env Sample.renderInfoClearColor
        (State.initial Sample.env)).1 r h).1⟩
  · exact (BeginRendering_typed_color_clears Sample.env Sample.renderInfoMistyped
      (State.initial Sample.env)).2 ⟨_, List.mem_singleton.mpr rfl, rfl, rfl⟩

/-- C18: a successful `BeginRendering` emits its colour clear calls for exactly the colour
attachments whose `clearOnLoad` is set: the draw buffers the colour clear calls address
are, in order, the indices of those attachments in increasing order (one call each, none
for an attachment with `clearOnLoad` unset). If no colour, depth or stencil attachment has
`clearOnLoad` set, no clear call is emitted and the tracked colour, depth and stencil
write masks are unchanged. -/
theorem BeginRendering_color_clear_indices (env : Env) (ri : RenderInfo) (s : State)
    (r : State × List GLCall) (h : BeginRendering env ri s = some r) :
    (r.2.filter GLCall.isColorClear).map GLCall.colorClearIndex =
      (clearOnLoadIndices 0 ri.colorAttachments).map some ∧
    ((∀ a ∈ ri.colorAttachments, a.clearOnLoad = false) →
      (∀ a, ri.depthAttachment = some a → a.clearOnLoad = false) →
      (∀ a, ri.stencilAttachment = some a → a.clearOnLoad = false) →
      r.2.filter GLCall.isClear = [] ∧
      r.1.sLastColorMask = s.sLastColorMask ∧ r.1.sLastDepthMask = s.sLastDepthMask ∧
      r.1.sLastStencilMask0 = s.sLastStencilMask0 ∧
      r.1.sLastStencilMask1 = s.sLastStencilMask1) := by
  obtain ⟨s3, r4, pre, vp, h4, h1, h2, hm, hd, hs0, hs1, hpre, hvp⟩ :=
    BeginRendering_shape env ri s r h
  obtain ⟨hc1, hc2, hc3⟩ := clearColorAttachments_colorClears env _ _ _ _ _ h4
  constructor
  · rw [colorClearIndex_filter, h2, List.filterMap_append, List.filterMap_append,
      List.filterMap_append, (setup_filter pre hpre).2.2, (setup_filter vp hvp).2.2, hc2]
    have hds : (clearDepthStencil ri r.1.sFbo r4.1).2.filterMap GLCall.colorClearIndex = [] := by
      have := (clearDepthStencil_clears ri r.1.sFbo r4.1).2
      have hmap := colorClearIndex_filter (clearDepthStencil ri r.1.sFbo r4.1).2
      rw [this] at hmap
      simpa using hmap.symm
    rw [hds]
    simp
  · intro hno hnd hns
    have h4' := clearColorAttachments_none env r.1.sFbo ri.colorAttachments hno 0 s3
    rw [h4'] at h4
    injection h4 with h4
    subst h4
    have hds := clearDepthStencil_none ri r.1.sFbo s3 hnd hns
    simp only [hds] at h1 h2
    refine ⟨?_, ?_, ?_, ?_, ?_⟩
    · rw [List.filter_eq_nil_iff]
      intro c hc
      rw [h2] at hc
      simp only [List.append_nil, List.mem_append] at hc
      have hsetup : c.isSetupCall = true := by
        rcases hc with hc | hc
        · exact hpre c hc
        · exact hvp c hc
      obtain ⟨ha, hb, _⟩ := setup_not_clear c hsetup
      simp [GLCall.isClear, ha, hb]
    · rw [h1]; exact hm
    · rw [h1]; exact hd
    · rw [h1]; exact hs0
    · rw [h1]; exact hs1

/-- C18 at a concrete input: one colour attachment cleared on load, from program start. -/
theorem BeginRendering_color_clear_indices_witness :
    ∃ r, BeginRendering Sample.env Sample.renderInfoClearColor (State.initial Sample.env) =
        some r ∧
      (r.2.filter GLCall.isColorClear).map GLCall.colorClearIndex = [some 0] := by
  cases h : BeginRendering Sample.env Sample.renderInfoClearColor (State.initial Sample.env) with
  | none =>
    have hs : (BeginRendering Sample.env Sample.renderInfoClearColor
      (State.initial Sample.env)).isSome = true := rfl
    rw [h] at hs
    exact absurd hs (by simp)
  | some r =>
    exact ⟨r, rfl, (BeginRendering_color_clear_indices Sample.env Sample.renderInfoClearColor
      (State.initial Sample.env) r h).1⟩

/-- C19: a successful `BeginRendering` emits as its depth/stencil clear calls exactly: one
combined depth-stencil clear when a depth and a stencil attachment are both present with
`clearOnLoad` set; one depth-only clear when the depth attachment requests a clear and the
stencil attachment is absent or does not; one stencil-only clear in the symmetric case;
none when neither requests a clear. In every case at most one such call. -/
theorem BeginRendering_depth_stencil_clear (env : Env) (ri : RenderInfo) (s : State)
    (r : State × List GLCall) (h : BeginRendering env ri s = some r) :
    r.2.filter GLCall.isDepthStencilClear = depthStencilClearSpec ri r.1.sFbo ∧
    (r.2.filter GLCall.isDepthStencilClear).length ≤ 1 := by
  obtain ⟨s3, r4, pre, vp, h4, _, h2, _, _, _, _, hpre, hvp⟩ :=
    BeginRendering_shape env ri s r h
  obtain ⟨_, _, hc3⟩ := clearColorAttachments_colorClears env _ _ _ _ _ h4
  have heq : r.2.filter GLCall.isDepthStencilClear = depthStencilClearSpec ri r.1.sFbo := by
    rw [h2, List.filter_append, List.filter_append, List.filter_append,
      (setup_filter pre hpre).2.1, (setup_filter vp hvp).2.1,
      (clearDepthStencil_clears ri _ _).1, hc3]
    simp
  refine ⟨heq, ?_⟩
  rw [heq]
  unfold depthStencilClearSpec
  split <;> simp

/-- C19 at a concrete input: colour, depth and stencil all cleared on load, from program
start; the only depth/stencil clear is the combined one. -/
theorem BeginRendering_depth_stencil_clear_witness :
    ∃ r, BeginRendering Sample.env Sample.renderInfoClearAll (State.initial Sample.env) =
        some r ∧
      r.2.filter GLCall.isDepthStencilClear =
        [GLCall.glClearNamedFramebufferfi r.1.sFbo 0 GLfloat.one 0] := by
  cases h : BeginRendering Sample.env Sample.renderInfoClearAll (State.initial Sample.env) with
  | none =>
    have hs : (BeginRendering Sample.env Sample.renderInfoClearAll
      (State.initial Sample.env)).isSome = true := rfl
    rw [h] at hs
    exact absurd hs (by simp)
  | some r =>
    exact ⟨r, rfl, (BeginRendering_depth_stencil_clear Sample.env Sample.renderInfoClearAll
      (State.initial Sample.env) r h).1⟩

/-! ## The trace of a pipeline bind -/

namespace Cmd

theorem BindGraphicsPipeline_eq (env : Env) (p : Nat) (s : State) :
    BindGraphicsPipeline env p s =
      if s.isRendering = false then none
      else if p = 0 then none
      else
        match env.GetGraphicsPipelineInternal p with
        | none => none
        | some ptr =>
          if s.sLastGraphicsPipeline = some ptr then some (s, [])
          else some (fullDiff env p ptr s) := rfl

theorem BindGraphicsPipeline_full (env : Env) (p ptr : Nat) (s : State)
    (hr : s.isRendering = true) (hp : p ≠ 0)
    (hreg : env.GetGraphicsPipelineInternal p = some ptr)
    (hl : s.sLastGraphicsPipeline ≠ some ptr) :
    BindGraphicsPipeline env p s = some (fullDiff env p ptr s) := by
  rw [BindGraphicsPipeline_eq]
  simp [hr, hp, hreg, hl]

theorem BindGraphicsPipeline_cases (env : Env) (p : Nat) (s : State) (r : State × List GLCall)
    (h : BindGraphicsPipeline env p s = some r) :
    ∃ ptr, env.GetGraphicsPipelineInternal p = some ptr ∧
      ((s.sLastGraphicsPipeline = some ptr ∧ r = (s, [])) ∨
       (s.sLastGraphicsPipeline ≠ some ptr ∧ r = fullDiff env p ptr s)) := by
  rw [BindGraphicsPipeline_eq] at h
  split at h
  · exact Option.noConfusion h
  split at h
  · exact Option.noConfusion h
  split at h
  · exact Option.noConfusion h
  rename_i ptr hreg
  refine ⟨ptr, hreg, ?_⟩
  split at h
  · rename_i hl
    injection h with h
    exact Or.inl ⟨hl, h.symm⟩
  · rename_i hl
    injection h with h
    exact Or.inr ⟨hl, h.symm⟩

/-- The trace of the full-diff path, section by section. -/
theorem fullDiff_trace (env : Env) (p ptr : Nat) (s : State) :
    ∃ s1 s4 s5 s7 s8 : State,
      (fullDiff env p ptr s).2 =
        (bindPipelineDebugGroup (env.pipelineObject ptr).name s).2 ++
        (if s.sLastGraphicsPipeline = none then [GLCall.glEnable GLCap.FRAMEBUFFER_SRGB]
          else []) ++
        [GLCall.glUseProgram (p % 4294967296)] ++
        (bindInputAssembly (s.sLastGraphicsPipeline.map env.pipelineObject)
          (env.pipelineObject ptr).inputAssemblyState s1).2 ++
        (bindVertexInput env (env.pipelineObject ptr).vertexInputState s4).2 ++
        bindRasterization env (s.sLastGraphicsPipeline.map env.pipelineObject)
          (env.pipelineObject ptr).rasterizationState ++
        (bindDepthState env (s.sLastGraphicsPipeline.map env.pipelineObject)
          (env.pipelineObject ptr).depthState s5).2 ++
        (bindStencilState env (s.sLastGraphicsPipeline.map env.pipelineObject)
          (env.pipelineObject ptr).stencilState s7).2 ++
        bindColorBlend env (s.sLastGraphicsPipeline.map env.pipelineObject)
          (env.pipelineObject ptr).colorBlendState ++
        (bindBlendAttachments env (s.sLastGraphicsPipeline.map env.pipelineObject) 0
          (env.pipelineObject ptr).colorBlendState.attachments s8).2 :=
  ⟨_, _, _, _, _, rfl⟩

theorem enableOrDisable_sublist_refl (cap : GLCap) (v : Bool) :
    (GLEnableOrDisable cap v).Sublist (GLEnableOrDisable cap v) := List.Sublist.refl _

end Cmd

theorem InBand.nil {lo hi : Nat} (h : lo ≤ hi) : InBand lo hi [] :=
  ⟨h, List.Pairwise.nil, by intro c hc; simp at hc⟩

theorem InBand.single {lo hi : Nat} (c : GLCall) (h1 : lo ≤ c.bindRank)
    (h2 : c.bindRank < hi) : InBand lo hi [c] := by
  refine ⟨by omega, List.pairwise_singleton _ _, ?_⟩
  intro d hd
  simp only [List.mem_singleton] at hd
  subst hd
  exact ⟨h1, h2⟩

theorem InBand.append (a b c : Nat) {l1 l2 : List GLCall} (h1 : InBand a b l1)
    (h2 : InBand b c l2) : InBand a c (l1 ++ l2) := by
  obtain ⟨hab, hp1, hb1⟩ := h1
  obtain ⟨hbc, hp2, hb2⟩ := h2
  refine ⟨by omega, ?_, ?_⟩
  · rw [List.pairwise_append]
    refine ⟨hp1, hp2, ?_⟩
    intro x hx y hy
    have := (hb1 x hx).2
    have := (hb2 y hy).1
    omega
  · intro x hx
    rw [List.mem_append] at hx
    rcases hx with hx | hx
    · have := hb1 x hx
      omega
    · have := hb2 x hx
      omega

theorem InBand.mono {lo hi lo2 hi2 : Nat} {l : List GLCall} (h : InBand lo hi l)
    (h1 : lo2 ≤ lo) (h2 : hi ≤ hi2) : InBand lo2 hi2 l := by
  obtain ⟨hab, hp, hb⟩ := h
  refine ⟨by omega, hp, ?_⟩
  intro x hx
  have := hb x hx
  omega

theorem InBand.ite {lo hi : Nat} {l : List GLCall} {c : Prop} [Decidable c]
    (h : InBand lo hi l) : InBand lo hi (if c then l else []) := by
  split
  · exact h
  · exact InBand.nil h.1

theorem InBand.enableOrDisable {lo hi : Nat} (cap : GLCap) (v : Bool)
    (h1 : lo ≤ cap.bindRank) (h2 : cap.bindRank < hi) :
    InBand lo hi (GLEnableOrDisable cap v) := by
  unfold GLEnableOrDisable
  split
  · exact InBand.single _ h1 h2
  · exact InBand.single _ h1 h2

theorem bindGroupOfRank_mono {a b : Nat} (h : a ≤ b) :
    bindGroupOfRank a ≤ bindGroupOfRank b := by
  unfold bindGroupOfRank
  split_ifs <;> omega

theorem bindGroup_eq (c : GLCall) : c.bindGroup = bindGroupOfRank c.bindRank := by
  cases c
  case glEnable cap => cases cap <;> rfl
  case glDisable cap => cases cap <;> rfl
  case glStencilOpSeparate face _ _ _ => cases face <;> rfl
  case glStencilFuncSeparate face _ _ _ => cases face <;> rfl
  case glStencilMaskSeparate face _ => cases face <;> rfl
  case glBlendFuncSeparatei i _ _ _ _ =>
    simp only [GLCall.bindGroup, GLCall.bindRank, bindGroupOfRank]
    split_ifs <;> omega
  case glBlendEquationSeparatei i _ _ =>
    simp only [GLCall.bindGroup, GLCall.bindRank, bindGroupOfRank]
    split_ifs <;> omega
  case glColorMaski i _ _ _ _ =>
    simp only [GLCall.bindGroup, GLCall.bindRank, bindGroupOfRank]
    split_ifs <;> omega
  all_goals rfl

namespace Cmd

theorem bindPipelineDebugGroup_inBand (name : String) (s : State) :
    InBand 0 2 (bindPipelineDebugGroup name s).2 := by
  unfold bindPipelineDebugGroup
  simp only
  refine InBand.append 0 1 2 ?_ ?_
  · split
    · exact InBand.single _ (by simp [GLCall.bindRank, GLFace.bindRank, GLCap.bindRank]) (by simp [GLCall.bindRank, GLFace.bindRank, GLCap.bindRank])
    · exact InBand.nil (by omega)
  · split
    · exact InBand.single _ (by simp [GLCall.bindRank, GLFace.bindRank, GLCap.bindRank]) (by simp [GLCall.bindRank, GLFace.bindRank, GLCap.bindRank])
    · exact InBand.nil (by omega)

theorem bindInputAssembly_inBand (last : Option GraphicsPipelineInfoOwning)
    (ias : InputAssemblyState) (s : State) : InBand 4 5 (bindInputAssembly last ias s).2 := by
  unfold bindInputAssembly
  exact InBand.ite (InBand.enableOrDisable _ _ (Nat.le_refl _) (Nat.lt_succ_self _))

theorem bindVertexInput_inBand (env : Env) (vis : VertexInputStateOwning) (s : State) :
    InBand 5 7 (bindVertexInput env vis s).2 := by
  unfold bindVertexInput CreateOrGetCachedVertexArray
  simp only
  split
  · refine InBand.append 5 6 7 (InBand.ite ?_) ?_
    · exact InBand.single _ (by simp [GLCall.bindRank, GLFace.bindRank, GLCap.bindRank]) (by simp [GLCall.bindRank, GLFace.bindRank, GLCap.bindRank])
    · exact InBand.single _ (by simp [GLCall.bindRank, GLFace.bindRank, GLCap.bindRank]) (by simp [GLCall.bindRank, GLFace.bindRank, GLCap.bindRank])
  · refine InBand.mono (InBand.ite ?_) (Nat.le_refl _) (Nat.le_succ 6)
    exact InBand.single _ (by simp [GLCall.bindRank, GLFace.bindRank, GLCap.bindRank]) (by simp [GLCall.bindRank, GLFace.bindRank, GLCap.bindRank])

theorem bindRasterization_inBand (env : Env) (last : Option GraphicsPipelineInfoOwning)
    (rs : RasterizationState) : InBand 7 18 (bindRasterization env last rs) := by
  unfold bindRasterization
  refine InBand.append 7 17 18 (InBand.append 7 16 17 (InBand.append 7 15 16
    (InBand.append 7 12 15 (InBand.append 7 11 12 (InBand.append 7 9 11
      (InBand.append 7 8 9 (InBand.ite ?_) (InBand.ite ?_)) (InBand.ite ?_)) (InBand.ite ?_))
        (InBand.ite ?_)) (InBand.ite ?_)) (InBand.ite ?_)) (InBand.ite ?_)
  · exact InBand.enableOrDisable _ _ (Nat.le_refl _) (Nat.lt_succ_self _)
  · exact InBand.single _ (by simp [GLCall.bindRank, GLFace.bindRank, GLCap.bindRank]) (by simp [GLCall.bindRank, GLFace.bindRank, GLCap.bindRank])
  · exact InBand.append 9 10 11
      (InBand.enableOrDisable _ _ (Nat.le_refl _) (Nat.lt_succ_self _))
      (InBand.ite (InBand.single _ (by simp [GLCall.bindRank, GLFace.bindRank, GLCap.bindRank]) (by simp [GLCall.bindRank, GLFace.bindRank, GLCap.bindRank])))
  · exact InBand.single _ (by simp [GLCall.bindRank, GLFace.bindRank, GLCap.bindRank]) (by simp [GLCall.bindRank, GLFace.bindRank, GLCap.bindRank])
  · exact InBand.append 12 14 15 (InBand.append 12 13 14
      (InBand.enableOrDisable _ _ (Nat.le_refl _) (Nat.lt_succ_self _))
      (InBand.enableOrDisable _ _ (Nat.le_refl _) (Nat.lt_succ_self _)))
      (InBand.enableOrDisable _ _ (Nat.le_refl _) (Nat.lt_succ_self _))
  · exact InBand.single _ (by simp [GLCall.bindRank, GLFace.bindRank, GLCap.bindRank]) (by simp [GLCall.bindRank, GLFace.bindRank, GLCap.bindRank])
  · exact InBand.single _ (by simp [GLCall.bindRank, GLFace.bindRank, GLCap.bindRank]) (by simp [GLCall.bindRank, GLFace.bindRank, GLCap.bindRank])
  · exact InBand.single _ (by simp [GLCall.bindRank, GLFace.bindRank, GLCap.bindRank]) (by simp [GLCall.bindRank, GLFace.bindRank, GLCap.bindRank])

/-- The calls of the depth section: the enable, at most one depth-mask call, and the depth
function call when the test is on and the compare op differs from the last record's. -/
theorem bindDepthState_shape (env : Env) (last : Option GraphicsPipelineInfoOwning)
    (ds : DepthState) (s : State) :
    ∃ m : List GLCall,
      (bindDepthState env last ds s).2 =
        (if changed last (fun l => l.depthState.depthTestEnable) ds.depthTestEnable then
          GLEnableOrDisable GLCap.DEPTH_TEST ds.depthTestEnable else []) ++ m ++
        (if ds.depthTestEnable then
          (if changed last (fun l => l.depthState.depthCompareOp) ds.depthCompareOp then
            [GLCall.glDepthFunc (env.CompareOpToGL ds.depthCompareOp)] else [])
          else []) ∧
      (m = [] ∨ m = [GLCall.glDepthMask ds.depthWriteEnable]) := by
  unfold bindDepthState
  by_cases h1 : ds.depthTestEnable = true
  · rw [if_pos h1, if_pos h1]
    by_cases hw : changed last (fun l => l.depthState.depthWriteEnable) ds.depthWriteEnable = true
    · by_cases hm : ds.depthWriteEnable ≠ s.sLastDepthMask
      · refine ⟨[GLCall.glDepthMask ds.depthWriteEnable], ?_, Or.inr rfl⟩
        rw [if_pos hw, if_pos hm]
      · refine ⟨[], ?_, Or.inl rfl⟩
        rw [if_pos hw, if_neg hm]
    · refine ⟨[], ?_, Or.inl rfl⟩
      rw [if_neg hw]
  · rw [if_neg h1, if_neg h1]
    exact ⟨[], by simp, Or.inl rfl⟩

theorem bindDepthState_inBand (env : Env) (last : Option GraphicsPipelineInfoOwning)
    (ds : DepthState) (s : State) : InBand 18 21 (bindDepthState env last ds s).2 := by
  obtain ⟨m, hm, hm2⟩ := bindDepthState_shape env last ds s
  rw [hm]
  refine InBand.append 18 20 21 (InBand.append 18 19 20 (InBand.ite ?_) ?_)
    (InBand.ite (InBand.ite ?_))
  · exact InBand.enableOrDisable _ _ (Nat.le_refl _) (Nat.lt_succ_self _)
  · rcases hm2 with rfl | rfl
    · exact InBand.nil (by omega)
    · exact InBand.single _ (by simp [GLCall.bindRank, GLFace.bindRank, GLCap.bindRank]) (by simp [GLCall.bindRank, GLFace.bindRank, GLCap.bindRank])
  · exact InBand.single _ (by simp [GLCall.bindRank, GLFace.bindRank, GLCap.bindRank]) (by simp [GLCall.bindRank, GLFace.bindRank, GLCap.bindRank])

/-- The calls of the stencil section: the enable, then for each face, when the test is on
and the face state is not known to be the last record's, the stencil op and function
calls and at most one write-mask call. -/
theorem bindStencilState_shape (env : Env) (last : Option GraphicsPipelineInfoOwning)
    (ss : StencilState) (s : State) :
    ∃ m0 m1 : List GLCall,
      (bindStencilState env last ss s).2 =
        (if changed last (fun l => l.stencilState.stencilTestEnable) ss.stencilTestEnable then
          GLEnableOrDisable GLCap.STENCIL_TEST ss.stencilTestEnable else []) ++
        ((if ss.stencilTestEnable then
            (if stencilFaceChanged last (fun l => l.front) ss.front then
              [GLCall.glStencilOpSeparate GLFace.FRONT (env.StencilOpToGL ss.front.failOp)
                (env.StencilOpToGL ss.front.depthFailOp) (env.StencilOpToGL ss.front.passOp),
               GLCall.glStencilFuncSeparate GLFace.FRONT
                (env.CompareOpToGL ss.front.compareOp) ss.front.reference ss.front.compareMask]
            else [])
          else []) ++ m0) ++
        ((if ss.stencilTestEnable then
            (if stencilFaceChanged last (fun l => l.back) ss.back then
              [GLCall.glStencilOpSeparate GLFace.BACK (env.StencilOpToGL ss.back.failOp)
                (env.StencilOpToGL ss.back.depthFailOp) (env.StencilOpToGL ss.back.passOp),
               GLCall.glStencilFuncSeparate GLFace.BACK
                (env.CompareOpToGL ss.back.compareOp) ss.back.reference ss.back.compareMask]
            else [])
          else []) ++ m1) ∧
      (m0 = [] ∨ m0 = [GLCall.glStencilMaskSeparate GLFace.FRONT ss.front.writeMask]) ∧
      (m1 = [] ∨ m1 = [GLCall.glStencilMaskSeparate GLFace.BACK ss.back.writeMask]) := by
  unfold bindStencilState
  by_cases h1 : ss.stencilTestEnable = true
  · rw [if_pos h1, if_pos h1, if_pos h1]
    by_cases h2 : stencilFaceChanged last (fun l => l.front) ss.front = true
    · by_cases hm0 : s.sLastStencilMask0 ≠ ss.front.writeMask
      · by_cases h3 : stencilFaceChanged last (fun l => l.back) ss.back = true
        · by_cases hm1 : s.sLastStencilMask1 ≠ ss.back.writeMask
          · refine ⟨[GLCall.glStencilMaskSeparate GLFace.FRONT ss.front.writeMask],
              [GLCall.glStencilMaskSeparate GLFace.BACK ss.back.writeMask], ?_,
              Or.inr rfl, Or.inr rfl⟩
            simp only [if_pos h2, if_pos hm0, if_pos h3, if_pos hm1, List.append_assoc]
          · refine ⟨[GLCall.glStencilMaskSeparate GLFace.FRONT ss.front.writeMask], [], ?_,
              Or.inr rfl, Or.inl rfl⟩
            simp only [if_pos h2, if_pos hm0, if_pos h3, if_neg hm1, List.append_assoc]
            rfl
        · refine ⟨[GLCall.glStencilMaskSeparate GLFace.FRONT ss.front.writeMask], [], ?_,
            Or.inr rfl, Or.inl rfl⟩
          simp only [if_pos h2, if_pos hm0, if_neg h3, List.append_assoc]
          rfl
      · by_cases h3 : stencilFaceChanged last (fun l => l.back) ss.back = true
        · by_cases hm1 : s.sLastStencilMask1 ≠ ss.back.writeMask
          · refine ⟨[], [GLCall.glStencilMaskSeparate GLFace.BACK ss.back.writeMask], ?_,
              Or.inl rfl, Or.inr rfl⟩
            simp only [if_pos h2, if_neg hm0, if_pos h3, if_pos hm1, List.append_assoc]
            rfl
          · refine ⟨[], [], ?_, Or.inl rfl, Or.inl rfl⟩
            simp only [if_pos h2, if_neg hm0, if_pos h3, if_neg hm1, List.append_assoc]
            rfl
        · refine ⟨[], [], ?_, Or.inl rfl, Or.inl rfl⟩
          simp only [if_pos h2, if_neg hm0, if_neg h3, List.append_assoc]
          rfl
    · by_cases h3 : stencilFaceChanged last (fun l => l.back) ss.back = true
      · by_cases hm1 : s.sLastStencilMask1 ≠ ss.back.writeMask
        · refine ⟨[], [GLCall.glStencilMaskSeparate GLFace.BACK ss.back.writeMask], ?_,
            Or.inl rfl, Or.inr rfl⟩
          simp only [if_neg h2, if_pos h3, if_pos hm1, List.append_assoc]
          rfl
        · refine ⟨[], [], ?_, Or.inl rfl, Or.inl rfl⟩
          simp only [if_neg h2, if_pos h3, if_neg hm1, List.append_assoc]
          rfl
      · refine ⟨[], [], ?_, Or.inl rfl, Or.inl rfl⟩
        simp only [if_neg h2, if_neg h3, List.append_assoc]
        rfl
  · rw [if_neg h1, if_neg h1, if_neg h1]
    exact ⟨[], [], by simp, Or.inl rfl, Or.inl rfl⟩

theorem bindStencilState_inBand (env : Env) (last : Option GraphicsPipelineInfoOwning)
    (ss : StencilState) (s : State) : InBand 21 28 (bindStencilState env last ss s).2 := by
  obtain ⟨m0, m1, hm, h0, h1⟩ := bindStencilState_shape env last ss s
  rw [hm]
  refine InBand.append 21 25 28 (InBand.append 21 22 25 (InBand.ite ?_)
    (InBand.append 22 24 25 (InBand.ite (InBand.ite ?_)) ?_))
    (InBand.append 25 27 28 (InBand.ite (InBand.ite ?_)) ?_)
  · exact InBand.enableOrDisable _ _ (Nat.le_refl _) (Nat.lt_succ_self _)
  · exact InBand.append 22 23 24 (InBand.single _ (by simp [GLCall.bindRank, GLFace.bindRank, GLCap.bindRank]) (by simp [GLCall.bindRank, GLFace.bindRank, GLCap.bindRank]))
      (InBand.single _ (by simp [GLCall.bindRank, GLFace.bindRank, GLCap.bindRank]) (by simp [GLCall.bindRank, GLFace.bindRank, GLCap.bindRank]))
  · rcases h0 with rfl | rfl
    · exact InBand.nil (by omega)
    · exact InBand.single _ (by simp [GLCall.bindRank, GLFace.bindRank, GLCap.bindRank]) (by simp [GLCall.bindRank, GLFace.bindRank, GLCap.bindRank])
  · exact InBand.append 25 26 27 (InBand.single _ (by simp [GLCall.bindRank, GLFace.bindRank, GLCap.bindRank]) (by simp [GLCall.bindRank, GLFace.bindRank, GLCap.bindRank]))
      (InBand.single _ (by simp [GLCall.bindRank, GLFace.bindRank, GLCap.bindRank]) (by simp [GLCall.bindRank, GLFace.bindRank, GLCap.bindRank]))
  · rcases h1 with rfl | rfl
    · exact InBand.nil (by omega)
    · exact InBand.single _ (by simp [GLCall.bindRank, GLFace.bindRank, GLCap.bindRank]) (by simp [GLCall.bindRank, GLFace.bindRank, GLCap.bindRank])

theorem bindColorBlend_inBand (env : Env) (last : Option GraphicsPipelineInfoOwning)
    (cb : ColorBlendStateOwning) : InBand 28 32 (bindColorBlend env last cb) := by
  unfold bindColorBlend
  refine InBand.append 28 31 32 (InBand.append 28 30 31 (InBand.ite ?_) (InBand.ite ?_))
    (InBand.ite ?_)
  · exact InBand.append 28 29 30
      (InBand.enableOrDisable _ _ (Nat.le_refl _) (Nat.lt_succ_self _))
      (InBand.ite (InBand.single _ (by simp [GLCall.bindRank, GLFace.bindRank, GLCap.bindRank]) (by simp [GLCall.bindRank, GLFace.bindRank, GLCap.bindRank])))
  · exact InBand.single _ (by simp [GLCall.bindRank, GLFace.bindRank, GLCap.bindRank]) (by simp [GLCall.bindRank, GLFace.bindRank, GLCap.bindRank])
  · exact InBand.enableOrDisable _ _ (Nat.le_refl _) (Nat.lt_succ_self _)

theorem blendFunctionCalls_inBand (env : Env) (i : Nat) (cba : ColorBlendAttachmentState) :
    InBand (32 + 3 * i) (34 + 3 * i) (blendFunctionCalls env i cba) := by
  unfold blendFunctionCalls
  split
  · exact InBand.append (32 + 3 * i) (33 + 3 * i) (34 + 3 * i)
      (InBand.single _ (by simp [GLCall.bindRank, GLFace.bindRank, GLCap.bindRank]) (by simp [GLCall.bindRank, GLFace.bindRank, GLCap.bindRank]))
      (InBand.single _ (by simp [GLCall.bindRank, GLFace.bindRank, GLCap.bindRank]) (by simp [GLCall.bindRank, GLFace.bindRank, GLCap.bindRank]))
  · exact InBand.append (32 + 3 * i) (33 + 3 * i) (34 + 3 * i)
      (InBand.single _ (by simp [GLCall.bindRank, GLFace.bindRank, GLCap.bindRank]) (by simp [GLCall.bindRank, GLFace.bindRank, GLCap.bindRank]))
      (InBand.single _ (by simp [GLCall.bindRank, GLFace.bindRank, GLCap.bindRank]) (by simp [GLCall.bindRank, GLFace.bindRank, GLCap.bindRank]))

theorem bindBlendAttachments_inBand (env : Env) (last : Option GraphicsPipelineInfoOwning)
    (atts : List ColorBlendAttachmentState) :
    ∀ (i : Nat) (s : State),
      InBand (32 + 3 * i) (32 + 3 * (i + atts.length))
        (bindBlendAttachments env last i atts s).2 := by
  induction atts with
  | nil => intro i s; exact InBand.nil (by simp)
  | cons a rest ih =>
    intro i s
    unfold bindBlendAttachments
    split
    · exact (ih (i + 1) s).mono (by omega) (by simp only [List.length_cons]; omega)
    · simp only
      refine InBand.append (32 + 3 * i) (32 + 3 * (i + 1)) _
        (InBand.append (32 + 3 * i) (34 + 3 * i) _ (blendFunctionCalls_inBand env i a) ?_) ?_
      · split
        · exact InBand.single _ (by simp [colorMaskCall, GLCall.bindRank])
            (by simp only [colorMaskCall, GLCall.bindRank]; omega)
        · exact InBand.nil (by omega)
      · exact (ih (i + 1) _).mono (Nat.le_refl _) (by simp only [List.length_cons]; omega)

theorem fullDiff_inBand (env : Env) (p ptr : Nat) (s : State) :
    InBand 0 (32 + 3 * (env.pipelineObject ptr).colorBlendState.attachments.length)
      (fullDiff env p ptr s).2 := by
  obtain ⟨s1, s4, s5, s7, s8, ht⟩ := fullDiff_trace env p ptr s
  rw [ht]
  refine InBand.append 0 32 _ (InBand.append 0 28 32 (InBand.append 0 21 28
    (InBand.append 0 18 21 (InBand.append 0 7 18 (InBand.append 0 5 7 (InBand.append 0 4 5
      (InBand.append 0 3 4 (InBand.append 0 2 3 ?_ (InBand.ite ?_)) ?_) ?_) ?_) ?_) ?_) ?_)
        ?_) ?_
  · exact bindPipelineDebugGroup_inBand _ _
  · exact InBand.single _ (by simp [GLCall.bindRank, GLFace.bindRank, GLCap.bindRank]) (by simp [GLCall.bindRank, GLFace.bindRank, GLCap.bindRank])
  · exact InBand.single _ (by simp [GLCall.bindRank, GLFace.bindRank, GLCap.bindRank]) (by simp [GLCall.bindRank, GLFace.bindRank, GLCap.bindRank])
  · exact bindInputAssembly_inBand _ _ _
  · exact bindVertexInput_inBand _ _ _
  · exact bindRasterization_inBand _ _ _
  · exact bindDepthState_inBand _ _ _ _
  · exact bindStencilState_inBand _ _ _ _
  · exact bindColorBlend_inBand _ _ _
  · have := bindBlendAttachments_inBand env (s.sLastGraphicsPipeline.map env.pipelineObject)
      (env.pipelineObject ptr).colorBlendState.attachments 0 s8
    simpa using this

end Cmd

/-- C14: in the trace of any successful `BindGraphicsPipeline` call the positions of the
calls in the fixed field order `GLCall.bindRank` (which depends on the kind of call, the
capability, the face and the attachment index only) increase strictly, and hence the
groups of the calls - program selection, input assembly, vertex input, rasterization,
depth/stencil, blend - never decrease: no call of a later group precedes a call of an
earlier group. The pipeline debug group and the first-bind sRGB enable are issued before
the program is selected and belong to none of the six groups (group 0). -/
theorem BindGraphicsPipeline_call_order (env : Env) (p : Nat) (s : State)
    (r : State × List GLCall) (h : Cmd.BindGraphicsPipeline env p s = some r) :
    r.2.Pairwise (fun a b => a.bindRank < b.bindRank) ∧
    r.2.Pairwise (fun a b => a.bindGroup ≤ b.bindGroup) := by
  have hp : r.2.Pairwise (fun a b => a.bindRank < b.bindRank) := by
    obtain ⟨ptr, _, ⟨_, hr⟩ | ⟨_, hr⟩⟩ := Cmd.BindGraphicsPipeline_cases env p s r h
    · rw [hr]
      exact List.Pairwise.nil
    · rw [hr]
      exact (Cmd.fullDiff_inBand env p ptr s).2.1
  refine ⟨hp, hp.imp ?_⟩
  intro a b hab
  rw [bindGroup_eq a, bindGroup_eq b]
  exact bindGroupOfRank_mono (Nat.le_of_lt hab)

/-- C14 at a concrete input: the first bind of pipeline 11 in a render pass opened from
program start issues 29 calls, in the fixed order. -/
theorem BindGraphicsPipeline_call_order_witness :
    ∃ r, Cmd.BindGraphicsPipeline Sample.env2 11 Sample.passOpen = some r ∧
      r.2.length = 29 ∧
      r.2.Pairwise (fun a b => a.bindRank < b.bindRank) ∧
      r.2.Pairwise (fun a b => a.bindGroup ≤ b.bindGroup) := by
  cases h : Cmd.BindGraphicsPipeline Sample.env2 11 Sample.passOpen with
  | none =>
    have hs : (Cmd.BindGraphicsPipeline Sample.env2 11 Sample.passOpen).isSome = true := rfl
    rw [h] at hs
    exact absurd hs (by simp)
  | some r =>
    have hl : (Cmd.BindGraphicsPipeline Sample.env2 11 Sample.passOpen).map
        (fun r => r.2.length) = some 29 := rfl
    rw [h] at hl
    exact ⟨r, rfl, by simpa using hl, BindGraphicsPipeline_call_order Sample.env2 11 _ r h⟩

/-! ## Calls that only a pipeline bind issues -/

theorem PassCalls.empty : PassCalls [] := by
  intro c hc
  simp at hc

theorem PassCalls.concat {l1 l2 : List GLCall} (h1 : PassCalls l1) (h2 : PassCalls l2) :
    PassCalls (l1 ++ l2) := by
  intro c hc
  rw [List.mem_append] at hc
  rcases hc with hc | hc
  · exact h1 c hc
  · exact h2 c hc

theorem PassCalls.one (c : GLCall) (h : c.isPipelineStateCall = false) : PassCalls [c] := by
  intro d hd
  simp only [List.mem_singleton] at hd
  subst hd
  exact h

theorem PassCalls.cond {c : Prop} [Decidable c] {l1 l2 : List GLCall} (h1 : PassCalls l1)
    (h2 : PassCalls l2) : PassCalls (if c then l1 else l2) := by
  split
  · exact h1
  · exact h2

theorem PassCalls.ite_snd {c : Prop} [Decidable c] {x y : State × List GLCall}
    (hx : PassCalls x.2) (hy : PassCalls y.2) : PassCalls (if c then x else y).2 := by
  split
  · exact hx
  · exact hy

theorem PassCalls.of_setup {l : List GLCall} (h : ∀ c ∈ l, c.isSetupCall = true) :
    PassCalls l := by
  intro c hc
  have := h c hc
  cases c <;> simp_all [GLCall.isSetupCall, GLCall.isPipelineStateCall]

theorem enableColorMask_passCalls (i : Nat) (s : State) : PassCalls (enableColorMask i s).2 := by
  unfold enableColorMask
  split
  · exact PassCalls.one _ (by rfl)
  · exact PassCalls.empty

theorem enableDepthMask_passCalls (s : State) : PassCalls (enableDepthMask s).2 := by
  unfold enableDepthMask
  split
  · exact PassCalls.one _ (by rfl)
  · exact PassCalls.empty

theorem enableStencilMask_passCalls (s : State) : PassCalls (enableStencilMask s).2 := by
  unfold enableStencilMask
  split
  · exact PassCalls.one _ (by rfl)
  · exact PassCalls.empty

theorem clearColorAttachments_passCalls (env : Env) (fbo : Nat)
    (atts : List RenderColorAttachment) :
    ∀ (i : Nat) (s : State) (r : State × List GLCall),
      clearColorAttachments env fbo i atts s = some r → PassCalls r.2 := by
  induction atts with
  | nil =>
    intro i s r h
    simp only [clearColorAttachments, Option.some.injEq] at h
    subst h
    exact PassCalls.empty
  | cons a rest ih =>
    intro i s r h
    unfold clearColorAttachments at h
    split at h
    · split at h
      all_goals first
        | exact Option.noConfusion h
        | (simp only [Option.map_eq_some'] at h
           obtain ⟨r2, h2, rfl⟩ := h
           exact ((enableColorMask_passCalls i s).concat (PassCalls.one _ (by rfl))).concat
             (ih _ _ _ h2))
    · exact ih _ _ _ h

theorem clearDepthStencil_passCalls (ri : RenderInfo) (fbo : Nat) (s : State) :
    PassCalls (clearDepthStencil ri fbo s).2 := by
  unfold clearDepthStencil
  split
  · split
    · exact ((enableDepthMask_passCalls _).concat (enableStencilMask_passCalls _)).concat
        (PassCalls.one _ (by rfl))
    · split
      · exact (enableDepthMask_passCalls _).concat (PassCalls.one _ (by rfl))
      · split
        · exact (enableStencilMask_passCalls _).concat (PassCalls.one _ (by rfl))
        · exact PassCalls.empty
  · split
    · exact (enableDepthMask_passCalls _).concat (PassCalls.one _ (by rfl))
    · exact PassCalls.empty
  · split
    · exact (enableStencilMask_passCalls _).concat (PassCalls.one _ (by rfl))
    · exact PassCalls.empty
  · exact PassCalls.empty

theorem BeginRendering_passCalls (env : Env) (ri : RenderInfo) (s : State)
    (r : State × List GLCall) (h : BeginRendering env ri s = some r) : PassCalls r.2 := by
  obtain ⟨s3, r4, pre, vp, h4, _, hr, _, _, _, _, hpre, hvp⟩ := BeginRendering_shape env ri s r h
  rw [hr]
  exact (((PassCalls.of_setup hpre).concat
    (clearColorAttachments_passCalls env _ _ _ _ _ h4)).concat
    (clearDepthStencil_passCalls ri _ _)).concat (PassCalls.of_setup hvp)

theorem swapchainClearColor_passCalls (ri : SwapchainRenderInfo) (s : State)
    (r : State × List GLCall) (h : swapchainClearColor ri s = some r) : PassCalls r.2 := by
  unfold swapchainClearColor at h
  split at h
  · split at h
    · injection h with h
      subst h
      exact (enableColorMask_passCalls 0 s).concat (PassCalls.one _ (by rfl))
    · exact Option.noConfusion h
  · injection h with h
    subst h
    exact PassCalls.empty

theorem swapchainClearDepth_passCalls (ri : SwapchainRenderInfo) (s : State) :
    PassCalls (swapchainClearDepth ri s).2 := by
  unfold swapchainClearDepth
  split
  · exact (enableDepthMask_passCalls s).concat (PassCalls.one _ (by rfl))
  · exact PassCalls.empty

theorem swapchainClearStencil_passCalls (ri : SwapchainRenderInfo) (s : State) :
    PassCalls (swapchainClearStencil ri s).2 := by
  unfold swapchainClearStencil
  split
  · exact (enableStencilMask_passCalls s).concat (PassCalls.one _ (by rfl))
  · exact PassCalls.empty

theorem swapchainDisableSrgb_passCalls (ri : SwapchainRenderInfo) (s : State) :
    PassCalls (swapchainDisableSrgb ri s).2 := by
  unfold swapchainDisableSrgb
  split
  · exact PassCalls.one _ (by rfl)
  · exact PassCalls.empty

theorem BeginSwapchainRendering_passCalls (env : Env) (ri : SwapchainRenderInfo) (s : State)
    (r : State × List GLCall) (h : BeginSwapchainRendering env ri s = some r) :
    PassCalls r.2 := by
  unfold BeginSwapchainRendering at h
  split at h
  · exact Option.noConfusion h
  split at h
  · exact Option.noConfusion h
  simp only at h
  split at h
  · exact Option.noConfusion h
  rename_i r4 h4
  injection h with h
  subst h
  exact (((((((PassCalls.of_setup (debugZeroResourceBindings_setup env _)).concat
    (PassCalls.of_setup (pushScopedDebugGroup_setup _ _))).concat
    (PassCalls.one _ (by rfl))).concat (swapchainClearColor_passCalls ri _ r4 h4)).concat
    (swapchainClearDepth_passCalls ri _)).concat (swapchainClearStencil_passCalls ri _)).concat
    (swapchainDisableSrgb_passCalls ri _)).concat
    (PassCalls.of_setup (SetViewportInternal_setup env _ _ _))

theorem popDebugGroups_passCalls (s : State) : PassCalls (popDebugGroups s).2 := by
  unfold popDebugGroups
  simp only
  exact (PassCalls.ite_snd (PassCalls.one _ (by rfl)) PassCalls.empty).concat
    (PassCalls.ite_snd (PassCalls.one _ (by rfl)) PassCalls.empty)

theorem EndRendering_passCalls (s : State) (r : State × List GLCall)
    (h : EndRendering s = some r) : PassCalls r.2 := by
  unfold EndRendering at h
  split at h
  · exact Option.noConfusion h
  injection h with h
  subst h
  simp only
  exact ((popDebugGroups_passCalls _).concat
    (PassCalls.ite_snd (PassCalls.one _ (by rfl)) PassCalls.empty)).concat
    (PassCalls.cond (PassCalls.one _ (by rfl)) PassCalls.empty)

theorem EndCompute_passCalls (s : State) (r : State × List GLCall)
    (h : EndCompute s = some r) : PassCalls r.2 := by
  unfold EndCompute at h
  split at h
  · exact Option.noConfusion h
  injection h with h
  subst h
  exact popDebugGroups_passCalls _

theorem BeginCompute_passCalls (env : Env) (name : String) (s : State)
    (r : State × List GLCall) (h : BeginCompute env name s = some r) : PassCalls r.2 := by
  rw [BeginCompute_eq] at h
  split at h
  · injection h with h
    subst h
    exact (PassCalls.of_setup (debugZeroResourceBindings_setup env _)).concat
      (PassCalls.of_setup (pushScopedDebugGroup_setup _ _))
  · exact Option.noConfusion h

theorem Cmd.bindPipelineDebugGroup_passCalls (name : String) (s : State) :
    PassCalls (Cmd.bindPipelineDebugGroup name s).2 := by
  unfold Cmd.bindPipelineDebugGroup
  simp only
  exact (PassCalls.ite_snd (PassCalls.one _ (by rfl)) PassCalls.empty).concat
    (PassCalls.ite_snd (PassCalls.one _ (by rfl)) PassCalls.empty)

theorem step_plainCommand_passCalls (env : Env) (op : Op) (s : State)
    (r : State × List GLCall) (hop : op.isPlainCommand = true) (h : step env op s = some r) :
    PassCalls r.2 := by
  cases op <;> simp only [Op.isPlainCommand, Bool.false_eq_true] at hop
  case BindComputePipeline p =>
    simp only [step, Cmd.BindComputePipeline] at h
    split at h
    · exact Option.noConfusion h
    split at h
    · exact Option.noConfusion h
    split at h
    · exact Option.noConfusion h
    injection h with h
    subst h
    exact (Cmd.bindPipelineDebugGroup_passCalls _ _).concat (PassCalls.one _ (by rfl))
  case SetViewport v =>
    simp only [step, Cmd.SetViewport] at h
    split at h
    · exact Option.noConfusion h
    injection h with h
    subst h
    exact PassCalls.of_setup (SetViewportInternal_setup env _ _ _)
  all_goals
    simp only [step, Cmd.SetScissor, Cmd.BindVertexBuffer, Cmd.BindIndexBuffer,
      Cmd.Draw, Cmd.DrawIndexed, Cmd.DrawIndirect, Cmd.DrawIndirectCount,
      Cmd.DrawIndexedIndirect, Cmd.DrawIndexedIndirectCount, Cmd.BindUniformBuffer,
      Cmd.BindStorageBuffer, Cmd.BindSampledImage, Cmd.BindImage, Cmd.Dispatch,
      Cmd.DispatchIndirect] at h
    repeat' split at h
    all_goals first
      | exact Option.noConfusion h
      | (injection h with h
         subst h
         simp [PassCalls, GLCall.isPipelineStateCall, GLCap.isPipelineState])

/-- Every call other than `BindGraphicsPipeline` leaves the last-bound record alone and
sets no fixed-function pipeline state. -/
theorem step_passCalls (env : Env) (op : Op) (s : State) (r : State × List GLCall)
    (h : step env op s = some r) :
    (∃ p, op = Op.BindGraphicsPipeline p) ∨
      (r.1.sLastGraphicsPipeline = s.sLastGraphicsPipeline ∧ PassCalls r.2) := by
  cases hop : op.isPlainCommand
  · cases op <;> simp only [Op.isPlainCommand, Bool.true_eq_false] at hop
    case BeginRendering ri =>
      obtain ⟨a, b, c, d, e, g, fc, fb, m, dm, m0, m1, hr⟩ := BeginRendering_fst env ri s r h
      exact Or.inr ⟨by rw [hr], BeginRendering_passCalls env ri s r h⟩
    case BeginSwapchainRendering ri =>
      obtain ⟨a, b, c, d, e, g, m, dm, m0, m1, sd, hr⟩ :=
        BeginSwapchainRendering_fst env ri s r h
      exact Or.inr ⟨by rw [hr], BeginSwapchainRendering_passCalls env ri s r h⟩
    case EndRendering =>
      obtain ⟨_, hr⟩ := EndRendering_fst s r h
      exact Or.inr ⟨by rw [hr], EndRendering_passCalls s r h⟩
    case BeginCompute name =>
      obtain ⟨a, b, c, d, e, g, hr⟩ := BeginCompute_fst env name s r h
      exact Or.inr ⟨by rw [hr], BeginCompute_passCalls env name s r h⟩
    case EndCompute =>
      obtain ⟨_, hr⟩ := EndCompute_fst s r h
      exact Or.inr ⟨by rw [hr], EndCompute_passCalls s r h⟩
    case BindGraphicsPipeline p => exact Or.inl ⟨p, rfl⟩
  · obtain ⟨v, se, sc, ib, it, g, hr⟩ := step_plainCommand_fst env op s r hop h
    exact Or.inr ⟨by rw [hr], step_plainCommand_passCalls env op s r hop h⟩

/-- An invariant of state and accumulated trace that the initial state with the empty
trace has and every successful call preserves holds after every successful sequence. -/
theorem run_trace_invariant (env : Env) (P : State → List GLCall → Prop)
    (hstep : ∀ op s t r, P s t → step env op s = some r → P r.1 (t ++ r.2)) :
    ∀ (ops : List Op) (s : State) (t : List GLCall) (r : State × List GLCall),
      P s t → run env ops s = some r → P r.1 (t ++ r.2) := by
  intro ops
  induction ops with
  | nil =>
    intro s t r hs h
    simp only [run, Option.some.injEq] at h
    subst h
    simpa using hs
  | cons op ops ih =>
    intro s t r hs h
    unfold run at h
    split at h
    · exact Option.noConfusion h
    · rename_i r1 h1
      split at h
      · exact Option.noConfusion h
      · rename_i r2 h2
        injection h with h
        subst h
        have := ih r1.1 (t ++ r1.2) r2 (hstep op s t r1 hs h1) h2
        simpa [List.append_assoc] using this

/-! ## The stencil calls of a trace -/

theorem stencilOf_none_of_passCall (face : GLFace) (c : GLCall)
    (h : c.isPipelineStateCall = false) :
    c.stencilOpOf face = none ∧ c.stencilFuncOf face = none := by
  cases c <;> simp_all [GLCall.isPipelineStateCall, GLCall.stencilOpOf, GLCall.stencilFuncOf]

theorem stencilOf_none_of_rank (face : GLFace) (c : GLCall)
    (h : c.bindRank < 22 ∨ 28 ≤ c.bindRank ∨ c.bindRank = 24 ∨ c.bindRank = 27) :
    c.stencilOpOf face = none ∧ c.stencilFuncOf face = none := by
  cases c
  case glStencilOpSeparate f _ _ _ =>
    cases f <;> simp [GLCall.bindRank, GLFace.bindRank] at h
  case glStencilFuncSeparate f _ _ _ =>
    cases f <;> simp [GLCall.bindRank, GLFace.bindRank] at h
  all_goals exact ⟨rfl, rfl⟩

theorem PassCalls.stencil_free {l : List GLCall} (h : PassCalls l) (face : GLFace) :
    l.filterMap (GLCall.stencilOpOf face) = [] ∧
      l.filterMap (GLCall.stencilFuncOf face) = [] := by
  simp only [List.filterMap_eq_nil_iff]
  exact ⟨fun c hc => (stencilOf_none_of_passCall face c (h c hc)).1,
    fun c hc => (stencilOf_none_of_passCall face c (h c hc)).2⟩

theorem InBand.no_stencil {lo hi : Nat} {l : List GLCall} (h : InBand lo hi l)
    (hb : hi ≤ 22 ∨ 28 ≤ lo) (face : GLFace) :
    l.filterMap (GLCall.stencilOpOf face) = [] ∧
      l.filterMap (GLCall.stencilFuncOf face) = [] := by
  simp only [List.filterMap_eq_nil_iff]
  have key : ∀ c ∈ l, c.bindRank < 22 ∨ 28 ≤ c.bindRank ∨ c.bindRank = 24 ∨ c.bindRank = 27 := by
    intro c hc
    have := h.2.2 c hc
    omega
  exact ⟨fun c hc => (stencilOf_none_of_rank face c (key c hc)).1,
    fun c hc => (stencilOf_none_of_rank face c (key c hc)).2⟩

theorem stencilMask_no_stencil (m : List GLCall) (f : GLFace) (w : Nat)
    (h : m = [] ∨ m = [GLCall.glStencilMaskSeparate f w]) (face : GLFace) :
    m.filterMap (GLCall.stencilOpOf face) = [] ∧
      m.filterMap (GLCall.stencilFuncOf face) = [] := by
  rcases h with rfl | rfl
  · exact ⟨rfl, rfl⟩
  · exact ⟨rfl, rfl⟩

namespace Cmd

theorem stencilFaceChanged_false (last : Option GraphicsPipelineInfoOwning)
    (f : StencilState → StencilOpState) (v : StencilOpState)
    (h : stencilFaceChanged last f v = false) :
    ∃ l, last = some l ∧ l.stencilState.stencilTestEnable = true ∧ v = f l.stencilState := by
  unfold stencilFaceChanged at h
  cases last with
  | none => simp at h
  | some l =>
    simp only [Bool.or_eq_false_iff, Bool.not_eq_false', decide_eq_false_iff_not, ne_eq,
      not_not] at h
    exact ⟨l, rfl, h.1, h.2⟩

/-- The stencil operation and function calls of the stencil section for a face: one of
each, with the declared values, when the test is on and the face state is not known to be
the last record's; none otherwise. -/
theorem bindStencilState_stencilCalls (env : Env) (last : Option GraphicsPipelineInfoOwning)
    (ss : StencilState) (s : State) (face : GLFace) :
    (bindStencilState env last ss s).2.filterMap (GLCall.stencilOpOf face) =
      (if ss.stencilTestEnable then
        (if stencilFaceChanged last (fun st => st.face face) (ss.face face) then
          [declaredStencilOp env (ss.face face)] else [])
        else []) ∧
    (bindStencilState env last ss s).2.filterMap (GLCall.stencilFuncOf face) =
      (if ss.stencilTestEnable then
        (if stencilFaceChanged last (fun st => st.face face) (ss.face face) then
          [declaredStencilFunc env (ss.face face)] else [])
        else []) := by
  obtain ⟨m0, m1, hm, h0, h1⟩ := bindStencilState_shape env last ss s
  have hc1 : InBand 21 22
      (if changed last (fun l => l.stencilState.stencilTestEnable) ss.stencilTestEnable then
        GLEnableOrDisable GLCap.STENCIL_TEST ss.stencilTestEnable else []) :=
    InBand.ite (InBand.enableOrDisable _ _ (Nat.le_refl _) (Nat.lt_succ_self _))
  have e1 := hc1.no_stencil (Or.inl (Nat.le_refl _)) face
  have e2 := stencilMask_no_stencil m0 _ _ h0 face
  have e3 := stencilMask_no_stencil m1 _ _ h1 face
  rw [hm]
  simp only [List.filterMap_append, e1.1, e1.2, e2.1, e2.2, e3.1, e3.2, List.append_nil,
    List.nil_append]
  cases face
  · constructor
    · by_cases hen : ss.stencilTestEnable = true
      · by_cases hf : stencilFaceChanged last (fun l => l.front) ss.front = true
        · by_cases hb : stencilFaceChanged last (fun l => l.back) ss.back = true
          · simp [hen, hf, hb, StencilState.face, GLCall.stencilOpOf, declaredStencilOp]
          · simp [hen, hf, hb, StencilState.face, GLCall.stencilOpOf, declaredStencilOp]
        · by_cases hb : stencilFaceChanged last (fun l => l.back) ss.back = true
          · simp [hen, hf, hb, StencilState.face, GLCall.stencilOpOf, declaredStencilOp]
          · simp [hen, hf, hb, StencilState.face, GLCall.stencilOpOf, declaredStencilOp]
      · simp [hen]
    · by_cases hen : ss.stencilTestEnable = true
      · by_cases hf : stencilFaceChanged last (fun l => l.front) ss.front = true
        · by_cases hb : stencilFaceChanged last (fun l => l.back) ss.back = true
          · simp [hen, hf, hb, StencilState.face, GLCall.stencilFuncOf, declaredStencilFunc]
          · simp [hen, hf, hb, StencilState.face, GLCall.stencilFuncOf, declaredStencilFunc]
        · by_cases hb : stencilFaceChanged last (fun l => l.back) ss.back = true
          · simp [hen, hf, hb, StencilState.face, GLCall.stencilFuncOf, declaredStencilFunc]
          · simp [hen, hf, hb, StencilState.face, GLCall.stencilFuncOf, declaredStencilFunc]
      · simp [hen]
  · constructor
    · by_cases hen : ss.stencilTestEnable = true
      · by_cases hf : stencilFaceChanged last (fun l => l.front) ss.front = true
        · by_cases hb : stencilFaceChanged last (fun l => l.back) ss.back = true
          · simp [hen, hf, hb, StencilState.face, GLCall.stencilOpOf, declaredStencilOp]
          · simp [hen, hf, hb, StencilState.face, GLCall.stencilOpOf, declaredStencilOp]
        · by_cases hb : stencilFaceChanged last (fun l => l.back) ss.back = true
          · simp [hen, hf, hb, StencilState.face, GLCall.stencilOpOf, declaredStencilOp]
          · simp [hen, hf, hb, StencilState.face, GLCall.stencilOpOf, declaredStencilOp]
      · simp [hen]
    · by_cases hen : ss.stencilTestEnable = true
      · by_cases hf : stencilFaceChanged last (fun l => l.front) ss.front = true
        · by_cases hb : stencilFaceChanged last (fun l => l.back) ss.back = true
          · simp [hen, hf, hb, StencilState.face, GLCall.stencilFuncOf, declaredStencilFunc]
          · simp [hen, hf, hb, StencilState.face, GLCall.stencilFuncOf, declaredStencilFunc]
        · by_cases hb : stencilFaceChanged last (fun l => l.back) ss.back = true
          · simp [hen, hf, hb, StencilState.face, GLCall.stencilFuncOf, declaredStencilFunc]
          · simp [hen, hf, hb, StencilState.face, GLCall.stencilFuncOf, declaredStencilFunc]
      · simp [hen]

/-- Only the stencil section of the full-diff path issues stencil operation and function
calls. -/
theorem fullDiff_stencilCalls (env : Env) (p ptr : Nat) (s : State) (face : GLFace) :
    ∃ s7 : State,
      (fullDiff env p ptr s).2.filterMap (GLCall.stencilOpOf face) =
        (bindStencilState env (s.sLastGraphicsPipeline.map env.pipelineObject)
          (env.pipelineObject ptr).stencilState s7).2.filterMap (GLCall.stencilOpOf face) ∧
      (fullDiff env p ptr s).2.filterMap (GLCall.stencilFuncOf face) =
        (bindStencilState env (s.sLastGraphicsPipeline.map env.pipelineObject)
          (env.pipelineObject ptr).stencilState s7).2.filterMap (GLCall.stencilFuncOf face) := by
  obtain ⟨s1, s4, s5, s7, s8, ht⟩ := fullDiff_trace env p ptr s
  refine ⟨s7, ?_⟩
  have a1 := (bindPipelineDebugGroup_inBand (env.pipelineObject ptr).name s).no_stencil
    (Or.inl (by omega)) face
  have a2 : InBand 2 3 (if s.sLastGraphicsPipeline = none then
      [GLCall.glEnable GLCap.FRAMEBUFFER_SRGB] else []) :=
    InBand.ite (InBand.single _ (Nat.le_refl _) (Nat.lt_succ_self _))
  have a2 := a2.no_stencil (Or.inl (by omega)) face
  have a4 := (bindInputAssembly_inBand (s.sLastGraphicsPipeline.map env.pipelineObject)
    (env.pipelineObject ptr).inputAssemblyState s1).no_stencil (Or.inl (by omega)) face
  have a5 := (bindVertexInput_inBand env (env.pipelineObject ptr).vertexInputState
    s4).no_stencil (Or.inl (by omega)) face
  have a6 := (bindRasterization_inBand env (s.sLastGraphicsPipeline.map env.pipelineObject)
    (env.pipelineObject ptr).rasterizationState).no_stencil (Or.inl (by omega)) face
  have a7 := (bindDepthState_inBand env (s.sLastGraphicsPipeline.map env.pipelineObject)
    (env.pipelineObject ptr).depthState s5).no_stencil (Or.inl (by omega)) face
  have a9 := (bindColorBlend_inBand env (s.sLastGraphicsPipeline.map env.pipelineObject)
    (env.pipelineObject ptr).colorBlendState).no_stencil (Or.inr (by omega)) face
  have a10 := (bindBlendAttachments_inBand env (s.sLastGraphicsPipeline.map env.pipelineObject)
    (env.pipelineObject ptr).colorBlendState.attachments 0 s8).no_stencil
    (Or.inr (by omega)) face
  rw [ht]
  simp only [List.filterMap_append, a1.1, a1.2, a2.1, a2.2, a4.1, a4.2, a5.1, a5.2, a6.1, a6.2,
    a7.1, a7.2, a9.1, a9.2, a10.1, a10.2, List.append_nil, List.nil_append]
  exact ⟨rfl, rfl⟩

theorem fullDiff_last (env : Env) (p ptr : Nat) (s : State) :
    (fullDiff env p ptr s).1.sLastGraphicsPipeline = some ptr := rfl

end Cmd

theorem getLast?_append_ite {α : Type} (l : List α) (c : Prop) [Decidable c] (x : α) :
    (l ++ (if c then [x] else [])).getLast? = if c then some x else l.getLast? := by
  split
  · simp
  · simp

theorem step_stencilSynced (env : Env) (op : Op) (s : State) (t : List GLCall)
    (r : State × List GLCall) (hs : StencilSynced env s t) (h : step env op s = some r) :
    StencilSynced env r.1 (t ++ r.2) := by
  rcases step_passCalls env op s r h with ⟨p, rfl⟩ | ⟨hl, hc⟩
  · obtain ⟨ptr, _, ⟨_, hr⟩ | ⟨_, hr⟩⟩ := Cmd.BindGraphicsPipeline_cases env p s r h
    · rw [hr]
      simpa using hs
    · rw [hr]
      intro ptr2 hl2 hen face
      rw [Cmd.fullDiff_last] at hl2
      injection hl2 with hl2
      subst hl2
      obtain ⟨s7, e1, e2⟩ := Cmd.fullDiff_stencilCalls env p ptr s face
      obtain ⟨c1, c2⟩ := Cmd.bindStencilState_stencilCalls env
        (s.sLastGraphicsPipeline.map env.pipelineObject)
        (env.pipelineObject ptr).stencilState s7 face
      unfold lastStencilOp lastStencilFunc
      rw [List.filterMap_append, List.filterMap_append, e1, e2, c1, c2, if_pos hen, if_pos hen,
        getLast?_append_ite, getLast?_append_ite]
      by_cases hch : Cmd.stencilFaceChanged (s.sLastGraphicsPipeline.map env.pipelineObject)
          (fun st => st.face face) ((env.pipelineObject ptr).stencilState.face face) = true
      · rw [if_pos hch, if_pos hch]
        exact ⟨rfl, rfl⟩
      · rw [if_neg hch, if_neg hch]
        obtain ⟨l, hlast, hlen, hface⟩ := Cmd.stencilFaceChanged_false _ _ _
          (by simpa using hch)
        cases hsl : s.sLastGraphicsPipeline with
        | none => rw [hsl] at hlast; simp at hlast
        | some lptr =>
          rw [hsl] at hlast
          simp only [Option.map_some', Option.some.injEq] at hlast
          subst hlast
          have := hs lptr hsl hlen face
          rw [hface]
          exact this
  · intro ptr hl2 hen face
    rw [hl] at hl2
    have := hs ptr hl2 hen face
    have e := hc.stencil_free face
    unfold lastStencilOp lastStencilFunc at *
    rw [List.filterMap_append, List.filterMap_append, e.1, e.2, List.append_nil, List.append_nil]
    exact this

/-- C12: after every sequence of successful calls from program start (pass begins and
ends, pipeline binds, and all other commands), if the last-bound pipeline record has the
stencil test on, then for each face the stencil operation and the stencil function most
recently issued to the driver are the ones that record declares for the face: `failOp`,
`depthFailOp`, `passOp`, and `compareOp`, `reference`, `compareMask`. -/
theorem stencil_calls_match_last_bound (env : Env) (ops : List Op) (s : State)
    (trace : List GLCall) (h : run env ops (State.initial env) = some (s, trace)) (ptr : Nat)
    (hl : s.sLastGraphicsPipeline = some ptr)
    (hen : (env.pipelineObject ptr).stencilState.stencilTestEnable = true) (face : GLFace) :
    lastStencilOp face trace =
      some (declaredStencilOp env ((env.pipelineObject ptr).stencilState.face face)) ∧
    lastStencilFunc face trace =
      some (declaredStencilFunc env ((env.pipelineObject ptr).stencilState.face face)) := by
  have h0 : StencilSynced env (State.initial env) [] := by
    intro q hq
    simp [State.initial] at hq
  have := run_trace_invariant env (StencilSynced env) (step_stencilSynced env) ops _ [] _ h0 h
  simp only [List.nil_append] at this
  exact this ptr hl hen face

/-- C12 at a concrete input: in one render pass pipeline 10 (stencil test on) is bound,
then pipeline 1 (stencil test off), then pipeline 10 again; the calls most recently issued
for the front and the back face carry the values pipeline 10 declares. -/
theorem stencil_calls_match_last_bound_witness :
    run Sample.env2 Sample.stencilFrame (State.initial Sample.env2) =
      some Sample.stencilFrameResult ∧
    Sample.stencilFrameResult.1.sLastGraphicsPipeline = some 10 ∧
    Sample.pipeline10.stencilState.stencilTestEnable = true ∧
    Sample.pipeline1.stencilState.stencilTestEnable = false ∧
    lastStencilOp GLFace.FRONT Sample.stencilFrameResult.2 = some (1, 2, 3) ∧
    lastStencilFunc GLFace.FRONT Sample.stencilFrameResult.2 = some (5, 1, 255) ∧
    lastStencilOp GLFace.BACK Sample.stencilFrameResult.2 = some (1, 2, 3) ∧
    lastStencilFunc GLFace.BACK Sample.stencilFrameResult.2 = some (5, 2, 255) :=
  ⟨rfl, rfl, rfl, rfl,
    (stencil_calls_match_last_bound Sample.env2 Sample.stencilFrame Sample.stencilFrameResult.1
      Sample.stencilFrameResult.2 rfl 10 rfl rfl GLFace.FRONT).1,
    (stencil_calls_match_last_bound Sample.env2 Sample.stencilFrame Sample.stencilFrameResult.1
      Sample.stencilFrameResult.2 rfl 10 rfl rfl GLFace.FRONT).2,
    (stencil_calls_match_last_bound Sample.env2 Sample.stencilFrame Sample.stencilFrameResult.1
      Sample.stencilFrameResult.2 rfl 10 rfl rfl GLFace.BACK).1,
    (stencil_calls_match_last_bound Sample.env2 Sample.stencilFrame Sample.stencilFrameResult.1
      Sample.stencilFrameResult.2 rfl 10 rfl rfl GLFace.BACK).2⟩

/-! ## Pass ends and pass switches -/

/-- C21, evaluated at a failing input: a swapchain pass with `enableSrgb = false` is begun
and ended (the begin disables framebuffer sRGB, the end enables it again), then a pass to
textures is begun, whose begin emits no sRGB call. `srgbWasDisabled` is still set, and the
`EndRendering` of this second pass emits the framebuffer sRGB enable once more. -/
theorem EndRendering_srgb_enabled_again :
    Sample.swapchainNoSrgb.enableSrgb = false ∧
    ((run Sample.env Sample.srgbFrames (State.initial Sample.env)).bind
      (fun r => (EndRendering r.1).map
        (fun r2 => (srgbCalls r.2, r.1.srgbWasDisabled, srgbCalls r2.2)))) =
      some ([false, true], true, [true]) :=
  ⟨rfl, rfl⟩

/-- C22: after every successful `EndRendering` the scissor-enabled, index-buffer-bound,
rendering-to-swapchain, pass debug-group-pushed and pipeline debug-group-pushed flags are
all false; after every successful `EndCompute` both debug-group-pushed flags are false. -/
theorem end_pass_resets_transient_flags (s : State) (r : State × List GLCall) :
    (EndRendering s = some r →
      r.1.sScissorEnabled = false ∧ r.1.isIndexBufferBound = false ∧
      r.1.isRenderingToSwapchain = false ∧ r.1.isScopedDebugGroupPushed = false ∧
      r.1.isPipelineDebugGroupPushed = false) ∧
    (EndCompute s = some r →
      r.1.isScopedDebugGroupPushed = false ∧ r.1.isPipelineDebugGroupPushed = false) := by
  constructor
  · intro h
    rw [(EndRendering_fst s r h).2]
    exact ⟨rfl, rfl, rfl, rfl, rfl⟩
  · intro h
    rw [(EndCompute_fst s r h).2]
    exact ⟨rfl, rfl⟩

/-- C22 at concrete inputs: a render pass in which the scissor, the index buffer and both
debug groups are set is ended; a compute pass with both debug groups pushed is ended. -/
theorem end_pass_resets_transient_flags_witness :
    (Sample.busyPassResult.1.sScissorEnabled = true ∧
      Sample.busyPassResult.1.isIndexBufferBound = true ∧
      Sample.busyPassResult.1.isScopedDebugGroupPushed = true ∧
      Sample.busyPassResult.1.isPipelineDebugGroupPushed = true ∧
      ∃ r, EndRendering Sample.busyPassResult.1 = some r ∧
        r.1.sScissorEnabled = false ∧ r.1.isIndexBufferBound = false ∧
        r.1.isRenderingToSwapchain = false ∧ r.1.isScopedDebugGroupPushed = false ∧
        r.1.isPipelineDebugGroupPushed = false) ∧
    (Sample.computeResult.1.isScopedDebugGroupPushed = true ∧
      ∃ r, EndCompute Sample.computeResult.1 = some r ∧
        r.1.isScopedDebugGroupPushed = false ∧ r.1.isPipelineDebugGroupPushed = false) := by
  refine ⟨⟨rfl, rfl, rfl, rfl, ?_⟩, rfl, ?_⟩
  · cases h : EndRendering Sample.busyPassResult.1 with
    | none =>
      have hs : (EndRendering Sample.busyPassResult.1).isSome = true := rfl
      rw [h] at hs
      exact absurd hs (by simp)
    | some r =>
      exact ⟨r, rfl, (end_pass_resets_transient_flags Sample.busyPassResult.1 r).1 h⟩
  · cases h : EndCompute Sample.computeResult.1 with
    | none =>
      have hs : (EndCompute Sample.computeResult.1).isSome = true := rfl
      rw [h] at hs
      exact absurd hs (by simp)
    | some r =>
      exact ⟨r, rfl, (end_pass_resets_transient_flags Sample.computeResult.1 r).2 h⟩

/-- C23: a successful `EndRendering`, `BeginCompute`, `EndCompute` or `BindComputePipeline`
leaves the persistent diffing state as it was: the last-bound graphics pipeline record, the
last viewport, the last scissor rectangle, the bound vertex-array handle and the tracked
colour, depth and stencil write masks. -/
theorem pass_switch_keeps_persistent_state (env : Env) (s : State) (r : State × List GLCall)
    (h : EndRendering s = some r ∨ (∃ name, BeginCompute env name s = some r) ∨
      EndCompute s = some r ∨ ∃ p, Cmd.BindComputePipeline env p s = some r) :
    r.1.sLastGraphicsPipeline = s.sLastGraphicsPipeline ∧
    r.1.sLastViewport = s.sLastViewport ∧ r.1.sLastScissor = s.sLastScissor ∧
    r.1.sVao = s.sVao ∧ r.1.sLastColorMask = s.sLastColorMask ∧
    r.1.sLastDepthMask = s.sLastDepthMask ∧ r.1.sLastStencilMask0 = s.sLastStencilMask0 ∧
    r.1.sLastStencilMask1 = s.sLastStencilMask1 := by
  rcases h with h | ⟨name, h⟩ | h | ⟨p, h⟩
  · rw [(EndRendering_fst s r h).2]
    exact ⟨rfl, rfl, rfl, rfl, rfl, rfl, rfl, rfl⟩
  · obtain ⟨a, b, c, d, e, g, hr⟩ := BeginCompute_fst env name s r h
    rw [hr]
    exact ⟨rfl, rfl, rfl, rfl, rfl, rfl, rfl, rfl⟩
  · rw [(EndCompute_fst s r h).2]
    exact ⟨rfl, rfl, rfl, rfl, rfl, rfl, rfl, rfl⟩
  · unfold Cmd.BindComputePipeline at h
    split at h
    · exact Option.noConfusion h
    split at h
    · exact Option.noConfusion h
    split at h
    · exact Option.noConfusion h
    injection h with h
    subst h
    rename_i ps _
    obtain ⟨g2, hg⟩ := Cmd.bindPipelineDebugGroup_fst ps.name s
    simp only
    rw [hg]
    exact ⟨rfl, rfl, rfl, rfl, rfl, rfl, rfl, rfl⟩

/-- C23 at concrete inputs: the render pass of `Sample.frame`, in which pipeline 1 is
bound, is ended; then a compute pass is begun and a compute pipeline bound; the last-bound
graphics pipeline is still pipeline 1. -/
theorem pass_switch_keeps_persistent_state_witness :
    Sample.frameResult.1.sLastGraphicsPipeline = some 1 ∧
    (∃ r, EndRendering Sample.frameResult.1 = some r ∧
      r.1.sLastGraphicsPipeline = some 1 ∧ r.1.sVao = Sample.frameResult.1.sVao) ∧
    Sample.computePassResult.1.isComputeActive = true ∧
    Sample.computePassResult.1.sLastGraphicsPipeline = some 1 := by
  refine ⟨rfl, ?_, rfl, rfl⟩
  cases h : EndRendering Sample.frameResult.1 with
  | none =>
    have hs : (EndRendering Sample.frameResult.1).isSome = true := rfl
    rw [h] at hs
    exact absurd hs (by simp)
  | some r =>
    have := pass_switch_keeps_persistent_state Sample.env Sample.frameResult.1 r (Or.inl h)
    exact ⟨r, rfl, this.1.trans rfl, this.2.2.2.1⟩
/-! ## The sections of the full-diff path, with their states -/

namespace Cmd

/-- The full-diff path as the sequence of its sections, each on the state the previous one
left. -/
theorem fullDiff_eq (env : Env) (p ptr : Nat) (s : State) :
    fullDiff env p ptr s =
      ({ afterBlend env ptr s with sLastGraphicsPipeline := some ptr },
        (bindPipelineDebugGroup (env.pipelineObject ptr).name s).2 ++
        (if s.sLastGraphicsPipeline = none then [GLCall.glEnable GLCap.FRAMEBUFFER_SRGB]
          else []) ++
        [GLCall.glUseProgram (p % 4294967296)] ++
        (bindInputAssembly (lastRecord env s) (env.pipelineObject ptr).inputAssemblyState
          (afterDebugGroup env ptr s)).2 ++
        (bindVertexInput env (env.pipelineObject ptr).vertexInputState
          (afterInputAssembly env ptr s)).2 ++
        bindRasterization env (lastRecord env s) (env.pipelineObject ptr).rasterizationState ++
        (bindDepthState env (lastRecord env s) (env.pipelineObject ptr).depthState
          (afterVertexInput env ptr s)).2 ++
        (bindStencilState env (lastRecord env s) (env.pipelineObject ptr).stencilState
          (afterDepth env ptr s)).2 ++
        bindColorBlend env (lastRecord env s) (env.pipelineObject ptr).colorBlendState ++
        (bindBlendAttachments env (lastRecord env s) 0
          (env.pipelineObject ptr).colorBlendState.attachments (afterStencil env ptr s)).2) :=
  rfl

theorem afterDebugGroup_eq (env : Env) (ptr : Nat) (s : State) :
    ∃ g, afterDebugGroup env ptr s = { s with isPipelineDebugGroupPushed := g } :=
  bindPipelineDebugGroup_fst _ s

theorem afterInputAssembly_eq (env : Env) (ptr : Nat) (s : State) :
    ∃ g, afterInputAssembly env ptr s =
      { s with isPipelineDebugGroupPushed := g
               sTopology := (env.pipelineObject ptr).inputAssemblyState.topology } := by
  obtain ⟨g, hg⟩ := afterDebugGroup_eq env ptr s
  refine ⟨g, ?_⟩
  unfold afterInputAssembly bindInputAssembly
  rw [hg]

theorem afterVertexInput_eq (env : Env) (ptr : Nat) (s : State) :
    ∃ g, afterVertexInput env ptr s =
      { s with isPipelineDebugGroupPushed := g
               sTopology := (env.pipelineObject ptr).inputAssemblyState.topology
               sVaoCache := (cacheGetOrCreate env.genName s.sVaoCache
                 (env.pipelineObject ptr).vertexInputState).2.1
               sVao := (cacheGetOrCreate env.genName s.sVaoCache
                 (env.pipelineObject ptr).vertexInputState).1 } := by
  obtain ⟨g, hg⟩ := afterInputAssembly_eq env ptr s
  refine ⟨g, ?_⟩
  unfold afterVertexInput
  rw [bindVertexInput_fst, hg]

theorem afterDepth_eq (env : Env) (ptr : Nat) (s : State) :
    ∃ dm, afterDepth env ptr s = { afterVertexInput env ptr s with sLastDepthMask := dm } :=
  bindDepthState_fst _ _ _ _

theorem afterStencil_eq (env : Env) (ptr : Nat) (s : State) :
    ∃ m0 m1, afterStencil env ptr s =
      { afterDepth env ptr s with sLastStencilMask0 := m0, sLastStencilMask1 := m1 } :=
  bindStencilState_fst _ _ _ _

theorem afterBlend_eq (env : Env) (ptr : Nat) (s : State) :
    ∃ m, afterBlend env ptr s = { afterStencil env ptr s with sLastColorMask := m } :=
  bindBlendAttachments_fst _ _ _ _ _

end Cmd
/-! ## Commands outside their pass kind -/

/-- C29: every command of namespace `Cmd` fails its assertion outside its pass kind. Each
draw command, `SetViewport`, `SetScissor`, `BindVertexBuffer` and `BindIndexBuffer` fails
unless a render pass is open; `Dispatch` and `DispatchIndirect` fail unless a compute pass
is open; `BindUniformBuffer`, `BindStorageBuffer`, `BindSampledImage` and `BindImage` fail
unless a render pass or a compute pass is open; with no pass open every command (the two
pipeline binds included) fails. -/
theorem cmd_rejected_outside_pass (env : Env) (op : Op) (s : State) :
    (op.isRenderCommand = true → s.isRendering = false → step env op s = none) ∧
    (op.isComputeCommand = true → s.isComputeActive = false → step env op s = none) ∧
    (op.isResourceCommand = true → s.isRendering = false → s.isComputeActive = false →
      step env op s = none) ∧
    (op.isCmd = true → s.isRendering = false → s.isComputeActive = false →
      step env op s = none) := by
  refine ⟨?_, ?_, ?_, ?_⟩
  · intro hop hr
    cases op <;> simp only [Op.isRenderCommand, Bool.false_eq_true] at hop <;>
      simp [step, Cmd.SetViewport, Cmd.SetScissor, Cmd.BindVertexBuffer, Cmd.BindIndexBuffer,
        Cmd.Draw, Cmd.DrawIndexed, Cmd.DrawIndirect, Cmd.DrawIndirectCount,
        Cmd.DrawIndexedIndirect, Cmd.DrawIndexedIndirectCount, hr]
  · intro hop hc
    cases op <;> simp only [Op.isComputeCommand, Bool.false_eq_true] at hop <;>
      simp [step, Cmd.Dispatch, Cmd.DispatchIndirect, hc]
  · intro hop hr hc
    cases op <;> simp only [Op.isResourceCommand, Bool.false_eq_true] at hop <;>
      simp [step, Cmd.BindUniformBuffer, Cmd.BindStorageBuffer, Cmd.BindSampledImage,
        Cmd.BindImage, hr, hc]
  · intro hop hr hc
    cases op <;> simp only [Op.isCmd, Bool.false_eq_true] at hop <;>
      simp [step, Cmd.BindGraphicsPipeline, Cmd.BindComputePipeline, Cmd.SetViewport,
        Cmd.SetScissor, Cmd.BindVertexBuffer, Cmd.BindIndexBuffer,
        Cmd.Draw, Cmd.DrawIndexed, Cmd.DrawIndirect, Cmd.DrawIndirectCount,
        Cmd.DrawIndexedIndirect, Cmd.DrawIndexedIndirectCount, Cmd.BindUniformBuffer,
        Cmd.BindStorageBuffer, Cmd.BindSampledImage, Cmd.BindImage, Cmd.Dispatch,
        Cmd.DispatchIndirect, hr, hc]

/-- C29 at concrete inputs: at program start a draw fails; in the open render pass of
`Sample.frame` a dispatch fails; in an open compute pass a draw fails, while a uniform
buffer bind succeeds in both passes. -/
theorem cmd_rejected_outside_pass_witness :
    step Sample.env (Op.Draw 3 1 0 0) (State.initial Sample.env) = none ∧
    step Sample.env (Op.Dispatch 1 1 1) Sample.frameResult.1 = none ∧
    step Sample.env (Op.Draw 3 1 0 0) Sample.computeResult.1 = none ∧
    step Sample.env (Op.BindUniformBuffer 0 1 0 16) (State.initial Sample.env) = none ∧
    (step Sample.env (Op.BindUniformBuffer 0 1 0 16) Sample.frameResult.1).isSome = true ∧
    (step Sample.env (Op.BindUniformBuffer 0 1 0 16) Sample.computeResult.1).isSome = true :=
  ⟨(cmd_rejected_outside_pass Sample.env _ _).1 rfl rfl,
    (cmd_rejected_outside_pass Sample.env _ _).2.1 rfl rfl,
    (cmd_rejected_outside_pass Sample.env _ _).1 rfl rfl,
    (cmd_rejected_outside_pass Sample.env _ _).2.2.1 rfl rfl rfl, rfl, rfl⟩

/-! ## The vertex array of a pipeline bind -/

namespace Cmd

theorem bindVertexArray_rank (v : Nat) : (GLCall.glBindVertexArray v).bindRank = 6 := rfl

/-- The bind call of the vertex-input section. -/
theorem bindVertexInput_mem (env : Env) (vis : VertexInputStateOwning) (s : State) (v : Nat) :
    GLCall.glBindVertexArray v ∈ (bindVertexInput env vis s).2 ↔
      v = (CreateOrGetCachedVertexArray env vis s).1 ∧
        (CreateOrGetCachedVertexArray env vis s).1 ≠ s.sVao := by
  unfold bindVertexInput
  simp only
  have hc : ∀ w, GLCall.glBindVertexArray w ∉ (CreateOrGetCachedVertexArray env vis s).2.2 := by
    intro w hw
    unfold CreateOrGetCachedVertexArray at hw
    simp only at hw
    split at hw
    · simp at hw
    · simp at hw
  have hv : (CreateOrGetCachedVertexArray env vis s).2.1.sVao = s.sVao := rfl
  rw [hv]
  by_cases hne : (CreateOrGetCachedVertexArray env vis s).1 ≠ s.sVao
  · rw [if_pos hne]
    simp only [List.mem_append, List.mem_singleton, GLCall.glBindVertexArray.injEq]
    constructor
    · rintro (h | h)
      · exact absurd h (hc v)
      · exact ⟨h, hne⟩
    · rintro ⟨h, _⟩
      exact Or.inr h
  · rw [if_neg hne]
    constructor
    · intro h
      exact absurd h (hc v)
    · rintro ⟨_, h⟩
      exact absurd h hne

end Cmd

/-- C30: a `BindGraphicsPipeline` that takes the full-diff path (render pass open, handle
registered, record not the last-bound one) leaves in `sVao` the handle the vertex-array
cache returns for the pipeline's vertex-input state, and its trace holds the
`glBindVertexArray` call of that handle if and only if the handle differs from the value
`sVao` had before the call; it holds no `glBindVertexArray` call of another handle. -/
theorem BindGraphicsPipeline_vertex_array (env : Env) (p ptr : Nat) (s : State)
    (hr : s.isRendering = true) (hp : p ≠ 0)
    (hreg : env.GetGraphicsPipelineInternal p = some ptr)
    (hl : s.sLastGraphicsPipeline ≠ some ptr) :
    ∃ r, Cmd.BindGraphicsPipeline env p s = some r ∧
      r.1.sVao =
        (Cmd.CreateOrGetCachedVertexArray env (env.pipelineObject ptr).vertexInputState s).1 ∧
      (GLCall.glBindVertexArray
          (Cmd.CreateOrGetCachedVertexArray env (env.pipelineObject ptr).vertexInputState s).1 ∈
            r.2 ↔
        (Cmd.CreateOrGetCachedVertexArray env (env.pipelineObject ptr).vertexInputState s).1 ≠
          s.sVao) ∧
      ∀ v, GLCall.glBindVertexArray v ∈ r.2 →
        v = (Cmd.CreateOrGetCachedVertexArray env (env.pipelineObject ptr).vertexInputState s).1 := by
  refine ⟨_, Cmd.BindGraphicsPipeline_full env p ptr s hr hp hreg hl, ?_⟩
  obtain ⟨g, hg⟩ := Cmd.afterInputAssembly_eq env ptr s
  have hv : (Cmd.afterInputAssembly env ptr s).sVao = s.sVao := by rw [hg]
  have hh : (Cmd.CreateOrGetCachedVertexArray env (env.pipelineObject ptr).vertexInputState
      (Cmd.afterInputAssembly env ptr s)).1 =
      (Cmd.CreateOrGetCachedVertexArray env (env.pipelineObject ptr).vertexInputState s).1 := by
    simp only [Cmd.CreateOrGetCachedVertexArray, hg]
  have hb : InBand 0 5 ((Cmd.bindPipelineDebugGroup (env.pipelineObject ptr).name s).2 ++
      (if s.sLastGraphicsPipeline = none then [GLCall.glEnable GLCap.FRAMEBUFFER_SRGB]
        else []) ++
      [GLCall.glUseProgram (p % 4294967296)] ++
      (Cmd.bindInputAssembly (Cmd.lastRecord env s)
        (env.pipelineObject ptr).inputAssemblyState (Cmd.afterDebugGroup env ptr s)).2) :=
    InBand.append 0 4 5 (InBand.append 0 3 4 (InBand.append 0 2 3
      (Cmd.bindPipelineDebugGroup_inBand _ _)
      (InBand.ite (InBand.single _ (by simp [GLCall.bindRank, GLCap.bindRank])
        (by simp [GLCall.bindRank, GLCap.bindRank]))))
      (InBand.single _ (by simp [GLCall.bindRank]) (by simp [GLCall.bindRank])))
      (Cmd.bindInputAssembly_inBand _ _ _)
  have h6 := Cmd.bindRasterization_inBand env (Cmd.lastRecord env s)
    (env.pipelineObject ptr).rasterizationState
  have h7 := Cmd.bindDepthState_inBand env (Cmd.lastRecord env s)
    (env.pipelineObject ptr).depthState (Cmd.afterVertexInput env ptr s)
  have h8 := Cmd.bindStencilState_inBand env (Cmd.lastRecord env s)
    (env.pipelineObject ptr).stencilState (Cmd.afterDepth env ptr s)
  have h9 := Cmd.bindColorBlend_inBand env (Cmd.lastRecord env s)
    (env.pipelineObject ptr).colorBlendState
  have h10 := Cmd.bindBlendAttachments_inBand env (Cmd.lastRecord env s)
    (env.pipelineObject ptr).colorBlendState.attachments 0 (Cmd.afterStencil env ptr s)
  have hmem : ∀ v, GLCall.glBindVertexArray v ∈ (Cmd.fullDiff env p ptr s).2 ↔
      v = (Cmd.CreateOrGetCachedVertexArray env (env.pipelineObject ptr).vertexInputState s).1 ∧
        (Cmd.CreateOrGetCachedVertexArray env (env.pipelineObject ptr).vertexInputState s).1 ≠
          s.sVao := by
    intro v
    rw [Cmd.fullDiff_eq]
    simp only [List.mem_append, Cmd.bindVertexInput_mem, hh, hv]
    constructor
    · rintro (((((h | h) | h) | h) | h) | h)
      · rcases h with h | h
        · have := (hb.2.2 _ (by simpa only [List.mem_append] using h)).2
          rw [Cmd.bindVertexArray_rank] at this
          omega
        · exact h
      · have := (h6.2.2 _ h).1
        rw [Cmd.bindVertexArray_rank] at this
        omega
      · have := (h7.2.2 _ h).1
        rw [Cmd.bindVertexArray_rank] at this
        omega
      · have := (h8.2.2 _ h).1
        rw [Cmd.bindVertexArray_rank] at this
        omega
      · have := (h9.2.2 _ h).1
        rw [Cmd.bindVertexArray_rank] at this
        omega
      · have := (h10.2.2 _ h).1
        rw [Cmd.bindVertexArray_rank] at this
        omega
    · intro h
      exact Or.inl (Or.inl (Or.inl (Or.inl (Or.inl (Or.inr h)))))
  refine ⟨?_, ?_, ?_⟩
  · obtain ⟨m, hm⟩ := Cmd.afterBlend_eq env ptr s
    obtain ⟨m0, m1, hs⟩ := Cmd.afterStencil_eq env ptr s
    obtain ⟨dm, hd⟩ := Cmd.afterDepth_eq env ptr s
    obtain ⟨g2, hvi⟩ := Cmd.afterVertexInput_eq env ptr s
    rw [Cmd.fullDiff_eq]
    simp only
    rw [hm, hs, hd, hvi]
    rfl
  · rw [hmem]
    exact ⟨fun h => h.2, fun h => ⟨rfl, h⟩⟩
  · intro v h
    exact ((hmem v).mp h).1

/-- C30 at concrete inputs: the first bind of a pass opened from program start creates
vertex array 1 and binds it (`sVao` was 0); a bind of pipeline 2 in the open render pass of
`Sample.frame`, where vertex array 1 is bound, keeps it and emits no bind call. -/
theorem BindGraphicsPipeline_vertex_array_witness :
    (∃ r, Cmd.BindGraphicsPipeline Sample.env2 11 Sample.passOpen = some r ∧
      r.1.sVao = 1 ∧ GLCall.glBindVertexArray 1 ∈ r.2) ∧
    (∃ r, Cmd.BindGraphicsPipeline Sample.env 2 Sample.frameResult.1 = some r ∧
      r.1.sVao = 1 ∧ ∀ v, GLCall.glBindVertexArray v ∉ r.2) := by
  constructor
  · obtain ⟨r, h, hv, hm, _⟩ := BindGraphicsPipeline_vertex_array Sample.env2 11 11
      Sample.passOpen rfl (by decide) rfl (by decide)
    exact ⟨r, h, hv.trans rfl, hm.mpr (by decide)⟩
  · obtain ⟨r, h, hv, hm, hu⟩ := BindGraphicsPipeline_vertex_array Sample.env 2 2
      Sample.frameResult.1 rfl (by decide) rfl (by decide)
    refine ⟨r, h, hv.trans rfl, ?_⟩
    intro v hmem
    have hv2 := hu v hmem
    subst hv2
    exact absurd (hm.mp hmem) (by decide)
/-! ## A pass without clears after a pass with clears -/

/-- A `BeginRendering` without any `clearOnLoad` emits no clear call. -/
theorem BeginRendering_no_clear (env : Env) (ri : RenderInfo) (s : State)
    (r : State × List GLCall) (h : BeginRendering env ri s = some r)
    (hno : ∀ a ∈ ri.colorAttachments, a.clearOnLoad = false)
    (hnd : ∀ a, ri.depthAttachment = some a → a.clearOnLoad = false)
    (hns : ∀ a, ri.stencilAttachment = some a → a.clearOnLoad = false) :
    r.2.filter GLCall.isClear = [] := by
  obtain ⟨s3, r4, pre, vp, h4, h1, h2, hm, hd, hs0, hs1, hpre, hvp⟩ :=
    BeginRendering_shape env ri s r h
  have h4' := clearColorAttachments_none env r.1.sFbo ri.colorAttachments hno 0 s3
  rw [h4'] at h4
  injection h4 with h4
  subst h4
  have hds := clearDepthStencil_none ri r.1.sFbo s3 hnd hns
  simp only [hds] at h2
  rw [List.filter_eq_nil_iff]
  intro c hc
  rw [h2] at hc
  simp only [List.append_nil, List.mem_append] at hc
  have hsetup : c.isSetupCall = true := by
    rcases hc with hc | hc
    · exact hpre c hc
    · exact hvp c hc
  obtain ⟨ha, hb, _⟩ := setup_not_clear c hsetup
  simp [GLCall.isClear, ha, hb]

/-- C24: from any state with no pass open, for a float-class colour attachment with a float
clear value and a registered pipeline, the sequence `BeginRendering` (the attachment cleared
on load, no depth or stencil attachment), `BindGraphicsPipeline`, `Draw`, `EndRendering`,
`BeginRendering` (the same attachment, not cleared), `BindGraphicsPipeline` of the same
pipeline succeeds call by call; the second `BeginRendering` emits no clear call and the
second `BindGraphicsPipeline` emits no rasterization call (indeed no call at all). -/
theorem clear_then_rebind_sequence (env : Env) (s : State) (ri1 ri2 : RenderInfo)
    (a : RenderColorAttachment) (v : List GLfloat) (p ptr vertexCount instanceCount
      firstVertex firstInstance : Nat)
    (hidle : s.isRendering = false ∧ s.isComputeActive = false)
    (hfloat : env.FormatToBaseTypeClass a.texture.createInfo_.format = GlBaseTypeClass.FLOAT)
    (hclear : a.clearOnLoad = true ∧ a.clearValue = ClearColorValue.f v)
    (h1 : ri1.colorAttachments = [a] ∧ ri1.depthAttachment = none ∧
      ri1.stencilAttachment = none)
    (h2 : ri2.colorAttachments = [{ a with clearOnLoad := false }] ∧
      ri2.depthAttachment = none ∧ ri2.stencilAttachment = none)
    (hp : p ≠ 0) (hreg : env.GetGraphicsPipelineInternal p = some ptr) :
    ∃ r1 r2 r3 r4 r5 r6,
      BeginRendering env ri1 s = some r1 ∧
      Cmd.BindGraphicsPipeline env p r1.1 = some r2 ∧
      Cmd.Draw env vertexCount instanceCount firstVertex firstInstance r2.1 = some r3 ∧
      EndRendering r3.1 = some r4 ∧
      BeginRendering env ri2 r4.1 = some r5 ∧
      Cmd.BindGraphicsPipeline env p r5.1 = some r6 ∧
      r5.2.filter GLCall.isClear = [] ∧
      r6.2.filter GLCall.isRasterizationCall = [] ∧ r6.2 = [] := by
  -- first pass begin
  have hb1 : (BeginRendering env ri1 s).isSome = true := by
    rw [BeginRendering_isSome]
    refine ⟨hidle.1, hidle.2, ?_⟩
    intro b hb _
    rw [h1.1, List.mem_singleton] at hb
    subst hb
    rw [hfloat, hclear.2]
    rfl
  obtain ⟨r1, e1⟩ := Option.isSome_iff_exists.mp hb1
  obtain ⟨_, _, _, _, _, _, _, _, _, _, _, _, hr1⟩ := BeginRendering_fst env ri1 s r1 e1
  have hr1r : r1.1.isRendering = true := by rw [hr1]
  have hr1c : r1.1.isComputeActive = false := by rw [hr1]; exact hidle.2
  -- first bind
  have hb2 : (Cmd.BindGraphicsPipeline env p r1.1).isSome = true :=
    (Cmd.BindGraphicsPipeline_isSome env p r1.1).mpr ⟨hr1r, hp, ptr, hreg⟩
  obtain ⟨r2, e2⟩ := Option.isSome_iff_exists.mp hb2
  obtain ⟨hr2r, hr2l⟩ := Cmd.BindGraphicsPipeline_last env p ptr r1.1 r2 hreg e2
  have hr2c : r2.1.isComputeActive = false := by
    obtain ⟨_, _, ptr2, _, hfast | ⟨_, g, dm, m0, m1, m, hfull⟩⟩ :=
      Cmd.BindGraphicsPipeline_fst env p r1.1 r2 e2
    · rw [hfast.2]; exact hr1c
    · rw [hfull]; exact hr1c
  -- draw
  have e3 : Cmd.Draw env vertexCount instanceCount firstVertex firstInstance r2.1 =
      some (r2.1, [GLCall.glDrawArraysInstancedBaseInstance
        (env.PrimitiveTopologyToGL r2.1.sTopology) firstVertex vertexCount instanceCount
        firstInstance]) := by
    simp [Cmd.Draw, hr2r]
  -- end of the first pass
  have e4 : ∃ r4, EndRendering r2.1 = some r4 := by
    apply Option.isSome_iff_exists.mp
    simp [EndRendering, hr2r]
  obtain ⟨r4, e4⟩ := e4
  have hr4 := (EndRendering_fst r2.1 r4 e4).2
  have hr4r : r4.1.isRendering = false := by rw [hr4]
  have hr4c : r4.1.isComputeActive = false := by rw [hr4]; exact hr2c
  have hr4l : r4.1.sLastGraphicsPipeline = some ptr := by rw [hr4]; exact hr2l
  -- second pass begin
  have hb5 : (BeginRendering env ri2 r4.1).isSome = true := by
    rw [BeginRendering_isSome]
    refine ⟨hr4r, hr4c, ?_⟩
    intro b hb hcl
    rw [h2.1, List.mem_singleton] at hb
    subst hb
    simp at hcl
  obtain ⟨r5, e5⟩ := Option.isSome_iff_exists.mp hb5
  obtain ⟨_, _, _, _, _, _, _, _, _, _, _, _, hr5⟩ := BeginRendering_fst env ri2 r4.1 r5 e5
  have hr5r : r5.1.isRendering = true := by rw [hr5]
  have hr5l : r5.1.sLastGraphicsPipeline = some ptr := by rw [hr5]; exact hr4l
  have hnc : r5.2.filter GLCall.isClear = [] := by
    refine BeginRendering_no_clear env ri2 r4.1 r5 e5 ?_ ?_ ?_
    · intro b hb
      rw [h2.1, List.mem_singleton] at hb
      subst hb
      rfl
    · intro b hb
      rw [h2.2.1] at hb
      exact Option.noConfusion hb
    · intro b hb
      rw [h2.2.2] at hb
      exact Option.noConfusion hb
  -- second bind
  have e6 := Cmd.BindGraphicsPipeline_fast env p ptr r5.1 hr5r hp hreg hr5l
  exact ⟨r1, r2, _, r4, r5, _, e1, e2, e3, e4, e5, e6, hnc, rfl, rfl⟩

/-- C24 at a concrete input: the colour attachment of `Sample.renderInfoClearColor` and
pipeline 1, from program start. -/
theorem clear_then_rebind_sequence_witness :
    ∃ r1 r2 r3 r4 r5 r6,
      BeginRendering Sample.env Sample.renderInfoClearColor (State.initial Sample.env) =
        some r1 ∧
      Cmd.BindGraphicsPipeline Sample.env 1 r1.1 = some r2 ∧
      Cmd.Draw Sample.env 3 1 0 0 r2.1 = some r3 ∧
      EndRendering r3.1 = some r4 ∧
      BeginRendering Sample.env Sample.renderInfo r4.1 = some r5 ∧
      Cmd.BindGraphicsPipeline Sample.env 1 r5.1 = some r6 ∧
      r5.2.filter GLCall.isClear = [] ∧
      r6.2.filter GLCall.isRasterizationCall = [] ∧ r6.2 = [] :=
  clear_then_rebind_sequence Sample.env (State.initial Sample.env) Sample.renderInfoClearColor
    Sample.renderInfo
    { texture := Sample.texture 1 Format.R8G8B8A8_UNORM, clearOnLoad := true
      clearValue := ClearColorValue.f [GLfloat.zero, GLfloat.zero, GLfloat.zero, GLfloat.one] }
    [GLfloat.zero, GLfloat.zero, GLfloat.zero, GLfloat.one] 1 1 3 1 0 0
    ⟨rfl, rfl⟩ rfl ⟨rfl, rfl⟩ ⟨rfl, rfl, rfl⟩ ⟨rfl, rfl, rfl⟩ (by decide) rfl

/-! ## What the plain commands do -/

/-- An invariant of state, call history and accumulated trace that every successful call
preserves holds after every successful sequence. -/
theorem run_history_invariant (env : Env) (P : State → List Op → List GLCall → Prop)
    (hstep : ∀ op s ops t r, P s ops t → step env op s = some r →
      P r.1 (ops ++ [op]) (t ++ r.2)) :
    ∀ (ops : List Op) (s : State) (pre : List Op) (t : List GLCall) (r : State × List GLCall),
      P s pre t → run env ops s = some r → P r.1 (pre ++ ops) (t ++ r.2) := by
  intro ops
  induction ops with
  | nil =>
    intro s pre t r hs h
    simp only [run, Option.some.injEq] at h
    subst h
    simpa using hs
  | cons op ops ih =>
    intro s pre t r hs h
    unfold run at h
    split at h
    · exact Option.noConfusion h
    · rename_i r1 h1
      split at h
      · exact Option.noConfusion h
      · rename_i r2 h2
        injection h with h
        subst h
        have := ih r1.1 (pre ++ [op]) (t ++ r1.2) r2 (hstep op s pre t r1 hs h1) h2
        simpa [List.append_assoc] using this

theorem untracked_empty : Untracked [] := by
  intro c hc
  simp at hc

theorem untracked_concat {l1 l2 : List GLCall} (h1 : Untracked l1) (h2 : Untracked l2) :
    Untracked (l1 ++ l2) := by
  intro c hc
  rw [List.mem_append] at hc
  rcases hc with hc | hc
  · exact h1 c hc
  · exact h2 c hc

theorem untracked_one (c : GLCall) (h : c.isTrackedCall = false) : Untracked [c] := by
  intro d hd
  simp only [List.mem_singleton] at hd
  subst hd
  exact h

theorem untracked_cond {c : Prop} [Decidable c] {l1 l2 : List GLCall} (h1 : Untracked l1)
    (h2 : Untracked l2) : Untracked (if c then l1 else l2) := by
  split
  · exact h1
  · exact h2

/-- The commands that change no state: they need an open pass, return the state they were
given, and issue no tracked call. -/
theorem step_inertCommand (env : Env) (op : Op) (s : State) (r : State × List GLCall)
    (hop : op.isInertCommand = true) (h : step env op s = some r) :
    r.1 = s ∧ Untracked r.2 ∧ (s.isRendering = true ∨ s.isComputeActive = true) ∧
      (op.isRenderCommand = true → s.isRendering = true) ∧
      (op.isIndexedDraw = true → s.isIndexBufferBound = true) := by
  cases op <;> simp only [Op.isInertCommand, Bool.false_eq_true] at hop
  all_goals
    simp only [step, Cmd.BindVertexBuffer,
      Cmd.Draw, Cmd.DrawIndexed, Cmd.DrawIndirect, Cmd.DrawIndirectCount,
      Cmd.DrawIndexedIndirect, Cmd.DrawIndexedIndirectCount, Cmd.BindUniformBuffer,
      Cmd.BindStorageBuffer, Cmd.BindSampledImage, Cmd.BindImage, Cmd.Dispatch,
      Cmd.DispatchIndirect] at h
    repeat' split at h
    all_goals first
      | exact Option.noConfusion h
      | (injection h with h
         subst h
         simp_all [Untracked, GLCall.isTrackedCall, Op.isRenderCommand, Op.isIndexedDraw]
         try (cases hrr : s.isRendering <;> simp_all))

theorem SetViewportInternal_untracked (env : Env) (v last : Viewport) (init : Bool) :
    Untracked (SetViewportInternal env v last init) := by
  unfold SetViewportInternal
  exact untracked_concat (untracked_concat
    (untracked_cond (untracked_one _ (by rfl)) untracked_empty)
    (untracked_cond (untracked_one _ (by rfl)) untracked_empty))
    (untracked_cond (untracked_one _ (by rfl)) untracked_empty)

theorem step_SetViewport (env : Env) (v : Viewport) (s : State) (r : State × List GLCall)
    (h : step env (Op.SetViewport v) s = some r) :
    s.isRendering = true ∧ r.1 = { s with sLastViewport := v } ∧ Untracked r.2 := by
  simp only [step, Cmd.SetViewport] at h
  split at h
  · exact Option.noConfusion h
  rename_i hr
  injection h with h
  subst h
  refine ⟨by simpa using hr, rfl, ?_⟩
  exact SetViewportInternal_untracked env _ _ _

theorem step_BindIndexBuffer (env : Env) (b : Nat) (t : IndexType) (s : State)
    (r : State × List GLCall) (h : step env (Op.BindIndexBuffer b t) s = some r) :
    s.isRendering = true ∧ r.1 = { s with isIndexBufferBound := true, sIndexType := t } ∧
      Untracked r.2 := by
  simp only [step, Cmd.BindIndexBuffer] at h
  split at h
  · exact Option.noConfusion h
  rename_i hr
  injection h with h
  subst h
  exact ⟨by simpa using hr, rfl, untracked_one _ (by rfl)⟩

/-- `SetScissor`: the scissor test is enabled when the flag is off, the flag is on
afterwards, and the rectangle is the last scissor. -/
theorem step_SetScissor (env : Env) (sc : Rect2D) (s : State) (r : State × List GLCall)
    (h : step env (Op.SetScissor sc) s = some r) :
    s.isRendering = true ∧
    r.1 = { s with sScissorEnabled := true, sLastScissor := sc } ∧
    ∃ rest, Untracked rest ∧
      r.2 = (if s.sScissorEnabled = false then [GLCall.glEnable GLCap.SCISSOR_TEST] else []) ++
        rest := by
  simp only [step, Cmd.SetScissor] at h
  by_cases hr : s.isRendering = false
  · rw [if_pos hr] at h
    exact Option.noConfusion h
  rw [if_neg hr] at h
  refine ⟨by simpa using hr, ?_⟩
  by_cases he : s.sScissorEnabled = false
  · simp only [he, if_true] at h ⊢
    by_cases hl : sc = s.sLastScissor
    · rw [if_pos hl] at h
      injection h with h
      subst h
      refine ⟨?_, [], untracked_empty, by simp⟩
      simp only
      rw [hl]
    · rw [if_neg hl] at h
      injection h with h
      subst h
      exact ⟨rfl, _, untracked_one _ (by rfl), rfl⟩
  · have he' : s.sScissorEnabled = true := by simpa using he
    simp only [he', Bool.true_eq_false, if_false] at h ⊢
    by_cases hl : sc = s.sLastScissor
    · rw [if_pos hl] at h
      injection h with h
      subst h
      refine ⟨?_, [], untracked_empty, by simp⟩
      simp only
      rw [hl, ← he']
    · rw [if_neg hl] at h
      injection h with h
      subst h
      refine ⟨?_, [GLCall.glScissor sc.offset.x sc.offset.y sc.extent.width sc.extent.height],
        untracked_one _ (by rfl), by simp⟩
      simp only

/-- `BindComputePipeline`: the debug-group block for the record's name, then the program
selection. -/
theorem step_BindComputePipeline (env : Env) (p : Nat) (s : State) (r : State × List GLCall)
    (h : step env (Op.BindComputePipeline p) s = some r) :
    s.isComputeActive = true ∧
    ∃ name, r.1 = (Cmd.bindPipelineDebugGroup name s).1 ∧
      r.2 = (Cmd.bindPipelineDebugGroup name s).2 ++ [GLCall.glUseProgram (p % 4294967296)] := by
  simp only [step, Cmd.BindComputePipeline] at h
  split at h
  · exact Option.noConfusion h
  rename_i hc
  split at h
  · exact Option.noConfusion h
  split at h
  · exact Option.noConfusion h
  injection h with h
  subst h
  rename_i ps _
  exact ⟨by simpa using hc, ps.name, rfl, rfl⟩

/-- The plain commands, case by case. -/
theorem step_plainCommand_cases (op : Op) (hop : op.isPlainCommand = true) :
    op.isInertCommand = true ∨ (∃ v, op = Op.SetViewport v) ∨ (∃ sc, op = Op.SetScissor sc) ∨
      (∃ b t, op = Op.BindIndexBuffer b t) ∨ (∃ p, op = Op.BindComputePipeline p) := by
  cases op <;> simp_all [Op.isPlainCommand, Op.isInertCommand]
/-! ## Transient flags and the call history -/

theorem calledInPass_snoc (f : Op → Bool) (ops : List Op) (op : Op) :
    calledInPass f (ops ++ [op]) =
      if op.isRenderPassBoundary then false else f op || calledInPass f ops := by
  simp [calledInPass, List.foldl_append]

/-- A call for which `f` holds occurs after the last render pass begin or end exactly when
`calledInPass` says so. -/
theorem calledInPass_iff (f : Op → Bool) (ops : List Op) :
    calledInPass f ops = true ↔
      ∃ pre o post, ops = pre ++ o :: post ∧ f o = true ∧ o.isRenderPassBoundary = false ∧
        ∀ x ∈ post, x.isRenderPassBoundary = false := by
  induction ops using List.reverseRecOn with
  | nil =>
    simp [calledInPass]
  | append_singleton l a ih =>
    rw [calledInPass_snoc]
    constructor
    · intro h
      by_cases hb : a.isRenderPassBoundary = true
      · simp [hb] at h
      · simp only [hb, Bool.false_eq_true, if_false, Bool.or_eq_true] at h
        have hb' : a.isRenderPassBoundary = false := by simpa using hb
        rcases h with h | h
        · exact ⟨l, a, [], rfl, h, hb', by simp⟩
        · obtain ⟨pre, o, post, rfl, ho, hob, hpost⟩ := ih.mp h
          refine ⟨pre, o, post ++ [a], by simp, ho, hob, ?_⟩
          intro x hx
          rw [List.mem_append, List.mem_singleton] at hx
          rcases hx with hx | rfl
          · exact hpost x hx
          · exact hb'
    · rintro ⟨pre, o, post, he, ho, hob, hpost⟩
      rcases List.eq_nil_or_concat post with rfl | ⟨post2, b, rfl⟩
      · have := List.append_inj_right' (by simpa using he : l ++ [a] = pre ++ [o]) rfl
        simp only [List.cons.injEq, and_true] at this
        subst this
        simp [hob, ho]
      · have he2 : l ++ [a] = (pre ++ o :: post2) ++ [b] := by simpa using he
        have hl := List.append_inj_left' he2 rfl
        have hr := List.append_inj_right' he2 rfl
        simp only [List.cons.injEq, and_true] at hr
        subst hr
        subst hl
        have hab : a.isRenderPassBoundary = false := hpost a (by simp)
        simp only [hab, Bool.false_eq_true, if_false, Bool.or_eq_true]
        right
        exact ih.mpr ⟨pre, o, post2, rfl, ho, hob, fun x hx => hpost x (by simp [hx])⟩

theorem step_clean (env : Env) (op : Op) (s : State) (r : State × List GLCall)
    (hs : Clean s) (h : step env op s = some r) : Clean r.1 := by
  cases hop : op.isPlainCommand
  · cases op <;> simp only [Op.isPlainCommand, Bool.true_eq_false] at hop
    case BeginRendering ri =>
      obtain ⟨a, b, c, d, e, g, fc, fb, m, dm, m0, m1, hr⟩ := BeginRendering_fst env ri s r h
      rw [hr]
      simp [Clean]
    case BeginSwapchainRendering ri =>
      obtain ⟨a, b, c, d, e, g, m, dm, m0, m1, sd, hr⟩ :=
        BeginSwapchainRendering_fst env ri s r h
      rw [hr]
      simp [Clean]
    case EndRendering =>
      obtain ⟨_, hr⟩ := EndRendering_fst s r h
      rw [hr]
      simp [Clean]
    case BeginCompute name =>
      obtain ⟨a, b, c, d, e, g, hr⟩ := BeginCompute_fst env name s r h
      rw [hr]
      exact ⟨hs.1, by simp⟩
    case EndCompute =>
      obtain ⟨_, hr⟩ := EndCompute_fst s r h
      rw [hr]
      exact ⟨hs.1, by simp⟩
    case BindGraphicsPipeline p =>
      obtain ⟨_, _, ptr, hreg, _⟩ := Cmd.BindGraphicsPipeline_fst env p s r h
      have := (Cmd.BindGraphicsPipeline_last env p ptr s r hreg h).1
      simp [Clean, this]
  · rcases step_plainCommand_cases op hop with hi | ⟨v, rfl⟩ | ⟨sc, rfl⟩ | ⟨b, t, rfl⟩ | ⟨p, rfl⟩
    · rw [(step_inertCommand env op s r hi h).1]
      exact hs
    · obtain ⟨hr, he, _⟩ := step_SetViewport env v s r h
      rw [he]
      simp [Clean, hr]
    · obtain ⟨hr, he, _⟩ := step_SetScissor env sc s r h
      rw [he]
      simp [Clean, hr]
    · obtain ⟨hr, he, _⟩ := step_BindIndexBuffer env b t s r h
      rw [he]
      simp [Clean, hr]
    · obtain ⟨hc, name, he, _⟩ := step_BindComputePipeline env p s r h
      obtain ⟨g, hg⟩ := Cmd.bindPipelineDebugGroup_fst name s
      rw [he, hg]
      exact ⟨hs.1, by simp [hc]⟩

theorem step_flagsFollow (env : Env) (op : Op) (s : State) (ops : List Op)
    (r : State × List GLCall) (hc : Clean s) (hf : FlagsFollow s ops)
    (h : step env op s = some r) : FlagsFollow r.1 (ops ++ [op]) := by
  unfold FlagsFollow
  rw [calledInPass_snoc, calledInPass_snoc]
  cases hop : op.isPlainCommand
  · cases op <;> simp only [Op.isPlainCommand, Bool.true_eq_false] at hop
    case BeginRendering ri =>
      obtain ⟨a, b, c, d, e, g, fc, fb, m, dm, m0, m1, hr⟩ := BeginRendering_fst env ri s r h
      have hi := (BeginRendering_isSome env ri s).mp (by simp only [step] at h; rw [h]; rfl)
      rw [hr]
      simp only [Op.isRenderPassBoundary, if_true]
      exact ⟨(hc.1 hi.1).2, (hc.1 hi.1).1⟩
    case BeginSwapchainRendering ri =>
      obtain ⟨a, b, c, d, e, g, m, dm, m0, m1, sd, hr⟩ :=
        BeginSwapchainRendering_fst env ri s r h
      have hi := (BeginSwapchainRendering_isSome env ri s).mp
        (by simp only [step] at h; rw [h]; rfl)
      rw [hr]
      simp only [Op.isRenderPassBoundary, if_true]
      exact ⟨(hc.1 hi.1).2, (hc.1 hi.1).1⟩
    case EndRendering =>
      obtain ⟨_, hr⟩ := EndRendering_fst s r h
      rw [hr]
      simp [Op.isRenderPassBoundary]
    case BeginCompute name =>
      obtain ⟨a, b, c, d, e, g, hr⟩ := BeginCompute_fst env name s r h
      rw [hr]
      simpa [Op.isRenderPassBoundary, Op.isBindIndexBuffer, Op.isSetScissor] using hf
    case EndCompute =>
      obtain ⟨_, hr⟩ := EndCompute_fst s r h
      rw [hr]
      simpa [Op.isRenderPassBoundary, Op.isBindIndexBuffer, Op.isSetScissor] using hf
    case BindGraphicsPipeline p =>
      obtain ⟨_, _, ptr, _, hr | ⟨_, g, dm, m0, m1, m, hr⟩⟩ :=
        Cmd.BindGraphicsPipeline_fst env p s r h
      · rw [hr.2]
        simpa [Op.isRenderPassBoundary, Op.isBindIndexBuffer, Op.isSetScissor] using hf
      · rw [hr]
        simpa [Op.isRenderPassBoundary, Op.isBindIndexBuffer, Op.isSetScissor] using hf
  · rcases step_plainCommand_cases op hop with hi | ⟨v, rfl⟩ | ⟨sc, rfl⟩ | ⟨b, t, rfl⟩ | ⟨p, rfl⟩
    · rw [(step_inertCommand env op s r hi h).1]
      have h1 : op.isRenderPassBoundary = false := by
        cases op <;> simp_all [Op.isInertCommand, Op.isRenderPassBoundary]
      have h2 : op.isBindIndexBuffer = false := by
        cases op <;> simp_all [Op.isInertCommand, Op.isBindIndexBuffer]
      have h3 : op.isSetScissor = false := by
        cases op <;> simp_all [Op.isInertCommand, Op.isSetScissor]
      simpa [h1, h2, h3] using hf
    · obtain ⟨hr, he, _⟩ := step_SetViewport env v s r h
      rw [he]
      simpa [Op.isRenderPassBoundary, Op.isBindIndexBuffer, Op.isSetScissor] using hf
    · obtain ⟨hr, he, _⟩ := step_SetScissor env sc s r h
      rw [he]
      simpa [Op.isRenderPassBoundary, Op.isBindIndexBuffer, Op.isSetScissor] using hf.1
    · obtain ⟨hr, he, _⟩ := step_BindIndexBuffer env b t s r h
      rw [he]
      simpa [Op.isRenderPassBoundary, Op.isBindIndexBuffer, Op.isSetScissor] using hf.2
    · obtain ⟨hc, name, he, _⟩ := step_BindComputePipeline env p s r h
      obtain ⟨g, hg⟩ := Cmd.bindPipelineDebugGroup_fst name s
      rw [he, hg]
      simpa [Op.isRenderPassBoundary, Op.isBindIndexBuffer, Op.isSetScissor] using hf

/-- After every successful sequence from program start the transient flags are clean and
follow the call history. -/
theorem run_flagsFollow (env : Env) (ops : List Op) (s : State) (trace : List GLCall)
    (h : run env ops (State.initial env) = some (s, trace)) :
    Clean s ∧ FlagsFollow s ops := by
  have h0 : Clean (State.initial env) ∧ FlagsFollow (State.initial env) [] := by
    simp [Clean, FlagsFollow, State.initial, calledInPass]
  have := run_history_invariant env (fun s ops _ => Clean s ∧ FlagsFollow s ops)
    (fun op s ops t r hp hs => ⟨step_clean env op s r hp.1 hs,
      step_flagsFollow env op s ops r hp.1 hp.2 hs⟩) ops _ [] [] _ h0 h
  simpa using this

/-- C25: after every successful call sequence from program start, an indexed draw
(`DrawIndexed`, `DrawIndexedIndirect`, `DrawIndexedIndirectCount`) succeeds only if the
sequence holds a `BindIndexBuffer` call with no render pass begin or end after it, that is,
one made in the render pass that is still open. `isIndexBufferBound` is set exactly in that
case (`EndRendering` clears it), so with the index buffer bound only in an earlier pass the
draw fails its assertion. -/
theorem indexed_draw_needs_index_buffer (env : Env) (ops : List Op) (s : State)
    (trace : List GLCall) (h : run env ops (State.initial env) = some (s, trace)) (op : Op)
    (hop : op.isIndexedDraw = true) :
    (s.isIndexBufferBound = true ↔
      ∃ pre buffer indexType post, ops = pre ++ Op.BindIndexBuffer buffer indexType :: post ∧
        ∀ x ∈ post, x.isRenderPassBoundary = false) ∧
    (step env op s ≠ none → s.isRendering = true ∧ s.isIndexBufferBound = true) ∧
    (s.isIndexBufferBound = false → step env op s = none) := by
  obtain ⟨hc, hf⟩ := run_flagsFollow env ops s trace h
  have hinert : op.isInertCommand = true := by
    cases op <;> simp_all [Op.isIndexedDraw, Op.isInertCommand]
  have hrender : op.isRenderCommand = true := by
    cases op <;> simp_all [Op.isIndexedDraw, Op.isRenderCommand]
  have hsucc : step env op s ≠ none → s.isRendering = true ∧ s.isIndexBufferBound = true := by
    intro hne
    obtain ⟨r, hr⟩ := Option.ne_none_iff_exists'.mp hne
    obtain ⟨_, _, _, h4, h5⟩ := step_inertCommand env op s r hinert hr
    exact ⟨h4 hrender, h5 hop⟩
  refine ⟨?_, hsucc, ?_⟩
  · rw [hf.1, calledInPass_iff]
    constructor
    · rintro ⟨pre, o, post, he, ho, _, hpost⟩
      cases o <;> simp only [Op.isBindIndexBuffer, Bool.false_eq_true] at ho
      exact ⟨pre, _, _, post, he, hpost⟩
    · rintro ⟨pre, b, t, post, he, hpost⟩
      exact ⟨pre, _, post, he, rfl, rfl, hpost⟩
  · intro hb
    by_contra hne
    have := (hsucc hne).2
    rw [hb] at this
    exact Bool.noConfusion this

/-- C25 at concrete inputs: with an index buffer bound in the open pass `DrawIndexed`
succeeds; after that pass is ended and a second pass is begun, the flag is off and
`DrawIndexed` fails. -/
theorem indexed_draw_needs_index_buffer_witness :
    (step Sample.env (Op.DrawIndexed 3 1 0 0 0) Sample.indexedPassResult.1).isSome = true ∧
    Sample.indexedPassResult.1.isIndexBufferBound = true ∧
    Sample.indexedPassThenNextResult.1.isRendering = true ∧
    Sample.indexedPassThenNextResult.1.isIndexBufferBound = false ∧
    step Sample.env (Op.DrawIndexed 3 1 0 0 0) Sample.indexedPassThenNextResult.1 = none :=
  ⟨rfl,
    ((indexed_draw_needs_index_buffer Sample.env Sample.indexedPass
      Sample.indexedPassResult.1 Sample.indexedPassResult.2 rfl (Op.DrawIndexed 3 1 0 0 0)
      rfl).2.1 (Option.ne_none_iff_isSome.mpr rfl)).2,
    rfl, rfl,
    (indexed_draw_needs_index_buffer Sample.env Sample.indexedPassThenNext
      Sample.indexedPassThenNextResult.1 Sample.indexedPassThenNextResult.2 rfl
      (Op.DrawIndexed 3 1 0 0 0) rfl).2.2 rfl⟩
/-! ## Mirrored driver state: one call at a time -/

theorem untracked_observers {l : List GLCall} (h : Untracked l) :
    debugPushes l = 0 ∧ debugPops l = 0 ∧ scissorToggles l = [] ∧
    l.filterMap GLCall.depthMaskOf = [] ∧
    (∀ face, l.filterMap (GLCall.stencilMaskOf face) = []) ∧
    (∀ i, l.filterMap (GLCall.colorMaskOf i) = []) := by
  have key : ∀ c ∈ l,
      (match c with
        | GLCall.glPushDebugGroup _ => true
        | _ => false) = false ∧
      (match c with
        | GLCall.glPopDebugGroup => true
        | _ => false) = false ∧
      c.scissorToggleOf = none ∧ c.depthMaskOf = none ∧
      (∀ face, c.stencilMaskOf face = none) ∧ (∀ i, c.colorMaskOf i = none) := by
    intro c hc
    have := h c hc
    cases c <;> simp_all [GLCall.isTrackedCall, GLCall.scissorToggleOf, GLCall.depthMaskOf,
      GLCall.stencilMaskOf, GLCall.colorMaskOf]
    all_goals (rename_i cap; cases cap <;> simp_all [GLCall.isTrackedCall,
      GLCall.scissorToggleOf])
  refine ⟨?_, ?_, ?_, ?_, ?_, ?_⟩
  · unfold debugPushes
    rw [List.countP_eq_zero]
    intro c hc
    simp [(key c hc).1]
  · unfold debugPops
    rw [List.countP_eq_zero]
    intro c hc
    simp [(key c hc).2.1]
  · unfold scissorToggles
    rw [List.filterMap_eq_nil_iff]
    exact fun c hc => (key c hc).2.2.1
  · rw [List.filterMap_eq_nil_iff]
    exact fun c hc => (key c hc).2.2.2.1
  · intro face
    rw [List.filterMap_eq_nil_iff]
    exact fun c hc => (key c hc).2.2.2.2.1 face
  · intro i
    rw [List.filterMap_eq_nil_iff]
    exact fun c hc => (key c hc).2.2.2.2.2 i

theorem lastOf_append {α : Type} (f : GLCall → Option α) (t l : List GLCall) :
    ((t ++ l).filterMap f).getLast? =
      ((l.filterMap f).getLast?).or ((t.filterMap f).getLast?) := by
  rw [List.filterMap_append, List.getLast?_append]

/-- Calls that change no mirrored driver state keep the agreement. -/
theorem syncedT_untracked {k : Tracked} {t l : List GLCall} (h : SyncedT k t)
    (hl : Untracked l) : SyncedT k (t ++ l) := by
  obtain ⟨e1, e2, e3, e4, e5, e6⟩ := untracked_observers hl
  obtain ⟨h1, h2, h3, h4, h5, h6, h7, h8⟩ := h
  have a1 : debugPushes (t ++ l) = debugPushes t := by
    unfold debugPushes at *
    rw [List.countP_append, e1, Nat.add_zero]
  have a2 : debugPops (t ++ l) = debugPops t := by
    unfold debugPops at *
    rw [List.countP_append, e2, Nat.add_zero]
  have a3 : scissorToggles (t ++ l) = scissorToggles t := by
    unfold scissorToggles at *
    rw [List.filterMap_append, e3, List.append_nil]
  have a4 : lastDepthMask (t ++ l) = lastDepthMask t := by
    unfold lastDepthMask
    rw [List.filterMap_append, e4, List.append_nil]
  have a5 : ∀ face, lastStencilMask face (t ++ l) = lastStencilMask face t := by
    intro face
    unfold lastStencilMask
    rw [List.filterMap_append, e5, List.append_nil]
  have a6 : ∀ i, lastColorMask i (t ++ l) = lastColorMask i t := by
    intro i
    unfold lastColorMask
    rw [List.filterMap_append, e6, List.append_nil]
  unfold SyncedT scissorTestOn at *
  rw [a1, a2, a3, a4, a5, a5]
  simp only [a6]
  exact ⟨h1, h2, h3, h4, h5, h6, h7, h8⟩

/-- One call keeps the agreement when the flags and masks are updated as the call asks:
a push or pop moves the number of set debug-group flags by one, a scissor toggle is issued
only against the opposite flag value and sets the flag, a mask call sets the masks it
addresses, and everything a call does not address is left alone. -/
theorem syncedT_call {k k2 : Tracked} {t : List GLCall} (c : GLCall) (h : SyncedT k t)
    (hd : debugPushes [c] + debugGroupsPushed k.scopedPushed k.pipelinePushed =
      debugPops [c] + debugGroupsPushed k2.scopedPushed k2.pipelinePushed)
    (hs : match c.scissorToggleOf with
      | none => k2.scissorEnabled = k.scissorEnabled
      | some b => k.scissorEnabled = !b ∧ k2.scissorEnabled = b)
    (hm : match c.depthMaskOf with
      | none => k2.depthMask = k.depthMask
      | some b => k2.depthMask = b)
    (h0 : match c.stencilMaskOf GLFace.FRONT with
      | none => k2.stencilMask0 = k.stencilMask0
      | some m => k2.stencilMask0 = m)
    (h1 : match c.stencilMaskOf GLFace.BACK with
      | none => k2.stencilMask1 = k.stencilMask1
      | some m => k2.stencilMask1 = m)
    (hc : ∀ i, match c.colorMaskOf i with
      | none => k2.colorMask i = k.colorMask i
      | some q => componentBits (k2.colorMask i) = q) :
    SyncedT k2 (t ++ [c]) := by
  obtain ⟨g1, g2, g3, g4, g5, g6, g7, g8⟩ := h
  refine ⟨?_, ?_, ?_, ?_, ?_, ?_, ?_, ?_⟩
  · have e1 : debugPushes (t ++ [c]) = debugPushes t + debugPushes [c] := by
      unfold debugPushes
      rw [List.countP_append]
    have e2 : debugPops (t ++ [c]) = debugPops t + debugPops [c] := by
      unfold debugPops
      rw [List.countP_append]
    rw [e1, e2]
    omega
  · unfold scissorToggles at *
    rw [List.filterMap_append]
    cases hc2 : c.scissorToggleOf with
    | none => simpa [hc2] using g2
    | some b =>
      rw [hc2] at hs
      simp only [List.filterMap_cons, hc2, List.filterMap_nil]
      rw [List.chain'_append]
      refine ⟨g2, List.chain'_singleton _, ?_⟩
      intro x hx y hy
      simp only [List.head?_cons, Option.mem_def, Option.some.injEq] at hy
      subst hy
      unfold scissorTestOn scissorToggles at g4
      rw [Option.mem_def] at hx
      rw [hx] at g4
      simp only [Option.getD_some] at g4
      rw [g4, hs.1]
      cases b <;> simp
  · unfold scissorToggles at *
    rw [List.filterMap_append]
    cases hc2 : c.scissorToggleOf with
    | none => simpa [hc2] using g3
    | some b =>
      rw [hc2] at hs
      simp only [List.filterMap_cons, hc2, List.filterMap_nil]
      cases hl : List.filterMap GLCall.scissorToggleOf t with
      | nil =>
        unfold scissorTestOn scissorToggles at g4
        rw [hl] at g4
        simp only [List.getLast?_nil, Option.getD_none] at g4
        rw [← g4] at hs
        simp only [List.nil_append, List.head?_cons, ne_eq, Option.some.injEq]
        intro hb
        rw [hb] at hs
        simp at hs
      | cons x rest =>
        rw [hl] at g3
        simpa using g3
  · unfold scissorTestOn scissorToggles at *
    rw [List.filterMap_append]
    cases hc2 : c.scissorToggleOf with
    | none =>
      rw [hc2] at hs
      simp only [List.filterMap_cons, hc2, List.filterMap_nil, List.append_nil]
      rw [g4, hs]
    | some b =>
      rw [hc2] at hs
      simp only [List.filterMap_cons, hc2, List.filterMap_nil]
      rw [List.getLast?_append]
      simp [hs.2]
  · intro b hb
    unfold lastDepthMask at *
    rw [lastOf_append] at hb
    cases hc2 : c.depthMaskOf with
    | none =>
      rw [hc2] at hm
      simp only [List.filterMap_cons, hc2, List.filterMap_nil, List.getLast?_nil,
        Option.none_or] at hb
      rw [hm]
      exact g5 b hb
    | some x =>
      rw [hc2] at hm
      simp only [List.filterMap_cons, hc2, List.filterMap_nil, List.getLast?_singleton,
        Option.or_some, Option.some.injEq] at hb
      rw [hm, hb]
  · intro b hb
    unfold lastStencilMask at *
    rw [lastOf_append] at hb
    cases hc2 : c.stencilMaskOf GLFace.FRONT with
    | none =>
      rw [hc2] at h0
      simp only [List.filterMap_cons, hc2, List.filterMap_nil, List.getLast?_nil,
        Option.none_or] at hb
      rw [h0]
      exact g6 b hb
    | some x =>
      rw [hc2] at h0
      simp only [List.filterMap_cons, hc2, List.filterMap_nil, List.getLast?_singleton,
        Option.or_some, Option.some.injEq] at hb
      rw [h0, hb]
  · intro b hb
    unfold lastStencilMask at *
    rw [lastOf_append] at hb
    cases hc2 : c.stencilMaskOf GLFace.BACK with
    | none =>
      rw [hc2] at h1
      simp only [List.filterMap_cons, hc2, List.filterMap_nil, List.getLast?_nil,
        Option.none_or] at hb
      rw [h1]
      exact g7 b hb
    | some x =>
      rw [hc2] at h1
      simp only [List.filterMap_cons, hc2, List.filterMap_nil, List.getLast?_singleton,
        Option.or_some, Option.some.injEq] at hb
      rw [h1, hb]
  · intro i q hq
    unfold lastColorMask at *
    rw [lastOf_append] at hq
    have hci := hc i
    cases hc2 : c.colorMaskOf i with
    | none =>
      rw [hc2] at hci
      simp only [List.filterMap_cons, hc2, List.filterMap_nil, List.getLast?_nil,
        Option.none_or] at hq
      rw [hci]
      exact g8 i q hq
    | some x =>
      rw [hc2] at hci
      simp only [List.filterMap_cons, hc2, List.filterMap_nil, List.getLast?_singleton,
        Option.or_some, Option.some.injEq] at hq
      rw [hci, hq]
/-! ## Mirrored driver state: the sections of the pass begins and ends -/

theorem synced_untracked {s s2 : State} {t l : List GLCall} (h : Synced s t)
    (hl : Untracked l) (hk : s2.tracked = s.tracked) : Synced s2 (t ++ l) := by
  unfold Synced at *
  rw [hk]
  exact syncedT_untracked h hl

theorem synced_state {s s2 : State} {t : List GLCall} (h : Synced s t)
    (hk : s2.tracked = s.tracked) : Synced s2 t := by
  unfold Synced at *
  rw [hk]
  exact h

theorem synced_push_scoped {s : State} {t : List GLCall} (name : String) (h : Synced s t)
    (hpre : s.isScopedDebugGroupPushed = false) :
    Synced { s with isScopedDebugGroupPushed := true } (t ++ [GLCall.glPushDebugGroup name]) := by
  refine syncedT_call _ h ?_ rfl rfl rfl rfl (fun _ => rfl)
  simp [State.tracked, debugPushes, debugPops, debugGroupsPushed, hpre]

theorem synced_push_pipeline {s : State} {t : List GLCall} (name : String) (h : Synced s t)
    (hpre : s.isPipelineDebugGroupPushed = false) :
    Synced { s with isPipelineDebugGroupPushed := true }
      (t ++ [GLCall.glPushDebugGroup name]) := by
  refine syncedT_call _ h ?_ rfl rfl rfl rfl (fun _ => rfl)
  simp [State.tracked, debugPushes, debugPops, debugGroupsPushed, hpre]
  omega

theorem synced_pop_scoped {s : State} {t : List GLCall} (h : Synced s t)
    (hpre : s.isScopedDebugGroupPushed = true) :
    Synced { s with isScopedDebugGroupPushed := false } (t ++ [GLCall.glPopDebugGroup]) := by
  refine syncedT_call _ h ?_ rfl rfl rfl rfl (fun _ => rfl)
  simp [State.tracked, debugPushes, debugPops, debugGroupsPushed, hpre]

theorem synced_pop_pipeline {s : State} {t : List GLCall} (h : Synced s t)
    (hpre : s.isPipelineDebugGroupPushed = true) :
    Synced { s with isPipelineDebugGroupPushed := false } (t ++ [GLCall.glPopDebugGroup]) := by
  refine syncedT_call _ h ?_ rfl rfl rfl rfl (fun _ => rfl)
  simp [State.tracked, debugPushes, debugPops, debugGroupsPushed, hpre]
  omega

theorem synced_scissor_on {s : State} {t : List GLCall} (h : Synced s t)
    (hpre : s.sScissorEnabled = false) :
    Synced { s with sScissorEnabled := true } (t ++ [GLCall.glEnable GLCap.SCISSOR_TEST]) := by
  refine syncedT_call _ h ?_ ⟨hpre, rfl⟩ rfl rfl rfl (fun _ => rfl)
  simp [State.tracked, debugPushes, debugPops, debugGroupsPushed]

theorem synced_scissor_off {s : State} {t : List GLCall} (h : Synced s t)
    (hpre : s.sScissorEnabled = true) :
    Synced { s with sScissorEnabled := false } (t ++ [GLCall.glDisable GLCap.SCISSOR_TEST]) := by
  refine syncedT_call _ h ?_ ⟨hpre, rfl⟩ rfl rfl rfl (fun _ => rfl)
  simp [State.tracked, debugPushes, debugPops, debugGroupsPushed]

theorem synced_depthMask {s : State} {t : List GLCall} (b : Bool) (h : Synced s t) :
    Synced { s with sLastDepthMask := b } (t ++ [GLCall.glDepthMask b]) := by
  refine syncedT_call _ h ?_ rfl rfl rfl rfl (fun _ => rfl)
  simp [State.tracked, debugPushes, debugPops, debugGroupsPushed]

theorem synced_stencilMask {s : State} {t : List GLCall} (m : Nat) (h : Synced s t) :
    Synced { s with sLastStencilMask0 := m, sLastStencilMask1 := m }
      (t ++ [GLCall.glStencilMask m]) := by
  refine syncedT_call _ h ?_ rfl rfl rfl rfl (fun _ => rfl)
  simp [State.tracked, debugPushes, debugPops, debugGroupsPushed]

theorem synced_stencilFront {s : State} {t : List GLCall} (m : Nat) (h : Synced s t) :
    Synced { s with sLastStencilMask0 := m }
      (t ++ [GLCall.glStencilMaskSeparate GLFace.FRONT m]) := by
  refine syncedT_call _ h ?_ rfl rfl rfl rfl (fun _ => rfl)
  simp [State.tracked, debugPushes, debugPops, debugGroupsPushed]

theorem synced_stencilBack {s : State} {t : List GLCall} (m : Nat) (h : Synced s t) :
    Synced { s with sLastStencilMask1 := m }
      (t ++ [GLCall.glStencilMaskSeparate GLFace.BACK m]) := by
  refine syncedT_call _ h ?_ rfl rfl rfl rfl (fun _ => rfl)
  simp [State.tracked, debugPushes, debugPops, debugGroupsPushed]

theorem synced_colorMask {s : State} {t : List GLCall} (i : Nat) (mask : ColorComponentFlags)
    (h : Synced s t) :
    Synced { s with sLastColorMask := fun j => if j = i then mask else s.sLastColorMask j }
      (t ++ [Cmd.colorMaskCall i mask]) := by
  refine syncedT_call _ h ?_ rfl rfl rfl rfl ?_
  · simp [State.tracked, debugPushes, debugPops, debugGroupsPushed, Cmd.colorMaskCall]
  · intro j
    by_cases hj : i = j
    · subst hj
      simp [State.tracked, Cmd.colorMaskCall, GLCall.colorMaskOf, componentBits]
    · have hj2 : ¬ j = i := fun e => hj e.symm
      simp [State.tracked, Cmd.colorMaskCall, GLCall.colorMaskOf, hj, hj2]

theorem colorMaskCall_all (i : Nat) :
    Cmd.colorMaskCall i ColorComponentFlag.RGBA_BITS = GLCall.glColorMaski i true true true true := by
  rfl

theorem enableColorMask_synced (i : Nat) (s : State) (t : List GLCall) (h : Synced s t) :
    Synced (enableColorMask i s).1 (t ++ (enableColorMask i s).2) := by
  unfold enableColorMask
  split
  · rw [← colorMaskCall_all]
    exact synced_colorMask i _ h
  · simpa using h

theorem enableDepthMask_synced (s : State) (t : List GLCall) (h : Synced s t) :
    Synced (enableDepthMask s).1 (t ++ (enableDepthMask s).2) := by
  unfold enableDepthMask
  split
  · exact synced_depthMask true h
  · simpa using h

theorem enableStencilMask_synced (s : State) (t : List GLCall) (h : Synced s t) :
    Synced (enableStencilMask s).1 (t ++ (enableStencilMask s).2) := by
  unfold enableStencilMask
  split
  · exact synced_stencilMask 1 h
  · simpa using h

theorem zeroTextureUnits_untracked (n : Nat) : Untracked (zeroTextureUnits n) := by
  unfold zeroTextureUnits
  generalize List.range n = l
  induction l with
  | nil => exact untracked_empty
  | cons i rest ih =>
    intro c hc
    simp only [List.foldr_cons, List.mem_cons] at hc
    rcases hc with rfl | rfl | hc
    · rfl
    · rfl
    · exact ih c hc

theorem debugZeroResourceBindings_untracked (env : Env) (s : State) :
    Untracked (debugZeroResourceBindings env s).2 := by
  intro c hc
  unfold debugZeroResourceBindings at hc
  split at hc
  · unfold ZeroResourceBindings at hc
    simp only [List.mem_append, List.mem_map, List.mem_range] at hc
    rcases hc with (((hc | hc) | hc) | hc) | hc
    · split at hc
      · simp only [List.mem_cons, List.mem_singleton, List.not_mem_nil, or_false] at hc
        rcases hc with rfl | rfl | rfl | rfl <;> rfl
      · simp at hc
    · obtain ⟨i, _, rfl⟩ := hc
      rfl
    · obtain ⟨i, _, rfl⟩ := hc
      rfl
    · obtain ⟨i, _, rfl⟩ := hc
      rfl
    · exact zeroTextureUnits_untracked _ c hc
  · simp at hc

theorem debugZeroResourceBindings_synced (env : Env) (s : State) (t : List GLCall)
    (h : Synced s t) :
    Synced (debugZeroResourceBindings env s).1 (t ++ (debugZeroResourceBindings env s).2) := by
  obtain ⟨a, b, c, d, e, hz⟩ := debugZeroResourceBindings_fst env s
  exact synced_untracked h (debugZeroResourceBindings_untracked env s) (by rw [hz]; rfl)

theorem pushScopedDebugGroup_synced (name : String) (s : State) (t : List GLCall)
    (h : Synced s t) (hpre : s.isScopedDebugGroupPushed = false) :
    Synced (pushScopedDebugGroup name s).1 (t ++ (pushScopedDebugGroup name s).2) := by
  unfold pushScopedDebugGroup
  split
  · exact synced_push_scoped name h hpre
  · simpa using h

theorem popDebugGroups_synced (s : State) (t : List GLCall) (h : Synced s t) :
    Synced (popDebugGroups s).1 (t ++ (popDebugGroups s).2) := by
  unfold popDebugGroups
  by_cases h1 : s.isScopedDebugGroupPushed = true
  · have a1 := synced_pop_scoped h h1
    by_cases h2 : s.isPipelineDebugGroupPushed = true
    · have a2 := synced_pop_pipeline a1 h2
      simpa [h1, h2] using a2
    · simpa [h1, h2] using a1
  · by_cases h2 : s.isPipelineDebugGroupPushed = true
    · have a2 := synced_pop_pipeline h h2
      simpa [h1, h2] using a2
    · simpa [h1, h2] using h

theorem clearColorAttachments_synced (env : Env) (fbo : Nat)
    (atts : List RenderColorAttachment) :
    ∀ (i : Nat) (s : State) (t : List GLCall) (r : State × List GLCall),
      Synced s t → clearColorAttachments env fbo i atts s = some r →
      Synced r.1 (t ++ r.2) := by
  induction atts with
  | nil =>
    intro i s t r hs h
    simp only [clearColorAttachments, Option.some.injEq] at h
    subst h
    simpa using hs
  | cons a rest ih =>
    intro i s t r hs h
    unfold clearColorAttachments at h
    split at h
    · have a1 := enableColorMask_synced i s t hs
      split at h
      all_goals first
        | exact Option.noConfusion h
        | (simp only [Option.map_eq_some'] at h
           obtain ⟨r2, h2, rfl⟩ := h
           simp only [← List.append_assoc]
           exact ih _ _ _ _ (synced_untracked a1 (untracked_one _ (by rfl)) rfl) h2)
    · exact ih _ _ _ _ hs h

theorem clearDepthStencil_synced (ri : RenderInfo) (fbo : Nat) (s : State) (t : List GLCall)
    (h : Synced s t) :
    Synced (clearDepthStencil ri fbo s).1 (t ++ (clearDepthStencil ri fbo s).2) := by
  have hd := fun c (hc : c.isTrackedCall = false) =>
    synced_untracked (enableDepthMask_synced s t h) (untracked_one c hc) rfl
  have hst := fun c (hc : c.isTrackedCall = false) =>
    synced_untracked (enableStencilMask_synced s t h) (untracked_one c hc) rfl
  have hds := fun c (hc : c.isTrackedCall = false) =>
    synced_untracked (enableStencilMask_synced _ _ (enableDepthMask_synced s t h))
      (untracked_one c hc) rfl
  unfold clearDepthStencil
  split
  · split
    · simpa [List.append_assoc] using hds _ (by rfl)
    · split
      · simpa [List.append_assoc] using hd _ (by rfl)
      · split
        · simpa [List.append_assoc] using hst _ (by rfl)
        · simpa using h
  · split
    · simpa [List.append_assoc] using hd _ (by rfl)
    · simpa using h
  · split
    · simpa [List.append_assoc] using hst _ (by rfl)
    · simpa using h
  · simpa using h
/-! ## Mirrored driver state: pass begins, pass ends and plain commands -/

theorem swapchainClearColor_synced (ri : SwapchainRenderInfo) (s : State) (t : List GLCall)
    (r : State × List GLCall) (hs : Synced s t) (h : swapchainClearColor ri s = some r) :
    Synced r.1 (t ++ r.2) := by
  unfold swapchainClearColor at h
  split at h
  · split at h
    · injection h with h
      subst h
      simp only [← List.append_assoc]
      exact synced_untracked (enableColorMask_synced 0 s t hs) (untracked_one _ (by rfl)) rfl
    · exact Option.noConfusion h
  · injection h with h
    subst h
    simpa using hs

theorem swapchainClearDepth_synced (ri : SwapchainRenderInfo) (s : State) (t : List GLCall)
    (hs : Synced s t) :
    Synced (swapchainClearDepth ri s).1 (t ++ (swapchainClearDepth ri s).2) := by
  unfold swapchainClearDepth
  split
  · simp only [← List.append_assoc]
    exact synced_untracked (enableDepthMask_synced s t hs) (untracked_one _ (by rfl)) rfl
  · simpa using hs

theorem swapchainClearStencil_synced (ri : SwapchainRenderInfo) (s : State) (t : List GLCall)
    (hs : Synced s t) :
    Synced (swapchainClearStencil ri s).1 (t ++ (swapchainClearStencil ri s).2) := by
  unfold swapchainClearStencil
  split
  · simp only [← List.append_assoc]
    exact synced_untracked (enableStencilMask_synced s t hs) (untracked_one _ (by rfl)) rfl
  · simpa using hs

theorem swapchainDisableSrgb_synced (ri : SwapchainRenderInfo) (s : State) (t : List GLCall)
    (hs : Synced s t) :
    Synced (swapchainDisableSrgb ri s).1 (t ++ (swapchainDisableSrgb ri s).2) := by
  unfold swapchainDisableSrgb
  split
  · exact synced_untracked hs (untracked_one _ (by rfl)) rfl
  · simpa using hs

theorem beginRenderingSetup_synced (env : Env) (ri : RenderInfo) (s : State) (t : List GLCall)
    (hs : Synced s t) (hpre : s.isScopedDebugGroupPushed = false) :
    Synced (beginRenderingSetup env ri s).1 (t ++ (beginRenderingSetup env ri s).2) := by
  have a0 : Synced { s with isRendering := true } t := synced_state hs rfl
  have a1 := debugZeroResourceBindings_synced env _ t a0
  have a2 := pushScopedDebugGroup_synced ri.name
    { (debugZeroResourceBindings env { s with isRendering := true }).1 with
      sLastRenderInfo := some ri } _ (synced_state a1 rfl)
    (by
      obtain ⟨a, b, c, d, e, hz⟩ := debugZeroResourceBindings_fst env
        { s with isRendering := true }
      rw [hz]
      exact hpre)
  have hu : Untracked ((CreateOrGetCachedFramebuffer env ri (pushScopedDebugGroup ri.name
      { (debugZeroResourceBindings env { s with isRendering := true }).1 with
        sLastRenderInfo := some ri }).1).2.2 ++
      [GLCall.glBindFramebuffer (CreateOrGetCachedFramebuffer env ri
        (pushScopedDebugGroup ri.name
          { (debugZeroResourceBindings env { s with isRendering := true }).1 with
            sLastRenderInfo := some ri }).1).1]) := by
    refine untracked_concat ?_ (untracked_one _ (by rfl))
    unfold CreateOrGetCachedFramebuffer
    exact untracked_cond (untracked_one _ (by rfl)) untracked_empty
  have a3 := @synced_untracked _ (beginRenderingSetup env ri s).1 _ _ a2 hu rfl
  unfold beginRenderingSetup
  simp only [← List.append_assoc] at a3 ⊢
  exact a3

theorem BeginRendering_synced (env : Env) (ri : RenderInfo) (s : State) (t : List GLCall)
    (r : State × List GLCall) (hs : Synced s t) (hc : Clean s)
    (h : BeginRendering env ri s = some r) : Synced r.1 (t ++ r.2) := by
  have hi := (BeginRendering_isSome env ri s).mp (by rw [h]; rfl)
  have hpre := (hc.2 hi.1 hi.2.1).1
  rw [BeginRendering_eq] at h
  split at h
  · exact Option.noConfusion h
  split at h
  · exact Option.noConfusion h
  split at h
  · exact Option.noConfusion h
  rename_i r4 h4
  injection h with h
  subst h
  simp only [← List.append_assoc]
  exact synced_untracked (clearDepthStencil_synced ri _ _ _
      (clearColorAttachments_synced env _ _ _ _ _ _
        (beginRenderingSetup_synced env ri s t hs hpre) h4))
    (SetViewportInternal_untracked _ _ _ _) rfl

theorem BeginSwapchainRendering_synced (env : Env) (ri : SwapchainRenderInfo) (s : State)
    (t : List GLCall) (r : State × List GLCall) (hs : Synced s t) (hc : Clean s)
    (h : BeginSwapchainRendering env ri s = some r) : Synced r.1 (t ++ r.2) := by
  have hi := (BeginSwapchainRendering_isSome env ri s).mp (by rw [h]; rfl)
  have hpre := (hc.2 hi.1 hi.2.1).1
  unfold BeginSwapchainRendering at h
  split at h
  · exact Option.noConfusion h
  split at h
  · exact Option.noConfusion h
  simp only at h
  split at h
  · exact Option.noConfusion h
  rename_i r4 h4
  injection h with h
  subst h
  have a0 : Synced
      { s with isRendering := true, isRenderingToSwapchain := true,
               sLastRenderInfo := none } t := synced_state hs rfl
  have a2 := pushScopedDebugGroup_synced ri.name _ _
    (debugZeroResourceBindings_synced env _ t a0)
    (by
      obtain ⟨a, b, c, d, e, hz⟩ := debugZeroResourceBindings_fst env
        { s with isRendering := true, isRenderingToSwapchain := true,
                 sLastRenderInfo := none }
      rw [hz]
      exact hpre)
  have a3 := synced_untracked a2 (untracked_one (GLCall.glBindFramebuffer 0) (by rfl)) rfl
  have a7 := swapchainDisableSrgb_synced ri _ _ (swapchainClearStencil_synced ri _ _
    (swapchainClearDepth_synced ri _ _ (swapchainClearColor_synced ri _ _ r4 a3 h4)))
  simp only [← List.append_assoc]
  exact synced_untracked a7 (SetViewportInternal_untracked _ _ _ _) rfl

theorem BeginCompute_synced (env : Env) (name : String) (s : State) (t : List GLCall)
    (r : State × List GLCall) (hs : Synced s t) (hc : Clean s)
    (h : BeginCompute env name s = some r) : Synced r.1 (t ++ r.2) := by
  rw [BeginCompute_eq] at h
  split at h
  · rename_i hi
    injection h with h
    subst h
    simp only [← List.append_assoc]
    refine pushScopedDebugGroup_synced _ _ _
      (debugZeroResourceBindings_synced env _ t (synced_state hs ?_)) ?_
    · exact rfl
    · obtain ⟨a, b, c, d, e, hz⟩ := debugZeroResourceBindings_fst env
        { s with isComputeActive := true }
      rw [hz]
      exact (hc.2 hi.1 hi.2).1
  · exact Option.noConfusion h

theorem EndRendering_synced (s : State) (t : List GLCall) (r : State × List GLCall)
    (hs : Synced s t) (h : EndRendering s = some r) : Synced r.1 (t ++ r.2) := by
  unfold EndRendering at h
  split at h
  · exact Option.noConfusion h
  injection h with h
  subst h
  simp only [← List.append_assoc]
  have a1 := popDebugGroups_synced
    { s with isRendering := false, isIndexBufferBound := false,
             isRenderingToSwapchain := false } t (synced_state hs rfl)
  refine synced_untracked ?_ (untracked_cond (untracked_one _ (by rfl)) untracked_empty) rfl
  by_cases hsc : (popDebugGroups
      { s with isRendering := false, isIndexBufferBound := false,
               isRenderingToSwapchain := false }).1.sScissorEnabled = true
  · simp only [hsc, if_true]
    exact synced_scissor_off a1 hsc
  · simp only [hsc, Bool.false_eq_true, if_false, List.append_nil]
    exact a1

theorem EndCompute_synced (s : State) (t : List GLCall) (r : State × List GLCall)
    (hs : Synced s t) (h : EndCompute s = some r) : Synced r.1 (t ++ r.2) := by
  unfold EndCompute at h
  split at h
  · exact Option.noConfusion h
  injection h with h
  subst h
  exact popDebugGroups_synced _ t (synced_state hs rfl)

namespace Cmd

theorem bindPipelineDebugGroup_synced (name : String) (s : State) (t : List GLCall)
    (hs : Synced s t) :
    Synced (bindPipelineDebugGroup name s).1 (t ++ (bindPipelineDebugGroup name s).2) := by
  unfold bindPipelineDebugGroup
  by_cases h1 : s.isPipelineDebugGroupPushed = true
  · have a1 := synced_pop_pipeline hs h1
    by_cases h2 : name ≠ ""
    · have a2 := synced_push_pipeline name a1 rfl
      simpa [h1, h2] using a2
    · simpa [h1, h2] using a1
  · have h1' : s.isPipelineDebugGroupPushed = false := by simpa using h1
    by_cases h2 : name ≠ ""
    · have a2 := synced_push_pipeline name hs h1'
      simpa [h1, h2] using a2
    · simpa [h1, h2] using hs

end Cmd

theorem step_plainCommand_synced (env : Env) (op : Op) (s : State) (t : List GLCall)
    (r : State × List GLCall) (hop : op.isPlainCommand = true) (hs : Synced s t)
    (h : step env op s = some r) : Synced r.1 (t ++ r.2) := by
  rcases step_plainCommand_cases op hop with hi | ⟨v, rfl⟩ | ⟨sc, rfl⟩ | ⟨b, ty, rfl⟩ | ⟨p, rfl⟩
  · obtain ⟨h1, h2, _⟩ := step_inertCommand env op s r hi h
    exact synced_untracked hs h2 (by rw [h1])
  · obtain ⟨_, h1, h2⟩ := step_SetViewport env v s r h
    exact synced_untracked hs h2 (by rw [h1]; rfl)
  · obtain ⟨_, h1, rest, h2, h3⟩ := step_SetScissor env sc s r h
    rw [h3, ← List.append_assoc]
    refine @synced_untracked { s with sScissorEnabled := true } r.1 _ _ ?_ h2 (by rw [h1]; rfl)
    by_cases he : s.sScissorEnabled = false
    · simp only [he, if_true]
      exact synced_scissor_on hs he
    · have he' : s.sScissorEnabled = true := by simpa using he
      simp only [he', Bool.true_eq_false, if_false, List.append_nil]
      refine synced_state hs ?_
      simp [State.tracked, he']
  · obtain ⟨_, h1, h2⟩ := step_BindIndexBuffer env b ty s r h
    exact synced_untracked hs h2 (by rw [h1]; rfl)
  · obtain ⟨_, name, h1, h2⟩ := step_BindComputePipeline env p s r h
    rw [h1, h2, ← List.append_assoc]
    exact synced_untracked (Cmd.bindPipelineDebugGroup_synced name s t hs)
      (untracked_one _ (by rfl)) rfl
/-! ## Mirrored driver state: the pipeline bind -/

theorem tracked_rank (c : GLCall) (h : c.isTrackedCall = true) :
    c.bindRank < 2 ∨ c.bindRank = 19 ∨ c.bindRank = 24 ∨ c.bindRank = 27 ∨ 34 ≤ c.bindRank := by
  cases c <;> simp only [GLCall.isTrackedCall, Bool.false_eq_true] at h
  case glEnable cap => cases cap <;> simp_all [GLCall.isTrackedCall, GLCall.bindRank, GLCap.bindRank]
  case glDisable cap => cases cap <;> simp_all [GLCall.isTrackedCall, GLCall.bindRank, GLCap.bindRank]
  case glStencilMaskSeparate f _ => cases f <;> simp [GLCall.bindRank, GLFace.bindRank]
  all_goals simp [GLCall.bindRank]

theorem InBand.untracked {lo hi : Nat} {l : List GLCall} (h : InBand lo hi l)
    (hb : (2 ≤ lo ∧ hi ≤ 19) ∨ (20 ≤ lo ∧ hi ≤ 24) ∨ (28 ≤ lo ∧ hi ≤ 34)) : Untracked l := by
  intro c hc
  have hr := h.2.2 c hc
  cases ht : c.isTrackedCall
  · rfl
  · have := tracked_rank c ht
    omega

namespace Cmd

theorem blendFunctionCalls_untracked (env : Env) (i : Nat) (cba : ColorBlendAttachmentState) :
    Untracked (blendFunctionCalls env i cba) := by
  unfold blendFunctionCalls
  split
  · exact untracked_concat (untracked_one _ (by rfl)) (untracked_one _ (by rfl))
  · exact untracked_concat (untracked_one _ (by rfl)) (untracked_one _ (by rfl))

theorem bindDepthState_synced (env : Env) (last : Option GraphicsPipelineInfoOwning)
    (ds : DepthState) (s : State) (t : List GLCall) (hs : Synced s t) :
    Synced (bindDepthState env last ds s).1 (t ++ (bindDepthState env last ds s).2) := by
  have c1u : Untracked
      (if changed last (fun l => l.depthState.depthTestEnable) ds.depthTestEnable then
        GLEnableOrDisable GLCap.DEPTH_TEST ds.depthTestEnable else []) :=
    untracked_cond (InBand.untracked (InBand.enableOrDisable GLCap.DEPTH_TEST _
      (Nat.le_refl 18) (Nat.lt_succ_self 18)) (Or.inl ⟨by omega, by omega⟩)) untracked_empty
  have c3u : Untracked
      (if changed last (fun l => l.depthState.depthCompareOp) ds.depthCompareOp then
        [GLCall.glDepthFunc (env.CompareOpToGL ds.depthCompareOp)] else []) :=
    untracked_cond (untracked_one _ (by rfl)) untracked_empty
  have a1 := synced_untracked hs c1u rfl
  unfold bindDepthState
  by_cases h1 : ds.depthTestEnable = true
  · rw [if_pos h1]
    simp only [← List.append_assoc]
    by_cases hw : changed last (fun l => l.depthState.depthWriteEnable) ds.depthWriteEnable = true
    · by_cases hm : ds.depthWriteEnable ≠ s.sLastDepthMask
      · simp only [if_pos hw, if_pos hm]
        exact synced_untracked (synced_depthMask ds.depthWriteEnable a1) c3u rfl
      · simp only [if_pos hw, if_neg hm, List.append_nil]
        exact synced_untracked a1 c3u rfl
    · simp only [if_neg hw, List.append_nil]
      exact synced_untracked a1 c3u rfl
  · rw [if_neg h1]
    exact a1

theorem bindStencilState_synced (env : Env) (last : Option GraphicsPipelineInfoOwning)
    (ss : StencilState) (s : State) (t : List GLCall) (hs : Synced s t) :
    Synced (bindStencilState env last ss s).1 (t ++ (bindStencilState env last ss s).2) := by
  have c1u : Untracked
      (if changed last (fun l => l.stencilState.stencilTestEnable) ss.stencilTestEnable then
        GLEnableOrDisable GLCap.STENCIL_TEST ss.stencilTestEnable else []) :=
    untracked_cond (InBand.untracked (InBand.enableOrDisable GLCap.STENCIL_TEST _
      (Nat.le_refl 21) (Nat.lt_succ_self 21)) (Or.inr (Or.inl ⟨by omega, by omega⟩)))
      untracked_empty
  have a1 := synced_untracked hs c1u rfl
  -- the front face block, on any state
  have front : ∀ (u : State) (tr : List GLCall), Synced u tr →
      Synced
        (if stencilFaceChanged last (fun l => l.front) ss.front then
          (if u.sLastStencilMask0 ≠ ss.front.writeMask then
            ({ u with sLastStencilMask0 := ss.front.writeMask },
              [GLCall.glStencilOpSeparate GLFace.FRONT (env.StencilOpToGL ss.front.failOp)
                  (env.StencilOpToGL ss.front.depthFailOp) (env.StencilOpToGL ss.front.passOp),
                GLCall.glStencilFuncSeparate GLFace.FRONT
                  (env.CompareOpToGL ss.front.compareOp) ss.front.reference
                  ss.front.compareMask] ++
                [GLCall.glStencilMaskSeparate GLFace.FRONT ss.front.writeMask])
          else (u,
              [GLCall.glStencilOpSeparate GLFace.FRONT (env.StencilOpToGL ss.front.failOp)
                  (env.StencilOpToGL ss.front.depthFailOp) (env.StencilOpToGL ss.front.passOp),
                GLCall.glStencilFuncSeparate GLFace.FRONT
                  (env.CompareOpToGL ss.front.compareOp) ss.front.reference
                  ss.front.compareMask]))
        else (u, [])).1
        (tr ++ (if stencilFaceChanged last (fun l => l.front) ss.front then
          (if u.sLastStencilMask0 ≠ ss.front.writeMask then
            ({ u with sLastStencilMask0 := ss.front.writeMask },
              [GLCall.glStencilOpSeparate GLFace.FRONT (env.StencilOpToGL ss.front.failOp)
                  (env.StencilOpToGL ss.front.depthFailOp) (env.StencilOpToGL ss.front.passOp),
                GLCall.glStencilFuncSeparate GLFace.FRONT
                  (env.CompareOpToGL ss.front.compareOp) ss.front.reference
                  ss.front.compareMask] ++
                [GLCall.glStencilMaskSeparate GLFace.FRONT ss.front.writeMask])
          else (u,
              [GLCall.glStencilOpSeparate GLFace.FRONT (env.StencilOpToGL ss.front.failOp)
                  (env.StencilOpToGL ss.front.depthFailOp) (env.StencilOpToGL ss.front.passOp),
                GLCall.glStencilFuncSeparate GLFace.FRONT
                  (env.CompareOpToGL ss.front.compareOp) ss.front.reference
                  ss.front.compareMask]))
        else (u, [])).2) := by
    intro u tr hu
    have ops := synced_untracked hu
      (untracked_concat
        (untracked_one (GLCall.glStencilOpSeparate GLFace.FRONT
          (env.StencilOpToGL ss.front.failOp) (env.StencilOpToGL ss.front.depthFailOp)
          (env.StencilOpToGL ss.front.passOp)) (by rfl))
        (untracked_one (GLCall.glStencilFuncSeparate GLFace.FRONT
          (env.CompareOpToGL ss.front.compareOp) ss.front.reference ss.front.compareMask)
          (by rfl))) rfl
    by_cases hf : stencilFaceChanged last (fun l => l.front) ss.front = true
    · by_cases hm : u.sLastStencilMask0 ≠ ss.front.writeMask
      · simp only [if_pos hf, if_pos hm, ← List.append_assoc]
        exact synced_stencilFront _ ops
      · simp only [if_pos hf, if_neg hm]
        exact ops
    · simp only [if_neg hf, List.append_nil]
      exact hu
  have back : ∀ (u : State) (tr : List GLCall), Synced u tr →
      Synced
        (if stencilFaceChanged last (fun l => l.back) ss.back then
          (if u.sLastStencilMask1 ≠ ss.back.writeMask then
            ({ u with sLastStencilMask1 := ss.back.writeMask },
              [GLCall.glStencilOpSeparate GLFace.BACK (env.StencilOpToGL ss.back.failOp)
                  (env.StencilOpToGL ss.back.depthFailOp) (env.StencilOpToGL ss.back.passOp),
                GLCall.glStencilFuncSeparate GLFace.BACK
                  (env.CompareOpToGL ss.back.compareOp) ss.back.reference
                  ss.back.compareMask] ++
                [GLCall.glStencilMaskSeparate GLFace.BACK ss.back.writeMask])
          else (u,
              [GLCall.glStencilOpSeparate GLFace.BACK (env.StencilOpToGL ss.back.failOp)
                  (env.StencilOpToGL ss.back.depthFailOp) (env.StencilOpToGL ss.back.passOp),
                GLCall.glStencilFuncSeparate GLFace.BACK
                  (env.CompareOpToGL ss.back.compareOp) ss.back.reference
                  ss.back.compareMask]))
        else (u, [])).1
        (tr ++ (if stencilFaceChanged last (fun l => l.back) ss.back then
          (if u.sLastStencilMask1 ≠ ss.back.writeMask then
            ({ u with sLastStencilMask1 := ss.back.writeMask },
              [GLCall.glStencilOpSeparate GLFace.BACK (env.StencilOpToGL ss.back.failOp)
                  (env.StencilOpToGL ss.back.depthFailOp) (env.StencilOpToGL ss.back.passOp),
                GLCall.glStencilFuncSeparate GLFace.BACK
                  (env.CompareOpToGL ss.back.compareOp) ss.back.reference
                  ss.back.compareMask] ++
                [GLCall.glStencilMaskSeparate GLFace.BACK ss.back.writeMask])
          else (u,
              [GLCall.glStencilOpSeparate GLFace.BACK (env.StencilOpToGL ss.back.failOp)
                  (env.StencilOpToGL ss.back.depthFailOp) (env.StencilOpToGL ss.back.passOp),
                GLCall.glStencilFuncSeparate GLFace.BACK
                  (env.CompareOpToGL ss.back.compareOp) ss.back.reference
                  ss.back.compareMask]))
        else (u, [])).2) := by
    intro u tr hu
    have ops := synced_untracked hu
      (untracked_concat
        (untracked_one (GLCall.glStencilOpSeparate GLFace.BACK
          (env.StencilOpToGL ss.back.failOp) (env.StencilOpToGL ss.back.depthFailOp)
          (env.StencilOpToGL ss.back.passOp)) (by rfl))
        (untracked_one (GLCall.glStencilFuncSeparate GLFace.BACK
          (env.CompareOpToGL ss.back.compareOp) ss.back.reference ss.back.compareMask)
          (by rfl))) rfl
    by_cases hf : stencilFaceChanged last (fun l => l.back) ss.back = true
    · by_cases hm : u.sLastStencilMask1 ≠ ss.back.writeMask
      · simp only [if_pos hf, if_pos hm, ← List.append_assoc]
        exact synced_stencilBack _ ops
      · simp only [if_pos hf, if_neg hm]
        exact ops
    · simp only [if_neg hf, List.append_nil]
      exact hu
  unfold bindStencilState
  by_cases h1 : ss.stencilTestEnable = true
  · rw [if_pos h1]
    simp only [← List.append_assoc]
    exact back _ _ (front s _ a1)
  · rw [if_neg h1]
    exact a1

theorem bindBlendAttachments_synced (env : Env) (last : Option GraphicsPipelineInfoOwning)
    (atts : List ColorBlendAttachmentState) :
    ∀ (i : Nat) (s : State) (t : List GLCall), Synced s t →
      Synced (bindBlendAttachments env last i atts s).1
        (t ++ (bindBlendAttachments env last i atts s).2) := by
  induction atts with
  | nil =>
    intro i s t hs
    simpa [bindBlendAttachments] using hs
  | cons a rest ih =>
    intro i s t hs
    unfold bindBlendAttachments
    by_cases hsame : sameAttachment last i a = true
    · rw [if_pos hsame]
      exact ih _ _ _ hs
    · rw [if_neg hsame]
      simp only [← List.append_assoc]
      have a1 := synced_untracked hs (blendFunctionCalls_untracked env i a) rfl
      by_cases hm : s.sLastColorMask i ≠ a.colorWriteMask
      · simp only [if_pos hm]
        exact ih _ _ _ (synced_colorMask i a.colorWriteMask a1)
      · simp only [if_neg hm, List.append_nil]
        exact ih _ _ _ a1

theorem fullDiff_synced (env : Env) (p ptr : Nat) (s : State) (t : List GLCall)
    (hs : Synced s t) :
    Synced (fullDiff env p ptr s).1 (t ++ (fullDiff env p ptr s).2) := by
  rw [fullDiff_eq]
  simp only [← List.append_assoc]
  have a1 : Synced (afterDebugGroup env ptr s) _ :=
    bindPipelineDebugGroup_synced (env.pipelineObject ptr).name s t hs
  have a2 := synced_untracked a1
    (show Untracked (if s.sLastGraphicsPipeline = none then
        [GLCall.glEnable GLCap.FRAMEBUFFER_SRGB] else []) from
      untracked_cond (untracked_one _ (by rfl)) untracked_empty) rfl
  have a3 := synced_untracked a2
    (untracked_one (GLCall.glUseProgram (p % 4294967296)) (by rfl)) rfl
  have a4 : Synced (afterInputAssembly env ptr s) _ :=
    synced_untracked a3 ((bindInputAssembly_inBand (lastRecord env s)
      (env.pipelineObject ptr).inputAssemblyState (afterDebugGroup env ptr s)).untracked
        (Or.inl ⟨by omega, by omega⟩)) rfl
  have a5 : Synced (afterVertexInput env ptr s) _ :=
    synced_untracked a4 ((bindVertexInput_inBand env (env.pipelineObject ptr).vertexInputState
      (afterInputAssembly env ptr s)).untracked (Or.inl ⟨by omega, by omega⟩))
      (by
        unfold afterVertexInput
        rw [bindVertexInput_fst]
        rfl)
  have a6 := synced_untracked a5 ((bindRasterization_inBand env (lastRecord env s)
    (env.pipelineObject ptr).rasterizationState).untracked (Or.inl ⟨by omega, by omega⟩)) rfl
  have a7 : Synced (afterDepth env ptr s) _ :=
    bindDepthState_synced env (lastRecord env s) (env.pipelineObject ptr).depthState _ _ a6
  have a8 : Synced (afterStencil env ptr s) _ :=
    bindStencilState_synced env (lastRecord env s) (env.pipelineObject ptr).stencilState _ _ a7
  have a9 := synced_untracked a8 ((bindColorBlend_inBand env (lastRecord env s)
    (env.pipelineObject ptr).colorBlendState).untracked
      (Or.inr (Or.inr ⟨by omega, by omega⟩))) rfl
  have a10 : Synced (afterBlend env ptr s) _ :=
    bindBlendAttachments_synced env (lastRecord env s)
      (env.pipelineObject ptr).colorBlendState.attachments 0 _ _ a9
  exact synced_state a10 rfl

end Cmd

/-- Every successful call keeps the mirrored flags and masks in agreement with the calls
issued. -/
theorem step_synced (env : Env) (op : Op) (s : State) (t : List GLCall)
    (r : State × List GLCall) (hc : Clean s) (hs : Synced s t)
    (h : step env op s = some r) : Synced r.1 (t ++ r.2) := by
  cases hop : op.isPlainCommand
  · cases op <;> simp only [Op.isPlainCommand, Bool.true_eq_false] at hop
    case BeginRendering ri => exact BeginRendering_synced env ri s t r hs hc h
    case BeginSwapchainRendering ri => exact BeginSwapchainRendering_synced env ri s t r hs hc h
    case EndRendering => exact EndRendering_synced s t r hs h
    case BeginCompute name => exact BeginCompute_synced env name s t r hs hc h
    case EndCompute => exact EndCompute_synced s t r hs h
    case BindGraphicsPipeline p =>
      obtain ⟨ptr, _, ⟨_, hr⟩ | ⟨_, hr⟩⟩ := Cmd.BindGraphicsPipeline_cases env p s r h
      · rw [hr]
        simpa using hs
      · rw [hr]
        exact Cmd.fullDiff_synced env p ptr s t hs
  · exact step_plainCommand_synced env op s t r hop hs h

/-- After every successful sequence from program start the transient flags are clean and
follow the call history, and the mirrored flags and masks agree with the trace. -/
theorem run_synced (env : Env) (ops : List Op) (s : State) (trace : List GLCall)
    (h : run env ops (State.initial env) = some (s, trace)) :
    Clean s ∧ FlagsFollow s ops ∧ Synced s trace := by
  have h0 : Clean (State.initial env) ∧ FlagsFollow (State.initial env) [] ∧
      Synced (State.initial env) [] := by
    refine ⟨by simp [Clean, State.initial], by simp [FlagsFollow, State.initial, calledInPass],
      ?_⟩
    simp [Synced, SyncedT, State.tracked, State.initial, debugPushes, debugPops,
      debugGroupsPushed, scissorToggles, scissorTestOn, lastDepthMask, lastStencilMask,
      lastColorMask]
  have := run_history_invariant env (fun s ops t => Clean s ∧ FlagsFollow s ops ∧ Synced s t)
    (fun op s ops t r hp hs => ⟨step_clean env op s r hp.1 hs,
      step_flagsFollow env op s ops r hp.1 hp.2.1 hs, step_synced env op s t r hp.1 hp.2.2 hs⟩)
    ops _ [] [] _ h0 h
  simpa using this
/-! ## Calls that toggle the scissor test -/

theorem scissorFree_iff (l : List GLCall) : ScissorFree l ↔ scissorToggles l = [] := by
  unfold ScissorFree scissorToggles
  rw [List.filterMap_eq_nil_iff]

theorem scissorToggles_concat (l1 l2 : List GLCall) :
    scissorToggles (l1 ++ l2) = scissorToggles l1 ++ scissorToggles l2 := by
  unfold scissorToggles
  rw [List.filterMap_append]

theorem untracked_scissorFree {l : List GLCall} (h : Untracked l) : ScissorFree l := by
  intro c hc
  have := h c hc
  cases c <;> first | rfl | skip
  case glEnable cap => cases cap <;> first | rfl | exact Bool.noConfusion this
  case glDisable cap => cases cap <;> first | rfl | exact Bool.noConfusion this

theorem InBand.scissorFree {lo hi : Nat} {l : List GLCall} (h : InBand lo hi l)
    (hlo : 1 ≤ lo) : ScissorFree l := by
  intro c hc
  have hr := (h.2.2 c hc).1
  cases c <;> first | rfl | skip
  case glEnable cap =>
    cases cap <;> first | rfl | (simp [GLCall.bindRank, GLCap.bindRank] at hr; omega)
  case glDisable cap =>
    cases cap <;> first | rfl | (simp [GLCall.bindRank, GLCap.bindRank] at hr; omega)

theorem ScissorFree.void : ScissorFree [] := by
  intro c hc
  simp at hc

theorem ScissorFree.join {l1 l2 : List GLCall} (h1 : ScissorFree l1) (h2 : ScissorFree l2) :
    ScissorFree (l1 ++ l2) := by
  intro c hc
  rw [List.mem_append] at hc
  rcases hc with hc | hc
  · exact h1 c hc
  · exact h2 c hc

theorem ScissorFree.unit (c : GLCall) (h : c.scissorToggleOf = none) : ScissorFree [c] := by
  intro d hd
  simp only [List.mem_singleton] at hd
  subst hd
  exact h

theorem ScissorFree.branch {c : Prop} [Decidable c] {l1 l2 : List GLCall} (h1 : ScissorFree l1)
    (h2 : ScissorFree l2) : ScissorFree (if c then l1 else l2) := by
  split
  · exact h1
  · exact h2

theorem ScissorFree.branch_snd {c : Prop} [Decidable c] {x y : State × List GLCall}
    (hx : ScissorFree x.2) (hy : ScissorFree y.2) : ScissorFree (if c then x else y).2 := by
  split
  · exact hx
  · exact hy

theorem ScissorFree.setup {l : List GLCall} (h : ∀ c ∈ l, c.isSetupCall = true) :
    ScissorFree l := by
  intro c hc
  have := h c hc
  cases c <;> simp_all [GLCall.isSetupCall, GLCall.scissorToggleOf]

theorem enableColorMask_scissorFree (i : Nat) (s : State) : ScissorFree (enableColorMask i s).2 := by
  unfold enableColorMask
  split
  · exact ScissorFree.unit _ (by rfl)
  · exact ScissorFree.void

theorem enableDepthMask_scissorFree (s : State) : ScissorFree (enableDepthMask s).2 := by
  unfold enableDepthMask
  split
  · exact ScissorFree.unit _ (by rfl)
  · exact ScissorFree.void

theorem enableStencilMask_scissorFree (s : State) : ScissorFree (enableStencilMask s).2 := by
  unfold enableStencilMask
  split
  · exact ScissorFree.unit _ (by rfl)
  · exact ScissorFree.void

theorem clearColorAttachments_scissorFree (env : Env) (fbo : Nat)
    (atts : List RenderColorAttachment) :
    ∀ (i : Nat) (s : State) (r : State × List GLCall),
      clearColorAttachments env fbo i atts s = some r → ScissorFree r.2 := by
  induction atts with
  | nil =>
    intro i s r h
    simp only [clearColorAttachments, Option.some.injEq] at h
    subst h
    exact ScissorFree.void
  | cons a rest ih =>
    intro i s r h
    unfold clearColorAttachments at h
    split at h
    · split at h
      all_goals first
        | exact Option.noConfusion h
        | (simp only [Option.map_eq_some'] at h
           obtain ⟨r2, h2, rfl⟩ := h
           exact ((enableColorMask_scissorFree i s).join (ScissorFree.unit _ (by rfl))).join
             (ih _ _ _ h2))
    · exact ih _ _ _ h

theorem clearDepthStencil_scissorFree (ri : RenderInfo) (fbo : Nat) (s : State) :
    ScissorFree (clearDepthStencil ri fbo s).2 := by
  unfold clearDepthStencil
  split
  · split
    · exact ((enableDepthMask_scissorFree _).join (enableStencilMask_scissorFree _)).join
        (ScissorFree.unit _ (by rfl))
    · split
      · exact (enableDepthMask_scissorFree _).join (ScissorFree.unit _ (by rfl))
      · split
        · exact (enableStencilMask_scissorFree _).join (ScissorFree.unit _ (by rfl))
        · exact ScissorFree.void
  · split
    · exact (enableDepthMask_scissorFree _).join (ScissorFree.unit _ (by rfl))
    · exact ScissorFree.void
  · split
    · exact (enableStencilMask_scissorFree _).join (ScissorFree.unit _ (by rfl))
    · exact ScissorFree.void
  · exact ScissorFree.void

theorem BeginRendering_scissorFree (env : Env) (ri : RenderInfo) (s : State)
    (r : State × List GLCall) (h : BeginRendering env ri s = some r) : ScissorFree r.2 := by
  obtain ⟨s3, r4, pre, vp, h4, _, hr, _, _, _, _, hpre, hvp⟩ := BeginRendering_shape env ri s r h
  rw [hr]
  exact (((ScissorFree.setup hpre).join
    (clearColorAttachments_scissorFree env _ _ _ _ _ h4)).join
    (clearDepthStencil_scissorFree ri _ _)).join (ScissorFree.setup hvp)

theorem swapchainClearColor_scissorFree (ri : SwapchainRenderInfo) (s : State)
    (r : State × List GLCall) (h : swapchainClearColor ri s = some r) : ScissorFree r.2 := by
  unfold swapchainClearColor at h
  split at h
  · split at h
    · injection h with h
      subst h
      exact (enableColorMask_scissorFree 0 s).join (ScissorFree.unit _ (by rfl))
    · exact Option.noConfusion h
  · injection h with h
    subst h
    exact ScissorFree.void

theorem swapchainClearDepth_scissorFree (ri : SwapchainRenderInfo) (s : State) :
    ScissorFree (swapchainClearDepth ri s).2 := by
  unfold swapchainClearDepth
  split
  · exact (enableDepthMask_scissorFree s).join (ScissorFree.unit _ (by rfl))
  · exact ScissorFree.void

theorem swapchainClearStencil_scissorFree (ri : SwapchainRenderInfo) (s : State) :
    ScissorFree (swapchainClearStencil ri s).2 := by
  unfold swapchainClearStencil
  split
  · exact (enableStencilMask_scissorFree s).join (ScissorFree.unit _ (by rfl))
  · exact ScissorFree.void

theorem swapchainDisableSrgb_scissorFree (ri : SwapchainRenderInfo) (s : State) :
    ScissorFree (swapchainDisableSrgb ri s).2 := by
  unfold swapchainDisableSrgb
  split
  · exact ScissorFree.unit _ (by rfl)
  · exact ScissorFree.void

theorem BeginSwapchainRendering_scissorFree (env : Env) (ri : SwapchainRenderInfo) (s : State)
    (r : State × List GLCall) (h : BeginSwapchainRendering env ri s = some r) :
    ScissorFree r.2 := by
  unfold BeginSwapchainRendering at h
  split at h
  · exact Option.noConfusion h
  split at h
  · exact Option.noConfusion h
  simp only at h
  split at h
  · exact Option.noConfusion h
  rename_i r4 h4
  injection h with h
  subst h
  exact (((((((ScissorFree.setup (debugZeroResourceBindings_setup env _)).join
    (ScissorFree.setup (pushScopedDebugGroup_setup _ _))).join
    (ScissorFree.unit _ (by rfl))).join (swapchainClearColor_scissorFree ri _ r4 h4)).join
    (swapchainClearDepth_scissorFree ri _)).join (swapchainClearStencil_scissorFree ri _)).join
    (swapchainDisableSrgb_scissorFree ri _)).join
    (ScissorFree.setup (SetViewportInternal_setup env _ _ _))

theorem popDebugGroups_scissorFree (s : State) : ScissorFree (popDebugGroups s).2 := by
  unfold popDebugGroups
  simp only
  exact (ScissorFree.branch_snd (ScissorFree.unit _ (by rfl)) ScissorFree.void).join
    (ScissorFree.branch_snd (ScissorFree.unit _ (by rfl)) ScissorFree.void)

theorem EndCompute_scissorFree (s : State) (r : State × List GLCall)
    (h : EndCompute s = some r) : ScissorFree r.2 := by
  unfold EndCompute at h
  split at h
  · exact Option.noConfusion h
  injection h with h
  subst h
  exact popDebugGroups_scissorFree _

theorem BeginCompute_scissorFree (env : Env) (name : String) (s : State)
    (r : State × List GLCall) (h : BeginCompute env name s = some r) : ScissorFree r.2 := by
  rw [BeginCompute_eq] at h
  split at h
  · injection h with h
    subst h
    exact (ScissorFree.setup (debugZeroResourceBindings_setup env _)).join
      (ScissorFree.setup (pushScopedDebugGroup_setup _ _))
  · exact Option.noConfusion h

theorem Cmd.bindPipelineDebugGroup_scissorFree (name : String) (s : State) :
    ScissorFree (Cmd.bindPipelineDebugGroup name s).2 := by
  unfold Cmd.bindPipelineDebugGroup
  simp only
  exact (ScissorFree.branch_snd (ScissorFree.unit _ (by rfl)) ScissorFree.void).join
    (ScissorFree.branch_snd (ScissorFree.unit _ (by rfl)) ScissorFree.void)

theorem step_plainCommand_scissorFree (env : Env) (op : Op) (s : State)
    (r : State × List GLCall) (hop : op.isPlainCommand = true) (hsc : op.isSetScissor = false)
    (h : step env op s = some r) : ScissorFree r.2 := by
  cases op <;> simp only [Op.isPlainCommand, Bool.false_eq_true] at hop
  case SetScissor sc => exact Bool.noConfusion hsc
  case BindComputePipeline p =>
    simp only [step, Cmd.BindComputePipeline] at h
    split at h
    · exact Option.noConfusion h
    split at h
    · exact Option.noConfusion h
    split at h
    · exact Option.noConfusion h
    injection h with h
    subst h
    exact (Cmd.bindPipelineDebugGroup_scissorFree _ _).join (ScissorFree.unit _ (by rfl))
  case SetViewport v =>
    simp only [step, Cmd.SetViewport] at h
    split at h
    · exact Option.noConfusion h
    injection h with h
    subst h
    exact ScissorFree.setup (SetViewportInternal_setup env _ _ _)
  all_goals
    simp only [step, Cmd.BindVertexBuffer, Cmd.BindIndexBuffer,
      Cmd.Draw, Cmd.DrawIndexed, Cmd.DrawIndirect, Cmd.DrawIndirectCount,
      Cmd.DrawIndexedIndirect, Cmd.DrawIndexedIndirectCount, Cmd.BindUniformBuffer,
      Cmd.BindStorageBuffer, Cmd.BindSampledImage, Cmd.BindImage, Cmd.Dispatch,
      Cmd.DispatchIndirect] at h
    repeat' split at h
    all_goals first
      | exact Option.noConfusion h
      | (injection h with h
         subst h
         simp [ScissorFree, GLCall.scissorToggleOf])


theorem Cmd.fullDiff_scissorFree (env : Env) (p ptr : Nat) (s : State) :
    ScissorFree (Cmd.fullDiff env p ptr s).2 := by
  obtain ⟨s1, s4, s5, s7, s8, ht⟩ := Cmd.fullDiff_trace env p ptr s
  rw [ht]
  refine ((((((((((Cmd.bindPipelineDebugGroup_scissorFree _ _).join
    (ScissorFree.branch (ScissorFree.unit _ (by rfl)) ScissorFree.void)).join
    (ScissorFree.unit _ (by rfl))).join ?_).join ?_).join ?_).join ?_).join ?_).join ?_).join ?_)
  · exact (Cmd.bindInputAssembly_inBand _ _ _).scissorFree (by omega)
  · exact (Cmd.bindVertexInput_inBand _ _ _).scissorFree (by omega)
  · exact (Cmd.bindRasterization_inBand _ _ _).scissorFree (by omega)
  · exact (Cmd.bindDepthState_inBand _ _ _ _).scissorFree (by omega)
  · exact (Cmd.bindStencilState_inBand _ _ _ _).scissorFree (by omega)
  · exact (Cmd.bindColorBlend_inBand _ _ _).scissorFree (by omega)
  · exact (Cmd.bindBlendAttachments_inBand env _ _ 0 s8).scissorFree (by omega)

/-- `EndRendering` emits one scissor-test disable when the flag is set and no other toggle. -/
theorem EndRendering_scissorToggles (s : State) (r : State × List GLCall)
    (h : EndRendering s = some r) :
    scissorToggles r.2 = if s.sScissorEnabled = true then [false] else [] := by
  unfold EndRendering at h
  split at h
  · exact Option.noConfusion h
  injection h with h
  subst h
  simp only [scissorToggles_concat]
  have hp := (scissorFree_iff _).mp (popDebugGroups_scissorFree
    { s with isRendering := false
             isIndexBufferBound := false
             isRenderingToSwapchain := false })
  have hsc : (popDebugGroups { s with isRendering := false
                                      isIndexBufferBound := false
                                      isRenderingToSwapchain := false }).1.sScissorEnabled =
      s.sScissorEnabled := by
    rw [popDebugGroups_fst]
  rw [hp, hsc]
  have h3 : ∀ b : Bool, scissorToggles
      (if b = true then [GLCall.glEnable GLCap.FRAMEBUFFER_SRGB] else []) = [] := by
    intro b
    cases b <;> rfl
  rw [h3]
  cases s.sScissorEnabled <;> rfl

/-- `SetScissor` emits one scissor-test enable when the flag is clear and no other toggle. -/
theorem step_SetScissor_toggles (env : Env) (sc : Rect2D) (s : State)
    (r : State × List GLCall) (h : step env (Op.SetScissor sc) s = some r) :
    scissorToggles r.2 = if s.sScissorEnabled = false then [true] else [] := by
  obtain ⟨_, _, rest, hu, ht⟩ := step_SetScissor env sc s r h
  rw [ht, scissorToggles_concat, (scissorFree_iff _).mp (untracked_scissorFree hu)]
  cases s.sScissorEnabled <;> rfl

/-- Every call other than `SetScissor` and `EndRendering` emits no scissor-test toggle. -/
theorem step_scissorFree (env : Env) (op : Op) (s : State) (r : State × List GLCall)
    (hsc : op.isSetScissor = false) (he : op.isEndRendering = false)
    (h : step env op s = some r) : ScissorFree r.2 := by
  cases hop : op.isPlainCommand
  · cases op <;> simp only [Op.isPlainCommand, Bool.true_eq_false] at hop
    case BeginRendering ri => exact BeginRendering_scissorFree env ri s r h
    case BeginSwapchainRendering ri => exact BeginSwapchainRendering_scissorFree env ri s r h
    case EndRendering => exact Bool.noConfusion he
    case BeginCompute name => exact BeginCompute_scissorFree env name s r h
    case EndCompute => exact EndCompute_scissorFree s r h
    case BindGraphicsPipeline p =>
      obtain ⟨ptr, _, ⟨_, hr⟩ | ⟨_, hr⟩⟩ := Cmd.BindGraphicsPipeline_cases env p s r h
      · rw [hr]
        exact ScissorFree.void
      · rw [hr]
        exact Cmd.fullDiff_scissorFree env p ptr s
  · exact step_plainCommand_scissorFree env op s r hop hsc h
/-! ## Debug groups, the scissor test and the write masks over a call sequence -/

theorem run_concat (env : Env) :
    ∀ (ops1 ops2 : List Op) (s : State) (r : State × List GLCall),
      run env (ops1 ++ ops2) s = some r →
      ∃ r1 r2, run env ops1 s = some r1 ∧ run env ops2 r1.1 = some r2 ∧
        r = (r2.1, r1.2 ++ r2.2) := by
  intro ops1
  induction ops1 with
  | nil =>
    intro ops2 s r h
    exact ⟨(s, []), r, rfl, h, by simp⟩
  | cons op ops ih =>
    intro ops2 s r h
    simp only [List.cons_append] at h
    unfold run at h
    split at h
    · exact Option.noConfusion h
    · rename_i r0 h0
      split at h
      · exact Option.noConfusion h
      · rename_i r3 h3
        injection h with h
        subst h
        obtain ⟨r1, r2, e1, e2, e3⟩ := ih ops2 r0.1 r3 h3
        refine ⟨(r1.1, r0.2 ++ r1.2), r2, ?_, e2, ?_⟩
        · unfold run
          rw [h0]
          simp only
          rw [e1]
        · rw [e3]
          simp [List.append_assoc]

theorem run_single (env : Env) (op : Op) (s : State) (r : State × List GLCall)
    (h : run env [op] s = some r) : step env op s = some r := by
  unfold run at h
  split at h
  · exact Option.noConfusion h
  · rename_i r0 h0
    simp only [run] at h
    injection h with h
    rw [h0, ← h]
    simp

/-- C26: after every successful call sequence from program start, the number of
debug-group pushes emitted so far equals the number of pops emitted plus the number of the
two debug-group flags (pass scope, pipeline scope) that are set. Hence whenever no pass
is open, and in particular after every successful `EndRendering` or `EndCompute`, every
debug group pushed has been popped. -/
theorem debug_groups_balanced (env : Env) (ops : List Op) (s : State) (trace : List GLCall)
    (h : run env ops (State.initial env) = some (s, trace)) :
    debugPushes trace =
      debugPops trace +
        debugGroupsPushed s.isScopedDebugGroupPushed s.isPipelineDebugGroupPushed ∧
    (s.isRendering = false → s.isComputeActive = false → debugPushes trace = debugPops trace) ∧
    (∀ pre, ops = pre ++ [Op.EndRendering] ∨ ops = pre ++ [Op.EndCompute] →
      debugPushes trace = debugPops trace) := by
  obtain ⟨hc, _, hs⟩ := run_synced env ops s trace h
  have h1 := hs.1
  simp only [State.tracked] at h1
  have hidle : s.isRendering = false → s.isComputeActive = false →
      debugPushes trace = debugPops trace := by
    intro hr hca
    obtain ⟨f1, f2⟩ := hc.2 hr hca
    rw [h1, f1, f2]
    rfl
  refine ⟨h1, hidle, ?_⟩
  intro pre hpre
  have hx0 := Reachable.exclusive ⟨ops, trace, h⟩
  rcases hpre with rfl | rfl
  · obtain ⟨r1, r2, e1, e2, e3⟩ := run_concat env pre [Op.EndRendering] _ _ h
    have e4 := run_single env _ _ _ e2
    have hr2 := (EndRendering_fst r1.1 r2 e4).2
    have hs2 : s = r2.1 := congrArg Prod.fst e3
    have hx := Reachable.exclusive ⟨pre, r1.2, e1⟩
    have hrr := (EndRendering_fst r1.1 r2 e4).1
    apply hidle
    · rw [hs2, hr2]
    · rw [hs2, hr2]
      cases hca : r1.1.isComputeActive
      · rfl
      · exact absurd ⟨hrr, hca⟩ hx
  · obtain ⟨r1, r2, e1, e2, e3⟩ := run_concat env pre [Op.EndCompute] _ _ h
    have e4 := run_single env _ _ _ e2
    have hr2 := (EndCompute_fst r1.1 r2 e4).2
    have hs2 : s = r2.1 := congrArg Prod.fst e3
    have hx := Reachable.exclusive ⟨pre, r1.2, e1⟩
    have hcc := (EndCompute_fst r1.1 r2 e4).1
    apply hidle
    · rw [hs2, hr2]
      cases hrr : r1.1.isRendering
      · rfl
      · exact absurd ⟨hrr, hcc⟩ hx
    · rw [hs2, hr2]

/-- C26 at concrete inputs: in a named pass with a named pipeline bound two groups are
pushed, none popped and both flags set; after the pass is ended both have been popped. -/
theorem debug_groups_balanced_witness :
    (debugPushes Sample.busyPassResult.2 = 2 ∧ debugPops Sample.busyPassResult.2 = 0 ∧
      debugGroupsPushed Sample.busyPassResult.1.isScopedDebugGroupPushed
        Sample.busyPassResult.1.isPipelineDebugGroupPushed = 2) ∧
    (debugPushes Sample.busyPassEndedResult.2 = 2 ∧
      debugPops Sample.busyPassEndedResult.2 = 2) := by
  have h1 := (debug_groups_balanced Sample.env2 Sample.busyPass Sample.busyPassResult.1
    Sample.busyPassResult.2 rfl).1
  have h2 := (debug_groups_balanced Sample.env2 Sample.busyPassEnded
    Sample.busyPassEndedResult.1 Sample.busyPassEndedResult.2 rfl).2.2 Sample.busyPass
    (Or.inl rfl)
  have p1 : debugPops Sample.busyPassResult.2 = 0 := rfl
  have f1 : debugGroupsPushed Sample.busyPassResult.1.isScopedDebugGroupPushed
      Sample.busyPassResult.1.isPipelineDebugGroupPushed = 2 := rfl
  have p2 : debugPops Sample.busyPassEndedResult.2 = 2 := rfl
  rw [p1, f1] at h1
  rw [p2] at h2
  exact ⟨⟨h1, p1, f1⟩, h2, p2⟩

/-- C27: after every successful call sequence from program start, a `SetScissor` emits the
scissor-test enable, once, exactly when no `SetScissor` was called yet since the render
pass began, and never a disable; an `EndRendering` emits the scissor-test disable, once,
exactly when `SetScissor` was called during the pass, and never an enable; every other
call emits neither. The scissor-test enables and disables emitted so far alternate,
beginning with an enable, and with no render pass open the test is disabled. -/
theorem scissor_test_toggles (env : Env) (ops : List Op) (s : State) (trace : List GLCall)
    (h : run env ops (State.initial env) = some (s, trace)) :
    (∀ sc r, Cmd.SetScissor sc s = some r →
      scissorToggles r.2 = if calledInPass Op.isSetScissor ops = false then [true] else []) ∧
    (∀ r, EndRendering s = some r →
      scissorToggles r.2 = if calledInPass Op.isSetScissor ops = true then [false] else []) ∧
    (∀ op r, op.isSetScissor = false → op.isEndRendering = false → step env op s = some r →
      scissorToggles r.2 = []) ∧
    (scissorToggles trace).Chain' (fun a b => a ≠ b) ∧
    (scissorToggles trace).head? ≠ some false ∧
    (s.isRendering = false → scissorTestOn trace = false) := by
  obtain ⟨hc, hf, hs⟩ := run_synced env ops s trace h
  refine ⟨?_, ?_, ?_, hs.2.1, hs.2.2.1, ?_⟩
  · intro sc r hr
    rw [← hf.2]
    exact step_SetScissor_toggles env sc s r hr
  · intro r hr
    rw [← hf.2]
    exact EndRendering_scissorToggles s r hr
  · intro op r hsc he hr
    exact (scissorFree_iff _).mp (step_scissorFree env op s r hsc he hr)
  · intro hr
    have := hs.2.2.2.1
    rw [this]
    exact (hc.1 hr).1

/-- C27 at concrete inputs: in the pass `Sample.busyPass`, in which `SetScissor` was called
once, a second `SetScissor` succeeds and emits no toggle, and `EndRendering` succeeds and
emits the one disable. -/
theorem scissor_test_toggles_witness :
    (∃ r, Cmd.SetScissor
        { offset := { x := 1, y := 1 }, extent := { width := 4, height := 4 } }
        Sample.busyPassResult.1 = some r ∧ scissorToggles r.2 = []) ∧
    (∃ r, EndRendering Sample.busyPassResult.1 = some r ∧ scissorToggles r.2 = [false]) := by
  have h := scissor_test_toggles Sample.env2 Sample.busyPass Sample.busyPassResult.1
    Sample.busyPassResult.2 rfl
  constructor
  · cases hr : Cmd.SetScissor
        { offset := { x := 1, y := 1 }, extent := { width := 4, height := 4 } }
        Sample.busyPassResult.1 with
    | none => exact absurd hr (Option.ne_none_iff_isSome.mpr rfl)
    | some r => exact ⟨r, rfl, (h.1 _ r hr).trans rfl⟩
  · cases hr : EndRendering Sample.busyPassResult.1 with
    | none => exact absurd hr (Option.ne_none_iff_isSome.mpr rfl)
    | some r => exact ⟨r, rfl, (h.2.1 r hr).trans rfl⟩

/-- C28: after every successful call sequence from program start each tracked write mask
for which a mask call has been issued holds what the most recent such call set:
`sLastDepthMask` the argument of the last `glDepthMask`, `sLastStencilMask[0]` and
`sLastStencilMask[1]` the mask last issued for the front and the back face (by
`glStencilMask` for both or `glStencilMaskSeparate` for one), and `sLastColorMask[i]` the
red, green, blue and alpha components last issued by `glColorMaski` for attachment `i`. -/
theorem write_masks_match_last_call (env : Env) (ops : List Op) (s : State)
    (trace : List GLCall) (h : run env ops (State.initial env) = some (s, trace)) :
    (∀ b, lastDepthMask trace = some b → s.sLastDepthMask = b) ∧
    (∀ m, lastStencilMask GLFace.FRONT trace = some m → s.sLastStencilMask0 = m) ∧
    (∀ m, lastStencilMask GLFace.BACK trace = some m → s.sLastStencilMask1 = m) ∧
    (∀ i q, lastColorMask i trace = some q → componentBits (s.sLastColorMask i) = q) := by
  obtain ⟨_, _, hs⟩ := run_synced env ops s trace h
  exact hs.2.2.2.2

/-- C28 at concrete inputs: after the pass `Sample.maskPass` the last depth-mask call set
false, the last stencil-mask calls 255 for both faces, the last colour-mask calls red only
for attachment 0 and all components for attachment 1, and the tracked masks say the same. -/
theorem write_masks_match_last_call_witness :
    Sample.maskPassResult.1.sLastDepthMask = false ∧
    Sample.maskPassResult.1.sLastStencilMask0 = 255 ∧
    Sample.maskPassResult.1.sLastStencilMask1 = 255 ∧
    componentBits (Sample.maskPassResult.1.sLastColorMask 0) = (true, false, false, false) ∧
    componentBits (Sample.maskPassResult.1.sLastColorMask 1) = (true, true, true, true) := by
  have h := write_masks_match_last_call Sample.env2 Sample.maskPass Sample.maskPassResult.1
    Sample.maskPassResult.2 rfl
  exact ⟨h.1 false rfl, h.2.1 255 rfl, h.2.2.1 255 rfl, h.2.2.2 0 _ rfl, h.2.2.2 1 _ rfl⟩

/-! ## Calls that neither set the viewport nor write the stencil state -/

theorem Bystander.vacant : Bystander [] := by
  intro c hc
  simp at hc

theorem Bystander.chain {l1 l2 : List GLCall} (h1 : Bystander l1) (h2 : Bystander l2) :
    Bystander (l1 ++ l2) := by
  intro c hc
  rw [List.mem_append] at hc
  rcases hc with hc | hc
  · exact h1 c hc
  · exact h2 c hc

theorem Bystander.lone (c : GLCall) (h : c.isViewportOrStencilWrite = false) : Bystander [c] := by
  intro d hd
  simp only [List.mem_singleton] at hd
  subst hd
  exact h

theorem Bystander.either {c : Prop} [Decidable c] {l1 l2 : List GLCall} (h1 : Bystander l1)
    (h2 : Bystander l2) : Bystander (if c then l1 else l2) := by
  split
  · exact h1
  · exact h2

theorem Bystander.either_snd {c : Prop} [Decidable c] {x y : State × List GLCall}
    (hx : Bystander x.2) (hy : Bystander y.2) : Bystander (if c then x else y).2 := by
  split
  · exact hx
  · exact hy

theorem enableColorMask_bystander (i : Nat) (s : State) : Bystander (enableColorMask i s).2 := by
  unfold enableColorMask
  split
  · exact Bystander.lone _ (by rfl)
  · exact Bystander.vacant

theorem enableDepthMask_bystander (s : State) : Bystander (enableDepthMask s).2 := by
  unfold enableDepthMask
  split
  · exact Bystander.lone _ (by rfl)
  · exact Bystander.vacant

theorem clearColorAttachments_bystander (env : Env) (fbo : Nat)
    (atts : List RenderColorAttachment) :
    ∀ (i : Nat) (s : State) (r : State × List GLCall),
      clearColorAttachments env fbo i atts s = some r → Bystander r.2 := by
  induction atts with
  | nil =>
    intro i s r h
    simp only [clearColorAttachments, Option.some.injEq] at h
    subst h
    exact Bystander.vacant
  | cons a rest ih =>
    intro i s r h
    unfold clearColorAttachments at h
    split at h
    · split at h
      all_goals first
        | exact Option.noConfusion h
        | (simp only [Option.map_eq_some'] at h
           obtain ⟨r2, h2, rfl⟩ := h
           exact ((enableColorMask_bystander i s).chain (Bystander.lone _ (by rfl))).chain
             (ih _ _ _ h2))
    · exact ih _ _ _ h

theorem swapchainClearColor_bystander (ri : SwapchainRenderInfo) (s : State)
    (r : State × List GLCall) (h : swapchainClearColor ri s = some r) : Bystander r.2 := by
  unfold swapchainClearColor at h
  split at h
  · split at h
    · injection h with h
      subst h
      exact (enableColorMask_bystander 0 s).chain (Bystander.lone _ (by rfl))
    · exact Option.noConfusion h
  · injection h with h
    subst h
    exact Bystander.vacant

theorem swapchainClearDepth_bystander (ri : SwapchainRenderInfo) (s : State) :
    Bystander (swapchainClearDepth ri s).2 := by
  unfold swapchainClearDepth
  split
  · exact (enableDepthMask_bystander s).chain (Bystander.lone _ (by rfl))
  · exact Bystander.vacant

theorem swapchainDisableSrgb_bystander (ri : SwapchainRenderInfo) (s : State) :
    Bystander (swapchainDisableSrgb ri s).2 := by
  unfold swapchainDisableSrgb
  split
  · exact Bystander.lone _ (by rfl)
  · exact Bystander.vacant

theorem zeroTextureUnits_bystander (n : Nat) :
    ∀ c ∈ zeroTextureUnits n, c.isViewportOrStencilWrite = false := by
  unfold zeroTextureUnits
  generalize List.range n = l
  induction l with
  | nil => intro c hc; simp at hc
  | cons i rest ih =>
    intro c hc
    simp only [List.foldr_cons, List.mem_cons] at hc
    rcases hc with rfl | rfl | hc
    · rfl
    · rfl
    · exact ih c hc

theorem debugZeroResourceBindings_bystander (env : Env) (s : State) :
    ∀ c ∈ (debugZeroResourceBindings env s).2, c.isViewportOrStencilWrite = false := by
  intro c hc
  unfold debugZeroResourceBindings at hc
  split at hc
  · unfold ZeroResourceBindings at hc
    simp only [List.mem_append, List.mem_map, List.mem_range] at hc
    rcases hc with (((hc | hc) | hc) | hc) | hc
    · split at hc
      · simp only [List.mem_cons, List.mem_singleton, List.not_mem_nil, or_false] at hc
        rcases hc with rfl | rfl | rfl | rfl <;> rfl
      · simp at hc
    · obtain ⟨i, _, rfl⟩ := hc
      rfl
    · obtain ⟨i, _, rfl⟩ := hc
      rfl
    · obtain ⟨i, _, rfl⟩ := hc
      rfl
    · exact zeroTextureUnits_bystander _ c hc
  · simp at hc

theorem pushScopedDebugGroup_bystander (name : String) (s : State) :
    ∀ c ∈ (pushScopedDebugGroup name s).2, c.isViewportOrStencilWrite = false := by
  intro c hc
  unfold pushScopedDebugGroup at hc
  split at hc
  · simp only [List.mem_singleton] at hc
    subst hc
    rfl
  · simp at hc

theorem beginRenderingSetup_bystander (env : Env) (ri : RenderInfo) (s : State) :
    Bystander (beginRenderingSetup env ri s).2 := by
  intro c hc
  unfold beginRenderingSetup at hc
  simp only [List.mem_append, List.mem_singleton] at hc
  rcases hc with (hc | hc) | hc | rfl
  · exact debugZeroResourceBindings_bystander env _ c hc
  · exact pushScopedDebugGroup_bystander _ _ c hc
  · unfold CreateOrGetCachedFramebuffer at hc
    simp only at hc
    split at hc
    · simp only [List.mem_singleton] at hc
      subst hc
      rfl
    · simp at hc
  · rfl

theorem viewportCalls_concat (l1 l2 : List GLCall) :
    viewportCalls (l1 ++ l2) = viewportCalls l1 ++ viewportCalls l2 := by
  unfold viewportCalls
  rw [List.filter_append]

theorem stencilWrites_concat (l1 l2 : List GLCall) :
    stencilWrites (l1 ++ l2) = stencilWrites l1 ++ stencilWrites l2 := by
  unfold stencilWrites
  rw [List.filter_append]

theorem bystander_viewportCalls {l : List GLCall} (h : Bystander l) : viewportCalls l = [] := by
  unfold viewportCalls
  rw [List.filter_eq_nil_iff]
  intro c hc
  have := h c hc
  simp only [GLCall.isViewportOrStencilWrite, Bool.or_eq_false_iff] at this
  simp [this.1]

theorem bystander_stencilWrites {l : List GLCall} (h : Bystander l) : stencilWrites l = [] := by
  unfold stencilWrites
  rw [List.filter_eq_nil_iff]
  intro c hc
  have := h c hc
  simp only [GLCall.isViewportOrStencilWrite, Bool.or_eq_false_iff] at this
  simp [this.2]

/-! ## The viewport calls of the pass begins and of `SetViewport` -/

theorem enableStencilMask_viewportCalls (s : State) :
    viewportCalls (enableStencilMask s).2 = [] := by
  unfold enableStencilMask
  split <;> rfl

theorem clearDepthStencil_viewportCalls (ri : RenderInfo) (fbo : Nat) (s : State) :
    viewportCalls (clearDepthStencil ri fbo s).2 = [] := by
  have hd : ∀ (t : State), ∀ c ∈ (enableDepthMask t).2, c.isViewportCall = false := by
    intro t c hc
    have := enableDepthMask_bystander t c hc
    simp only [GLCall.isViewportOrStencilWrite, Bool.or_eq_false_iff] at this
    exact this.1
  have hs : ∀ (t : State), ∀ c ∈ (enableStencilMask t).2, c.isViewportCall = false := by
    intro t c hc
    unfold enableStencilMask at hc
    split at hc
    · simp only [List.mem_singleton] at hc
      subst hc
      rfl
    · simp at hc
  unfold viewportCalls
  rw [List.filter_eq_nil_iff]
  intro c hc
  suffices hh : c.isViewportCall = false by simp [hh]
  unfold clearDepthStencil at hc
  repeat' split at hc
  all_goals simp only [List.mem_append, List.mem_singleton, List.not_mem_nil, or_false] at hc
  all_goals first
    | (rcases hc with (hc | hc) | rfl
       · exact hd _ c hc
       · exact hs _ c hc
       · rfl)
    | (rcases hc with hc | rfl
       · first | exact hd _ c hc | exact hs _ c hc
       · rfl)

theorem swapchainClearStencil_viewportCalls (ri : SwapchainRenderInfo) (s : State) :
    viewportCalls (swapchainClearStencil ri s).2 = [] := by
  unfold swapchainClearStencil
  split
  · rw [viewportCalls_concat, enableStencilMask_viewportCalls]
    rfl
  · rfl

theorem SetViewportInternal_viewportCalls (env : Env) (v last : Viewport) (init : Bool) :
    viewportCalls (SetViewportInternal env v last init) = SetViewportInternal env v last init := by
  unfold viewportCalls
  rw [List.filter_eq_self]
  intro c hc
  unfold SetViewportInternal at hc
  simp only [List.mem_append] at hc
  rcases hc with (hc | hc) | hc <;> split at hc <;>
    first
      | (simp only [List.mem_singleton] at hc; subst hc; rfl)
      | simp at hc

theorem SetViewportInternal_later (env : Env) (v last : Viewport) :
    SetViewportInternal env v last false = viewportChangeCalls env v last := by
  unfold SetViewportInternal viewportChangeCalls
  simp

theorem SetViewportInternal_first (env : Env) (v last : Viewport) :
    SetViewportInternal env v last true = allViewportCalls env v := by
  unfold SetViewportInternal allViewportCalls
  simp

theorem viewportChangeCalls_equal (env : Env) (v last : Viewport)
    (h1 : v.drawRect = last.drawRect) (h2 : v.minDepth.feq last.minDepth = true)
    (h3 : v.maxDepth.feq last.maxDepth = true) (h4 : v.depthRange = last.depthRange) :
    viewportChangeCalls env v last = [] := by
  unfold viewportChangeCalls
  simp [h1, h4, GLfloat.fne, h2, h3]

theorem BeginRendering_viewportCalls (env : Env) (ri : RenderInfo) (s : State)
    (r : State × List GLCall) (h : BeginRendering env ri s = some r) :
    viewportCalls r.2 =
      SetViewportInternal env (renderViewport env ri) s.sLastViewport s.sInitViewport := by
  rw [BeginRendering_eq] at h
  split at h
  · exact Option.noConfusion h
  split at h
  · exact Option.noConfusion h
  split at h
  · exact Option.noConfusion h
  rename_i r4 h4
  injection h with h
  subst h
  obtain ⟨d, m0, m1, hcds⟩ := clearDepthStencil_fst ri r4.1.sFbo r4.1
  obtain ⟨m, hm⟩ := clearColorAttachments_fst env _ _ _ _ r4 h4
  obtain ⟨a, b, c, d2, e, g, fc, fb, hsetup⟩ := beginRenderingSetup_fst env ri s
  have e1 : (clearDepthStencil ri r4.1.sFbo r4.1).1.sLastViewport = s.sLastViewport := by
    rw [hcds, hm, hsetup]
  have e2 : (clearDepthStencil ri r4.1.sFbo r4.1).1.sInitViewport = s.sInitViewport := by
    rw [hcds, hm, hsetup]
  simp only [viewportCalls_concat, e1, e2]
  rw [bystander_viewportCalls (beginRenderingSetup_bystander env ri s),
    bystander_viewportCalls (clearColorAttachments_bystander env _ _ _ _ r4 h4),
    clearDepthStencil_viewportCalls, SetViewportInternal_viewportCalls]
  rfl

theorem BeginSwapchainRendering_viewportCalls (env : Env) (ri : SwapchainRenderInfo)
    (s : State) (r : State × List GLCall) (h : BeginSwapchainRendering env ri s = some r) :
    viewportCalls r.2 = SetViewportInternal env ri.viewport s.sLastViewport s.sInitViewport := by
  unfold BeginSwapchainRendering at h
  split at h
  · exact Option.noConfusion h
  split at h
  · exact Option.noConfusion h
  simp only at h
  split at h
  · exact Option.noConfusion h
  rename_i r4 h4
  injection h with h
  subst h
  obtain ⟨a, b, c, d2, e, hz⟩ := debugZeroResourceBindings_fst env
      { s with isRendering := true, isRenderingToSwapchain := true, sLastRenderInfo := none }
  obtain ⟨g, hg⟩ := pushScopedDebugGroup_fst ri.name (debugZeroResourceBindings env
      { s with isRendering := true, isRenderingToSwapchain := true,
               sLastRenderInfo := none }).1
  obtain ⟨m, hm⟩ := swapchainClearColor_fst ri _ r4 h4
  obtain ⟨dm, hdm⟩ := swapchainClearDepth_fst ri r4.1
  obtain ⟨m0, m1, hst⟩ := swapchainClearStencil_fst ri (swapchainClearDepth ri r4.1).1
  obtain ⟨sd, hsd⟩ := swapchainDisableSrgb_fst ri
    (swapchainClearStencil ri (swapchainClearDepth ri r4.1).1).1
  have e4 : r4.1.sLastViewport = s.sLastViewport ∧ r4.1.sInitViewport = s.sInitViewport := by
    rw [hm, hg, hz]
    exact ⟨rfl, rfl⟩
  have e7 : (swapchainDisableSrgb ri
      (swapchainClearStencil ri (swapchainClearDepth ri r4.1).1).1).1.sLastViewport =
        s.sLastViewport ∧
      (swapchainDisableSrgb ri
        (swapchainClearStencil ri (swapchainClearDepth ri r4.1).1).1).1.sInitViewport =
        s.sInitViewport := by
    rw [hsd, hst, hdm]
    exact e4
  simp only [viewportCalls_concat, e7.1, e7.2]
  rw [bystander_viewportCalls (debugZeroResourceBindings_bystander env _),
    bystander_viewportCalls (pushScopedDebugGroup_bystander _ _),
    bystander_viewportCalls (swapchainClearColor_bystander ri _ r4 h4),
    bystander_viewportCalls (swapchainClearDepth_bystander ri _),
    swapchainClearStencil_viewportCalls,
    bystander_viewportCalls (swapchainDisableSrgb_bystander ri _),
    SetViewportInternal_viewportCalls]
  rfl

/-- A render pass begin clears `sInitViewport`; no other call changes it. -/
theorem step_initViewport (env : Env) (op : Op) (s : State) (r : State × List GLCall)
    (h : step env op s = some r) :
    r.1.sInitViewport = if op.isRenderPassBegin = true then false else s.sInitViewport := by
  cases hop : op.isPlainCommand
  · cases op <;> simp only [Op.isPlainCommand, Bool.true_eq_false] at hop
    case BeginRendering ri =>
      obtain ⟨a, b, c, d, e, g, fc, fb, m, dm, m0, m1, hr⟩ := BeginRendering_fst env ri s r h
      rw [hr]
      rfl
    case BeginSwapchainRendering ri =>
      obtain ⟨a, b, c, d, e, g, m, dm, m0, m1, sd, hr⟩ :=
        BeginSwapchainRendering_fst env ri s r h
      rw [hr]
      rfl
    case EndRendering =>
      obtain ⟨_, hr⟩ := EndRendering_fst s r h
      rw [hr]
      rfl
    case BeginCompute name =>
      obtain ⟨a, b, c, d, e, g, hr⟩ := BeginCompute_fst env name s r h
      rw [hr]
      rfl
    case EndCompute =>
      obtain ⟨_, hr⟩ := EndCompute_fst s r h
      rw [hr]
      rfl
    case BindGraphicsPipeline p =>
      obtain ⟨_, _, ptr, _, ⟨_, hr⟩ | ⟨_, g, dm, m0, m1, m, hr⟩⟩ :=
        Cmd.BindGraphicsPipeline_fst env p s r h
      · rw [hr]
        rfl
      · rw [hr]
        rfl
  · obtain ⟨v, se, sc, ib, it, g, hr⟩ := step_plainCommand_fst env op s r hop h
    have hb : op.isRenderPassBegin = false := by
      cases op <;> first | rfl | exact Bool.noConfusion hop
    rw [hr, hb]
    rfl

/-- After a successful call sequence from program start `sInitViewport` is still set exactly
when the sequence holds no render pass begin. -/
theorem run_initViewport (env : Env) (ops : List Op) (s : State) (trace : List GLCall)
    (h : run env ops (State.initial env) = some (s, trace)) :
    s.sInitViewport = true ↔ ∀ op ∈ ops, op.isRenderPassBegin = false := by
  have h0 : (State.initial env).sInitViewport = true ↔
      ∀ op ∈ ([] : List Op), op.isRenderPassBegin = false := by
    simp [State.initial]
  have := run_history_invariant env
    (fun s ops _ => s.sInitViewport = true ↔ ∀ op ∈ ops, op.isRenderPassBegin = false)
    (fun op s ops t r hp hs => by
      beta_reduce
      rw [step_initViewport env op s r hs]
      cases hb : op.isRenderPassBegin
      · simp only [Bool.false_eq_true, if_false, hp, List.mem_append, List.mem_singleton]
        constructor
        · rintro h1 x (hx | rfl)
          · exact h1 x hx
          · exact hb
        · intro h1 x hx
          exact h1 x (Or.inl hx)
      · simp only [if_true, Bool.false_eq_true, false_iff, List.mem_append,
          List.mem_singleton, not_forall]
        exact ⟨op, Or.inr rfl, by simp [hb]⟩) ops _ [] [] _ h0 h
  simpa using this

/-- C31: after every successful call sequence from program start, a successful
`Cmd::SetViewport` and, once a render pass has been begun before (`sInitViewport` cleared),
a successful `BeginRendering` or `BeginSwapchainRendering` emit as viewport calls exactly
`viewportChangeCalls`: the rectangle call iff the draw rectangle differs from the last
viewport's, the depth-range call iff `minDepth` or `maxDepth` differs (`!=` of floats), the
clip-control call iff the depth-range convention differs; each stores the viewport it set
as the last one. Setting a viewport equal to the last one (the same rectangle and
convention, depth bounds equal by `==` of floats) emits no viewport call; a viewport with a
NaN depth bound is not equal to itself. `sInitViewport` is set exactly when no render pass
has been begun yet, and then a pass begin emits all three calls. -/
theorem viewport_calls_on_change (env : Env) (ops : List Op) (s : State) (trace : List GLCall)
    (h : run env ops (State.initial env) = some (s, trace)) :
    (∀ v r, Cmd.SetViewport env v s = some r →
      r.2 = viewportChangeCalls env v s.sLastViewport ∧ r.1.sLastViewport = v) ∧
    (∀ ri r, BeginRendering env ri s = some r →
      viewportCalls r.2 =
        (if ∀ op ∈ ops, op.isRenderPassBegin = false then
          allViewportCalls env (renderViewport env ri)
        else viewportChangeCalls env (renderViewport env ri) s.sLastViewport) ∧
      r.1.sLastViewport = renderViewport env ri) ∧
    (∀ ri r, BeginSwapchainRendering env ri s = some r →
      viewportCalls r.2 =
        (if ∀ op ∈ ops, op.isRenderPassBegin = false then allViewportCalls env ri.viewport
        else viewportChangeCalls env ri.viewport s.sLastViewport) ∧
      r.1.sLastViewport = ri.viewport) ∧
    (∀ v last, v.drawRect = last.drawRect → v.minDepth.feq last.minDepth = true →
      v.maxDepth.feq last.maxDepth = true → v.depthRange = last.depthRange →
      viewportChangeCalls env v last = []) := by
  have hi := run_initViewport env ops s trace h
  refine ⟨?_, ?_, ?_, viewportChangeCalls_equal env⟩
  · intro v r hr
    obtain ⟨_, he, _⟩ := step_SetViewport env v s r hr
    refine ⟨?_, by rw [he]⟩
    unfold Cmd.SetViewport at hr
    split at hr
    · exact Option.noConfusion hr
    injection hr with hr
    subst hr
    exact SetViewportInternal_later env v s.sLastViewport
  · intro ri r hr
    obtain ⟨a, b, c, d, e, g, fc, fb, m, dm, m0, m1, he⟩ := BeginRendering_fst env ri s r hr
    refine ⟨?_, by rw [he]⟩
    rw [BeginRendering_viewportCalls env ri s r hr]
    by_cases hb : ∀ op ∈ ops, op.isRenderPassBegin = false
    · rw [if_pos hb, hi.mpr hb, SetViewportInternal_first]
    · have hf : s.sInitViewport = false := by
        cases hv : s.sInitViewport
        · rfl
        · exact absurd (hi.mp hv) hb
      rw [if_neg hb, hf, SetViewportInternal_later]
  · intro ri r hr
    obtain ⟨a, b, c, d, e, g, m, dm, m0, m1, sd, he⟩ :=
      BeginSwapchainRendering_fst env ri s r hr
    refine ⟨?_, by rw [he]⟩
    rw [BeginSwapchainRendering_viewportCalls env ri s r hr]
    by_cases hb : ∀ op ∈ ops, op.isRenderPassBegin = false
    · rw [if_pos hb, hi.mpr hb, SetViewportInternal_first]
    · have hf : s.sInitViewport = false := by
        cases hv : s.sInitViewport
        · rfl
        · exact absurd (hi.mp hv) hb
      rw [if_neg hb, hf, SetViewportInternal_later]

/-- C31 at concrete inputs: the first `BeginRendering` of the program emits all three
viewport calls; in the pass it opens, `SetViewport` with the last viewport emits no call,
`SetViewport` with another draw rectangle and the same depth range emits the rectangle call
only, and after the pass is ended a second `BeginRendering` with the same attachments emits
no viewport call. After a viewport with a NaN lower depth bound has been set, setting the
same viewport again emits the depth-range call again. -/
theorem viewport_calls_on_change_witness :
    (∃ r, BeginRendering Sample.env Sample.renderInfo (State.initial Sample.env) = some r ∧
      viewportCalls r.2 =
        [GLCall.glViewport 0 0 64 64, GLCall.glDepthRangef GLfloat.zero GLfloat.one,
         GLCall.glClipControl
          (Sample.env.DepthRangeToGL Sample.env.defaultViewport.depthRange)]) ∧
    (∃ r, Cmd.SetViewport Sample.env Sample.firstPassResult.1.sLastViewport
        Sample.firstPassResult.1 = some r ∧ r.2 = []) ∧
    (∃ r, Cmd.SetViewport Sample.env
        { Sample.firstPassResult.1.sLastViewport with
          drawRect := { offset := { x := 0, y := 0 }, extent := { width := 32, height := 32 } } }
        Sample.firstPassResult.1 = some r ∧ r.2 = [GLCall.glViewport 0 0 32 32]) ∧
    (∃ r, BeginRendering Sample.env Sample.renderInfo Sample.firstPassEndedResult.1 = some r ∧
      viewportCalls r.2 = []) ∧
    (∃ r, Cmd.SetViewport Sample.env Sample.viewportNaN Sample.nanViewportPassResult.1 =
        some r ∧ r.2 = [GLCall.glDepthRangef GLfloat.nan GLfloat.one]) := by
  have h0 := viewport_calls_on_change Sample.env [] (State.initial Sample.env) [] rfl
  have h1 := viewport_calls_on_change Sample.env Sample.firstPass Sample.firstPassResult.1
    Sample.firstPassResult.2 rfl
  have h2 := viewport_calls_on_change Sample.env Sample.firstPassEnded
    Sample.firstPassEndedResult.1 Sample.firstPassEndedResult.2 rfl
  have h3 := viewport_calls_on_change Sample.env Sample.nanViewportPass
    Sample.nanViewportPassResult.1 Sample.nanViewportPassResult.2 rfl
  refine ⟨?_, ?_, ?_, ?_, ?_⟩
  · cases hr : BeginRendering Sample.env Sample.renderInfo (State.initial Sample.env) with
    | none => exact absurd hr (Option.ne_none_iff_isSome.mpr rfl)
    | some r => exact ⟨r, rfl, ((h0.2.1 _ r hr).1).trans rfl⟩
  · cases hr : Cmd.SetViewport Sample.env Sample.firstPassResult.1.sLastViewport
        Sample.firstPassResult.1 with
    | none => exact absurd hr (Option.ne_none_iff_isSome.mpr rfl)
    | some r => exact ⟨r, rfl, ((h1.1 _ r hr).1).trans (h1.2.2.2 _ _ rfl rfl rfl rfl)⟩
  · cases hr : Cmd.SetViewport Sample.env
        { Sample.firstPassResult.1.sLastViewport with
          drawRect := { offset := { x := 0, y := 0 }, extent := { width := 32, height := 32 } } }
        Sample.firstPassResult.1 with
    | none => exact absurd hr (Option.ne_none_iff_isSome.mpr rfl)
    | some r => exact ⟨r, rfl, ((h1.1 _ r hr).1).trans rfl⟩
  · cases hr : BeginRendering Sample.env Sample.renderInfo Sample.firstPassEndedResult.1 with
    | none => exact absurd hr (Option.ne_none_iff_isSome.mpr rfl)
    | some r => exact ⟨r, rfl, ((h2.2.1 _ r hr).1).trans rfl⟩
  · cases hr : Cmd.SetViewport Sample.env Sample.viewportNaN Sample.nanViewportPassResult.1 with
    | none => exact absurd hr (Option.ne_none_iff_isSome.mpr rfl)
    | some r => exact ⟨r, rfl, ((h3.1 _ r hr).1).trans rfl⟩
/-! ## The stencil write mask of a stencil clear-on-load -/

theorem setup_stencilWrites {l : List GLCall} (h : ∀ c ∈ l, c.isSetupCall = true) :
    stencilWrites l = [] := by
  unfold stencilWrites
  rw [List.filter_eq_nil_iff]
  intro c hc
  have := h c hc
  cases c <;> simp_all [GLCall.isSetupCall, GLCall.isStencilWrite, GLCall.isStencilMaskCall,
    GLCall.isStencilClear]

theorem stencilClear_outcome (s t0 f : State) (l : List GLCall) (clear : GLCall)
    (hcl : clear.isStencilClear = true)
    (h0 : t0.sLastStencilMask0 = s.sLastStencilMask0)
    (h1 : t0.sLastStencilMask1 = s.sLastStencilMask1)
    (hf0 : f.sLastStencilMask0 = (enableStencilMask t0).1.sLastStencilMask0)
    (hf1 : f.sLastStencilMask1 = (enableStencilMask t0).1.sLastStencilMask1)
    (hl : stencilWrites l = (enableStencilMask t0).2 ++ [clear]) :
    StencilClearOnLoad s f l := by
  unfold StencilClearOnLoad stencilMaskBeforeClear
  unfold enableStencilMask at hf0 hf1 hl
  rw [h0, h1] at hf0 hf1 hl
  by_cases hc : s.sLastStencilMask0 = 0 ∨ s.sLastStencilMask1 = 0
  · rw [if_pos hc] at hf0 hf1 hl
    rw [if_pos hc]
    refine ⟨⟨clear, hcl, hl⟩, fun _ => ⟨hf0, hf1⟩, ?_, ?_, ?_⟩
    · rintro ⟨a, b⟩
      rcases hc with hc | hc
      · exact absurd hc a
      · exact absurd hc b
    · rw [hf0]
      exact Nat.one_ne_zero
    · rw [hf1]
      exact Nat.one_ne_zero
  · rw [if_neg hc] at hf0 hf1 hl
    rw [if_neg hc]
    rw [h0] at hf0
    rw [h1] at hf1
    refine ⟨⟨clear, hcl, hl⟩, fun h => absurd h hc, fun _ => ⟨hf0, hf1⟩, ?_, ?_⟩
    · rw [hf0]
      exact fun h => hc (Or.inl h)
    · rw [hf1]
      exact fun h => hc (Or.inr h)

theorem stencilWrites_mask (t : State) :
    stencilWrites (enableStencilMask t).2 = (enableStencilMask t).2 := by
  unfold enableStencilMask
  split <;> rfl

/-- The depth/stencil clears of `BeginRendering` when the stencil attachment is cleared on
load: the stencil mask is checked in a state with the tracked stencil masks of `s`. -/
theorem clearDepthStencil_stencil (ri : RenderInfo) (fbo : Nat) (s : State)
    (st : RenderDepthStencilAttachment) (hst : ri.stencilAttachment = some st)
    (hcl : st.clearOnLoad = true) :
    ∃ (t0 : State) (clear : GLCall), clear.isStencilClear = true ∧
      t0.sLastStencilMask0 = s.sLastStencilMask0 ∧
      t0.sLastStencilMask1 = s.sLastStencilMask1 ∧
      (clearDepthStencil ri fbo s).1 = (enableStencilMask t0).1 ∧
      stencilWrites (clearDepthStencil ri fbo s).2 = (enableStencilMask t0).2 ++ [clear] := by
  have hd : stencilWrites (enableDepthMask s).2 = [] :=
    bystander_stencilWrites (enableDepthMask_bystander s)
  unfold clearDepthStencil
  rw [hst]
  cases hda : ri.depthAttachment with
  | none =>
    simp only [hcl, if_true]
    refine ⟨s, (GLCall.glClearNamedFramebufferiv fbo GLClearBuffer.STENCIL 0 [st.clearValue.stencil]), ?_, rfl, rfl, rfl, ?_⟩
    · rfl
    · rw [stencilWrites_concat, stencilWrites_mask]
      rfl
  | some d =>
    cases hc : d.clearOnLoad
    · simp only [hc, hcl, Bool.false_eq_true, false_and, if_false, if_true]
      refine ⟨s, (GLCall.glClearNamedFramebufferiv fbo GLClearBuffer.STENCIL 0 [st.clearValue.stencil]), ?_, rfl, rfl,
        rfl, ?_⟩
      · rfl
      · rw [stencilWrites_concat, stencilWrites_mask]
        rfl
    · simp only [hc, hcl, and_self, if_true]
      refine ⟨(enableDepthMask s).1,
        GLCall.glClearNamedFramebufferfi fbo 0 d.clearValue.depth st.clearValue.stencil,
        ?_, ?_, ?_, rfl, ?_⟩
      · rfl
      · rw [enableDepthMask_fst]
      · rw [enableDepthMask_fst]
      · rw [stencilWrites_concat, stencilWrites_concat, hd, stencilWrites_mask]
        rfl

theorem swapchainClearStencil_stencil (ri : SwapchainRenderInfo) (s : State)
    (hcl : ri.clearStencilOnLoad = true) :
    ∃ clear : GLCall, clear.isStencilClear = true ∧
      (swapchainClearStencil ri s).1 = (enableStencilMask s).1 ∧
      stencilWrites (swapchainClearStencil ri s).2 = (enableStencilMask s).2 ++ [clear] := by
  unfold swapchainClearStencil
  rw [if_pos hcl]
  refine ⟨GLCall.glClearNamedFramebufferiv 0 GLClearBuffer.STENCIL 0 [ri.clearStencilValue],
    rfl, rfl, ?_⟩
  rw [stencilWrites_concat, stencilWrites_mask]
  rfl

theorem BeginRendering_stencilClear (env : Env) (ri : RenderInfo) (s : State)
    (r : State × List GLCall) (st : RenderDepthStencilAttachment)
    (hst : ri.stencilAttachment = some st) (hcl : st.clearOnLoad = true)
    (h : BeginRendering env ri s = some r) : StencilClearOnLoad s r.1 r.2 := by
  rw [BeginRendering_eq] at h
  split at h
  · exact Option.noConfusion h
  split at h
  · exact Option.noConfusion h
  split at h
  · exact Option.noConfusion h
  rename_i r4 h4
  injection h with h
  subst h
  obtain ⟨t0, clear, hclear, e0, e1, ef, hl⟩ :=
    clearDepthStencil_stencil ri r4.1.sFbo r4.1 st hst hcl
  obtain ⟨m, hm⟩ := clearColorAttachments_fst env _ _ _ _ r4 h4
  obtain ⟨a, b, c, d2, e, g, fc, fb, hsetup⟩ := beginRenderingSetup_fst env ri s
  have e4 : r4.1.sLastStencilMask0 = s.sLastStencilMask0 ∧
      r4.1.sLastStencilMask1 = s.sLastStencilMask1 := by
    rw [hm, hsetup]
    exact ⟨rfl, rfl⟩
  refine stencilClear_outcome s t0 _ _ clear hclear (e0.trans e4.1) (e1.trans e4.2) ?_ ?_ ?_
  · rw [← ef]
  · rw [← ef]
  · simp only [stencilWrites_concat]
    rw [bystander_stencilWrites (beginRenderingSetup_bystander env ri s),
      bystander_stencilWrites (clearColorAttachments_bystander env _ _ _ _ r4 h4), hl,
      setup_stencilWrites (SetViewportInternal_setup env _ _ _)]
    simp

theorem BeginSwapchainRendering_stencilClear (env : Env) (ri : SwapchainRenderInfo)
    (s : State) (r : State × List GLCall) (hcl : ri.clearStencilOnLoad = true)
    (h : BeginSwapchainRendering env ri s = some r) : StencilClearOnLoad s r.1 r.2 := by
  unfold BeginSwapchainRendering at h
  split at h
  · exact Option.noConfusion h
  split at h
  · exact Option.noConfusion h
  simp only at h
  split at h
  · exact Option.noConfusion h
  rename_i r4 h4
  injection h with h
  subst h
  obtain ⟨a, b, c, d2, e, hz⟩ := debugZeroResourceBindings_fst env
      { s with isRendering := true, isRenderingToSwapchain := true, sLastRenderInfo := none }
  obtain ⟨g, hg⟩ := pushScopedDebugGroup_fst ri.name (debugZeroResourceBindings env
      { s with isRendering := true, isRenderingToSwapchain := true,
               sLastRenderInfo := none }).1
  obtain ⟨m, hm⟩ := swapchainClearColor_fst ri _ r4 h4
  obtain ⟨dm, hdm⟩ := swapchainClearDepth_fst ri r4.1
  obtain ⟨clear, hclear, ef, hl⟩ :=
    swapchainClearStencil_stencil ri (swapchainClearDepth ri r4.1).1 hcl
  obtain ⟨sd, hsd⟩ := swapchainDisableSrgb_fst ri
    (swapchainClearStencil ri (swapchainClearDepth ri r4.1).1).1
  have e5 : (swapchainClearDepth ri r4.1).1.sLastStencilMask0 = s.sLastStencilMask0 ∧
      (swapchainClearDepth ri r4.1).1.sLastStencilMask1 = s.sLastStencilMask1 := by
    rw [hdm, hm, hg, hz]
    exact ⟨rfl, rfl⟩
  refine stencilClear_outcome s (swapchainClearDepth ri r4.1).1 _ _ clear hclear e5.1 e5.2
    ?_ ?_ ?_
  · rw [← ef, hsd]
  · rw [← ef, hsd]
  · simp only [stencilWrites_concat]
    rw [bystander_stencilWrites (debugZeroResourceBindings_bystander env _),
      bystander_stencilWrites (pushScopedDebugGroup_bystander _ _),
      bystander_stencilWrites (swapchainClearColor_bystander ri _ r4 h4),
      bystander_stencilWrites (swapchainClearDepth_bystander ri _), hl,
      bystander_stencilWrites (swapchainDisableSrgb_bystander ri _),
      setup_stencilWrites (SetViewportInternal_setup env _ _ _)]
    simp [stencilWrites, GLCall.isStencilWrite, GLCall.isStencilMaskCall, GLCall.isStencilClear]

/-- C32: a successful `BeginRendering` whose stencil attachment is cleared on load, or a
successful `BeginSwapchainRendering` with `clearStencilOnLoad`, started in state `s`: if a
tracked stencil face mask of `s` is zero it issues one `glStencilMask(1)` before the stencil
clear and both tracked masks become one; if both are non-zero (whatever bits are set) it
issues no stencil mask call and leaves both tracked masks as they were. The stencil mask
call, if any, and the one stencil clear are the only stencil writes of the trace, in this
order, and both tracked masks are non-zero afterwards, hence when the clear is emitted. -/
theorem stencil_clear_write_mask (env : Env) (s : State) (r : State × List GLCall)
    (h : (∃ ri st, ri.stencilAttachment = some st ∧ st.clearOnLoad = true ∧
        BeginRendering env ri s = some r) ∨
      (∃ ri, ri.clearStencilOnLoad = true ∧ BeginSwapchainRendering env ri s = some r)) :
    (∃ clear, clear.isStencilClear = true ∧
      stencilWrites r.2 =
        (if s.sLastStencilMask0 = 0 ∨ s.sLastStencilMask1 = 0 then [GLCall.glStencilMask 1]
          else []) ++ [clear]) ∧
    (s.sLastStencilMask0 = 0 ∨ s.sLastStencilMask1 = 0 →
      r.1.sLastStencilMask0 = 1 ∧ r.1.sLastStencilMask1 = 1) ∧
    (s.sLastStencilMask0 ≠ 0 ∧ s.sLastStencilMask1 ≠ 0 →
      r.1.sLastStencilMask0 = s.sLastStencilMask0 ∧
      r.1.sLastStencilMask1 = s.sLastStencilMask1) ∧
    r.1.sLastStencilMask0 ≠ 0 ∧ r.1.sLastStencilMask1 ≠ 0 := by
  rcases h with ⟨ri, st, hst, hcl, h⟩ | ⟨ri, hcl, h⟩
  · exact BeginRendering_stencilClear env ri s r st hst hcl h
  · exact BeginSwapchainRendering_stencilClear env ri s r hcl h

/-- C32 at concrete inputs: after a pass in which pipeline 12 set the front stencil write
mask to zero (the back mask is 255), a `BeginRendering` that clears stencil on load issues
`glStencilMask(1)` before the clear and both tracked masks become one; at program start,
with both tracked masks all ones, a `BeginSwapchainRendering` that clears stencil on load
issues the clear only and leaves the tracked masks as they were. -/
theorem stencil_clear_write_mask_witness :
    (Sample.stencilMaskedPassResult.1.sLastStencilMask0 = 0 ∧
      Sample.stencilMaskedPassResult.1.sLastStencilMask1 = 255) ∧
    (∃ r, BeginRendering Sample.env3 Sample.renderInfoClearAll
        Sample.stencilMaskedPassResult.1 = some r ∧
      (∃ clear, clear.isStencilClear = true ∧
        stencilWrites r.2 = [GLCall.glStencilMask 1, clear]) ∧
      r.1.sLastStencilMask0 = 1 ∧ r.1.sLastStencilMask1 = 1) ∧
    (∃ r, BeginSwapchainRendering Sample.env3 Sample.swapchainClearStencilInfo
        (State.initial Sample.env3) = some r ∧
      (∃ clear, clear.isStencilClear = true ∧ stencilWrites r.2 = [clear]) ∧
      r.1.sLastStencilMask0 = UINT32_MAX ∧ r.1.sLastStencilMask1 = UINT32_MAX) := by
  refine ⟨⟨rfl, rfl⟩, ?_, ?_⟩
  · cases hr : BeginRendering Sample.env3 Sample.renderInfoClearAll
        Sample.stencilMaskedPassResult.1 with
    | none => exact absurd hr (Option.ne_none_iff_isSome.mpr rfl)
    | some r =>
      obtain ⟨⟨clear, hc, hw⟩, h1, _, _⟩ :=
        stencil_clear_write_mask Sample.env3 Sample.stencilMaskedPassResult.1 r
          (Or.inl ⟨Sample.renderInfoClearAll, _, rfl, rfl, hr⟩)
      have hz : Sample.stencilMaskedPassResult.1.sLastStencilMask0 = 0 ∨
          Sample.stencilMaskedPassResult.1.sLastStencilMask1 = 0 := Or.inl rfl
      refine ⟨r, rfl, ⟨clear, hc, hw.trans ?_⟩, h1 hz⟩
      rw [if_pos hz]
      rfl
  · cases hr : BeginSwapchainRendering Sample.env3 Sample.swapchainClearStencilInfo
        (State.initial Sample.env3) with
    | none => exact absurd hr (Option.ne_none_iff_isSome.mpr rfl)
    | some r =>
      obtain ⟨⟨clear, hc, hw⟩, _, h2, _⟩ :=
        stencil_clear_write_mask Sample.env3 (State.initial Sample.env3) r
          (Or.inr ⟨Sample.swapchainClearStencilInfo, rfl, hr⟩)
      have hn : ¬((State.initial Sample.env3).sLastStencilMask0 = 0 ∨
          (State.initial Sample.env3).sLastStencilMask1 = 0) := by decide
      refine ⟨r, rfl, ⟨clear, hc, hw.trans ?_⟩, h2 ⟨by decide, by decide⟩⟩
      rw [if_neg hn]
      rfl
/-! ## Creating a view of a view -/

/-- C33, refuted by the code: `TextureView::Create(viewInfo, textureView, name)` with a
source `TextureView` does not return, whatever the arguments and however deep the nested
calls may go. Its first statement (Texture.cpp line 201) calls the same overload with the
same arguments, so no call reaches the statements that set the create info (lines 202-208)
or the `return`. The overload that takes a `Texture` (lines 182-197) returns a view when it
is given the same arguments with the source view as its base class object. -/
theorem TextureView_Create_of_view_never_returns (env : Env)
    (ImageTypeToGL : ImageType → GLenum) (newName : Nat) (viewInfo : TextureViewCreateInfo)
    (textureView : TextureView) (name : String) :
    (∀ fuel, TextureView.Create_TextureView fuel viewInfo textureView name = none) ∧
    (TextureView.Create_Texture env ImageTypeToGL newName viewInfo textureView.toTexture
      name).1 =
      some { id_ := newName, createInfo_ := textureView.createInfo_, viewInfo_ := viewInfo } := by
  refine ⟨?_, rfl⟩
  intro fuel
  induction fuel with
  | zero => rfl
  | succ n ih =>
    unfold TextureView.Create_TextureView
    rw [ih]

end Fwog
